import Mathlib

/-!
# nRF24L01+ transceiver driver (`libs/nrf24l01/src/nRF24L01P.cpp`)

A shallow embedding of the driver class `nRF24L01P`.  The driver object
(`mode`, `ce_value`, `a_retr_enabled`) and its environment (the transceiver
chip on the SPI bus, the two GPIO lines, the tick delay) are one explicit
state, `Driver`; every method is a function in the state-and-halt monad `M`.

* C `int` arguments are `Int`; register bytes and bit patterns are `Nat`,
  with `% 256` at every `uint8_t` conversion and 32-bit complements for `~`.
* `error(fmt, ...)` (print, then `assert(0)`) is `Res.halt Fault.invalidArgument`.
* The busy-wait of `write` takes a fuel argument.
* Every GPIO write, SPI exchange and delay is appended to `Driver.trace`.
-/

namespace NRF24L01P

/-! ## Constants of `nRF24L01P.cpp` -/

/-- The enumeration `nRF24L01P_Mode_Type`. -/
inductive Mode where
  | _NRF24L01P_MODE_UNKNOWN
  | _NRF24L01P_MODE_POWER_DOWN
  | _NRF24L01P_MODE_STANDBY
  | _NRF24L01P_MODE_RX
  | _NRF24L01P_MODE_TX
  deriving DecidableEq, Repr

open Mode

def _NRF24L01P_TX_FIFO_SIZE : Nat := 32
def _NRF24L01P_RX_FIFO_SIZE : Nat := 32

def _NRF24L01P_SPI_CMD_RD_REG : Nat := 0x00
def _NRF24L01P_SPI_CMD_WR_REG : Nat := 0x20
def _NRF24L01P_SPI_CMD_RD_RX_PAYLOAD : Nat := 0x61
def _NRF24L01P_SPI_CMD_WR_TX_PAYLOAD : Nat := 0xa0
def _NRF24L01P_SPI_CMD_FLUSH_TX : Nat := 0xe1
def _NRF24L01P_SPI_CMD_FLUSH_RX : Nat := 0xe2
def _NRF24L01P_SPI_CMD_R_RX_PL_WID : Nat := 0x60
def _NRF24L01P_SPI_CMD_NOP : Nat := 0xff

def _NRF24L01P_REG_CONFIG : Nat := 0x00
def _NRF24L01P_REG_EN_AA : Nat := 0x01
def _NRF24L01P_REG_EN_RXADDR : Nat := 0x02
def _NRF24L01P_REG_SETUP_AW : Nat := 0x03
def _NRF24L01P_REG_SETUP_RETR : Nat := 0x04
def _NRF24L01P_REG_RF_CH : Nat := 0x05
def _NRF24L01P_REG_RF_SETUP : Nat := 0x06
def _NRF24L01P_REG_STATUS : Nat := 0x07
def _NRF24L01P_REG_OBSERVE_TX : Nat := 0x08
def _NRF24L01P_REG_RPD : Nat := 0x09
def _NRF24L01P_REG_RX_ADDR_P0 : Nat := 0x0a
def _NRF24L01P_REG_RX_ADDR_P1 : Nat := 0x0b
def _NRF24L01P_REG_TX_ADDR : Nat := 0x10
def _NRF24L01P_REG_RX_PW_P0 : Nat := 0x11
def _NRF24L01P_REG_DYNPD : Nat := 0x1c
def _NRF24L01P_REG_FEATURE : Nat := 0x1d

def _NRF24L01P_REG_ADDRESS_MASK : Nat := 0x1f

def _NRF24L01P_CONFIG_PRIM_RX : Nat := 1 <<< 0
def _NRF24L01P_CONFIG_PWR_UP : Nat := 1 <<< 1
def _NRF24L01P_CONFIG_CRC0 : Nat := 1 <<< 2
def _NRF24L01P_CONFIG_EN_CRC : Nat := 1 <<< 3
def _NRF24L01P_CONFIG_MASK_RX_DR : Nat := 1 <<< 6

def _NRF24L01P_CONFIG_CRC_MASK : Nat := _NRF24L01P_CONFIG_EN_CRC ||| _NRF24L01P_CONFIG_CRC0
def _NRF24L01P_CONFIG_CRC_NONE : Nat := 0
def _NRF24L01P_CONFIG_CRC_8BIT : Nat := _NRF24L01P_CONFIG_EN_CRC
def _NRF24L01P_CONFIG_CRC_16BIT : Nat := _NRF24L01P_CONFIG_EN_CRC ||| _NRF24L01P_CONFIG_CRC0

def _NRF24L01P_EN_AA_NONE : Nat := 0
def _NRF24L01P_EN_RXADDR_NONE : Nat := 0

def _NRF24L01P_SETUP_AW_AW_MASK : Nat := 0x3 <<< 0
def _NRF24L01P_SETUP_AW_AW_3BYTE : Nat := 0x1 <<< 0
def _NRF24L01P_SETUP_AW_AW_4BYTE : Nat := 0x2 <<< 0
def _NRF24L01P_SETUP_AW_AW_5BYTE : Nat := 0x3 <<< 0

def _NRF24L01P_SETUP_RETR_NONE : Nat := 0

def _NRF24L01P_RF_SETUP_RF_PWR_MASK : Nat := 0x3 <<< 1
def _NRF24L01P_RF_SETUP_RF_PWR_0DBM : Nat := 0x3 <<< 1
def _NRF24L01P_RF_SETUP_RF_PWR_MINUS_6DBM : Nat := 0x2 <<< 1
def _NRF24L01P_RF_SETUP_RF_PWR_MINUS_12DBM : Nat := 0x1 <<< 1
def _NRF24L01P_RF_SETUP_RF_PWR_MINUS_18DBM : Nat := 0x0 <<< 1

def _NRF24L01P_RF_SETUP_RF_DR_HIGH_BIT : Nat := 1 <<< 3
def _NRF24L01P_RF_SETUP_RF_DR_LOW_BIT : Nat := 1 <<< 5
def _NRF24L01P_RF_SETUP_RF_DR_MASK : Nat :=
  _NRF24L01P_RF_SETUP_RF_DR_LOW_BIT ||| _NRF24L01P_RF_SETUP_RF_DR_HIGH_BIT
def _NRF24L01P_RF_SETUP_RF_DR_250KBPS : Nat := _NRF24L01P_RF_SETUP_RF_DR_LOW_BIT
def _NRF24L01P_RF_SETUP_RF_DR_1MBPS : Nat := 0
def _NRF24L01P_RF_SETUP_RF_DR_2MBPS : Nat := _NRF24L01P_RF_SETUP_RF_DR_HIGH_BIT

def _NRF24L01P_STATUS_RX_P_NO : Nat := 0x7 <<< 1
def _NRF24L01P_STATUS_MAX_RT : Nat := 1 <<< 4
def _NRF24L01P_STATUS_TX_DS : Nat := 1 <<< 5
def _NRF24L01P_STATUS_RX_DR : Nat := 1 <<< 6

def _NRF24L01P_RX_PW_Px_MASK : Nat := 0x3F

def _NRF24L01P_TIMING_Tundef2pd_us : Nat := 100000
def _NRF24L01P_TIMING_Thce_us : Nat := 10
def _NRF24L01P_TIMING_Tpd2stby_us : Nat := 4500
def _NRF24L01P_TIMING_Tpece2csn_us : Nat := 4

def USEC_PER_OS_TICK : Nat := 1000
def USEC_PER_OS_TICK_LOG2 : Nat := 9

/-- The 32-bit pattern of the C expression `~m` for a non-negative `int` m. -/
def bnot32 (m : Nat) : Nat := 0xFFFFFFFF ^^^ m

/-- The 32-bit two's-complement pattern of a C `int`. -/
def toU32 (x : Int) : Nat := (x % 4294967296).toNat

/-! ## Constants of the header `nRF24L01P.h`

The header is not among the sources.  The values that the configuration
setters compare their argument with are parameters of the model. -/

/-- Modelled from the spec: the public constants of `nRF24L01P.h` (the frequency
range, the four power levels, the three data rates, the three CRC widths and
the default address width), whose values the source file takes from the header. -/
structure Header where
  NRF24L01P_MIN_RF_FREQUENCY : Int
  NRF24L01P_MAX_RF_FREQUENCY : Int
  NRF24L01P_TX_PWR_ZERO_DB : Int
  NRF24L01P_TX_PWR_MINUS_6_DB : Int
  NRF24L01P_TX_PWR_MINUS_12_DB : Int
  NRF24L01P_TX_PWR_MINUS_18_DB : Int
  NRF24L01P_DATARATE_250_KBPS : Int
  NRF24L01P_DATARATE_1_MBPS : Int
  NRF24L01P_DATARATE_2_MBPS : Int
  NRF24L01P_CRC_NONE : Int
  NRF24L01P_CRC_8_BIT : Int
  NRF24L01P_CRC_16_BIT : Int
  DEFAULT_NRF24L01P_ADDRESS_WIDTH : Int

/-- A header the source compiles against: the labels of each `switch` are
pairwise distinct (a C++ requirement). -/
def Header.WF (h : Header) : Prop :=
  h.NRF24L01P_TX_PWR_ZERO_DB ≠ h.NRF24L01P_TX_PWR_MINUS_6_DB ∧
  h.NRF24L01P_TX_PWR_ZERO_DB ≠ h.NRF24L01P_TX_PWR_MINUS_12_DB ∧
  h.NRF24L01P_TX_PWR_ZERO_DB ≠ h.NRF24L01P_TX_PWR_MINUS_18_DB ∧
  h.NRF24L01P_TX_PWR_MINUS_6_DB ≠ h.NRF24L01P_TX_PWR_MINUS_12_DB ∧
  h.NRF24L01P_TX_PWR_MINUS_6_DB ≠ h.NRF24L01P_TX_PWR_MINUS_18_DB ∧
  h.NRF24L01P_TX_PWR_MINUS_12_DB ≠ h.NRF24L01P_TX_PWR_MINUS_18_DB ∧
  h.NRF24L01P_DATARATE_250_KBPS ≠ h.NRF24L01P_DATARATE_1_MBPS ∧
  h.NRF24L01P_DATARATE_250_KBPS ≠ h.NRF24L01P_DATARATE_2_MBPS ∧
  h.NRF24L01P_DATARATE_1_MBPS ≠ h.NRF24L01P_DATARATE_2_MBPS ∧
  h.NRF24L01P_CRC_NONE ≠ h.NRF24L01P_CRC_8_BIT ∧
  h.NRF24L01P_CRC_NONE ≠ h.NRF24L01P_CRC_16_BIT ∧
  h.NRF24L01P_CRC_8_BIT ≠ h.NRF24L01P_CRC_16_BIT

/-- The values of the upstream mbed header by Owen Edwards. -/
def upstreamHeader : Header where
  NRF24L01P_MIN_RF_FREQUENCY := 2400
  NRF24L01P_MAX_RF_FREQUENCY := 2525
  NRF24L01P_TX_PWR_ZERO_DB := 0
  NRF24L01P_TX_PWR_MINUS_6_DB := -6
  NRF24L01P_TX_PWR_MINUS_12_DB := -12
  NRF24L01P_TX_PWR_MINUS_18_DB := -18
  NRF24L01P_DATARATE_250_KBPS := 250
  NRF24L01P_DATARATE_1_MBPS := 1000
  NRF24L01P_DATARATE_2_MBPS := 2000
  NRF24L01P_CRC_NONE := 0
  NRF24L01P_CRC_8_BIT := 8
  NRF24L01P_CRC_16_BIT := 16
  DEFAULT_NRF24L01P_ADDRESS_WIDTH := 5

/-- Modelled from the spec: `NRF24L01P_PIPE_P0` of the absent header; pipes are
indexed 0 to 5. -/
def NRF24L01P_PIPE_P0 : Int := 0
/-- Modelled from the spec: `NRF24L01P_PIPE_P1` of the absent header. -/
def NRF24L01P_PIPE_P1 : Int := 1
/-- Modelled from the spec: `NRF24L01P_PIPE_P5` of the absent header. -/
def NRF24L01P_PIPE_P5 : Int := 5

/-! ## The environment: chip, lines, delay -/

/-- What the driver does to its environment, in program order. -/
inductive Event where
  | cs (level : Nat)
  | ce (level : Nat)
  | spi (tx rx : Nat)
  | delay (ticks : Nat)
  deriving DecidableEq, Repr

/-- The transceiver as seen from the bus.  Registers hold the last bytes
written; the STATUS byte shifted out with every command byte, the reported
payload width and the payload bytes are free inputs. -/
structure Chip where
  /-- Level of the chip-select line; 0 selects the chip. -/
  csn : Nat
  /-- Command byte of the frame in progress. -/
  cmd : Option Nat
  /-- Data bytes exchanged in the frame in progress. -/
  idx : Nat
  /-- Register file: register address, byte index (least significant first). -/
  mem : Nat → Nat → Nat
  /-- STATUS byte shifted out with the n-th command byte. -/
  statusFeed : Nat → Nat
  /-- Command bytes received so far. -/
  clock : Nat
  /-- Reply to the payload-width query. -/
  rxWidth : Nat
  /-- Bytes of the payload at the head of the receive FIFO. -/
  rxPayload : Nat → Nat

/-- The register file with byte `v` stored at byte `i` of register `r`. -/
def storeByte (mem : Nat → Nat → Nat) (r i v : Nat) : Nat → Nat → Nat :=
  fun r2 i2 => if r2 = r ∧ i2 = i then v else mem r2 i2

/-- One byte exchanged on the bus: the byte shifted out by the chip and the
chip afterwards. -/
def Chip.exchange (c : Chip) (val : Nat) : Nat × Chip :=
  if c.csn ≠ 0 then (0, c)
  else
    match c.cmd with
    | none =>
      (c.statusFeed c.clock % 256, { c with cmd := some val, idx := 0, clock := c.clock + 1 })
    | some k =>
      if k &&& 0xE0 = _NRF24L01P_SPI_CMD_RD_REG then
        (c.mem (k &&& 0x1F) c.idx % 256, { c with idx := c.idx + 1 })
      else if k &&& 0xE0 = _NRF24L01P_SPI_CMD_WR_REG then
        (0, { c with mem := storeByte c.mem (k &&& 0x1F) c.idx (val % 256), idx := c.idx + 1 })
      else if k = _NRF24L01P_SPI_CMD_R_RX_PL_WID then
        (c.rxWidth % 256, { c with idx := c.idx + 1 })
      else if k = _NRF24L01P_SPI_CMD_RD_RX_PAYLOAD then
        (c.rxPayload c.idx % 256, { c with idx := c.idx + 1 })
      else
        (0, { c with idx := c.idx + 1 })

/-- The chip-select line is driven to `level`: a falling edge opens a frame. -/
def Chip.setCsn (c : Chip) (level : Nat) : Chip :=
  if level = 0 then
    if c.csn = 0 then c else { c with csn := 0, cmd := none, idx := 0 }
  else { c with csn := level }

/-! ## The driver object and its monad -/

/-- The fields of `nRF24L01P` together with the environment. -/
structure Driver where
  mode : Mode
  ce_value : Nat
  a_retr_enabled : Bool
  chip : Chip
  trace : List Event

/-- Why a call did not return normally. -/
inductive Fault where
  | invalidArgument
  | assertion
  | outOfFuel
  deriving DecidableEq, Repr

/-- Outcome of a call: a value, or a halt, each with the state reached. -/
inductive Res (α : Type) where
  | ok (a : α) (s : Driver)
  | halt (f : Fault) (s : Driver)

/-- The value returned, if the call returned. -/
def Res.value {α : Type} : Res α → Option α
  | .ok a _ => some a
  | .halt _ _ => none

/-- The fault signalled, if the call halted. -/
def Res.fault {α : Type} : Res α → Option Fault
  | .ok _ _ => none
  | .halt f _ => some f

/-- The state reached. -/
def Res.state {α : Type} : Res α → Driver
  | .ok _ s => s
  | .halt _ s => s

/-- Driver methods: state in, outcome out. -/
def M (α : Type) : Type := Driver → Res α

/-- Sequencing: a halt ends the computation. -/
def M.bind {α β : Type} (x : M α) (f : α → M β) : M β :=
  fun s => match x s with
    | .ok a s1 => f a s1
    | .halt e s1 => .halt e s1

instance : Monad M where
  pure a := fun s => .ok a s
  bind := M.bind

/-- The macro `error(fmt, arg1, arg2)`: print and halt. -/
def error {α : Type} : M α := fun s => .halt .invalidArgument s

/-- A failed `assert`. -/
def assertFail {α : Type} : M α := fun s => .halt .assertion s

/-- The current driver object. -/
def readState : M Driver := fun s => .ok s s

/-- Assignment to fields of the driver object. -/
def update (f : Driver → Driver) : M Unit := fun s => .ok () (f s)

/-! ## Collaborators: GPIO, SPI, delay -/

/-- The two output lines of the driver. -/
inductive Pin where
  | cs_pin
  | ce_pin
  deriving DecidableEq, Repr

/-- The call `hal_gpio_write(pin, val)`. -/
def hal_gpio_write (pin : Pin) (val : Nat) : M Unit := fun s =>
  match pin with
  | .cs_pin => .ok () { s with chip := s.chip.setCsn val, trace := s.trace ++ [.cs val] }
  | .ce_pin => .ok () { s with trace := s.trace ++ [.ce val] }

/-- The call `hal_spi_tx_val(spi_num, val)` on a port configured as master:
one byte out, one byte in. -/
def hal_spi_tx_val (val : Nat) : M Nat := fun s =>
  match s.chip.exchange val with
  | (rx, chip) => .ok rx { s with chip := chip, trace := s.trace ++ [.spi val rx] }

/-- The call `os_time_delay(ticks)`. -/
def os_time_delay (ticks : Nat) : M Unit := fun s =>
  .ok () { s with trace := s.trace ++ [.delay ticks] }

/-- The helper `wait_us(uint32_t microsecs)`. -/
def wait_us (microsecs : Nat) : M Unit :=
  let ticks := (((microsecs % 4294967296) >>> USEC_PER_OS_TICK_LOG2) + 1) % 4294967296
  os_time_delay ticks

/-! ## Methods of `nRF24L01P` -/

/-- The method `spiWrite(uint8_t val)`. -/
def spiWrite (val : Nat) : M Nat := do
  let status ← hal_spi_tx_val (val % 256)
  if status = 0xffff then assertFail
  else pure (status &&& 0xff)

def select : M Unit := hal_gpio_write .cs_pin 0

def deselect : M Unit := hal_gpio_write .cs_pin 1

def enable : M Unit := do
  update fun s => { s with ce_value := 1 }
  hal_gpio_write .ce_pin 1
  wait_us _NRF24L01P_TIMING_Tpece2csn_us

def disable : M Unit := do
  update fun s => { s with ce_value := 0 }
  hal_gpio_write .ce_pin 0

def setRegister (regAddress regData : Nat) : M Unit := do
  let originalCe := (← readState).ce_value
  disable
  let cn := _NRF24L01P_SPI_CMD_WR_REG ||| (regAddress &&& _NRF24L01P_REG_ADDRESS_MASK)
  select
  let _ ← spiWrite cn
  let _ ← spiWrite (regData &&& 0xFF)
  deselect
  if originalCe ≠ 0 then enable else disable
  wait_us _NRF24L01P_TIMING_Tpece2csn_us

def getRegister (regAddress : Nat) : M Nat := do
  let cn := _NRF24L01P_SPI_CMD_RD_REG ||| (regAddress &&& _NRF24L01P_REG_ADDRESS_MASK)
  select
  let _ ← spiWrite cn
  let dn ← spiWrite _NRF24L01P_SPI_CMD_NOP
  deselect
  pure dn

def getStatusRegister : M Nat := do
  select
  let status ← spiWrite _NRF24L01P_SPI_CMD_NOP
  deselect
  pure status

def powerUp : M Unit := do
  let config ← getRegister _NRF24L01P_REG_CONFIG
  let config := config ||| _NRF24L01P_CONFIG_PWR_UP
  setRegister _NRF24L01P_REG_CONFIG config
  wait_us _NRF24L01P_TIMING_Tpd2stby_us
  update fun s => { s with mode := _NRF24L01P_MODE_STANDBY }

def powerDown : M Unit := do
  let config ← getRegister _NRF24L01P_REG_CONFIG
  let config := config &&& bnot32 _NRF24L01P_CONFIG_PWR_UP
  setRegister _NRF24L01P_REG_CONFIG config
  wait_us _NRF24L01P_TIMING_Tpd2stby_us
  update fun s => { s with mode := _NRF24L01P_MODE_POWER_DOWN }

def setReceiveMode : M Unit := do
  if (← readState).mode = _NRF24L01P_MODE_POWER_DOWN then powerUp
  let config ← getRegister _NRF24L01P_REG_CONFIG
  let config := config ||| _NRF24L01P_CONFIG_PRIM_RX
  setRegister _NRF24L01P_REG_CONFIG config
  update fun s => { s with mode := _NRF24L01P_MODE_RX }

def setTransmitMode : M Unit := do
  if (← readState).mode = _NRF24L01P_MODE_POWER_DOWN then powerUp
  let config ← getRegister _NRF24L01P_REG_CONFIG
  let config := config &&& bnot32 _NRF24L01P_CONFIG_PRIM_RX
  setRegister _NRF24L01P_REG_CONFIG config
  update fun s => { s with mode := _NRF24L01P_MODE_TX }

def enableRxInterrupt : M Unit := do
  let config ← getRegister _NRF24L01P_REG_CONFIG
  let config := config &&& bnot32 _NRF24L01P_CONFIG_MASK_RX_DR
  setRegister _NRF24L01P_REG_CONFIG config

def disableRxInterrupt : M Unit := do
  let config ← getRegister _NRF24L01P_REG_CONFIG
  let config := config ||| _NRF24L01P_CONFIG_MASK_RX_DR
  setRegister _NRF24L01P_REG_CONFIG config

def setRfFrequency (hdr : Header) (frequency : Int) : M Unit :=
  if frequency < hdr.NRF24L01P_MIN_RF_FREQUENCY ∨ frequency > hdr.NRF24L01P_MAX_RF_FREQUENCY then
    error
  else do
    let channel := (frequency - hdr.NRF24L01P_MIN_RF_FREQUENCY).toNat &&& 0x7F
    setRegister _NRF24L01P_REG_RF_CH channel

def getRfFrequency (hdr : Header) : M Int := do
  let channel := (← getRegister _NRF24L01P_REG_RF_CH) &&& 0x7F
  pure ((channel : Int) + hdr.NRF24L01P_MIN_RF_FREQUENCY)

def setRfOutputPower (hdr : Header) (power : Int) : M Unit := do
  let rfSetup := (← getRegister _NRF24L01P_REG_RF_SETUP) &&& bnot32 _NRF24L01P_RF_SETUP_RF_PWR_MASK
  if power = hdr.NRF24L01P_TX_PWR_ZERO_DB then
    setRegister _NRF24L01P_REG_RF_SETUP (rfSetup ||| _NRF24L01P_RF_SETUP_RF_PWR_0DBM)
  else if power = hdr.NRF24L01P_TX_PWR_MINUS_6_DB then
    setRegister _NRF24L01P_REG_RF_SETUP (rfSetup ||| _NRF24L01P_RF_SETUP_RF_PWR_MINUS_6DBM)
  else if power = hdr.NRF24L01P_TX_PWR_MINUS_12_DB then
    setRegister _NRF24L01P_REG_RF_SETUP (rfSetup ||| _NRF24L01P_RF_SETUP_RF_PWR_MINUS_12DBM)
  else if power = hdr.NRF24L01P_TX_PWR_MINUS_18_DB then
    setRegister _NRF24L01P_REG_RF_SETUP (rfSetup ||| _NRF24L01P_RF_SETUP_RF_PWR_MINUS_18DBM)
  else
    error

def getRfOutputPower (hdr : Header) : M Int := do
  let rfPwr := (← getRegister _NRF24L01P_REG_RF_SETUP) &&& _NRF24L01P_RF_SETUP_RF_PWR_MASK
  if rfPwr = _NRF24L01P_RF_SETUP_RF_PWR_0DBM then pure hdr.NRF24L01P_TX_PWR_ZERO_DB
  else if rfPwr = _NRF24L01P_RF_SETUP_RF_PWR_MINUS_6DBM then pure hdr.NRF24L01P_TX_PWR_MINUS_6_DB
  else if rfPwr = _NRF24L01P_RF_SETUP_RF_PWR_MINUS_12DBM then pure hdr.NRF24L01P_TX_PWR_MINUS_12_DB
  else if rfPwr = _NRF24L01P_RF_SETUP_RF_PWR_MINUS_18DBM then pure hdr.NRF24L01P_TX_PWR_MINUS_18_DB
  else error

def setAirDataRate (hdr : Header) (rate : Int) : M Unit := do
  let rfSetup := (← getRegister _NRF24L01P_REG_RF_SETUP) &&& bnot32 _NRF24L01P_RF_SETUP_RF_DR_MASK
  if rate = hdr.NRF24L01P_DATARATE_250_KBPS then
    setRegister _NRF24L01P_REG_RF_SETUP (rfSetup ||| _NRF24L01P_RF_SETUP_RF_DR_250KBPS)
  else if rate = hdr.NRF24L01P_DATARATE_1_MBPS then
    setRegister _NRF24L01P_REG_RF_SETUP (rfSetup ||| _NRF24L01P_RF_SETUP_RF_DR_1MBPS)
  else if rate = hdr.NRF24L01P_DATARATE_2_MBPS then
    setRegister _NRF24L01P_REG_RF_SETUP (rfSetup ||| _NRF24L01P_RF_SETUP_RF_DR_2MBPS)
  else
    error

def getAirDataRate (hdr : Header) : M Int := do
  let rfDataRate := (← getRegister _NRF24L01P_REG_RF_SETUP) &&& _NRF24L01P_RF_SETUP_RF_DR_MASK
  if rfDataRate = _NRF24L01P_RF_SETUP_RF_DR_250KBPS then pure hdr.NRF24L01P_DATARATE_250_KBPS
  else if rfDataRate = _NRF24L01P_RF_SETUP_RF_DR_1MBPS then pure hdr.NRF24L01P_DATARATE_1_MBPS
  else if rfDataRate = _NRF24L01P_RF_SETUP_RF_DR_2MBPS then pure hdr.NRF24L01P_DATARATE_2_MBPS
  else error

def setCrcWidth (hdr : Header) (width : Int) : M Unit := do
  let config := (← getRegister _NRF24L01P_REG_CONFIG) &&& bnot32 _NRF24L01P_CONFIG_CRC_MASK
  if width = hdr.NRF24L01P_CRC_NONE then
    setRegister _NRF24L01P_REG_CONFIG (config ||| _NRF24L01P_CONFIG_CRC_NONE)
  else if width = hdr.NRF24L01P_CRC_8_BIT then
    setRegister _NRF24L01P_REG_CONFIG (config ||| _NRF24L01P_CONFIG_CRC_8BIT)
  else if width = hdr.NRF24L01P_CRC_16_BIT then
    setRegister _NRF24L01P_REG_CONFIG (config ||| _NRF24L01P_CONFIG_CRC_16BIT)
  else
    error

def getCrcWidth (hdr : Header) : M Int := do
  let crcWidth := (← getRegister _NRF24L01P_REG_CONFIG) &&& _NRF24L01P_CONFIG_CRC_MASK
  if crcWidth = _NRF24L01P_CONFIG_CRC_NONE then pure hdr.NRF24L01P_CRC_NONE
  else if crcWidth = _NRF24L01P_CONFIG_CRC_8BIT then pure hdr.NRF24L01P_CRC_8_BIT
  else if crcWidth = _NRF24L01P_CONFIG_CRC_16BIT then pure hdr.NRF24L01P_CRC_16_BIT
  else error

def setTransferSize (size pipe : Int) : M Unit :=
  if pipe < NRF24L01P_PIPE_P0 ∨ pipe > NRF24L01P_PIPE_P5 then error
  else if size < 0 ∨ size > (_NRF24L01P_RX_FIFO_SIZE : Int) then error
  else do
    let rxPwPxRegister := _NRF24L01P_REG_RX_PW_P0 + (pipe - NRF24L01P_PIPE_P0).toNat
    setRegister rxPwPxRegister (size.toNat &&& _NRF24L01P_RX_PW_Px_MASK)

def getTransferSize (pipe : Int) : M Int :=
  if pipe < NRF24L01P_PIPE_P0 ∨ pipe > NRF24L01P_PIPE_P5 then error
  else do
    let rxPwPxRegister := _NRF24L01P_REG_RX_PW_P0 + (pipe - NRF24L01P_PIPE_P0).toNat
    let size ← getRegister rxPwPxRegister
    pure ((size &&& _NRF24L01P_RX_PW_Px_MASK : Nat) : Int)

def disableAllRxPipes : M Unit :=
  setRegister _NRF24L01P_REG_EN_RXADDR _NRF24L01P_EN_RXADDR_NONE

def disableAutoAcknowledge : M Unit :=
  setRegister _NRF24L01P_REG_EN_AA _NRF24L01P_EN_AA_NONE

def enableAutoAcknowledge (pipe : Int) : M Unit :=
  if pipe < NRF24L01P_PIPE_P0 ∨ pipe > NRF24L01P_PIPE_P5 then error
  else do
    let enAA ← getRegister _NRF24L01P_REG_EN_AA
    let enAA := enAA ||| (1 <<< (pipe - NRF24L01P_PIPE_P0).toNat)
    setRegister _NRF24L01P_REG_EN_AA enAA

def enableDynamicPayload (pipe : Int) : M Unit :=
  if pipe < NRF24L01P_PIPE_P0 ∨ pipe > NRF24L01P_PIPE_P5 then error
  else do
    let feature ← getRegister _NRF24L01P_REG_FEATURE
    let feature := feature ||| (1 <<< 2)
    setRegister _NRF24L01P_REG_FEATURE feature
    let dynpd ← getRegister _NRF24L01P_REG_DYNPD
    let dynpd := dynpd ||| (1 <<< (pipe - NRF24L01P_PIPE_P0).toNat)
    setRegister _NRF24L01P_REG_DYNPD dynpd

def disableDynamicPayload : M Unit := do
  let feature ← getRegister _NRF24L01P_REG_FEATURE
  let feature := feature &&& bnot32 (1 <<< 2)
  setRegister _NRF24L01P_REG_FEATURE feature

def disableAutoRetransmit : M Unit := do
  setRegister _NRF24L01P_REG_SETUP_RETR _NRF24L01P_SETUP_RETR_NONE
  update fun s => { s with a_retr_enabled := false }

def enableAutoRetransmit (delay count : Int) : M Unit := do
  let delay := 0x00F0 &&& ((toU32 delay <<< 4) % 4294967296)
  let count := 0x000F &&& toU32 count
  setRegister _NRF24L01P_REG_SETUP_RETR (delay ||| count)
  update fun s => { s with a_retr_enabled := true }

def getRetrCount : M Nat := do
  pure ((← getRegister _NRF24L01P_REG_OBSERVE_TX) &&& 0x0F)

/-- The loop `while ( width-- > 0 ) { spiWrite(address & 0xFF); address >>= 8; }`. -/
def writeAddressBytes : Nat → Nat → M Unit
  | 0, _ => pure ()
  | width + 1, address => do
    let _ ← spiWrite (address &&& 0xFF)
    writeAddressBytes width (address >>> 8)

/-- The `switch ( width )` of `setRxAddress` and `setTxAddress`. -/
def switchWidth (width : Int) (setupAw : Nat) : M Nat :=
  if width = 3 then pure (setupAw ||| _NRF24L01P_SETUP_AW_AW_3BYTE)
  else if width = 4 then pure (setupAw ||| _NRF24L01P_SETUP_AW_AW_4BYTE)
  else if width = 5 then pure (setupAw ||| _NRF24L01P_SETUP_AW_AW_5BYTE)
  else error

/-- The method `setRxAddress(unsigned long long address, int width, int pipe)`. -/
def setRxAddress (address : Nat) (width pipe : Int) : M Unit :=
  if pipe < NRF24L01P_PIPE_P0 ∨ pipe > NRF24L01P_PIPE_P5 then error
  else do
    let width ← (if pipe = NRF24L01P_PIPE_P0 ∨ pipe = NRF24L01P_PIPE_P1 then do
        let setupAw := (← getRegister _NRF24L01P_REG_SETUP_AW) &&& bnot32 _NRF24L01P_SETUP_AW_AW_MASK
        let setupAw ← switchWidth width setupAw
        setRegister _NRF24L01P_REG_SETUP_AW setupAw
        pure width
      else pure 1 : M Int)
    let rxAddrPxRegister := _NRF24L01P_REG_RX_ADDR_P0 + (pipe - NRF24L01P_PIPE_P0).toNat
    let cn := _NRF24L01P_SPI_CMD_WR_REG ||| (rxAddrPxRegister &&& _NRF24L01P_REG_ADDRESS_MASK)
    select
    let _ ← spiWrite cn
    writeAddressBytes width.toNat (address % 18446744073709551616)
    deselect
    let enRxAddr ← getRegister _NRF24L01P_REG_EN_RXADDR
    let enRxAddr := enRxAddr ||| (1 <<< (pipe - NRF24L01P_PIPE_P0).toNat)
    setRegister _NRF24L01P_REG_EN_RXADDR enRxAddr

/-- The method `setTxAddress(unsigned long long address, int width)`. -/
def setTxAddress (address : Nat) (width : Int) : M Unit := do
  let setupAw := (← getRegister _NRF24L01P_REG_SETUP_AW) &&& bnot32 _NRF24L01P_SETUP_AW_AW_MASK
  let setupAw ← switchWidth width setupAw
  setRegister _NRF24L01P_REG_SETUP_AW setupAw
  let cn := _NRF24L01P_SPI_CMD_WR_REG ||| (_NRF24L01P_REG_TX_ADDR &&& _NRF24L01P_REG_ADDRESS_MASK)
  select
  let _ ← spiWrite cn
  writeAddressBytes width.toNat (address % 18446744073709551616)
  deselect

/-- The loop `for ( int i=0; i<width; i++ )` of the address getters; `n` counts
the iterations left. -/
def readAddressBytes : Nat → Nat → Nat → M Nat
  | 0, _, address => pure address
  | n + 1, i, address => do
    let b ← spiWrite _NRF24L01P_SPI_CMD_NOP
    readAddressBytes n (i + 1) (address ||| ((b &&& 0xFF) <<< (i * 8)))

/-- The `switch ( setupAw )` of the address getters. -/
def switchSetupAw (setupAw : Nat) : M Nat :=
  if setupAw = _NRF24L01P_SETUP_AW_AW_3BYTE then pure 3
  else if setupAw = _NRF24L01P_SETUP_AW_AW_4BYTE then pure 4
  else if setupAw = _NRF24L01P_SETUP_AW_AW_5BYTE then pure 5
  else error

/-- The body of `getRxAddress(int pipe)`; `depth` bounds the nesting of its
recursive call `getRxAddress(NRF24L01P_PIPE_P1)`. -/
def getRxAddressAux : Nat → Int → M Nat
  | 0, _ => fun s => .halt .outOfFuel s
  | depth + 1, pipe =>
    if pipe < NRF24L01P_PIPE_P0 ∨ pipe > NRF24L01P_PIPE_P5 then error
    else do
      let width ← (if pipe = NRF24L01P_PIPE_P0 ∨ pipe = NRF24L01P_PIPE_P1 then do
          let setupAw := (← getRegister _NRF24L01P_REG_SETUP_AW) &&& _NRF24L01P_SETUP_AW_AW_MASK
          switchSetupAw setupAw
        else pure 1 : M Nat)
      let rxAddrPxRegister := _NRF24L01P_REG_RX_ADDR_P0 + (pipe - NRF24L01P_PIPE_P0).toNat
      let cn := _NRF24L01P_SPI_CMD_RD_REG ||| (rxAddrPxRegister &&& _NRF24L01P_REG_ADDRESS_MASK)
      select
      let _ ← spiWrite cn
      let address ← readAddressBytes width 0 0
      deselect
      if ¬ (pipe = NRF24L01P_PIPE_P0 ∨ pipe = NRF24L01P_PIPE_P1) then do
        let p1 ← getRxAddressAux depth NRF24L01P_PIPE_P1
        pure (address ||| (p1 &&& (0xFFFFFFFFFFFFFFFF ^^^ 0xFF)))
      else pure address

/-- The method `getRxAddress(int pipe)`: the call for pipe 1 does not recurse,
so two levels cover every call. -/
def getRxAddress (pipe : Int) : M Nat := getRxAddressAux 2 pipe

def getTxAddress : M Nat := do
  let setupAw := (← getRegister _NRF24L01P_REG_SETUP_AW) &&& _NRF24L01P_SETUP_AW_AW_MASK
  let width ← switchSetupAw setupAw
  let cn := _NRF24L01P_SPI_CMD_RD_REG ||| (_NRF24L01P_REG_TX_ADDR &&& _NRF24L01P_REG_ADDRESS_MASK)
  select
  let _ ← spiWrite cn
  let address ← readAddressBytes width 0 0
  deselect
  pure address

def readable (pipe : Int) : M Bool :=
  if pipe < NRF24L01P_PIPE_P0 ∨ pipe > NRF24L01P_PIPE_P5 then error
  else do
    let status ← getStatusRegister
    pure (decide (status &&& _NRF24L01P_STATUS_RX_DR ≠ 0) &&
      decide ((status &&& _NRF24L01P_STATUS_RX_P_NO) >>> 1 = pipe.toNat &&& 0x7))

def readablePipe : M Int := do
  let status ← getStatusRegister
  if ¬ (status &&& _NRF24L01P_STATUS_RX_DR ≠ 0) then pure (-1)
  else pure (((status &&& _NRF24L01P_STATUS_RX_P_NO) >>> 1 : Nat) : Int)

/-- The loop `for ( int i = 0; i < count; i++ ) { spiWrite(*data++); }`; `n`
counts the iterations left. -/
def writePayloadBytes : Nat → Nat → (Nat → Nat) → M Unit
  | 0, _, _ => pure ()
  | n + 1, i, data => do
    let _ ← spiWrite (data i)
    writePayloadBytes n (i + 1) data

/-- The loop `while ( !( getStatusRegister() & _NRF24L01P_STATUS_TX_DS ) )`, cut
off after `fuel` polls. -/
def waitTxDs : Nat → M Unit
  | 0 => fun s => .halt .outOfFuel s
  | fuel + 1 => do
    let status ← getStatusRegister
    if ¬ (status &&& _NRF24L01P_STATUS_TX_DS ≠ 0) then waitTxDs fuel
    else pure ()

/-- The method `write(int pipe, char *data, int count)`; `data i` is the byte
at `data[i]`, `fuel` bounds the polls for the end of the transmission. -/
def write (fuel : Nat) (pipe : Int) (data : Nat → Nat) (count : Int) : M Int := do
  let _ := pipe
  let originalCe := (← readState).ce_value
  disable
  if count ≤ 0 then pure 0
  else do
    let count := if count > (_NRF24L01P_TX_FIFO_SIZE : Int) then (_NRF24L01P_TX_FIFO_SIZE : Int) else count
    setRegister _NRF24L01P_REG_STATUS _NRF24L01P_STATUS_TX_DS
    select
    let _ ← spiWrite _NRF24L01P_SPI_CMD_WR_TX_PAYLOAD
    writePayloadBytes count.toNat 0 data
    deselect
    let originalMode := (← readState).mode
    setTransmitMode
    enable
    wait_us _NRF24L01P_TIMING_Thce_us
    disable
    waitTxDs fuel
    setRegister _NRF24L01P_REG_STATUS _NRF24L01P_STATUS_TX_DS
    if originalMode = _NRF24L01P_MODE_RX then setReceiveMode
    if originalCe ≠ 0 then enable else disable
    wait_us _NRF24L01P_TIMING_Tpece2csn_us
    pure count

/-- The loop `for ( int i = 0; i < count; i++ ) { *data++ = spiWrite(NOP); }`;
`n` counts the iterations left, the result is the buffer afterwards. -/
def readPayloadBytes : Nat → Nat → (Nat → Nat) → M (Nat → Nat)
  | 0, _, data => pure data
  | n + 1, i, data => do
    let b ← spiWrite _NRF24L01P_SPI_CMD_NOP
    readPayloadBytes n (i + 1) (Function.update data i b)

/-- The method `read(int pipe, char *data, int count)`; the result is the
return value and the buffer afterwards. -/
def read (pipe : Int) (data : Nat → Nat) (count : Int) : M (Int × (Nat → Nat)) :=
  if pipe < NRF24L01P_PIPE_P0 ∨ pipe > NRF24L01P_PIPE_P5 then error
  else if count ≤ 0 then pure (0, data)
  else do
    let count := if count > (_NRF24L01P_RX_FIFO_SIZE : Int) then (_NRF24L01P_RX_FIFO_SIZE : Int) else count
    if (← readable pipe) then do
      select
      let _ ← spiWrite _NRF24L01P_SPI_CMD_R_RX_PL_WID
      let rxPayloadWidth : Int := ((← spiWrite _NRF24L01P_SPI_CMD_NOP) : Nat)
      deselect
      if rxPayloadWidth < 0 ∨ rxPayloadWidth > (_NRF24L01P_RX_FIFO_SIZE : Int) then do
        select
        let _ ← spiWrite _NRF24L01P_SPI_CMD_FLUSH_RX
        let _ ← spiWrite _NRF24L01P_SPI_CMD_NOP
        deselect
        pure (-1, data)
      else do
        let count := if rxPayloadWidth < count then rxPayloadWidth else count
        select
        let _ ← spiWrite _NRF24L01P_SPI_CMD_RD_RX_PAYLOAD
        let data ← readPayloadBytes count.toNat 0 data
        deselect
        setRegister _NRF24L01P_REG_STATUS _NRF24L01P_STATUS_RX_DR
        pure (count, data)
    else pure (0, data)

def getRPD : M Bool := do
  let rpd := (← getRegister _NRF24L01P_REG_RPD) % 256
  pure (decide (rpd > 0))

def flushRx : M Unit := do
  select
  let _ ← spiWrite _NRF24L01P_SPI_CMD_FLUSH_RX
  let _ ← spiWrite _NRF24L01P_SPI_CMD_NOP
  deselect

def flushTx : M Unit := do
  select
  let _ ← spiWrite _NRF24L01P_SPI_CMD_FLUSH_TX
  let _ ← spiWrite _NRF24L01P_SPI_CMD_NOP
  deselect

def flushTxRx : M Unit := do
  flushTx
  flushRx

/-- The loop of `getRSSI`; `n` counts the iterations left, `rssi` is the
`uint8_t` accumulator. -/
def getRSSILoop : Nat → Nat → M Nat
  | 0, rssi => pure rssi
  | n + 1, rssi => do
    let rpd ← getRPD
    let rssi := (rssi + (if rpd then 1 else 0)) % 256
    wait_us (50 * 1000)
    flushRx
    getRSSILoop n rssi

def getRSSI : M Nat := getRSSILoop 256 0

/-- The loop of `init` over the receive pipes; `n` counts the iterations left. -/
def initRxPipes (hdr : Header) (tx_size : Int) (auto_ack : Nat) (rx_addresses : Nat → Nat) :
    Nat → Nat → M Unit
  | 0, _ => pure ()
  | n + 1, i => do
    let pipe := NRF24L01P_PIPE_P1 + (i : Int)
    setRxAddress (rx_addresses i) hdr.DEFAULT_NRF24L01P_ADDRESS_WIDTH pipe
    setTransferSize tx_size pipe
    if auto_ack ≠ 0 then enableAutoAcknowledge pipe
    initRxPipes hdr tx_size auto_ack rx_addresses n (i + 1)

/-- The method `init`; the port and pin numbers only name the collaborators
and are not arguments here. -/
def init (hdr : Header) (freq power data_rate crc_width tx_size : Int)
    (auto_ack auto_retransmit : Nat) (tx_address : Nat) (rx_addresses : Nat → Nat)
    (rx_addresses_len : Nat) : M Int :=
  if ¬ (rx_addresses_len ≤ 5) then assertFail
  else do
    update fun s => { s with mode := _NRF24L01P_MODE_UNKNOWN }
    wait_us _NRF24L01P_TIMING_Tundef2pd_us
    disable
    deselect
    wait_us _NRF24L01P_TIMING_Tundef2pd_us
    setRegister _NRF24L01P_REG_CONFIG 0
    wait_us _NRF24L01P_TIMING_Tundef2pd_us
    setRegister _NRF24L01P_REG_STATUS
      (_NRF24L01P_STATUS_MAX_RT ||| _NRF24L01P_STATUS_TX_DS ||| _NRF24L01P_STATUS_RX_DR)
    disableAllRxPipes
    setRfFrequency hdr freq
    setRfOutputPower hdr power
    setAirDataRate hdr data_rate
    setCrcWidth hdr crc_width
    setTxAddress tx_address hdr.DEFAULT_NRF24L01P_ADDRESS_WIDTH
    setTransferSize tx_size NRF24L01P_PIPE_P0
    if auto_ack ≠ 0 then enableAutoAcknowledge NRF24L01P_PIPE_P0 else disableAutoAcknowledge
    if auto_retransmit ≠ 0 then assertFail else disableAutoRetransmit
    initRxPipes hdr tx_size auto_ack rx_addresses rx_addresses_len 0
    flushTxRx
    update fun s => { s with mode := _NRF24L01P_MODE_POWER_DOWN }
    pure 0

/-! ## Reading a trace -/

/-- The frames of a trace: for each bracket of chip-select low then high, the
bytes sent in it.  `cur` is the frame in progress. -/
def framesFrom : Option (List Nat) → List Event → List (List Nat)
  | _, [] => []
  | cur, .cs level :: es =>
    if level = 0 then
      match cur with
      | none => framesFrom (some []) es
      | some f => framesFrom (some f) es
    else
      match cur with
      | none => framesFrom none es
      | some f => f :: framesFrom none es
  | cur, .spi tx _ :: es =>
    match cur with
    | none => framesFrom none es
    | some f => framesFrom (some (f ++ [tx])) es
  | cur, .ce _ :: es => framesFrom cur es
  | cur, .delay _ :: es => framesFrom cur es

/-- The frames of a trace that starts with chip-select high. -/
def frames (es : List Event) : List (List Nat) := framesFrom none es

/-- The frame in progress at the end of a trace. -/
def openFrame : Option (List Nat) → List Event → Option (List Nat)
  | cur, [] => cur
  | cur, .cs level :: es =>
    if level = 0 then
      match cur with
      | none => openFrame (some []) es
      | some f => openFrame (some f) es
    else openFrame none es
  | cur, .spi tx _ :: es =>
    match cur with
    | none => openFrame none es
    | some f => openFrame (some (f ++ [tx])) es
  | cur, .ce _ :: es => openFrame cur es
  | cur, .delay _ :: es => openFrame cur es

/-- The command bytes of a trace: the first byte of every frame. -/
def commands (es : List Event) : List Nat := (frames es).filterMap List.head?

/-- A call from state `s` with outcome `r` was rejected without effect: it
signalled the invalid-argument error, every chip register, the mode and the
chip-enable level are as in `s`, and no frame it put on the bus was a
register write. -/
def Res.rejectedFrom {α : Type} (r : Res α) (s : Driver) : Prop :=
  r.fault = some .invalidArgument ∧
  r.state.chip.mem = s.chip.mem ∧
  r.state.mode = s.mode ∧
  r.state.ce_value = s.ce_value ∧
  ∃ ev, r.state.trace = s.trace ++ ev ∧
    ∀ c ∈ commands ev, c &&& 0xE0 ≠ _NRF24L01P_SPI_CMD_WR_REG

/-- A quiescent chip for the examples: all registers zero, STATUS always
`status`, payload width `width`, payload bytes 1, 2, 3, ... -/
def quietChip (status width : Nat) : Chip where
  csn := 1
  cmd := none
  idx := 0
  mem := fun _ _ => 0
  statusFeed := fun _ => status
  clock := 0
  rxWidth := width
  rxPayload := fun i => i + 1

/-- A driver before `init`, on a quiescent chip. -/
def freshDriver (status width : Nat) : Driver where
  mode := _NRF24L01P_MODE_UNKNOWN
  ce_value := 0
  a_retr_enabled := false
  chip := quietChip status width
  trace := []

/-- A driver in receive mode with chip-enable high, on a chip whose registers
all hold `0xFF` and whose STATUS is always `0x0E` (nothing pending). -/
def busyDriver : Driver where
  mode := _NRF24L01P_MODE_RX
  ce_value := 1
  a_retr_enabled := false
  chip :=
    { csn := 1, cmd := none, idx := 0, mem := fun _ _ => 0xFF, statusFeed := fun _ => 0x0E,
      clock := 0, rxWidth := 0, rxPayload := fun _ => 0 }
  trace := []

/-! ## Trace segments of the loops -/

/-- The exchanges of `readPayloadBytes`: `n` NOPs answered by the payload
bytes from index `k` on. -/
def readEvents (payload : Nat → Nat) : Nat → Nat → List Event
  | _, 0 => []
  | k, n + 1 => .spi 0xff (payload k % 256) :: readEvents payload (k + 1) n

/-- The exchanges of `writePayloadBytes`: the bytes `data[i]`, ..., `data[i+n-1]`. -/
def payloadEvents (data : Nat → Nat) : Nat → Nat → List Event
  | _, 0 => []
  | i, n + 1 => .spi (data i % 256) 0 :: payloadEvents data (i + 1) n

/-- The exchanges of `writeAddressBytes`: the `n` low bytes of `address`,
least significant first. -/
def addressEvents : Nat → Nat → List Event
  | _, 0 => []
  | address, n + 1 => .spi ((address &&& 0xFF) % 256) 0 :: addressEvents (address >>> 8) n

/-- The register file after the `n` low bytes of `address` were stored in
register `r` from byte `i` on. -/
def storeBytes (r : Nat) : (Nat → Nat → Nat) → Nat → Nat → Nat → (Nat → Nat → Nat)
  | mem, _, _, 0 => mem
  | mem, i, address, n + 1 =>
    storeBytes r (storeByte mem r i ((address &&& 0xFF) % 256)) (i + 1) (address >>> 8) n

/-- The exchanges of `readAddressBytes`: `n` NOPs answered by the bytes of
register `r` from byte `k` on. -/
def registerEvents (mem : Nat → Nat → Nat) (r : Nat) : Nat → Nat → List Event
  | _, 0 => []
  | k, n + 1 => .spi 0xff (mem r k % 256) :: registerEvents mem r (k + 1) n

/-- The value `readAddressBytes` assembles from `n` bytes of register `r`,
starting at byte `k` of the register and byte position `i` of the value. -/
def assembleBytes (mem : Nat → Nat → Nat) (r : Nat) : Nat → Nat → Nat → Nat → Nat
  | 0, _, _, address => address
  | n + 1, k, i, address =>
    assembleBytes mem r n (k + 1) (i + 1) (address ||| ((mem r k % 256 &&& 0xFF) <<< (i * 8)))

/-- The `n` low bytes of `address`, least significant first. -/
def addressBytes (address n : Nat) : List Nat :=
  (List.range n).map (fun i => (address >>> (8 * i)) &&& 0xFF)

/-- The exchanges of `n` status polls, the first answered by the STATUS byte
number `c`. -/
def pollEvents (feed : Nat → Nat) : Nat → Nat → List Event
  | _, 0 => []
  | c, n + 1 => [.cs 0, .spi 0xff (feed c % 256), .cs 1] ++ pollEvents feed (c + 1) n

/-- The number of polls `waitTxDs` makes from STATUS byte number `c` on, when
the transmit-complete flag shows at byte `c + k` at the latest. -/
def pollCount (feed : Nat → Nat) : Nat → Nat → Nat
  | _, 0 => 1
  | c, k + 1 =>
    if feed c % 256 &&& _NRF24L01P_STATUS_TX_DS ≠ 0 then 1 else pollCount feed (c + 1) k + 1

/-- The driver after `n` status polls. -/
def afterPolls (s : Driver) (n : Nat) : Driver :=
  { s with chip := { s.chip with csn := 1, cmd := some 0xff, idx := 0, clock := s.chip.clock + n },
           trace := s.trace ++ pollEvents s.chip.statusFeed s.chip.clock n }

/-- The levels written to the chip-enable line, in order. -/
def ceWrites (es : List Event) : List Nat :=
  es.filterMap fun e => match e with
    | .ce level => some level
    | _ => none

/-- The events before the chip-enable line is first driven high. -/
def beforePulse (es : List Event) : List Event :=
  es.takeWhile fun e => decide (e ≠ .ce 1)

/-- The events from the first time the chip-enable line is driven high. -/
def fromPulse (es : List Event) : List Event :=
  es.dropWhile fun e => decide (e ≠ .ce 1)

/-- A driver in receive mode with chip-enable high, registers all `0xFF`, on a
chip whose STATUS byte is `0x0E` for the first six commands and `0x2E`
(transmit complete) from then on. -/
def sendingDriver : Driver where
  mode := _NRF24L01P_MODE_RX
  ce_value := 1
  a_retr_enabled := false
  chip :=
    { csn := 1, cmd := none, idx := 0, mem := fun _ _ => 0xFF,
      statusFeed := fun i => if i < 6 then 0x0E else 0x2E,
      clock := 0, rxWidth := 0, rxPayload := fun _ => 0 }
  trace := []

/-! ## Register-level bookkeeping for `init` -/

/-- The bus is idle, chip-enable is low and the register file is `m`. -/
def Quiet (m : Nat → Nat → Nat) (s : Driver) : Prop :=
  s.chip.csn = 1 ∧ s.ce_value = 0 ∧ s.chip.mem = m

/-- Total correctness: from every state satisfying `P` the call `x` returns,
with a value and in a state satisfying `Q`. -/
def M.returns {α : Type} (x : M α) (P : Driver → Prop) (Q : α → Driver → Prop) : Prop :=
  ∀ s, P s → ∃ a s', x s = .ok a s' ∧ Q a s'

/-- The RF_PWR bits that the `switch` of `setRfOutputPower` ors in. -/
def powerBits (hdr : Header) (power : Int) : Nat :=
  if power = hdr.NRF24L01P_TX_PWR_ZERO_DB then _NRF24L01P_RF_SETUP_RF_PWR_0DBM
  else if power = hdr.NRF24L01P_TX_PWR_MINUS_6_DB then _NRF24L01P_RF_SETUP_RF_PWR_MINUS_6DBM
  else if power = hdr.NRF24L01P_TX_PWR_MINUS_12_DB then _NRF24L01P_RF_SETUP_RF_PWR_MINUS_12DBM
  else _NRF24L01P_RF_SETUP_RF_PWR_MINUS_18DBM

/-- The RF_DR bits that the `switch` of `setAirDataRate` ors in. -/
def rateBits (hdr : Header) (rate : Int) : Nat :=
  if rate = hdr.NRF24L01P_DATARATE_250_KBPS then _NRF24L01P_RF_SETUP_RF_DR_250KBPS
  else if rate = hdr.NRF24L01P_DATARATE_1_MBPS then _NRF24L01P_RF_SETUP_RF_DR_1MBPS
  else _NRF24L01P_RF_SETUP_RF_DR_2MBPS

/-- The CRC bits that the `switch` of `setCrcWidth` ors in. -/
def crcBits (hdr : Header) (width : Int) : Nat :=
  if width = hdr.NRF24L01P_CRC_NONE then _NRF24L01P_CONFIG_CRC_NONE
  else if width = hdr.NRF24L01P_CRC_8_BIT then _NRF24L01P_CONFIG_CRC_8BIT
  else _NRF24L01P_CONFIG_CRC_16BIT

/-- The address-width bits that the `switch ( width )` of the address setters
ors in. -/
def widthBits (width : Int) : Nat :=
  if width = 3 then _NRF24L01P_SETUP_AW_AW_3BYTE
  else if width = 4 then _NRF24L01P_SETUP_AW_AW_4BYTE
  else _NRF24L01P_SETUP_AW_AW_5BYTE

/-- The register file after `setTxAddress(address, width)` with a valid width. -/
def memSetTxAddress (m : Nat → Nat → Nat) (address : Nat) (width : Int) : Nat → Nat → Nat :=
  storeBytes 16
    (storeByte m 3 0 ((m 3 0 % 256 &&& bnot32 _NRF24L01P_SETUP_AW_AW_MASK ||| widthBits width) % 256))
    0 address width.toNat

/-- The register file after `setRxAddress(address, width, pipe)` for pipe 1
(address-width byte, then `width` address bytes) or a pipe from 2 to 5 (one
address byte), then the pipe's bit in EN_RXADDR. -/
def memSetRxAddress (m : Nat → Nat → Nat) (address : Nat) (width : Int) (pipe : Nat) :
    Nat → Nat → Nat :=
  if pipe ≤ 1 then
    storeByte
      (storeBytes (10 + pipe)
        (storeByte m 3 0
          ((m 3 0 % 256 &&& bnot32 _NRF24L01P_SETUP_AW_AW_MASK ||| widthBits width) % 256))
        0 address width.toNat)
      2 0 ((m 2 0 % 256 ||| 1 <<< pipe) % 256)
  else
    storeByte (storeBytes (10 + pipe) m 0 address 1) 2 0 ((m 2 0 % 256 ||| 1 <<< pipe) % 256)

/-- The register file after one pass of the loop of `init` for receive pipe
`pipe`: address, payload size, and the auto-acknowledge bit if asked for. -/
def memInitRxPipe (width tx_size : Int) (auto_ack : Nat) (address : Nat) (pipe : Nat)
    (m : Nat → Nat → Nat) : Nat → Nat → Nat :=
  if auto_ack ≠ 0 then
    storeByte
      (storeByte (memSetRxAddress m address width pipe) (17 + pipe) 0
        ((tx_size.toNat &&& _NRF24L01P_RX_PW_Px_MASK) % 256))
      1 0
      ((storeByte (memSetRxAddress m address width pipe) (17 + pipe) 0
            ((tx_size.toNat &&& _NRF24L01P_RX_PW_Px_MASK) % 256) 1 0 % 256 ||| 1 <<< pipe) % 256)
  else
    storeByte (memSetRxAddress m address width pipe) (17 + pipe) 0
      ((tx_size.toNat &&& _NRF24L01P_RX_PW_Px_MASK) % 256)

/-- The register file after the loop of `init` over `n` receive pipes, from
pipe `i + 1` on. -/
def memInitRxPipes (width tx_size : Int) (auto_ack : Nat) (rx_addresses : Nat → Nat) :
    Nat → Nat → (Nat → Nat → Nat) → (Nat → Nat → Nat)
  | 0, _, m => m
  | n + 1, i, m =>
    memInitRxPipes width tx_size auto_ack rx_addresses n (i + 1)
      (memInitRxPipe width tx_size auto_ack (rx_addresses i % 18446744073709551616) (i + 1) m)

/-- The register file after the radio settings of `init`: CONFIG zeroed, the
STATUS flags written, all receive pipes disabled, then frequency, power, data
rate and CRC width. -/
def memInitRadio (hdr : Header) (freq power data_rate crc_width : Int) (m : Nat → Nat → Nat) :
    Nat → Nat → Nat :=
  let m3 := storeByte (storeByte (storeByte m 0 0 0) 7 0 0x70) 2 0 0
  let m4 := storeByte m3 5 0 (((freq - hdr.NRF24L01P_MIN_RF_FREQUENCY).toNat &&& 0x7F) % 256)
  let m5 := storeByte m4 6 0
    ((m4 6 0 % 256 &&& bnot32 _NRF24L01P_RF_SETUP_RF_PWR_MASK ||| powerBits hdr power) % 256)
  let m6 := storeByte m5 6 0
    ((m5 6 0 % 256 &&& bnot32 _NRF24L01P_RF_SETUP_RF_DR_MASK ||| rateBits hdr data_rate) % 256)
  storeByte m6 0 0
    ((m6 0 0 % 256 &&& bnot32 _NRF24L01P_CONFIG_CRC_MASK ||| crcBits hdr crc_width) % 256)

/-- The register file after the auto-acknowledge step of `init` for pipe 0. -/
def memInitAck (auto_ack : Nat) (m : Nat → Nat → Nat) : Nat → Nat → Nat :=
  if auto_ack ≠ 0 then storeByte m 1 0 ((m 1 0 % 256 ||| 1 <<< 0) % 256) else storeByte m 1 0 0

/-- The register file after `init` (without auto-retransmit), from register
file `m`. -/
def memInit (hdr : Header) (freq power data_rate crc_width tx_size : Int) (auto_ack : Nat)
    (tx_address : Nat) (rx_addresses : Nat → Nat) (rx_addresses_len : Nat)
    (m : Nat → Nat → Nat) : Nat → Nat → Nat :=
  memInitRxPipes hdr.DEFAULT_NRF24L01P_ADDRESS_WIDTH tx_size auto_ack rx_addresses
    rx_addresses_len 0
    (storeByte
      (memInitAck auto_ack
        (storeByte
          (memSetTxAddress (memInitRadio hdr freq power data_rate crc_width m)
            (tx_address % 18446744073709551616) hdr.DEFAULT_NRF24L01P_ADDRESS_WIDTH)
          17 0 ((tx_size.toNat &&& _NRF24L01P_RX_PW_Px_MASK) % 256)))
      4 0 0)

/-- The byte left in a per-pipe enable register by the loop of `init` over `n`
receive pipes from pipe `i + 1` on, each pass storing `old | (1 << pipe)`. -/
def orPipeBits : Nat → Nat → Nat → Nat
  | 0, _, x => x
  | n + 1, i, x => orPipeBits n (i + 1) ((x % 256 ||| 1 <<< (i + 1)) % 256)

/-- The settings `init` accepts: a frequency in range, one of the four power
levels, one of the three data rates, one of the three CRC widths, a payload
size from 0 to 32 and at most five receive addresses. -/
def ValidSettings (hdr : Header) (freq power data_rate crc_width tx_size : Int)
    (rx_addresses_len : Nat) : Prop :=
  hdr.NRF24L01P_MIN_RF_FREQUENCY ≤ freq ∧ freq ≤ hdr.NRF24L01P_MAX_RF_FREQUENCY ∧
  power ∈ [hdr.NRF24L01P_TX_PWR_ZERO_DB, hdr.NRF24L01P_TX_PWR_MINUS_6_DB,
    hdr.NRF24L01P_TX_PWR_MINUS_12_DB, hdr.NRF24L01P_TX_PWR_MINUS_18_DB] ∧
  data_rate ∈ [hdr.NRF24L01P_DATARATE_250_KBPS, hdr.NRF24L01P_DATARATE_1_MBPS,
    hdr.NRF24L01P_DATARATE_2_MBPS] ∧
  crc_width ∈ [hdr.NRF24L01P_CRC_NONE, hdr.NRF24L01P_CRC_8_BIT, hdr.NRF24L01P_CRC_16_BIT] ∧
  0 ≤ tx_size ∧ tx_size ≤ 32 ∧ rx_addresses_len ≤ 5

/-- The default address width of the header is one the address setters accept. -/
def Header.widthOk (hdr : Header) : Prop :=
  hdr.DEFAULT_NRF24L01P_ADDRESS_WIDTH = 3 ∨ hdr.DEFAULT_NRF24L01P_ADDRESS_WIDTH = 4 ∨
    hdr.DEFAULT_NRF24L01P_ADDRESS_WIDTH = 5

/-! ## The CoAP router (`libs/remote_sensor/src/route_coap.c`)

The mbuf pool, the payload parser and the sensor framework are collaborators
outside the repository: their results are parameters (`Host`), and every call
to them is recorded in order. -/

/-- One field of a decoded payload (`oc_rep_t`): its name and its value. -/
structure Rep where
  name : Nat
  value : Nat
  deriving DecidableEq, Repr

/-- The collaborators of the router. -/
structure Host where
  /-- Whether `os_msys_get_pkthdr` returns an mbuf. -/
  os_msys_get_pkthdr : Bool
  /-- Return code of `os_mbuf_copyinto` for the bytes copied. -/
  os_mbuf_copyinto : List Nat → Int
  /-- Return code and fields of `oc_parse_rep` for the bytes of the mbuf. -/
  oc_parse_rep : List Nat → Nat → Int × List Rep
  /-- Sensor type of a field name; 0 for an unknown name. -/
  remote_sensor_lookup_type : Nat → Nat
  /-- The sensor of a device name, if there is one. -/
  sensor_mgr_find_next_bydevname : Nat → Option Nat
  /-- Return code of `sensor_read(sensor, type, NULL, rep, 0)`. -/
  sensor_read : Nat → Nat → Rep → Int

/-- A call made by the router, with the arguments that matter. -/
inductive HostCall where
  | decode_coap_payload (data : List Nat) (size : Nat)
  | os_msys_get_pkthdr
  | os_mbuf_copyinto (data : List Nat)
  | oc_parse_rep (data : List Nat) (size : Nat)
  | os_mbuf_free_chain
  | remote_sensor_lookup_type (name : Nat)
  | sensor_mgr_find_next_bydevname (dev : Nat)
  | sensor_read (sensor type : Nat) (rep : Rep)
  | oc_free_rep
  deriving DecidableEq, Repr

/-- What a call of `process_coap_message` leaves behind: the return code
(`none` when an `assert` failed), the buffer afterwards and the calls made. -/
structure Outcome where
  rc : Option Int
  data : Nat → Nat
  calls : List HostCall

/-- The function `decode_coap_payload(data, size, out_rep)`: return code
(`none` when an `assert` failed), decoded fields and calls made. -/
def decode_coap_payload (host : Host) (data : Nat → Nat) (size : Nat) :
    Option Int × List Rep × List HostCall :=
  let bytes := (List.range size).map data
  if ¬ host.os_msys_get_pkthdr then
    (none, [], [.decode_coap_payload bytes size, .os_msys_get_pkthdr])
  else if host.os_mbuf_copyinto bytes ≠ 0 then
    (some (-2), [], [.decode_coap_payload bytes size, .os_msys_get_pkthdr,
      .os_mbuf_copyinto bytes, .os_mbuf_free_chain])
  else if (host.oc_parse_rep bytes size).1 ≠ 0 then
    (none, [], [.decode_coap_payload bytes size, .os_msys_get_pkthdr, .os_mbuf_copyinto bytes,
      .oc_parse_rep bytes size])
  else
    (some (host.oc_parse_rep bytes size).1, (host.oc_parse_rep bytes size).2,
      [.decode_coap_payload bytes size, .os_msys_get_pkthdr, .os_mbuf_copyinto bytes,
        .oc_parse_rep bytes size, .os_mbuf_free_chain])

/-- The loop `while (size > 0 && data[size - 1] == 0) { size--; }`. -/
def discardTrailingZeroes (data : Nat → Nat) : Nat → Nat
  | 0 => 0
  | size + 1 => if data size = 0 then discardTrailingZeroes data size else size + 1

/-- The loop `while(rep)` of `process_coap_message` over the decoded fields:
whether every `assert` held, and the calls made. -/
def readFields (host : Host) (name : Nat) : List Rep → Bool × List HostCall
  | [] => (true, [])
  | rep :: rest =>
    if host.remote_sensor_lookup_type rep.name = 0 then
      (false, [.remote_sensor_lookup_type rep.name])
    else
      match host.sensor_mgr_find_next_bydevname name with
      | none =>
        (false, [.remote_sensor_lookup_type rep.name, .sensor_mgr_find_next_bydevname name])
      | some sensor =>
        if host.sensor_read sensor (host.remote_sensor_lookup_type rep.name) rep ≠ 0 then
          (false, [.remote_sensor_lookup_type rep.name, .sensor_mgr_find_next_bydevname name,
            .sensor_read sensor (host.remote_sensor_lookup_type rep.name) rep])
        else
          ((readFields host name rest).1,
            [.remote_sensor_lookup_type rep.name, .sensor_mgr_find_next_bydevname name,
              .sensor_read sensor (host.remote_sensor_lookup_type rep.name) rep]
              ++ (readFields host name rest).2)

/-- The function `process_coap_message(name, data, size0)`, for non-null `name`
and `data`; `size0` is a `uint8_t`. -/
def process_coap_message (host : Host) (name : Nat) (data : Nat → Nat) (size0 : Nat) : Outcome :=
  let size0 := size0 % 256
  if ¬ (size0 > 0) then { rc := none, data := data, calls := [] }
  else
    let data := Function.update data (size0 - 1) 0
    let size := discardTrailingZeroes data size0
    match decode_coap_payload host data size with
    | (none, _, calls) => { rc := none, data := data, calls := calls }
    | (some rc, rep, calls) =>
      if ¬ (rc = 0) then { rc := none, data := data, calls := calls }
      else if (readFields host name rep).1 then
        { rc := some 0, data := data, calls := calls ++ (readFields host name rep).2 ++ [.oc_free_rep] }
      else { rc := none, data := data, calls := calls ++ (readFields host name rep).2 }

/-- Collaborators that always succeed and decode no field. -/
def quietHost : Host where
  os_msys_get_pkthdr := true
  os_mbuf_copyinto := fun _ => 0
  oc_parse_rep := fun _ _ => (0, [])
  remote_sensor_lookup_type := fun _ => 1
  sensor_mgr_find_next_bydevname := fun _ => some 0
  sensor_read := fun _ _ _ => 0

/-- The six received bytes `a1 00 07 00 00 2a`: payload, padding, sequence
number. -/
def sixBytes : Nat → Nat := fun i => [0xa1, 0, 7, 0, 0, 0x2a].getD i 0

/-! ## Invariants of calls -/

/-- The property `I` holds in the state a call of `x` ends in, whether it
returns or halts, whenever it held at the call. -/
def M.keeps {α : Type} (x : M α) (I : Driver → Prop) : Prop :=
  ∀ s, I s → I (x s).state

/-- The property `I` survives every bus exchange, every write of the
chip-select line, every delay, every `setRegister` and every assignment of
the retransmit flag. -/
def Stable (I : Driver → Prop) : Prop :=
  (∀ s v, I s → I (hal_spi_tx_val v s).state) ∧
  (∀ s l, I s → I (hal_gpio_write .cs_pin l s).state) ∧
  (∀ s t, I s → I (os_time_delay t s).state) ∧
  (∀ s r d, I s → I (setRegister r d s).state) ∧
  (∀ s b, I s → I { s with a_retr_enabled := b })

/-- The register and receive operations of the driver, with their arguments. -/
inductive Op where
  | getStatusRegister
  | setRfFrequency (frequency : Int)
  | getRfFrequency
  | setRfOutputPower (power : Int)
  | getRfOutputPower
  | setAirDataRate (rate : Int)
  | getAirDataRate
  | setCrcWidth (width : Int)
  | getCrcWidth
  | setTransferSize (size pipe : Int)
  | getTransferSize (pipe : Int)
  | disableAllRxPipes
  | disableAutoAcknowledge
  | enableAutoAcknowledge (pipe : Int)
  | enableDynamicPayload (pipe : Int)
  | disableDynamicPayload
  | disableAutoRetransmit
  | enableAutoRetransmit (delay count : Int)
  | getRetrCount
  | enableRxInterrupt
  | disableRxInterrupt
  | setRxAddress (address : Nat) (width pipe : Int)
  | setTxAddress (address : Nat) (width : Int)
  | getRxAddress (pipe : Int)
  | getTxAddress
  | readable (pipe : Int)
  | readablePipe
  | read (pipe : Int) (data : Nat → Nat) (count : Int)
  | getRPD
  | getRSSI
  | flushRx
  | flushTx
  | flushTxRx

/-- The call of a register or receive operation, its result dropped. -/
def runOp (hdr : Header) : Op → M Unit
  | .getStatusRegister => do let _ ← getStatusRegister
  | .setRfFrequency frequency => setRfFrequency hdr frequency
  | .getRfFrequency => do let _ ← getRfFrequency hdr
  | .setRfOutputPower power => setRfOutputPower hdr power
  | .getRfOutputPower => do let _ ← getRfOutputPower hdr
  | .setAirDataRate rate => setAirDataRate hdr rate
  | .getAirDataRate => do let _ ← getAirDataRate hdr
  | .setCrcWidth width => setCrcWidth hdr width
  | .getCrcWidth => do let _ ← getCrcWidth hdr
  | .setTransferSize size pipe => setTransferSize size pipe
  | .getTransferSize pipe => do let _ ← getTransferSize pipe
  | .disableAllRxPipes => disableAllRxPipes
  | .disableAutoAcknowledge => disableAutoAcknowledge
  | .enableAutoAcknowledge pipe => enableAutoAcknowledge pipe
  | .enableDynamicPayload pipe => enableDynamicPayload pipe
  | .disableDynamicPayload => disableDynamicPayload
  | .disableAutoRetransmit => disableAutoRetransmit
  | .enableAutoRetransmit delay count => enableAutoRetransmit delay count
  | .getRetrCount => do let _ ← getRetrCount
  | .enableRxInterrupt => enableRxInterrupt
  | .disableRxInterrupt => disableRxInterrupt
  | .setRxAddress address width pipe => setRxAddress address width pipe
  | .setTxAddress address width => setTxAddress address width
  | .getRxAddress pipe => do let _ ← getRxAddress pipe
  | .getTxAddress => do let _ ← getTxAddress
  | .readable pipe => do let _ ← readable pipe
  | .readablePipe => do let _ ← readablePipe
  | .read pipe data count => do let _ ← read pipe data count
  | .getRPD => do let _ ← getRPD
  | .getRSSI => do let _ ← getRSSI
  | .flushRx => flushRx
  | .flushTx => flushTx
  | .flushTxRx => flushTxRx

/-- The level of the chip-enable line after the events `es`, when it was `c`
before them. -/
def ceLevel (c : Nat) (es : List Event) : Nat :=
  ((ceWrites es).getLast?).getD c

/-- Chip-enable is low whenever chip-select is asserted: after every event of
`es` the chip-enable level is 0 or the chip-select level is not 0.  `ce` and
`cs` are the levels of the two lines before `es`. -/
def ceLowWhileSelected : Nat → Nat → List Event → Bool
  | _, _, [] => true
  | _, cs, .ce level :: es =>
    (decide (cs ≠ 0) || decide (level = 0)) && ceLowWhileSelected level cs es
  | ce, _, .cs level :: es =>
    (decide (level ≠ 0) || decide (ce = 0)) && ceLowWhileSelected ce level es
  | ce, cs, .spi _ _ :: es =>
    (decide (cs ≠ 0) || decide (ce = 0)) && ceLowWhileSelected ce cs es
  | ce, cs, .delay _ :: es =>
    (decide (cs ≠ 0) || decide (ce = 0)) && ceLowWhileSelected ce cs es

/-- The driver records chip-enable level `c`, and since the trace was `tr0` the
line has been left at `c`. -/
def CeKept (c : Nat) (tr0 : List Event) (s : Driver) : Prop :=
  s.ce_value = c ∧ ∃ ev, s.trace = tr0 ++ ev ∧ ceLevel c ev = c

/-- The driver records chip-enable low, and since the trace was `tr0` the line
has not been driven high. -/
def CeQuiet (tr0 : List Event) (s : Driver) : Prop :=
  s.ce_value = 0 ∧ ∃ ev, s.trace = tr0 ++ ev ∧ ∀ l ∈ ceWrites ev, l = 0

/-! ## Call sequences -/

/-- Partial correctness: whenever the call `x` returns from a state satisfying
`P`, the value and the state reached satisfy `Q`. -/
def M.ensures {α : Type} (x : M α) (P : Driver → Prop) (Q : α → Driver → Prop) : Prop :=
  ∀ s, P s → ∀ a s', x s = .ok a s' → Q a s'

/-- Where the bus stands: no frame open, chip just selected, or command byte
sent. -/
inductive Phase where
  | idle
  | opened
  | data

/-- The driver records chip-enable level `c` and mode `md`, the power-enable
bit of the configuration register reads `b`, and the bus is in phase `ph`; a
frame in progress is not a write of the configuration register. -/
def Bus (ph : Phase) (c : Nat) (md : Mode) (b : Nat) (s : Driver) : Prop :=
  s.ce_value = c ∧ s.mode = md ∧
  s.chip.mem _NRF24L01P_REG_CONFIG 0 % 256 &&& _NRF24L01P_CONFIG_PWR_UP = b ∧
  match ph with
  | .idle => s.chip.csn = 1
  | .opened => s.chip.csn = 0 ∧ s.chip.cmd = none
  | .data => s.chip.csn = 0 ∧
      ∃ k, s.chip.cmd = some k ∧ (k &&& 0xE0 = _NRF24L01P_SPI_CMD_WR_REG → k &&& 0x1F ≠ 0)

/-- The calls a user of the driver can make after `init`. -/
inductive Call where
  | op (o : Op)
  | powerUp
  | powerDown
  | setReceiveMode
  | setTransmitMode
  | write (fuel : Nat) (pipe : Int) (data : Nat → Nat) (count : Int)
  | enable
  | disable

/-- One call, its result dropped. -/
def runCall (hdr : Header) : Call → M Unit
  | .op o => runOp hdr o
  | .powerUp => powerUp
  | .powerDown => powerDown
  | .setReceiveMode => setReceiveMode
  | .setTransmitMode => setTransmitMode
  | .write fuel pipe data count => do let _ ← write fuel pipe data count
  | .enable => enable
  | .disable => disable

/-- A sequence of calls, one after the other. -/
def runCalls (hdr : Header) : List Call → M Unit
  | [] => pure ()
  | c :: cs => do
    runCall hdr c
    runCalls hdr cs

/-- The bus is idle, the driver records chip-enable level `c`, and unless the
mode is PowerDown the power-enable bit of the configuration register is set. -/
def Settled (c : Nat) (s : Driver) : Prop :=
  ∃ md b, Bus .idle c md b s ∧ (md ≠ _NRF24L01P_MODE_POWER_DOWN → b = _NRF24L01P_CONFIG_PWR_UP)

/-- The driver after the `init` of the spec scenario, called in receive mode
with chip-enable high and all registers `0xFF`. -/
@[irreducible] def scenarioDriver : Driver :=
  (init upstreamHeader 2476 0 250 8 8 1 0 0x1122334455 (fun _ => 0xAABBCCDDEE) 1 busyDriver).state

/-- The register file `m2` differs from `m` at most in the bits `mask` of
the first byte of register `r`: every other byte is the same, and the bits of
that byte outside `mask` are those of the byte `m` held. -/
def changesOnly (r mask : Nat) (m m2 : Nat → Nat → Nat) : Prop :=
  (∀ r2 i, ¬ (r2 = r ∧ i = 0) → m2 r2 i = m r2 i) ∧
  m2 r 0 &&& bnot32 mask = m r 0 % 256 &&& bnot32 mask

/-! # Theorems -/

/-! ## The monad and the bus -/

theorem M.bind_apply {α β : Type} (x : M α) (f : α → M β) (s : Driver) :
    (x >>= f) s = match x s with
      | .ok a s1 => f a s1
      | .halt e s1 => .halt e s1 := rfl

theorem M.pure_apply {α : Type} (a : α) (s : Driver) : (pure a : M α) s = .ok a s := rfl

theorem exchange_lt (c : Chip) (v : Nat) : (c.exchange v).1 < 256 := by
  unfold Chip.exchange
  split
  · simp
  · split
    · exact Nat.mod_lt _ (by decide)
    · split_ifs <;> first | exact Nat.mod_lt _ (by decide) | simp

theorem and255 (d : Nat) : d &&& 255 = d % 256 := by
  have : (255 : Nat) = 2 ^ 8 - 1 := by norm_num
  rw [this, Nat.and_pow_two_sub_one_eq_mod]

theorem spiWrite_eq (val : Nat) (s : Driver) :
    spiWrite val s = .ok (s.chip.exchange (val % 256)).1
      { s with chip := (s.chip.exchange (val % 256)).2,
               trace := s.trace ++ [.spi (val % 256) (s.chip.exchange (val % 256)).1] } := by
  have h := exchange_lt s.chip (val % 256)
  have h1 : (s.chip.exchange (val % 256)).1 ≠ 0xffff := by omega
  have h2 : (s.chip.exchange (val % 256)).1 &&& 0xff = (s.chip.exchange (val % 256)).1 := by
    rw [and255]
    exact Nat.mod_eq_of_lt h
  simp only [spiWrite, M.bind_apply, hal_spi_tx_val, M.pure_apply, h1, h2, if_false]

theorem and31_lt (r : Nat) : r &&& 0x1F < 32 := by
  have : (0x1F : Nat) = 2 ^ 5 - 1 := by norm_num
  rw [this, Nat.and_pow_two_sub_one_eq_mod]
  exact Nat.mod_lt _ (by decide)

theorem cmd_facts : ∀ k < 32, k % 256 = k ∧ k &&& 224 = 0 ∧ k &&& 31 = k ∧
    (32 ||| k) % 256 = 32 ||| k ∧ (32 ||| k) &&& 224 = 32 ∧ (32 ||| k) &&& 31 = k := by
  decide

theorem getRegister_eq (r : Nat) (s : Driver) (h : s.chip.csn = 1) :
    getRegister r s = .ok (s.chip.mem (r &&& 0x1F) 0 % 256)
      { s with chip := { s.chip with csn := 1, cmd := some (r &&& 0x1F), idx := 1, clock := s.chip.clock + 1 },
               trace := s.trace ++ [.cs 0, .spi (r &&& 0x1F) (s.chip.statusFeed s.chip.clock % 256),
                 .spi 0xff (s.chip.mem (r &&& 0x1F) 0 % 256), .cs 1] } := by
  obtain ⟨h1, h2, h3, -, -, -⟩ := cmd_facts _ (and31_lt r)
  simp [getRegister, M.bind_apply, M.pure_apply, spiWrite_eq, select, deselect, hal_gpio_write,
    Chip.setCsn, h, Chip.exchange, _NRF24L01P_SPI_CMD_RD_REG, _NRF24L01P_REG_ADDRESS_MASK,
    _NRF24L01P_SPI_CMD_NOP, h1, h2, h3]

theorem setRegister_eq (r d : Nat) (s : Driver) (h : s.chip.csn = 1) :
    setRegister r d s = .ok ()
      { s with
        ce_value := if s.ce_value ≠ 0 then 1 else 0,
        chip := { s.chip with csn := 1, cmd := some (0x20 ||| (r &&& 0x1F)), idx := 1,
                              clock := s.chip.clock + 1,
                              mem := storeByte s.chip.mem (r &&& 0x1F) 0 (d % 256) },
        trace := s.trace ++ ([.ce 0, .cs 0, .spi (0x20 ||| (r &&& 0x1F)) (s.chip.statusFeed s.chip.clock % 256),
                 .spi (d % 256) 0, .cs 1] ++ (if s.ce_value ≠ 0 then [.ce 1, .delay 1] else [.ce 0])
                 ++ [.delay 1]) } := by
  obtain ⟨-, -, -, h4, h5, h6⟩ := cmd_facts _ (and31_lt r)
  by_cases hce : s.ce_value = 0 <;>
  simp [setRegister, M.bind_apply, M.pure_apply, spiWrite_eq, select, deselect, hal_gpio_write,
    Chip.setCsn, h, Chip.exchange, _NRF24L01P_SPI_CMD_WR_REG, _NRF24L01P_SPI_CMD_RD_REG, _NRF24L01P_REG_ADDRESS_MASK,
    _NRF24L01P_SPI_CMD_NOP, h4, h5, h6, readState, disable, enable, update, wait_us, os_time_delay,
    _NRF24L01P_TIMING_Tpece2csn_us, USEC_PER_OS_TICK_LOG2, hce, and255]

theorem getStatusRegister_eq (s : Driver) (h : s.chip.csn = 1) :
    getStatusRegister s = .ok (s.chip.statusFeed s.chip.clock % 256)
      { s with chip := { s.chip with csn := 1, cmd := some 0xff, idx := 0, clock := s.chip.clock + 1 },
               trace := s.trace ++ [.cs 0, .spi 0xff (s.chip.statusFeed s.chip.clock % 256), .cs 1] } := by
  simp [getStatusRegister, M.bind_apply, M.pure_apply, spiWrite_eq, select, deselect, hal_gpio_write,
    Chip.setCsn, h, Chip.exchange, _NRF24L01P_SPI_CMD_NOP]

theorem storeByte_same (mem : Nat → Nat → Nat) (r i v : Nat) : storeByte mem r i v r i = v := by
  simp [storeByte]

theorem storeByte_other (mem : Nat → Nat → Nat) (r i v r2 i2 : Nat) (h : ¬ (r2 = r ∧ i2 = i)) :
    storeByte mem r i v r2 i2 = mem r2 i2 := by
  simp only [storeByte, h, if_false]

/-! ## C1: the frequency round trip -/

/-- C1: for a frequency `f` in the supported range, of at most 128 channels,
`setRfFrequency(f)` followed by `getRfFrequency()` returns `f`, from every
driver state with the bus idle. -/
theorem setRfFrequency_getRfFrequency (hdr : Header) (s : Driver) (f : Int) (hcs : s.chip.csn = 1)
    (hlo : hdr.NRF24L01P_MIN_RF_FREQUENCY ≤ f) (hhi : f ≤ hdr.NRF24L01P_MAX_RF_FREQUENCY)
    (hspan : hdr.NRF24L01P_MAX_RF_FREQUENCY - hdr.NRF24L01P_MIN_RF_FREQUENCY ≤ 127) :
    ((setRfFrequency hdr f >>= fun _ => getRfFrequency hdr) s).value = some f := by
  have h1 : ¬ (f < hdr.NRF24L01P_MIN_RF_FREQUENCY ∨ f > hdr.NRF24L01P_MAX_RF_FREQUENCY) := by omega
  have h0 : (f - hdr.NRF24L01P_MIN_RF_FREQUENCY).toNat < 128 := by omega
  have h2 : (f - hdr.NRF24L01P_MIN_RF_FREQUENCY).toNat &&& 0x7F
      = (f - hdr.NRF24L01P_MIN_RF_FREQUENCY).toNat := by
    have : (0x7F : Nat) = 2 ^ 7 - 1 := by norm_num
    rw [this, Nat.and_pow_two_sub_one_eq_mod]
    exact Nat.mod_eq_of_lt h0
  have h3 : (f - hdr.NRF24L01P_MIN_RF_FREQUENCY).toNat % 256
      = (f - hdr.NRF24L01P_MIN_RF_FREQUENCY).toNat := Nat.mod_eq_of_lt (by omega)
  simp [setRfFrequency, getRfFrequency, M.bind_apply, M.pure_apply, h1, setRegister_eq,
    getRegister_eq, hcs, h2, h3, storeByte_same, Res.value]
  omega

/-- C1 at 2476 MHz (channel 76) under the upstream header. -/
theorem setRfFrequency_getRfFrequency_witness :
    ((setRfFrequency upstreamHeader 2476 >>= fun _ => getRfFrequency upstreamHeader)
      (freshDriver 0 0)).value = some 2476 :=
  setRfFrequency_getRfFrequency upstreamHeader (freshDriver 0 0) 2476 rfl (by decide) (by decide)
    (by decide)

/-! ## C2: power, data rate and CRC width round trips -/

set_option maxRecDepth 100000 in
theorem pwr_bits : ∀ x < 256,
    ((x &&& bnot32 _NRF24L01P_RF_SETUP_RF_PWR_MASK ||| _NRF24L01P_RF_SETUP_RF_PWR_0DBM) % 256
        &&& _NRF24L01P_RF_SETUP_RF_PWR_MASK = 6) ∧
    ((x &&& bnot32 _NRF24L01P_RF_SETUP_RF_PWR_MASK ||| _NRF24L01P_RF_SETUP_RF_PWR_MINUS_6DBM) % 256
        &&& _NRF24L01P_RF_SETUP_RF_PWR_MASK = 4) ∧
    ((x &&& bnot32 _NRF24L01P_RF_SETUP_RF_PWR_MASK ||| _NRF24L01P_RF_SETUP_RF_PWR_MINUS_12DBM) % 256
        &&& _NRF24L01P_RF_SETUP_RF_PWR_MASK = 2) ∧
    ((x &&& bnot32 _NRF24L01P_RF_SETUP_RF_PWR_MASK ||| _NRF24L01P_RF_SETUP_RF_PWR_MINUS_18DBM) % 256
        &&& _NRF24L01P_RF_SETUP_RF_PWR_MASK = 0) := by
  decide

set_option maxRecDepth 100000 in
theorem dr_bits : ∀ x < 256,
    ((x &&& bnot32 _NRF24L01P_RF_SETUP_RF_DR_MASK ||| _NRF24L01P_RF_SETUP_RF_DR_250KBPS) % 256
        &&& _NRF24L01P_RF_SETUP_RF_DR_MASK = 32) ∧
    ((x &&& bnot32 _NRF24L01P_RF_SETUP_RF_DR_MASK ||| _NRF24L01P_RF_SETUP_RF_DR_1MBPS) % 256
        &&& _NRF24L01P_RF_SETUP_RF_DR_MASK = 0) ∧
    ((x &&& bnot32 _NRF24L01P_RF_SETUP_RF_DR_MASK ||| _NRF24L01P_RF_SETUP_RF_DR_2MBPS) % 256
        &&& _NRF24L01P_RF_SETUP_RF_DR_MASK = 8) := by
  decide

set_option maxRecDepth 100000 in
theorem crc_bits : ∀ x < 256,
    ((x &&& bnot32 _NRF24L01P_CONFIG_CRC_MASK ||| _NRF24L01P_CONFIG_CRC_NONE) % 256
        &&& _NRF24L01P_CONFIG_CRC_MASK = 0) ∧
    ((x &&& bnot32 _NRF24L01P_CONFIG_CRC_MASK ||| _NRF24L01P_CONFIG_CRC_8BIT) % 256
        &&& _NRF24L01P_CONFIG_CRC_MASK = 8) ∧
    ((x &&& bnot32 _NRF24L01P_CONFIG_CRC_MASK ||| _NRF24L01P_CONFIG_CRC_16BIT) % 256
        &&& _NRF24L01P_CONFIG_CRC_MASK = 12) := by
  decide

theorem setRfOutputPower_getRfOutputPower (hdr : Header) (hwf : hdr.WF) (s : Driver)
    (hcs : s.chip.csn = 1) (p : Int)
    (hp : p ∈ [hdr.NRF24L01P_TX_PWR_ZERO_DB, hdr.NRF24L01P_TX_PWR_MINUS_6_DB,
      hdr.NRF24L01P_TX_PWR_MINUS_12_DB, hdr.NRF24L01P_TX_PWR_MINUS_18_DB]) :
    ((setRfOutputPower hdr p >>= fun _ => getRfOutputPower hdr) s).value = some p := by
  obtain ⟨w1, w2, w3, w4, w5, w6, -⟩ := hwf
  obtain ⟨b1, b2, b3, b4⟩ := pwr_bits (s.chip.mem (_NRF24L01P_REG_RF_SETUP &&& 0x1F) 0 % 256)
    (Nat.mod_lt _ (by decide))
  simp only [List.mem_cons, List.mem_singleton, List.not_mem_nil, or_false] at hp
  rcases hp with rfl | rfl | rfl | rfl
  · simp only [setRfOutputPower, getRfOutputPower, M.bind_apply, M.pure_apply, getRegister_eq,
      setRegister_eq, hcs, storeByte_same, if_true, Nat.mod_mod, b1, Res.value]
    simp [_NRF24L01P_RF_SETUP_RF_PWR_0DBM]
  · simp only [setRfOutputPower, getRfOutputPower, M.bind_apply, M.pure_apply, getRegister_eq,
      setRegister_eq, hcs, storeByte_same, if_true, w1.symm, if_false, Nat.mod_mod, b2, Res.value]
    simp [_NRF24L01P_RF_SETUP_RF_PWR_0DBM, _NRF24L01P_RF_SETUP_RF_PWR_MINUS_6DBM]
  · simp only [setRfOutputPower, getRfOutputPower, M.bind_apply, M.pure_apply, getRegister_eq,
      setRegister_eq, hcs, storeByte_same, if_true, w2.symm, w4.symm, if_false, Nat.mod_mod, b3,
      Res.value]
    simp [_NRF24L01P_RF_SETUP_RF_PWR_0DBM, _NRF24L01P_RF_SETUP_RF_PWR_MINUS_6DBM,
      _NRF24L01P_RF_SETUP_RF_PWR_MINUS_12DBM]
  · simp only [setRfOutputPower, getRfOutputPower, M.bind_apply, M.pure_apply, getRegister_eq,
      setRegister_eq, hcs, storeByte_same, if_true, w3.symm, w5.symm, w6.symm, if_false,
      Nat.mod_mod, b4, Res.value]
    simp [_NRF24L01P_RF_SETUP_RF_PWR_0DBM, _NRF24L01P_RF_SETUP_RF_PWR_MINUS_6DBM,
      _NRF24L01P_RF_SETUP_RF_PWR_MINUS_12DBM, _NRF24L01P_RF_SETUP_RF_PWR_MINUS_18DBM]

theorem setAirDataRate_getAirDataRate (hdr : Header) (hwf : hdr.WF) (s : Driver)
    (hcs : s.chip.csn = 1) (r : Int)
    (hr : r ∈ [hdr.NRF24L01P_DATARATE_250_KBPS, hdr.NRF24L01P_DATARATE_1_MBPS,
      hdr.NRF24L01P_DATARATE_2_MBPS]) :
    ((setAirDataRate hdr r >>= fun _ => getAirDataRate hdr) s).value = some r := by
  obtain ⟨-, -, -, -, -, -, w1, w2, w3, -⟩ := hwf
  obtain ⟨b1, b2, b3⟩ := dr_bits (s.chip.mem (_NRF24L01P_REG_RF_SETUP &&& 0x1F) 0 % 256)
    (Nat.mod_lt _ (by decide))
  simp only [List.mem_cons, List.mem_singleton, List.not_mem_nil, or_false] at hr
  rcases hr with rfl | rfl | rfl
  · simp only [setAirDataRate, getAirDataRate, M.bind_apply, M.pure_apply, getRegister_eq,
      setRegister_eq, hcs, storeByte_same, if_true, Nat.mod_mod, b1, Res.value]
    simp [_NRF24L01P_RF_SETUP_RF_DR_250KBPS, _NRF24L01P_RF_SETUP_RF_DR_LOW_BIT]
  · simp only [setAirDataRate, getAirDataRate, M.bind_apply, M.pure_apply, getRegister_eq,
      setRegister_eq, hcs, storeByte_same, if_true, w1.symm, if_false, Nat.mod_mod, b2, Res.value]
    simp [_NRF24L01P_RF_SETUP_RF_DR_250KBPS, _NRF24L01P_RF_SETUP_RF_DR_LOW_BIT,
      _NRF24L01P_RF_SETUP_RF_DR_1MBPS]
  · simp only [setAirDataRate, getAirDataRate, M.bind_apply, M.pure_apply, getRegister_eq,
      setRegister_eq, hcs, storeByte_same, if_true, w2.symm, w3.symm, if_false, Nat.mod_mod, b3,
      Res.value]
    simp [_NRF24L01P_RF_SETUP_RF_DR_250KBPS, _NRF24L01P_RF_SETUP_RF_DR_LOW_BIT,
      _NRF24L01P_RF_SETUP_RF_DR_1MBPS, _NRF24L01P_RF_SETUP_RF_DR_2MBPS,
      _NRF24L01P_RF_SETUP_RF_DR_HIGH_BIT]

theorem setCrcWidth_getCrcWidth (hdr : Header) (hwf : hdr.WF) (s : Driver)
    (hcs : s.chip.csn = 1) (w : Int)
    (hw : w ∈ [hdr.NRF24L01P_CRC_NONE, hdr.NRF24L01P_CRC_8_BIT, hdr.NRF24L01P_CRC_16_BIT]) :
    ((setCrcWidth hdr w >>= fun _ => getCrcWidth hdr) s).value = some w := by
  obtain ⟨-, -, -, -, -, -, -, -, -, w1, w2, w3⟩ := hwf
  obtain ⟨b1, b2, b3⟩ := crc_bits (s.chip.mem (_NRF24L01P_REG_CONFIG &&& 0x1F) 0 % 256)
    (Nat.mod_lt _ (by decide))
  simp only [List.mem_cons, List.mem_singleton, List.not_mem_nil, or_false] at hw
  rcases hw with rfl | rfl | rfl
  · simp only [setCrcWidth, getCrcWidth, M.bind_apply, M.pure_apply, getRegister_eq,
      setRegister_eq, hcs, storeByte_same, if_true, Nat.mod_mod, b1, Res.value]
    simp [_NRF24L01P_CONFIG_CRC_NONE]
  · simp only [setCrcWidth, getCrcWidth, M.bind_apply, M.pure_apply, getRegister_eq,
      setRegister_eq, hcs, storeByte_same, if_true, w1.symm, if_false, Nat.mod_mod, b2, Res.value]
    simp [_NRF24L01P_CONFIG_CRC_NONE, _NRF24L01P_CONFIG_CRC_8BIT, _NRF24L01P_CONFIG_EN_CRC]
  · simp only [setCrcWidth, getCrcWidth, M.bind_apply, M.pure_apply, getRegister_eq,
      setRegister_eq, hcs, storeByte_same, if_true, w2.symm, w3.symm, if_false, Nat.mod_mod, b3,
      Res.value]
    simp [_NRF24L01P_CONFIG_CRC_NONE, _NRF24L01P_CONFIG_CRC_8BIT, _NRF24L01P_CONFIG_EN_CRC,
      _NRF24L01P_CONFIG_CRC_16BIT, _NRF24L01P_CONFIG_CRC0]

/-- C2: for each of the four power levels, the three data rates and the three
CRC widths, the setter followed by the getter returns the value set, whatever
the RF-setup and configuration registers held before. -/
theorem field_set_get_roundtrip (hdr : Header) (hwf : hdr.WF) (s : Driver)
    (hcs : s.chip.csn = 1) :
    (∀ p ∈ [hdr.NRF24L01P_TX_PWR_ZERO_DB, hdr.NRF24L01P_TX_PWR_MINUS_6_DB,
        hdr.NRF24L01P_TX_PWR_MINUS_12_DB, hdr.NRF24L01P_TX_PWR_MINUS_18_DB],
      ((setRfOutputPower hdr p >>= fun _ => getRfOutputPower hdr) s).value = some p) ∧
    (∀ r ∈ [hdr.NRF24L01P_DATARATE_250_KBPS, hdr.NRF24L01P_DATARATE_1_MBPS,
        hdr.NRF24L01P_DATARATE_2_MBPS],
      ((setAirDataRate hdr r >>= fun _ => getAirDataRate hdr) s).value = some r) ∧
    (∀ w ∈ [hdr.NRF24L01P_CRC_NONE, hdr.NRF24L01P_CRC_8_BIT, hdr.NRF24L01P_CRC_16_BIT],
      ((setCrcWidth hdr w >>= fun _ => getCrcWidth hdr) s).value = some w) :=
  ⟨fun p hp => setRfOutputPower_getRfOutputPower hdr hwf s hcs p hp,
   fun r hr => setAirDataRate_getAirDataRate hdr hwf s hcs r hr,
   fun w hw => setCrcWidth_getCrcWidth hdr hwf s hcs w hw⟩

theorem upstreamHeader_WF : upstreamHeader.WF := by
  simp [Header.WF, upstreamHeader]

/-- C2 under the upstream header, on a chip whose registers are all ones. -/
theorem field_set_get_roundtrip_witness :
    (∀ p ∈ [(0 : Int), -6, -12, -18],
      ((setRfOutputPower upstreamHeader p >>= fun _ => getRfOutputPower upstreamHeader)
        busyDriver).value = some p) ∧
    (∀ r ∈ [(250 : Int), 1000, 2000],
      ((setAirDataRate upstreamHeader r >>= fun _ => getAirDataRate upstreamHeader)
        busyDriver).value = some r) ∧
    (∀ w ∈ [(0 : Int), 8, 16],
      ((setCrcWidth upstreamHeader w >>= fun _ => getCrcWidth upstreamHeader)
        busyDriver).value = some w) :=
  field_set_get_roundtrip upstreamHeader upstreamHeader_WF busyDriver rfl

/-! ## C3: invalid arguments are rejected without a register write -/

theorem commands_read_frame (r a b : Nat) :
    commands [.cs 0, .spi r a, .spi 0xff b, .cs 1] = [r] := by
  simp [commands, frames, framesFrom]

theorem setRfOutputPower_invalid (hdr : Header) (s : Driver) (hcs : s.chip.csn = 1) (p : Int)
    (hp : p ∉ [hdr.NRF24L01P_TX_PWR_ZERO_DB, hdr.NRF24L01P_TX_PWR_MINUS_6_DB,
      hdr.NRF24L01P_TX_PWR_MINUS_12_DB, hdr.NRF24L01P_TX_PWR_MINUS_18_DB]) :
    (setRfOutputPower hdr p s).rejectedFrom s := by
  simp only [List.mem_cons, List.mem_singleton, List.not_mem_nil, or_false, not_or] at hp
  obtain ⟨h1, h2, h3, h4⟩ := hp
  simp only [Res.rejectedFrom, setRfOutputPower, M.bind_apply, getRegister_eq, hcs, h1, h2, h3,
    h4, if_false, error, Res.fault, Res.state, true_and]
  refine ⟨_, rfl, ?_⟩
  rw [commands_read_frame]
  simp [_NRF24L01P_REG_RF_SETUP, _NRF24L01P_SPI_CMD_WR_REG]

theorem setAirDataRate_invalid (hdr : Header) (s : Driver) (hcs : s.chip.csn = 1) (r : Int)
    (hr : r ∉ [hdr.NRF24L01P_DATARATE_250_KBPS, hdr.NRF24L01P_DATARATE_1_MBPS,
      hdr.NRF24L01P_DATARATE_2_MBPS]) :
    (setAirDataRate hdr r s).rejectedFrom s := by
  simp only [List.mem_cons, List.mem_singleton, List.not_mem_nil, or_false, not_or] at hr
  obtain ⟨h1, h2, h3⟩ := hr
  simp only [Res.rejectedFrom, setAirDataRate, M.bind_apply, getRegister_eq, hcs, h1, h2, h3,
    if_false, error, Res.fault, Res.state, true_and]
  refine ⟨_, rfl, ?_⟩
  rw [commands_read_frame]
  simp [_NRF24L01P_REG_RF_SETUP, _NRF24L01P_SPI_CMD_WR_REG]

theorem setCrcWidth_invalid (hdr : Header) (s : Driver) (hcs : s.chip.csn = 1) (w : Int)
    (hw : w ∉ [hdr.NRF24L01P_CRC_NONE, hdr.NRF24L01P_CRC_8_BIT, hdr.NRF24L01P_CRC_16_BIT]) :
    (setCrcWidth hdr w s).rejectedFrom s := by
  simp only [List.mem_cons, List.mem_singleton, List.not_mem_nil, or_false, not_or] at hw
  obtain ⟨h1, h2, h3⟩ := hw
  simp only [Res.rejectedFrom, setCrcWidth, M.bind_apply, getRegister_eq, hcs, h1, h2, h3,
    if_false, error, Res.fault, Res.state, true_and]
  refine ⟨_, rfl, ?_⟩
  rw [commands_read_frame]
  simp [_NRF24L01P_REG_CONFIG, _NRF24L01P_SPI_CMD_WR_REG]

theorem setRfFrequency_invalid (hdr : Header) (s : Driver) (f : Int)
    (hf : f < hdr.NRF24L01P_MIN_RF_FREQUENCY ∨ hdr.NRF24L01P_MAX_RF_FREQUENCY < f) :
    setRfFrequency hdr f s = .halt .invalidArgument s := by
  have hf2 : f < hdr.NRF24L01P_MIN_RF_FREQUENCY ∨ f > hdr.NRF24L01P_MAX_RF_FREQUENCY := hf
  simp only [setRfFrequency, hf2, if_true, error]

/-- C3: a power outside the four levels, a data rate outside the three rates,
a CRC width outside the three widths, and a frequency outside the range are
each rejected with the invalid-argument error and without a register write:
the chip registers, the mode and the chip-enable level stay as they were. -/
theorem invalid_setting_rejected (hdr : Header) (s : Driver) (hcs : s.chip.csn = 1) :
    (∀ p, p ∉ [hdr.NRF24L01P_TX_PWR_ZERO_DB, hdr.NRF24L01P_TX_PWR_MINUS_6_DB,
        hdr.NRF24L01P_TX_PWR_MINUS_12_DB, hdr.NRF24L01P_TX_PWR_MINUS_18_DB] →
      (setRfOutputPower hdr p s).rejectedFrom s) ∧
    (∀ r, r ∉ [hdr.NRF24L01P_DATARATE_250_KBPS, hdr.NRF24L01P_DATARATE_1_MBPS,
        hdr.NRF24L01P_DATARATE_2_MBPS] →
      (setAirDataRate hdr r s).rejectedFrom s) ∧
    (∀ w, w ∉ [hdr.NRF24L01P_CRC_NONE, hdr.NRF24L01P_CRC_8_BIT, hdr.NRF24L01P_CRC_16_BIT] →
      (setCrcWidth hdr w s).rejectedFrom s) ∧
    (∀ f, f < hdr.NRF24L01P_MIN_RF_FREQUENCY ∨ hdr.NRF24L01P_MAX_RF_FREQUENCY < f →
      (setRfFrequency hdr f s).rejectedFrom s) := by
  refine ⟨fun p hp => setRfOutputPower_invalid hdr s hcs p hp,
    fun r hr => setAirDataRate_invalid hdr s hcs r hr,
    fun w hw => setCrcWidth_invalid hdr s hcs w hw, fun f hf => ?_⟩
  rw [setRfFrequency_invalid hdr s f hf]
  exact ⟨rfl, rfl, rfl, rfl, [], by simp [Res.state], by simp [commands, frames, framesFrom]⟩

/-- C3 under the upstream header in receive mode with chip-enable high: power
-3, data rate 500, CRC width 4 and frequency 2526 are rejected. -/
theorem invalid_setting_rejected_witness :
    (setRfOutputPower upstreamHeader (-3) busyDriver).rejectedFrom busyDriver ∧
    (setAirDataRate upstreamHeader 500 busyDriver).rejectedFrom busyDriver ∧
    (setCrcWidth upstreamHeader 4 busyDriver).rejectedFrom busyDriver ∧
    (setRfFrequency upstreamHeader 2526 busyDriver).rejectedFrom busyDriver :=
  ⟨(invalid_setting_rejected upstreamHeader busyDriver rfl).1 (-3) (by decide),
   (invalid_setting_rejected upstreamHeader busyDriver rfl).2.1 500 (by decide),
   (invalid_setting_rejected upstreamHeader busyDriver rfl).2.2.1 4 (by decide),
   (invalid_setting_rejected upstreamHeader busyDriver rfl).2.2.2 2526 (by decide)⟩

/-! ## C8: power-down, then a mode request -/

set_option maxRecDepth 100000 in
theorem config_bits : ∀ x < 256,
    ((((x &&& bnot32 _NRF24L01P_CONFIG_PWR_UP) % 256 ||| _NRF24L01P_CONFIG_PWR_UP) % 256
        ||| _NRF24L01P_CONFIG_PRIM_RX) % 256 &&& _NRF24L01P_CONFIG_PWR_UP ≠ 0) ∧
    ((((x &&& bnot32 _NRF24L01P_CONFIG_PWR_UP) % 256 ||| _NRF24L01P_CONFIG_PWR_UP) % 256
        ||| _NRF24L01P_CONFIG_PRIM_RX) % 256 &&& _NRF24L01P_CONFIG_PRIM_RX ≠ 0) ∧
    ((((x &&& bnot32 _NRF24L01P_CONFIG_PWR_UP) % 256 ||| _NRF24L01P_CONFIG_PWR_UP) % 256
        &&& bnot32 _NRF24L01P_CONFIG_PRIM_RX) % 256 &&& _NRF24L01P_CONFIG_PWR_UP ≠ 0) ∧
    ((((x &&& bnot32 _NRF24L01P_CONFIG_PWR_UP) % 256 ||| _NRF24L01P_CONFIG_PWR_UP) % 256
        &&& bnot32 _NRF24L01P_CONFIG_PRIM_RX) % 256 &&& _NRF24L01P_CONFIG_PRIM_RX = 0) := by
  decide

theorem reg_config_and : _NRF24L01P_REG_CONFIG &&& 0x1F = _NRF24L01P_REG_CONFIG := by decide

/-- C8: from every driver state with the bus idle, `powerDown()` followed by
`setReceiveMode()` returns with mode Rx and the power-enable and
primary-receiver bits of the configuration register set; `powerDown()`
followed by `setTransmitMode()` returns with mode Tx, power-enable set and
primary-receiver clear. -/
theorem powerDown_then_mode (s : Driver) (hcs : s.chip.csn = 1) :
    (((powerDown >>= fun _ => setReceiveMode) s).value = some () ∧
      ((powerDown >>= fun _ => setReceiveMode) s).state.mode = _NRF24L01P_MODE_RX ∧
      ((powerDown >>= fun _ => setReceiveMode) s).state.chip.mem _NRF24L01P_REG_CONFIG 0
        &&& _NRF24L01P_CONFIG_PWR_UP ≠ 0 ∧
      ((powerDown >>= fun _ => setReceiveMode) s).state.chip.mem _NRF24L01P_REG_CONFIG 0
        &&& _NRF24L01P_CONFIG_PRIM_RX ≠ 0) ∧
    (((powerDown >>= fun _ => setTransmitMode) s).value = some () ∧
      ((powerDown >>= fun _ => setTransmitMode) s).state.mode = _NRF24L01P_MODE_TX ∧
      ((powerDown >>= fun _ => setTransmitMode) s).state.chip.mem _NRF24L01P_REG_CONFIG 0
        &&& _NRF24L01P_CONFIG_PWR_UP ≠ 0 ∧
      ((powerDown >>= fun _ => setTransmitMode) s).state.chip.mem _NRF24L01P_REG_CONFIG 0
        &&& _NRF24L01P_CONFIG_PRIM_RX = 0) := by
  obtain ⟨b1, b2, b3, b4⟩ := config_bits (s.chip.mem _NRF24L01P_REG_CONFIG 0 % 256)
    (Nat.mod_lt _ (by decide))
  simp only [powerDown, setReceiveMode, setTransmitMode, powerUp, M.bind_apply, M.pure_apply,
    getRegister_eq, setRegister_eq, hcs, storeByte_same, if_true, Nat.mod_mod, Res.value, wait_us,
    os_time_delay, update, readState, Res.state, reg_config_and, true_and]
  exact ⟨⟨b1, b2⟩, ⟨b3, b4⟩⟩

/-- C8 from receive mode with chip-enable high. -/
theorem powerDown_then_mode_witness :
    (((powerDown >>= fun _ => setReceiveMode) busyDriver).value = some () ∧
      ((powerDown >>= fun _ => setReceiveMode) busyDriver).state.mode = _NRF24L01P_MODE_RX ∧
      ((powerDown >>= fun _ => setReceiveMode) busyDriver).state.chip.mem _NRF24L01P_REG_CONFIG 0
        &&& _NRF24L01P_CONFIG_PWR_UP ≠ 0 ∧
      ((powerDown >>= fun _ => setReceiveMode) busyDriver).state.chip.mem _NRF24L01P_REG_CONFIG 0
        &&& _NRF24L01P_CONFIG_PRIM_RX ≠ 0) ∧
    (((powerDown >>= fun _ => setTransmitMode) busyDriver).value = some () ∧
      ((powerDown >>= fun _ => setTransmitMode) busyDriver).state.mode = _NRF24L01P_MODE_TX ∧
      ((powerDown >>= fun _ => setTransmitMode) busyDriver).state.chip.mem _NRF24L01P_REG_CONFIG 0
        &&& _NRF24L01P_CONFIG_PWR_UP ≠ 0 ∧
      ((powerDown >>= fun _ => setTransmitMode) busyDriver).state.chip.mem _NRF24L01P_REG_CONFIG 0
        &&& _NRF24L01P_CONFIG_PRIM_RX = 0) :=
  powerDown_then_mode busyDriver rfl

/-! ## The receive path: C5, C6, C7 -/

theorem exchange_command (c : Chip) (h0 : c.csn = 0) (hc : c.cmd = none) (v : Nat) :
    c.exchange v = (c.statusFeed c.clock % 256,
      { c with cmd := some v, idx := 0, clock := c.clock + 1 }) := by
  simp [Chip.exchange, h0, hc]

theorem exchange_rxPayload (c : Chip) (h0 : c.csn = 0)
    (hc : c.cmd = some _NRF24L01P_SPI_CMD_RD_RX_PAYLOAD) (v : Nat) :
    c.exchange v = (c.rxPayload c.idx % 256, { c with idx := c.idx + 1 }) := by
  have e1 : (97 &&& 224 : Nat) = 96 := by decide
  simp [Chip.exchange, h0, hc, _NRF24L01P_SPI_CMD_RD_RX_PAYLOAD, _NRF24L01P_SPI_CMD_RD_REG,
    _NRF24L01P_SPI_CMD_WR_REG, _NRF24L01P_SPI_CMD_R_RX_PL_WID, e1]

theorem readPayloadBytes_eq (n : Nat) : ∀ (i : Nat) (data : Nat → Nat) (s : Driver),
    s.chip.csn = 0 → s.chip.cmd = some _NRF24L01P_SPI_CMD_RD_RX_PAYLOAD →
    readPayloadBytes n i data s = .ok
      (fun j => if i ≤ j ∧ j < i + n then s.chip.rxPayload (s.chip.idx + (j - i)) % 256 else data j)
      { s with chip := { s.chip with idx := s.chip.idx + n },
               trace := s.trace ++ readEvents s.chip.rxPayload s.chip.idx n } := by
  induction n with
  | zero =>
    intro i data s _ _
    have hf : (fun j => if i ≤ j ∧ j < i + 0 then s.chip.rxPayload (s.chip.idx + (j - i)) % 256
        else data j) = data := by
      funext j
      rw [if_neg (by omega)]
    rw [hf]
    simp [readPayloadBytes, M.pure_apply, readEvents]
  | succ n ih =>
    intro i data s h0 hc
    simp only [readPayloadBytes, M.bind_apply, spiWrite_eq, exchange_rxPayload _ h0 hc]
    rw [ih _ _ _ (by exact h0) (by exact hc)]
    dsimp only
    congr 1
    · funext j
      by_cases hj : j = i
      · subst hj
        simp
      · rw [Function.update_noteq hj]
        by_cases h1 : i + 1 ≤ j ∧ j < i + 1 + n
        · rw [if_pos h1, if_pos (by omega)]
          congr 2
          omega
        · rw [if_neg h1, if_neg (by omega)]
    · simp [readEvents, _NRF24L01P_SPI_CMD_NOP, Nat.add_assoc, Nat.add_comm 1 n]

theorem pipe_and7 : ∀ k ≤ 5, k &&& 0x7 = k := by decide

theorem readable_eq (pipe : Int) (s : Driver) (hcs : s.chip.csn = 1) (h0 : 0 ≤ pipe)
    (h5 : pipe ≤ 5) :
    readable pipe s = .ok
      (decide (s.chip.statusFeed s.chip.clock % 256 &&& _NRF24L01P_STATUS_RX_DR ≠ 0) &&
        decide ((s.chip.statusFeed s.chip.clock % 256 &&& _NRF24L01P_STATUS_RX_P_NO) >>> 1
          = pipe.toNat))
      { s with chip := { s.chip with csn := 1, cmd := some 0xff, idx := 0, clock := s.chip.clock + 1 },
               trace := s.trace ++ [.cs 0, .spi 0xff (s.chip.statusFeed s.chip.clock % 256), .cs 1] } := by
  have hp : ¬ (pipe < NRF24L01P_PIPE_P0 ∨ pipe > NRF24L01P_PIPE_P5) := by
    simp only [NRF24L01P_PIPE_P0, NRF24L01P_PIPE_P5]
    omega
  have h7 : pipe.toNat &&& 0x7 = pipe.toNat := pipe_and7 _ (by omega)
  simp only [readable, hp, if_false, M.bind_apply, getStatusRegister_eq _ hcs, M.pure_apply, h7]

theorem exchange_width (c : Chip) (h0 : c.csn = 0) (hc : c.cmd = some 96) (v : Nat) :
    c.exchange v = (c.rxWidth % 256, { c with idx := c.idx + 1 }) := by
  have e1 : (96 &&& 224 : Nat) = 96 := by decide
  simp [Chip.exchange, h0, hc, _NRF24L01P_SPI_CMD_RD_REG, _NRF24L01P_SPI_CMD_WR_REG,
    _NRF24L01P_SPI_CMD_R_RX_PL_WID, e1]

theorem exchange_flush (c : Chip) (h0 : c.csn = 0) (hc : c.cmd = some 226) (v : Nat) :
    c.exchange v = (0, { c with idx := c.idx + 1 }) := by
  have e1 : (226 &&& 224 : Nat) = 224 := by decide
  simp [Chip.exchange, h0, hc, _NRF24L01P_SPI_CMD_RD_REG, _NRF24L01P_SPI_CMD_WR_REG,
    _NRF24L01P_SPI_CMD_R_RX_PL_WID, _NRF24L01P_SPI_CMD_RD_RX_PAYLOAD, e1]

theorem framesFrom_nil (cur : Option (List Nat)) : framesFrom cur [] = [] := by
  cases cur <;> rfl

theorem framesFrom_spi_some (f : List Nat) (tx rx : Nat) (es : List Event) :
    framesFrom (some f) (.spi tx rx :: es) = framesFrom (some (f ++ [tx])) es := rfl

theorem framesFrom_spi_none (tx rx : Nat) (es : List Event) :
    framesFrom none (.spi tx rx :: es) = framesFrom none es := rfl

theorem framesFrom_cs0_none (es : List Event) :
    framesFrom none (.cs 0 :: es) = framesFrom (some []) es := rfl

theorem framesFrom_cs1_some (f : List Nat) (es : List Event) :
    framesFrom (some f) (.cs 1 :: es) = f :: framesFrom none es := rfl

theorem framesFrom_cs1_none (es : List Event) :
    framesFrom none (.cs 1 :: es) = framesFrom none es := rfl

theorem framesFrom_ce (cur : Option (List Nat)) (v : Nat) (es : List Event) :
    framesFrom cur (.ce v :: es) = framesFrom cur es := by
  cases cur <;> rfl

theorem framesFrom_delay (cur : Option (List Nat)) (v : Nat) (es : List Event) :
    framesFrom cur (.delay v :: es) = framesFrom cur es := by
  cases cur <;> rfl

theorem framesFrom_readEvents (payload : Nat → Nat) (n : Nat) :
    ∀ (k : Nat) (f : List Nat) (rest : List Event),
      framesFrom (some f) (readEvents payload k n ++ rest)
        = framesFrom (some (f ++ List.replicate n 0xff)) rest := by
  induction n with
  | zero =>
    intro k f rest
    simp [readEvents]
  | succ n ih =>
    intro k f rest
    have e : readEvents payload k (n + 1) ++ rest
        = .spi 0xff (payload k % 256) :: (readEvents payload (k + 1) n ++ rest) := rfl
    rw [e, framesFrom_spi_some, ih, List.replicate_succ, List.append_assoc, List.singleton_append]

/-- C5: for a pipe index in 0..5, when the status byte does not show data
ready for that pipe (data-ready flag clear, or another pipe number), `read`
returns 0, leaves the buffer as it was, and puts nothing on the bus but the
status query: no payload read, no flush, no register write. -/
theorem read_not_ready (s : Driver) (hcs : s.chip.csn = 1) (pipe : Int) (h0 : 0 ≤ pipe)
    (h5 : pipe ≤ 5) (data : Nat → Nat) (count : Int)
    (hnr : s.chip.statusFeed s.chip.clock % 256 &&& _NRF24L01P_STATUS_RX_DR = 0 ∨
      (((s.chip.statusFeed s.chip.clock % 256 &&& _NRF24L01P_STATUS_RX_P_NO) >>> 1 : Nat) : Int)
        ≠ pipe) :
    (read pipe data count s).value = some (0, data) ∧
    ∃ ev, (read pipe data count s).state.trace = s.trace ++ ev ∧
      ∀ c ∈ commands ev, c ≠ _NRF24L01P_SPI_CMD_RD_RX_PAYLOAD ∧ c ≠ _NRF24L01P_SPI_CMD_FLUSH_RX ∧
        c ≠ _NRF24L01P_SPI_CMD_FLUSH_TX ∧ c &&& 0xE0 ≠ _NRF24L01P_SPI_CMD_WR_REG := by
  have hp : ¬ (pipe < NRF24L01P_PIPE_P0 ∨ pipe > NRF24L01P_PIPE_P5) := by
    simp only [NRF24L01P_PIPE_P0, NRF24L01P_PIPE_P5]
    omega
  by_cases hc : count ≤ 0
  · simp only [read, hp, hc, if_false, if_true, M.pure_apply, Res.value, Res.state, true_and]
    exact ⟨[], by simp, by simp [commands, frames, framesFrom]⟩
  · have hrdy : (decide (s.chip.statusFeed s.chip.clock % 256 &&& _NRF24L01P_STATUS_RX_DR ≠ 0) &&
        decide ((s.chip.statusFeed s.chip.clock % 256 &&& _NRF24L01P_STATUS_RX_P_NO) >>> 1
          = pipe.toNat)) = false := by
      rcases hnr with h | h
      · simp [h]
      · have : (s.chip.statusFeed s.chip.clock % 256 &&& _NRF24L01P_STATUS_RX_P_NO) >>> 1
            ≠ pipe.toNat := by omega
        simp [this]
    simp only [read, hp, hc, if_false, M.bind_apply, M.pure_apply, readable_eq pipe s hcs h0 h5,
      hrdy, Res.value, Res.state, true_and, Bool.false_eq_true]
    refine ⟨_, rfl, ?_⟩
    have e1 : (255 &&& 224 : Nat) = 224 := by decide
    simp [commands, frames, framesFrom, _NRF24L01P_SPI_CMD_RD_RX_PAYLOAD,
      _NRF24L01P_SPI_CMD_FLUSH_RX, _NRF24L01P_SPI_CMD_FLUSH_TX, _NRF24L01P_SPI_CMD_WR_REG, e1]

/-- C5 on pipe 1 with status `0x0E` (receive FIFO empty), count 8. -/
theorem read_not_ready_witness :
    (read 1 (fun _ => 0) 8 (freshDriver 0x0E 0)).value = some (0, fun _ => 0) ∧
    ∃ ev, (read 1 (fun _ => 0) 8 (freshDriver 0x0E 0)).state.trace
        = (freshDriver 0x0E 0).trace ++ ev ∧
      ∀ c ∈ commands ev, c ≠ _NRF24L01P_SPI_CMD_RD_RX_PAYLOAD ∧ c ≠ _NRF24L01P_SPI_CMD_FLUSH_RX ∧
        c ≠ _NRF24L01P_SPI_CMD_FLUSH_TX ∧ c &&& 0xE0 ≠ _NRF24L01P_SPI_CMD_WR_REG :=
  read_not_ready (freshDriver 0x0E 0) rfl 1 (by decide) (by decide) (fun _ => 0) 8
    (Or.inl (by decide))

/-- C7: for a pipe in 0..5 and a positive count, when the status byte shows
data ready on that pipe and the width query reports more than 32, `read`
returns -1 without halting, leaves the buffer as it was, and its frames are
the status query, the width query and one flush of the receive FIFO, with no
payload read. -/
theorem read_bad_width (s : Driver) (hcs : s.chip.csn = 1) (pipe : Int) (h0 : 0 ≤ pipe)
    (h5 : pipe ≤ 5) (data : Nat → Nat) (count : Int) (hn : 0 < count)
    (hdr : s.chip.statusFeed s.chip.clock % 256 &&& _NRF24L01P_STATUS_RX_DR ≠ 0)
    (hpn : (((s.chip.statusFeed s.chip.clock % 256 &&& _NRF24L01P_STATUS_RX_P_NO) >>> 1 : Nat) : Int)
      = pipe)
    (hw : 32 < s.chip.rxWidth % 256) :
    (read pipe data count s).value = some (-1, data) ∧
    ∃ ev, (read pipe data count s).state.trace = s.trace ++ ev ∧
      commands ev = [_NRF24L01P_SPI_CMD_NOP, _NRF24L01P_SPI_CMD_R_RX_PL_WID,
        _NRF24L01P_SPI_CMD_FLUSH_RX] ∧
      (commands ev).count _NRF24L01P_SPI_CMD_FLUSH_RX = 1 ∧
      _NRF24L01P_SPI_CMD_RD_RX_PAYLOAD ∉ commands ev := by
  have hp : ¬ (pipe < NRF24L01P_PIPE_P0 ∨ pipe > NRF24L01P_PIPE_P5) := by
    simp only [NRF24L01P_PIPE_P0, NRF24L01P_PIPE_P5]
    omega
  have hc : ¬ count ≤ 0 := by omega
  have hpn2 : (s.chip.statusFeed s.chip.clock % 256 &&& _NRF24L01P_STATUS_RX_P_NO) >>> 1
      = pipe.toNat := by omega
  have hrdy : (decide (s.chip.statusFeed s.chip.clock % 256 &&& _NRF24L01P_STATUS_RX_DR ≠ 0) &&
      decide ((s.chip.statusFeed s.chip.clock % 256 &&& _NRF24L01P_STATUS_RX_P_NO) >>> 1
        = pipe.toNat)) = true := by
    simp [hdr, hpn2]
  have hw2 : ((s.chip.rxWidth % 256 : Nat) : Int) < 0 ∨
      ((s.chip.rxWidth % 256 : Nat) : Int) > (_NRF24L01P_RX_FIFO_SIZE : Int) := by
    simp only [_NRF24L01P_RX_FIFO_SIZE]
    omega
  simp only [read, hp, hc, if_false, M.bind_apply, M.pure_apply, readable_eq pipe s hcs h0 h5, hrdy,
    if_true, select, deselect, hal_gpio_write, spiWrite_eq, Chip.setCsn,
    _NRF24L01P_SPI_CMD_R_RX_PL_WID, _NRF24L01P_SPI_CMD_NOP, _NRF24L01P_SPI_CMD_FLUSH_RX,
    Nat.reduceMod, exchange_command, exchange_width, exchange_flush, hw2,
    one_ne_zero, zero_ne_one, Res.value, Res.state, true_and, List.append_assoc]
  refine ⟨_, rfl, ?_⟩
  simp [commands, frames, framesFrom, _NRF24L01P_SPI_CMD_RD_RX_PAYLOAD]

/-- C7 on pipe 1 with status `0x42` and reported width 40. -/
theorem read_bad_width_witness :
    (read 1 (fun _ => 0) 8 (freshDriver 0x42 40)).value = some (-1, fun _ => 0) ∧
    ∃ ev, (read 1 (fun _ => 0) 8 (freshDriver 0x42 40)).state.trace
        = (freshDriver 0x42 40).trace ++ ev ∧
      commands ev = [_NRF24L01P_SPI_CMD_NOP, _NRF24L01P_SPI_CMD_R_RX_PL_WID,
        _NRF24L01P_SPI_CMD_FLUSH_RX] ∧
      (commands ev).count _NRF24L01P_SPI_CMD_FLUSH_RX = 1 ∧
      _NRF24L01P_SPI_CMD_RD_RX_PAYLOAD ∉ commands ev :=
  read_bad_width (freshDriver 0x42 40) rfl 1 (by decide) (by decide) (fun _ => 0) 8 (by decide)
    (by decide) (by decide) (by decide)

theorem reg_status_and : _NRF24L01P_REG_STATUS &&& 0x1F = 7 := by decide

/-- C6: for a pipe in 0..5 and a positive count, when the status byte shows
data ready on that pipe and the width query reports `w <= 32`, `read` returns
`k = min(count, 32, w)`, stores the first `k` payload bytes in order in
`data[0..k)` and leaves the rest of the buffer as it was; its frames are the
status query, the width query, the payload read of `k` bytes, and the write
of the data-ready flag bit to the status register. -/
theorem read_ready (s : Driver) (hcs : s.chip.csn = 1) (pipe : Int) (h0 : 0 ≤ pipe)
    (h5 : pipe ≤ 5) (data : Nat → Nat) (count : Int) (hn : 0 < count)
    (hdr : s.chip.statusFeed s.chip.clock % 256 &&& _NRF24L01P_STATUS_RX_DR ≠ 0)
    (hpn : (((s.chip.statusFeed s.chip.clock % 256 &&& _NRF24L01P_STATUS_RX_P_NO) >>> 1 : Nat) : Int)
      = pipe)
    (hw : s.chip.rxWidth % 256 ≤ 32) :
    (read pipe data count s).value
      = some (min count (min 32 ((s.chip.rxWidth % 256 : Nat) : Int)),
          fun j => if j < (min count (min 32 ((s.chip.rxWidth % 256 : Nat) : Int))).toNat
            then s.chip.rxPayload j % 256 else data j) ∧
    ∃ ev, (read pipe data count s).state.trace = s.trace ++ ev ∧
      frames ev = [[_NRF24L01P_SPI_CMD_NOP],
        [_NRF24L01P_SPI_CMD_R_RX_PL_WID, _NRF24L01P_SPI_CMD_NOP],
        _NRF24L01P_SPI_CMD_RD_RX_PAYLOAD ::
          List.replicate (min count (min 32 ((s.chip.rxWidth % 256 : Nat) : Int))).toNat
            _NRF24L01P_SPI_CMD_NOP,
        [_NRF24L01P_SPI_CMD_WR_REG ||| _NRF24L01P_REG_STATUS, _NRF24L01P_STATUS_RX_DR]] := by
  have hp : ¬ (pipe < NRF24L01P_PIPE_P0 ∨ pipe > NRF24L01P_PIPE_P5) := by
    simp only [NRF24L01P_PIPE_P0, NRF24L01P_PIPE_P5]
    omega
  have hc : ¬ count ≤ 0 := by omega
  have hpn2 : (s.chip.statusFeed s.chip.clock % 256 &&& _NRF24L01P_STATUS_RX_P_NO) >>> 1
      = pipe.toNat := by omega
  have hrdy : (decide (s.chip.statusFeed s.chip.clock % 256 &&& _NRF24L01P_STATUS_RX_DR ≠ 0) &&
      decide ((s.chip.statusFeed s.chip.clock % 256 &&& _NRF24L01P_STATUS_RX_P_NO) >>> 1
        = pipe.toNat)) = true := by
    simp [hdr, hpn2]
  have hw2 : ¬ (((s.chip.rxWidth % 256 : Nat) : Int) < 0 ∨
      ((s.chip.rxWidth % 256 : Nat) : Int) > (_NRF24L01P_RX_FIFO_SIZE : Int)) := by
    simp only [_NRF24L01P_RX_FIFO_SIZE]
    omega
  have hk : (if ((s.chip.rxWidth % 256 : Nat) : Int) <
        (if count > (_NRF24L01P_RX_FIFO_SIZE : Int) then (_NRF24L01P_RX_FIFO_SIZE : Int) else count)
      then ((s.chip.rxWidth % 256 : Nat) : Int)
      else (if count > (_NRF24L01P_RX_FIFO_SIZE : Int) then (_NRF24L01P_RX_FIFO_SIZE : Int)
        else count)) = min count (min 32 ((s.chip.rxWidth % 256 : Nat) : Int)) := by
    simp only [_NRF24L01P_RX_FIFO_SIZE]
    split_ifs <;> omega
  simp only [read, hp, hc, if_false, M.bind_apply, M.pure_apply, readable_eq pipe s hcs h0 h5, hrdy,
    if_true, select, deselect, hal_gpio_write, spiWrite_eq, Chip.setCsn,
    _NRF24L01P_SPI_CMD_R_RX_PL_WID, _NRF24L01P_SPI_CMD_NOP, _NRF24L01P_SPI_CMD_RD_RX_PAYLOAD,
    Nat.reduceMod, exchange_command, exchange_width, exchange_rxPayload, hw2,
    readPayloadBytes_eq, setRegister_eq, one_ne_zero, zero_ne_one, hk, Res.value, Res.state,
    List.append_assoc, reg_status_and]
  refine ⟨?_, _, rfl, ?_⟩
  · simp
  · by_cases hce : s.ce_value = 0 <;>
    simp [frames, framesFrom_cs0_none, framesFrom_cs1_some, framesFrom_spi_some,
      framesFrom_readEvents, framesFrom_ce, framesFrom_delay, framesFrom_nil, hce,
      _NRF24L01P_SPI_CMD_WR_REG, _NRF24L01P_REG_STATUS, _NRF24L01P_STATUS_RX_DR]

/-- C6 in the scenario of the spec: status `0x42` (data ready on pipe 1),
width 8, payload 1, ..., 8: `readablePipe()` returns 1 and `read(1, buf, 8)`
returns 8 with `buf = {1, ..., 8}`. -/
theorem read_ready_witness :
    (readablePipe (freshDriver 0x42 8)).value = some 1 ∧
    (read 1 (fun _ => 0) 8 (freshDriver 0x42 8)).value.map
      (fun r => (r.1, (List.range 10).map r.2)) = some (8, [1, 2, 3, 4, 5, 6, 7, 8, 0, 0]) := by
  refine ⟨by decide, ?_⟩
  rw [(read_ready (freshDriver 0x42 8) rfl 1 (by decide) (by decide) (fun _ => 0) 8 (by decide)
    (by decide) (by decide) (by decide)).1]
  decide

/-! ## Addresses: C9, C10 -/

theorem select_eq (s : Driver) (h : s.chip.csn = 1) :
    select s = .ok () { s with chip := { s.chip with csn := 0, cmd := none, idx := 0 },
                               trace := s.trace ++ [.cs 0] } := by
  simp [select, hal_gpio_write, Chip.setCsn, h]

theorem deselect_eq (s : Driver) :
    deselect s = .ok () { s with chip := { s.chip with csn := 1 }, trace := s.trace ++ [.cs 1] } := by
  simp [deselect, hal_gpio_write, Chip.setCsn]

theorem exchange_wreg (c : Chip) (r : Nat) (h0 : c.csn = 0)
    (hc : c.cmd = some (32 ||| r &&& 31)) (v : Nat) :
    c.exchange v = (0, { c with mem := storeByte c.mem (r &&& 31) c.idx (v % 256),
                                idx := c.idx + 1 }) := by
  obtain ⟨-, -, -, -, h5, h6⟩ := cmd_facts _ (and31_lt r)
  simp [Chip.exchange, h0, hc, _NRF24L01P_SPI_CMD_RD_REG, _NRF24L01P_SPI_CMD_WR_REG, h5, h6]

theorem exchange_rreg (c : Chip) (r : Nat) (h0 : c.csn = 0)
    (hc : c.cmd = some (r &&& 31)) (v : Nat) :
    c.exchange v = (c.mem (r &&& 31) c.idx % 256, { c with idx := c.idx + 1 }) := by
  obtain ⟨-, h2, h3, -, -, -⟩ := cmd_facts _ (and31_lt r)
  simp [Chip.exchange, h0, hc, _NRF24L01P_SPI_CMD_RD_REG, h2, h3]

theorem wr_cmd_mod (r : Nat) : (32 ||| r &&& 31) % 256 = 32 ||| r &&& 31 :=
  (cmd_facts _ (and31_lt r)).2.2.2.1

theorem rd_cmd_mod (r : Nat) : (r &&& 31) % 256 = r &&& 31 :=
  (cmd_facts _ (and31_lt r)).1

theorem writeAddressBytes_eq (r n : Nat) : ∀ (address : Nat) (s : Driver),
    s.chip.csn = 0 → s.chip.cmd = some (32 ||| r &&& 31) →
    writeAddressBytes n address s = .ok ()
      { s with chip := { s.chip with mem := storeBytes (r &&& 31) s.chip.mem s.chip.idx address n,
                                     idx := s.chip.idx + n },
               trace := s.trace ++ addressEvents address n } := by
  induction n with
  | zero =>
    intro address s _ _
    simp [writeAddressBytes, M.pure_apply, addressEvents, storeBytes]
  | succ n ih =>
    intro address s h0 hc
    simp only [writeAddressBytes, M.bind_apply, spiWrite_eq, exchange_wreg _ r h0 hc]
    rw [ih _ _ (by exact h0) (by exact hc)]
    simp [addressEvents, storeBytes, Nat.add_assoc, Nat.add_comm 1 n]

theorem readAddressBytes_eq (r n : Nat) : ∀ (i address : Nat) (s : Driver),
    s.chip.csn = 0 → s.chip.cmd = some (r &&& 31) →
    readAddressBytes n i address s = .ok
      (assembleBytes s.chip.mem (r &&& 31) n s.chip.idx i address)
      { s with chip := { s.chip with idx := s.chip.idx + n },
               trace := s.trace ++ registerEvents s.chip.mem (r &&& 31) s.chip.idx n } := by
  induction n with
  | zero =>
    intro i address s _ _
    simp [readAddressBytes, M.pure_apply, registerEvents, assembleBytes]
  | succ n ih =>
    intro i address s h0 hc
    simp only [readAddressBytes, M.bind_apply, spiWrite_eq, exchange_rreg _ r h0 hc]
    rw [ih _ _ _ (by exact h0) (by exact hc)]
    simp [registerEvents, assembleBytes, _NRF24L01P_SPI_CMD_NOP, Nat.add_assoc, Nat.add_comm 1 n]

theorem storeBytes_other (r r2 : Nat) (h : r2 ≠ r) (n : Nat) :
    ∀ (mem : Nat → Nat → Nat) (i a j : Nat), storeBytes r mem i a n r2 j = mem r2 j := by
  induction n with
  | zero =>
    intro mem i a j
    rfl
  | succ n ih =>
    intro mem i a j
    rw [storeBytes, ih, storeByte_other _ _ _ _ _ _ (by simp [h])]

theorem storeBytes_same (r n : Nat) :
    ∀ (mem : Nat → Nat → Nat) (i a j : Nat),
      storeBytes r mem i a n r j
        = if i ≤ j ∧ j < i + n then (a >>> (8 * (j - i))) % 256 else mem r j := by
  induction n with
  | zero =>
    intro mem i a j
    rw [storeBytes, if_neg (by omega)]
  | succ n ih =>
    intro mem i a j
    rw [storeBytes, ih]
    by_cases hj : j = i
    · subst hj
      rw [if_neg (by omega), if_pos (by omega), storeByte_same, and255, Nat.mod_mod]
      simp
    · rw [storeByte_other _ _ _ _ _ _ (by simp [hj])]
      by_cases h1 : i + 1 ≤ j ∧ j < i + 1 + n
      · rw [if_pos h1, if_pos (by omega), ← Nat.shiftRight_add]
        congr 2
        omega
      · rw [if_neg h1, if_neg (by omega)]

theorem or_shiftLeft_eq_add (x y i : Nat) (hx : x < 2 ^ i) : x ||| (y <<< i) = x + 2 ^ i * y := by
  rw [Nat.shiftLeft_eq, Nat.or_comm, Nat.mul_comm y, ← Nat.mul_add_lt_is_or hx, Nat.add_comm]

theorem assembleBytes_value (mem : Nat → Nat → Nat) (r a n : Nat) :
    ∀ k, (∀ j, k ≤ j → j < k + n → mem r j = (a >>> (8 * j)) % 256) →
      assembleBytes mem r n k k (a % 2 ^ (8 * k)) = a % 2 ^ (8 * (k + n)) := by
  induction n with
  | zero =>
    intro k _
    rfl
  | succ n ih =>
    intro k h
    have hk := h k (Nat.le_refl k) (by omega)
    have step : (a % 2 ^ (8 * k)) ||| ((mem r k % 256 &&& 0xFF) <<< (k * 8))
        = a % 2 ^ (8 * (k + 1)) := by
      rw [hk, Nat.mod_mod, and255, Nat.mod_mod, Nat.mul_comm k 8,
        or_shiftLeft_eq_add _ _ _ (Nat.mod_lt _ (Nat.two_pow_pos _)), Nat.shiftRight_eq_div_pow,
        Nat.mul_add, Nat.pow_add, Nat.mod_mul]
    rw [assembleBytes, step, ih (k + 1) (fun j h1 h2 => h j (by omega) (by omega))]
    congr 2
    omega

theorem assembleBytes_zero (mem : Nat → Nat → Nat) (r a n : Nat)
    (h : ∀ j, j < n → mem r j = (a >>> (8 * j)) % 256) :
    assembleBytes mem r n 0 0 0 = a % 2 ^ (8 * n) := by
  have h2 := assembleBytes_value mem r a n 0 (fun j _ hj => h j (by omega))
  have e0 : a % 2 ^ (8 * 0) = 0 := by simp [Nat.mod_one]
  rw [e0, Nat.zero_add] at h2
  exact h2

theorem framesFrom_addressEvents (n : Nat) :
    ∀ (a : Nat) (f : List Nat) (rest : List Event),
      framesFrom (some f) (addressEvents a n ++ rest)
        = framesFrom (some (f ++ addressBytes a n)) rest := by
  induction n with
  | zero =>
    intro a f rest
    simp [addressEvents, addressBytes]
  | succ n ih =>
    intro a f rest
    have e : addressEvents a (n + 1) ++ rest
        = .spi ((a &&& 0xFF) % 256) 0 :: (addressEvents (a >>> 8) n ++ rest) := rfl
    have e2 : addressBytes a (n + 1) = (a &&& 0xFF) % 256 :: addressBytes (a >>> 8) n := by
      simp only [addressBytes, List.range_succ_eq_map, List.map_cons, List.map_map]
      congr 1
      · simp [and255]
      · apply List.map_congr_left
        intro i _
        simp only [Function.comp, Nat.succ_eq_add_one, Nat.mul_add, Nat.mul_one]
        rw [Nat.add_comm, Nat.shiftRight_add]
    rw [e, framesFrom_spi_some, ih, e2, List.append_assoc, List.singleton_append]

set_option maxRecDepth 100000 in
theorem aw_bits : ∀ x < 256,
    ((x &&& bnot32 _NRF24L01P_SETUP_AW_AW_MASK ||| _NRF24L01P_SETUP_AW_AW_3BYTE) % 256
        &&& _NRF24L01P_SETUP_AW_AW_MASK = _NRF24L01P_SETUP_AW_AW_3BYTE) ∧
    ((x &&& bnot32 _NRF24L01P_SETUP_AW_AW_MASK ||| _NRF24L01P_SETUP_AW_AW_4BYTE) % 256
        &&& _NRF24L01P_SETUP_AW_AW_MASK = _NRF24L01P_SETUP_AW_AW_4BYTE) ∧
    ((x &&& bnot32 _NRF24L01P_SETUP_AW_AW_MASK ||| _NRF24L01P_SETUP_AW_AW_5BYTE) % 256
        &&& _NRF24L01P_SETUP_AW_AW_MASK = _NRF24L01P_SETUP_AW_AW_5BYTE) := by
  decide

set_option maxRecDepth 100000 in
theorem aw_bits2 : ∀ x < 256,
    ((x &&& bnot32 _NRF24L01P_SETUP_AW_AW_MASK ||| _NRF24L01P_SETUP_AW_AW_3BYTE) % 256 % 256
        &&& _NRF24L01P_SETUP_AW_AW_MASK = 1) ∧
    ((x &&& bnot32 _NRF24L01P_SETUP_AW_AW_MASK ||| _NRF24L01P_SETUP_AW_AW_4BYTE) % 256 % 256
        &&& _NRF24L01P_SETUP_AW_AW_MASK = 2) ∧
    ((x &&& bnot32 _NRF24L01P_SETUP_AW_AW_MASK ||| _NRF24L01P_SETUP_AW_AW_5BYTE) % 256 % 256
        &&& _NRF24L01P_SETUP_AW_AW_MASK = 3) := by
  decide

theorem reg_setup_aw_and : _NRF24L01P_REG_SETUP_AW &&& 31 = 3 := by decide

theorem reg_tx_addr_and : _NRF24L01P_REG_TX_ADDR &&& 31 = 16 := by decide

theorem reg_en_rxaddr_and : _NRF24L01P_REG_EN_RXADDR &&& 31 = 2 := by decide

theorem aw_ne_tx : _NRF24L01P_REG_SETUP_AW &&& 31 ≠ _NRF24L01P_REG_TX_ADDR &&& 31 := by decide

theorem aw_codes : _NRF24L01P_SETUP_AW_AW_3BYTE = 1 ∧ _NRF24L01P_SETUP_AW_AW_4BYTE = 2 ∧
    _NRF24L01P_SETUP_AW_AW_5BYTE = 3 := by decide

/-- The address-width field of the SETUP_AW byte `b` encodes `w` bytes. -/
theorem setTxAddress_spec (s : Driver) (hcs : s.chip.csn = 1) (a : Nat) (ha : a < 2 ^ 64)
    (w : Int) (hw : w = 3 ∨ w = 4 ∨ w = 5) :
    ∃ s' b ev, setTxAddress a w s = .ok () s' ∧ s'.chip.csn = 1 ∧
      s'.chip.mem = storeBytes 16 (storeByte s.chip.mem 3 0 b) 0 a w.toNat ∧
      b % 256 &&& _NRF24L01P_SETUP_AW_AW_MASK = w.toNat - 2 ∧
      s'.trace = s.trace ++ ev ∧
      frames ev = [[_NRF24L01P_REG_SETUP_AW, _NRF24L01P_SPI_CMD_NOP],
        [_NRF24L01P_SPI_CMD_WR_REG ||| _NRF24L01P_REG_SETUP_AW, b],
        (_NRF24L01P_SPI_CMD_WR_REG ||| _NRF24L01P_REG_TX_ADDR) :: addressBytes a w.toNat] := by
  obtain ⟨b1, b2, b3⟩ := aw_bits (s.chip.mem (_NRF24L01P_REG_SETUP_AW &&& 31) 0 % 256)
    (Nat.mod_lt _ (by decide))
  obtain ⟨c1, c2, c3⟩ := aw_codes
  have ha2 : a % 18446744073709551616 = a := Nat.mod_eq_of_lt ha
  have i43 : ¬ ((4 : Int) = 3) := by decide
  have i53 : ¬ ((5 : Int) = 3) := by decide
  have i54 : ¬ ((5 : Int) = 4) := by decide
  rcases hw with rfl | rfl | rfl
  all_goals
    simp only [setTxAddress, switchWidth, M.bind_apply, M.pure_apply,
      getRegister_eq, setRegister_eq, hcs, if_true, if_false, select_eq, deselect_eq, spiWrite_eq,
      _NRF24L01P_SPI_CMD_WR_REG, _NRF24L01P_REG_ADDRESS_MASK,
      wr_cmd_mod, exchange_command, one_ne_zero, zero_ne_one, i43, i53, i54,
      Int.reduceToNat, writeAddressBytes_eq _NRF24L01P_REG_TX_ADDR, ha2, List.append_assoc]
    simp only [reg_setup_aw_and, reg_tx_addr_and, Nat.mod_mod] at b1 b2 b3 ⊢
    refine ⟨_, _, _, rfl, rfl, rfl, ?_, rfl, ?_⟩
    · first
        | exact (aw_bits2 _ (Nat.mod_lt (s.chip.mem 3 0) (by decide))).1
        | exact (aw_bits2 _ (Nat.mod_lt (s.chip.mem 3 0) (by decide))).2.1
        | exact (aw_bits2 _ (Nat.mod_lt (s.chip.mem 3 0) (by decide))).2.2
    · by_cases hce : s.ce_value = 0 <;>
      simp [frames, framesFrom_cs0_none, framesFrom_cs1_some, framesFrom_spi_some,
        framesFrom_addressEvents, framesFrom_ce, framesFrom_delay, framesFrom_nil, hce,
        _NRF24L01P_SPI_CMD_NOP, _NRF24L01P_REG_SETUP_AW, _NRF24L01P_REG_TX_ADDR]

theorem getTxAddress_spec (s : Driver) (hcs : s.chip.csn = 1) (w : Nat)
    (hw : w = 3 ∨ w = 4 ∨ w = 5)
    (haw : s.chip.mem 3 0 % 256 &&& _NRF24L01P_SETUP_AW_AW_MASK = w - 2) :
    ∃ s', getTxAddress s = .ok (assembleBytes s.chip.mem 16 w 0 0 0) s' ∧ s'.chip.csn = 1 ∧
      s'.chip.mem = s.chip.mem := by
  obtain ⟨c1, c2, c3⟩ := aw_codes
  have haw2 : s.chip.mem (_NRF24L01P_REG_SETUP_AW &&& 31) 0 % 256 &&& _NRF24L01P_SETUP_AW_AW_MASK
      = w - 2 := by
    rw [reg_setup_aw_and]
    exact haw
  rcases hw with rfl | rfl | rfl
  all_goals
    simp only [Nat.reduceSub] at haw2
    simp only [getTxAddress, switchSetupAw, M.bind_apply, M.pure_apply, getRegister_eq, hcs,
      haw2, c1, c2, c3, if_true, if_false, select_eq, deselect_eq, spiWrite_eq,
      _NRF24L01P_SPI_CMD_RD_REG, _NRF24L01P_REG_ADDRESS_MASK, Nat.zero_or, rd_cmd_mod,
      exchange_command, one_ne_zero, zero_ne_one, Nat.reduceEqDiff, or_true, true_or,
      readAddressBytes_eq _NRF24L01P_REG_TX_ADDR]
    simp only [reg_tx_addr_and]
    exact ⟨_, rfl, rfl, rfl⟩

theorem pipe_range (p : Nat) (hp : p ≤ 5) :
    ¬ (((p : Nat) : Int) < NRF24L01P_PIPE_P0 ∨ ((p : Nat) : Int) > NRF24L01P_PIPE_P5) := by
  simp only [NRF24L01P_PIPE_P0, NRF24L01P_PIPE_P5]
  omega

theorem pipe_offset (p : Nat) : (((p : Nat) : Int) - NRF24L01P_PIPE_P0).toNat = p := by
  simp [NRF24L01P_PIPE_P0]

theorem rx_reg_and : ∀ p ≤ 5, (_NRF24L01P_REG_RX_ADDR_P0 + p) &&& 31 = 10 + p := by decide

theorem getRxAddress_spec25 (s : Driver) (hcs : s.chip.csn = 1) (p : Nat) (h2 : 2 ≤ p) (h5 : p ≤ 5)
    (w : Nat) (hw : w = 3 ∨ w = 4 ∨ w = 5)
    (haw : s.chip.mem 3 0 % 256 &&& _NRF24L01P_SETUP_AW_AW_MASK = w - 2) :
    ∃ s', getRxAddress p s = .ok
        (assembleBytes s.chip.mem (10 + p) 1 0 0 0 |||
          (assembleBytes s.chip.mem 11 w 0 0 0 &&& (0xFFFFFFFFFFFFFFFF ^^^ 0xFF))) s' ∧
      s'.chip.csn = 1 ∧ s'.chip.mem = s.chip.mem := by
  obtain ⟨c1, c2, c3⟩ := aw_codes
  have haw2 : s.chip.mem (_NRF24L01P_REG_SETUP_AW &&& 31) 0 % 256 &&& _NRF24L01P_SETUP_AW_AW_MASK
      = w - 2 := by
    rw [reg_setup_aw_and]
    exact haw
  have hp01 : ¬ (((p : Nat) : Int) = NRF24L01P_PIPE_P0 ∨ ((p : Nat) : Int) = NRF24L01P_PIPE_P1) := by
    simp only [NRF24L01P_PIPE_P0, NRF24L01P_PIPE_P1]
    omega
  have h1r : ¬ (NRF24L01P_PIPE_P1 < NRF24L01P_PIPE_P0 ∨ NRF24L01P_PIPE_P1 > NRF24L01P_PIPE_P5) := by
    decide
  have h101 : NRF24L01P_PIPE_P1 = NRF24L01P_PIPE_P0 ∨ NRF24L01P_PIPE_P1 = NRF24L01P_PIPE_P1 :=
    Or.inr rfl
  have h1o : (NRF24L01P_PIPE_P1 - NRF24L01P_PIPE_P0).toNat = 1 := by decide
  rcases hw with rfl | rfl | rfl
  all_goals
    simp only [Nat.reduceSub] at haw2
    simp only [getRxAddress, getRxAddressAux, switchSetupAw, M.bind_apply, M.pure_apply,
      getRegister_eq, hcs, pipe_range p h5, hp01, h1r, h101, h1o, pipe_offset, not_true_eq_false,
      not_false_eq_true,
      haw2, c1, c2, c3, if_true, if_false, select_eq, deselect_eq, spiWrite_eq,
      _NRF24L01P_SPI_CMD_RD_REG, _NRF24L01P_REG_ADDRESS_MASK, Nat.zero_or, rd_cmd_mod,
      exchange_command, one_ne_zero, zero_ne_one, Nat.reduceEqDiff, or_true, true_or,
      readAddressBytes_eq (_NRF24L01P_REG_RX_ADDR_P0 + p),
      readAddressBytes_eq (_NRF24L01P_REG_RX_ADDR_P0 + 1)]
    simp only [rx_reg_and p h5, rx_reg_and 1 (by decide)]
    exact ⟨_, rfl, rfl, rfl⟩

theorem getRxAddress_spec01 (s : Driver) (hcs : s.chip.csn = 1) (p : Nat) (h1 : p ≤ 1)
    (w : Nat) (hw : w = 3 ∨ w = 4 ∨ w = 5)
    (haw : s.chip.mem 3 0 % 256 &&& _NRF24L01P_SETUP_AW_AW_MASK = w - 2) :
    ∃ s', getRxAddress p s = .ok (assembleBytes s.chip.mem (10 + p) w 0 0 0) s' ∧
      s'.chip.csn = 1 ∧ s'.chip.mem = s.chip.mem := by
  obtain ⟨c1, c2, c3⟩ := aw_codes
  have haw2 : s.chip.mem (_NRF24L01P_REG_SETUP_AW &&& 31) 0 % 256 &&& _NRF24L01P_SETUP_AW_AW_MASK
      = w - 2 := by
    rw [reg_setup_aw_and]
    exact haw
  have hp01 : ((p : Nat) : Int) = NRF24L01P_PIPE_P0 ∨ ((p : Nat) : Int) = NRF24L01P_PIPE_P1 := by
    simp only [NRF24L01P_PIPE_P0, NRF24L01P_PIPE_P1]
    omega
  rcases hw with rfl | rfl | rfl
  all_goals
    simp only [Nat.reduceSub] at haw2
    simp only [getRxAddress, getRxAddressAux, switchSetupAw, M.bind_apply, M.pure_apply,
      getRegister_eq, hcs, pipe_range p (by omega), hp01, pipe_offset, not_true_eq_false,
      not_false_eq_true,
      haw2, c1, c2, c3, if_true, if_false, select_eq, deselect_eq, spiWrite_eq,
      _NRF24L01P_SPI_CMD_RD_REG, _NRF24L01P_REG_ADDRESS_MASK, Nat.zero_or, rd_cmd_mod,
      exchange_command, one_ne_zero, zero_ne_one, Nat.reduceEqDiff, or_true, true_or,
      readAddressBytes_eq (_NRF24L01P_REG_RX_ADDR_P0 + p)]
    simp only [rx_reg_and p (by omega)]
    exact ⟨_, rfl, rfl, rfl⟩

theorem setRxAddress_spec01 (s : Driver) (hcs : s.chip.csn = 1) (a : Nat) (ha : a < 2 ^ 64)
    (w : Int) (hw : w = 3 ∨ w = 4 ∨ w = 5) (p : Nat) (h1 : p ≤ 1) :
    ∃ s' b e, setRxAddress a w p s = .ok () s' ∧ s'.chip.csn = 1 ∧
      s'.chip.mem = storeByte (storeBytes (10 + p) (storeByte s.chip.mem 3 0 b) 0 a w.toNat) 2 0 e ∧
      b % 256 &&& _NRF24L01P_SETUP_AW_AW_MASK = w.toNat - 2 := by
  have ha2 : a % 18446744073709551616 = a := Nat.mod_eq_of_lt ha
  have i43 : ¬ ((4 : Int) = 3) := by decide
  have i53 : ¬ ((5 : Int) = 3) := by decide
  have i54 : ¬ ((5 : Int) = 4) := by decide
  have hp01 : ((p : Nat) : Int) = NRF24L01P_PIPE_P0 ∨ ((p : Nat) : Int) = NRF24L01P_PIPE_P1 := by
    simp only [NRF24L01P_PIPE_P0, NRF24L01P_PIPE_P1]
    omega
  rcases hw with rfl | rfl | rfl
  all_goals
    simp only [setRxAddress, switchWidth, M.bind_apply, M.pure_apply,
      getRegister_eq, setRegister_eq, hcs, pipe_range p (by omega), hp01, pipe_offset,
      if_true, if_false, select_eq, deselect_eq, spiWrite_eq,
      _NRF24L01P_SPI_CMD_WR_REG, _NRF24L01P_REG_ADDRESS_MASK,
      wr_cmd_mod, exchange_command, one_ne_zero, zero_ne_one, i43, i53, i54,
      Int.reduceToNat, writeAddressBytes_eq (_NRF24L01P_REG_RX_ADDR_P0 + p), ha2]
    simp only [reg_setup_aw_and, reg_en_rxaddr_and, rx_reg_and p (by omega)]
    refine ⟨_, _, _, rfl, rfl, rfl, ?_⟩
    first
      | exact (aw_bits2 _ (Nat.mod_lt (s.chip.mem 3 0) (by decide))).1
      | exact (aw_bits2 _ (Nat.mod_lt (s.chip.mem 3 0) (by decide))).2.1
      | exact (aw_bits2 _ (Nat.mod_lt (s.chip.mem 3 0) (by decide))).2.2

theorem setRxAddress_spec25 (s : Driver) (hcs : s.chip.csn = 1) (a : Nat) (w : Int) (p : Nat)
    (h2 : 2 ≤ p) (h5 : p ≤ 5) :
    ∃ s' e, setRxAddress a w p s = .ok () s' ∧ s'.chip.csn = 1 ∧
      s'.chip.mem = storeByte (storeBytes (10 + p) s.chip.mem 0 (a % 2 ^ 64) 1) 2 0 e := by
  have hp01 : ¬ (((p : Nat) : Int) = NRF24L01P_PIPE_P0 ∨ ((p : Nat) : Int) = NRF24L01P_PIPE_P1) := by
    simp only [NRF24L01P_PIPE_P0, NRF24L01P_PIPE_P1]
    omega
  simp only [setRxAddress, M.bind_apply, M.pure_apply,
    getRegister_eq, setRegister_eq, hcs, pipe_range p h5, hp01, pipe_offset,
    if_true, if_false, select_eq, deselect_eq, spiWrite_eq,
    _NRF24L01P_SPI_CMD_WR_REG, _NRF24L01P_REG_ADDRESS_MASK,
    wr_cmd_mod, exchange_command, one_ne_zero, zero_ne_one,
    Int.reduceToNat, writeAddressBytes_eq (_NRF24L01P_REG_RX_ADDR_P0 + p)]
  simp only [reg_en_rxaddr_and, rx_reg_and p h5]
  exact ⟨_, _, rfl, rfl, rfl⟩

theorem and_div_256 (a b : Nat) : (a &&& b) / 256 = a / 256 &&& b / 256 := by
  have h : ∀ x : Nat, x / 256 = x / 2 / 2 / 2 / 2 / 2 / 2 / 2 / 2 := by
    intro x
    omega
  rw [h, h a, h b]
  simp only [Nat.and_div_two]

theorem or_div_256 (a b : Nat) : (a ||| b) / 256 = a / 256 ||| b / 256 := by
  have h : ∀ x : Nat, x / 256 = x / 2 / 2 / 2 / 2 / 2 / 2 / 2 / 2 := by
    intro x
    omega
  rw [h, h a, h b]
  simp only [Nat.or_div_two]

/-- Replacing the low byte: `lo | (x & ~0xFF)` has low byte `lo` and the
higher bytes of `x`. -/
theorem lowByte_merge (lo x : Nat) (hlo : lo < 256) (hx : x < 2 ^ 64) :
    lo ||| (x &&& (0xFFFFFFFFFFFFFFFF ^^^ 0xFF)) = x / 256 * 256 + lo := by
  have e1 : (0xFFFFFFFFFFFFFFFF ^^^ 0xFF : Nat) / 256 = 2 ^ 56 - 1 := by decide
  have e2 : (0xFFFFFFFFFFFFFFFF ^^^ 0xFF : Nat) &&& 255 = 0 := by decide
  have hdiv : (lo ||| (x &&& (0xFFFFFFFFFFFFFFFF ^^^ 0xFF))) / 256 = x / 256 := by
    rw [or_div_256, and_div_256, e1, Nat.and_pow_two_sub_one_eq_mod, Nat.div_eq_of_lt hlo,
      Nat.zero_or]
    apply Nat.mod_eq_of_lt
    omega
  have hmod : (lo ||| (x &&& (0xFFFFFFFFFFFFFFFF ^^^ 0xFF))) % 256 = lo := by
    rw [← and255, Nat.and_comm, Nat.and_or_distrib_left, Nat.and_comm 255 (x &&& _), Nat.and_assoc, e2,
      Nat.and_zero, Nat.or_zero, Nat.and_comm, and255]
    exact Nat.mod_eq_of_lt hlo
  have := Nat.div_add_mod (lo ||| (x &&& (0xFFFFFFFFFFFFFFFF ^^^ 0xFF))) 256
  rw [hdiv, hmod] at this
  omega

theorem assembleBytes_one (mem : Nat → Nat → Nat) (r : Nat) :
    assembleBytes mem r 1 0 0 0 = mem r 0 % 256 := by
  simp [assembleBytes, and255]

theorem setTx_getTx (s : Driver) (hcs : s.chip.csn = 1) (a : Nat) (ha : a < 2 ^ 64) (w : Int)
    (hw : w = 3 ∨ w = 4 ∨ w = 5) :
    ((setTxAddress a w >>= fun _ => getTxAddress) s).value = some (a % 2 ^ (8 * w.toNat)) := by
  obtain ⟨s1, b, ev, h1, hcs1, hm1, hb, -, -⟩ := setTxAddress_spec s hcs a ha w hw
  have hwn : w.toNat = 3 ∨ w.toNat = 4 ∨ w.toNat = 5 := by omega
  have haw : s1.chip.mem 3 0 % 256 &&& _NRF24L01P_SETUP_AW_AW_MASK = w.toNat - 2 := by
    rw [hm1, storeBytes_other _ _ (by decide), storeByte_same]
    exact hb
  obtain ⟨s2, h2, -, -⟩ := getTxAddress_spec s1 hcs1 w.toNat hwn haw
  simp only [M.bind_apply, h1, h2, Res.value]
  rw [assembleBytes_zero _ _ a]
  intro j hj
  rw [hm1, storeBytes_same, if_pos (by omega)]
  rfl

theorem setRx_getRx (s : Driver) (hcs : s.chip.csn = 1) (a : Nat) (ha : a < 2 ^ 64) (w : Int)
    (hw : w = 3 ∨ w = 4 ∨ w = 5) (p : Nat) (hp : p ≤ 1) :
    ((setRxAddress a w p >>= fun _ => getRxAddress p) s).value = some (a % 2 ^ (8 * w.toNat)) := by
  obtain ⟨s1, b, e, h1, hcs1, hm1, hb⟩ := setRxAddress_spec01 s hcs a ha w hw p hp
  have hwn : w.toNat = 3 ∨ w.toNat = 4 ∨ w.toNat = 5 := by omega
  have haw : s1.chip.mem 3 0 % 256 &&& _NRF24L01P_SETUP_AW_AW_MASK = w.toNat - 2 := by
    rw [hm1, storeByte_other _ _ _ _ _ _ (by omega), storeBytes_other _ _ (by omega),
      storeByte_same]
    exact hb
  obtain ⟨s2, h2, -, -⟩ := getRxAddress_spec01 s1 hcs1 p hp w.toNat hwn haw
  simp only [M.bind_apply, h1, h2, Res.value]
  rw [assembleBytes_zero _ _ a]
  intro j hj
  rw [hm1, storeByte_other _ _ _ _ _ _ (by omega), storeBytes_same, if_pos (by omega)]
  rfl

/-- C10: for a 64-bit address `a` and a width `w` of 3, 4 or 5, the last frame
of `setTxAddress(a, w)` is the write-register command for the transmit
address followed by exactly the `w` low bytes of `a`, least significant
first; `getTxAddress()` afterwards returns `a mod 2^(8w)`; and the same round
trip holds for `setRxAddress(a, w, p)` and `getRxAddress(p)` on pipes 0 and 1. -/
theorem address_roundtrip (s : Driver) (hcs : s.chip.csn = 1) (a : Nat) (ha : a < 2 ^ 64)
    (w : Int) (hw : w = 3 ∨ w = 4 ∨ w = 5) :
    (∃ b ev, (setTxAddress a w s).state.trace = s.trace ++ ev ∧
      frames ev = [[_NRF24L01P_REG_SETUP_AW, _NRF24L01P_SPI_CMD_NOP],
        [_NRF24L01P_SPI_CMD_WR_REG ||| _NRF24L01P_REG_SETUP_AW, b],
        (_NRF24L01P_SPI_CMD_WR_REG ||| _NRF24L01P_REG_TX_ADDR) ::
          (List.range w.toNat).map (fun i => (a >>> (8 * i)) &&& 0xFF)]) ∧
    ((setTxAddress a w >>= fun _ => getTxAddress) s).value = some (a % 2 ^ (8 * w.toNat)) ∧
    (∀ p : Int, p = 0 ∨ p = 1 →
      ((setRxAddress a w p >>= fun _ => getRxAddress p) s).value
        = some (a % 2 ^ (8 * w.toNat))) := by
  refine ⟨?_, setTx_getTx s hcs a ha w hw, ?_⟩
  · obtain ⟨s1, b, ev, h1, -, -, -, htr, hfr⟩ := setTxAddress_spec s hcs a ha w hw
    refine ⟨b, ev, ?_, hfr⟩
    rw [h1]
    exact htr
  · intro p hp
    rcases hp with rfl | rfl
    · exact setRx_getRx s hcs a ha w hw 0 (by decide)
    · exact setRx_getRx s hcs a ha w hw 1 (by decide)

/-- C10 for the address `0x1122334455` with width 5. -/
theorem address_roundtrip_witness :
    (∃ b ev, (setTxAddress 0x1122334455 5 (freshDriver 0 0)).state.trace
        = (freshDriver 0 0).trace ++ ev ∧
      frames ev = [[0x03, 0xff], [0x23, b], [0x30, 0x55, 0x44, 0x33, 0x22, 0x11]]) ∧
    ((setTxAddress 0x1122334455 5 >>= fun _ => getTxAddress) (freshDriver 0 0)).value
      = some 0x1122334455 ∧
    (∀ p : Int, p = 0 ∨ p = 1 →
      ((setRxAddress 0x1122334455 5 p >>= fun _ => getRxAddress p) (freshDriver 0 0)).value
        = some 0x1122334455) :=
  address_roundtrip (freshDriver 0 0) rfl 0x1122334455 (by decide) 5 (by decide)

/-! ### C9: pipes 2 to 5 share the high bytes of pipe 1 -/

theorem getRx_relation (s : Driver) (hcs : s.chip.csn = 1) (p : Nat) (h2 : 2 ≤ p) (h5 : p ≤ 5)
    (w : Nat) (hw : w = 3 ∨ w = 4 ∨ w = 5)
    (haw : s.chip.mem _NRF24L01P_REG_SETUP_AW 0 % 256 &&& _NRF24L01P_SETUP_AW_AW_MASK = w - 2) :
    ∃ a1, (getRxAddress 1 s).value = some a1 ∧
      (getRxAddress p s).value = some ((s.chip.mem (_NRF24L01P_REG_RX_ADDR_P0 + p) 0 % 256) |||
        (a1 &&& (0xFFFFFFFFFFFFFFFF ^^^ 0xFF))) := by
  obtain ⟨s1, g1, -, -⟩ := getRxAddress_spec01 s hcs 1 (by decide) w hw haw
  obtain ⟨s2, g2, -, -⟩ := getRxAddress_spec25 s hcs p h2 h5 w hw haw
  refine ⟨assembleBytes s.chip.mem 11 w 0 0 0, ?_, ?_⟩
  · have g1' : getRxAddress 1 s = .ok (assembleBytes s.chip.mem (10 + 1) w 0 0 0) s1 := g1
    rw [g1']
    rfl
  · rw [g2, assembleBytes_one]
    rfl

theorem set1_setp_getp (s : Driver) (hcs : s.chip.csn = 1) (p : Nat) (h2 : 2 ≤ p) (h5 : p ≤ 5)
    (a b : Nat) (w w2 : Int) (ha : a < 2 ^ 64) (hw : w = 3 ∨ w = 4 ∨ w = 5) :
    ((do setRxAddress a w 1; setRxAddress b w2 p; getRxAddress p : M Nat) s).value
      = some (a % 2 ^ (8 * w.toNat) / 256 * 256 + b % 256) := by
  obtain ⟨s1, b1, e1, h1, hcs1, hm1, hb1⟩ := setRxAddress_spec01 s hcs a ha w hw 1 (by decide)
  obtain ⟨s2, e2, hs2, hcs2, hm2⟩ := setRxAddress_spec25 s1 hcs1 b w2 p h2 h5
  have hwn : w.toNat = 3 ∨ w.toNat = 4 ∨ w.toNat = 5 := by omega
  have haw : s2.chip.mem 3 0 % 256 &&& _NRF24L01P_SETUP_AW_AW_MASK = w.toNat - 2 := by
    rw [hm2, storeByte_other _ _ _ _ _ _ (by omega), storeBytes_other _ _ (by omega), hm1,
      storeByte_other _ _ _ _ _ _ (by omega), storeBytes_other _ _ (by omega), storeByte_same]
    exact hb1
  obtain ⟨s3, h3, -, -⟩ := getRxAddress_spec25 s2 hcs2 p h2 h5 w.toNat hwn haw
  have h1' : setRxAddress a w 1 s = .ok () s1 := h1
  simp only [M.bind_apply, h1', hs2, h3, Res.value]
  have hp1 : assembleBytes s2.chip.mem 11 w.toNat 0 0 0 = a % 2 ^ (8 * w.toNat) := by
    apply assembleBytes_zero
    intro j hj
    rw [hm2, storeByte_other _ _ _ _ _ _ (by omega), storeBytes_other _ _ (by omega), hm1,
      storeByte_other _ _ _ _ _ _ (by omega), storeBytes_same, if_pos (by omega)]
    rfl
  have hlo : s2.chip.mem (10 + p) 0 % 256 = b % 256 := by
    rw [hm2, storeByte_other _ _ _ _ _ _ (by omega), storeBytes_same, if_pos (by omega)]
    simp only [Nat.sub_self, Nat.mul_zero, Nat.shiftRight_zero, Nat.mod_mod]
    omega
  rw [hp1, assembleBytes_one, hlo,
    lowByte_merge _ _ (Nat.mod_lt _ (by decide))
      (Nat.lt_of_le_of_lt (Nat.mod_le _ _) ha)]

theorem set1_setp_set1_getp (s : Driver) (hcs : s.chip.csn = 1) (p : Nat) (h2 : 2 ≤ p)
    (h5 : p ≤ 5) (a b c : Nat) (w w2 w3 : Int) (ha : a < 2 ^ 64) (hw : w = 3 ∨ w = 4 ∨ w = 5)
    (hc : c < 2 ^ 64) (hw3 : w3 = 3 ∨ w3 = 4 ∨ w3 = 5) :
    ((do setRxAddress a w 1; setRxAddress b w2 p; setRxAddress c w3 1; getRxAddress p : M Nat)
      s).value = some (c % 2 ^ (8 * w3.toNat) / 256 * 256 + b % 256) := by
  obtain ⟨s1, b1, e1, h1, hcs1, hm1, hb1⟩ := setRxAddress_spec01 s hcs a ha w hw 1 (by decide)
  obtain ⟨s2, e2, hs2, hcs2, hm2⟩ := setRxAddress_spec25 s1 hcs1 b w2 p h2 h5
  obtain ⟨s3, b3, e3, hs3, hcs3, hm3, hb3⟩ :=
    setRxAddress_spec01 s2 hcs2 c hc w3 hw3 1 (by decide)
  have hwn : w3.toNat = 3 ∨ w3.toNat = 4 ∨ w3.toNat = 5 := by omega
  have haw : s3.chip.mem 3 0 % 256 &&& _NRF24L01P_SETUP_AW_AW_MASK = w3.toNat - 2 := by
    rw [hm3, storeByte_other _ _ _ _ _ _ (by omega), storeBytes_other _ _ (by omega),
      storeByte_same]
    exact hb3
  obtain ⟨s4, h4, -, -⟩ := getRxAddress_spec25 s3 hcs3 p h2 h5 w3.toNat hwn haw
  have h1' : setRxAddress a w 1 s = .ok () s1 := h1
  have hs3' : setRxAddress c w3 1 s2 = .ok () s3 := hs3
  simp only [M.bind_apply, h1', hs2, hs3', h4, Res.value]
  have hp1 : assembleBytes s3.chip.mem 11 w3.toNat 0 0 0 = c % 2 ^ (8 * w3.toNat) := by
    apply assembleBytes_zero
    intro j hj
    rw [hm3, storeByte_other _ _ _ _ _ _ (by omega), storeBytes_same, if_pos (by omega)]
    rfl
  have hlo : s3.chip.mem (10 + p) 0 % 256 = b % 256 := by
    rw [hm3, storeByte_other _ _ _ _ _ _ (by omega), storeBytes_other _ _ (by omega),
      storeByte_other _ _ _ _ _ _ (by omega), hm2, storeByte_other _ _ _ _ _ _ (by omega),
      storeBytes_same, if_pos (by omega)]
    simp only [Nat.sub_self, Nat.mul_zero, Nat.shiftRight_zero, Nat.mod_mod]
    omega
  rw [hp1, assembleBytes_one, hlo,
    lowByte_merge _ _ (Nat.mod_lt _ (by decide))
      (Nat.lt_of_le_of_lt (Nat.mod_le _ _) hc)]

/-- C9: for a pipe `p` in 2..5, with a valid address-width field,
`getRxAddress(p)` is the low byte stored in pipe `p`'s register combined with
`getRxAddress(1)` with its low byte cleared.  Hence after
`setRxAddress(a, w, 1)` and `setRxAddress(b, _, p)` it returns `a mod 2^(8w)`
with the low byte replaced by `b mod 256`, and after a further
`setRxAddress(c, w3, 1)` it returns `c mod 2^(8 w3)` with the same low byte. -/
theorem pipe_address_shares_high_bytes (s : Driver) (hcs : s.chip.csn = 1) (p : Nat)
    (h2 : 2 ≤ p) (h5 : p ≤ 5) :
    (∀ w : Nat, w = 3 ∨ w = 4 ∨ w = 5 →
      s.chip.mem _NRF24L01P_REG_SETUP_AW 0 % 256 &&& _NRF24L01P_SETUP_AW_AW_MASK = w - 2 →
      ∃ a1, (getRxAddress 1 s).value = some a1 ∧
        (getRxAddress p s).value
          = some ((s.chip.mem (_NRF24L01P_REG_RX_ADDR_P0 + p) 0 % 256) |||
              (a1 &&& (0xFFFFFFFFFFFFFFFF ^^^ 0xFF)))) ∧
    (∀ (a b : Nat) (w w2 : Int), a < 2 ^ 64 → w = 3 ∨ w = 4 ∨ w = 5 →
      ((do setRxAddress a w 1; setRxAddress b w2 p; getRxAddress p : M Nat) s).value
        = some (a % 2 ^ (8 * w.toNat) / 256 * 256 + b % 256)) ∧
    (∀ (a b c : Nat) (w w2 w3 : Int), a < 2 ^ 64 → w = 3 ∨ w = 4 ∨ w = 5 →
      c < 2 ^ 64 → w3 = 3 ∨ w3 = 4 ∨ w3 = 5 →
      ((do setRxAddress a w 1; setRxAddress b w2 p; setRxAddress c w3 1; getRxAddress p : M Nat)
        s).value = some (c % 2 ^ (8 * w3.toNat) / 256 * 256 + b % 256)) :=
  ⟨fun w hw haw => getRx_relation s hcs p h2 h5 w hw haw,
   fun a b w w2 ha hw => set1_setp_getp s hcs p h2 h5 a b w w2 ha hw,
   fun a b c w w2 w3 ha hw hc hw3 => set1_setp_set1_getp s hcs p h2 h5 a b c w w2 w3 ha hw hc hw3⟩

/-- C9 on pipe 3: the relation on a chip whose registers are all ones, then
pipe 1 set to `0xAABBCCDDEE`, pipe 3 to low byte `0x17`,
then pipe 1 changed to `0x0102030405`. -/
theorem pipe_address_shares_high_bytes_witness :
    (∃ a1, (getRxAddress 1 busyDriver).value = some a1 ∧
      (getRxAddress 3 busyDriver).value
        = some ((busyDriver.chip.mem (_NRF24L01P_REG_RX_ADDR_P0 + 3) 0 % 256) |||
            (a1 &&& (0xFFFFFFFFFFFFFFFF ^^^ 0xFF)))) ∧
    ((do setRxAddress 0xAABBCCDDEE 5 1; setRxAddress 0x17 5 3; getRxAddress 3 : M Nat)
      (freshDriver 0 0)).value = some 0xAABBCCDD17 ∧
    ((do setRxAddress 0xAABBCCDDEE 5 1; setRxAddress 0x17 5 3; setRxAddress 0x102030405 5 1; getRxAddress 3 : M Nat)
      (freshDriver 0 0)).value = some 0x0102030417 :=
  ⟨(pipe_address_shares_high_bytes busyDriver rfl 3 (by decide) (by decide)).1 5
      (by decide) (by decide),
   (pipe_address_shares_high_bytes (freshDriver 0 0) rfl 3 (by decide) (by decide)).2.1
      0xAABBCCDDEE 0x17 5 5 (by decide) (by decide),
   (pipe_address_shares_high_bytes (freshDriver 0 0) rfl 3 (by decide) (by decide)).2.2
      0xAABBCCDDEE 0x17 0x0102030405 5 5 5 (by decide) (by decide) (by decide) (by decide)⟩

/-! ## The transmit path: C4 -/

theorem waitTxDs_eq (k : Nat) : ∀ (fuel : Nat) (s : Driver), s.chip.csn = 1 → k < fuel →
    s.chip.statusFeed (s.chip.clock + k) % 256 &&& _NRF24L01P_STATUS_TX_DS ≠ 0 →
    waitTxDs fuel s = .ok () (afterPolls s (pollCount s.chip.statusFeed s.chip.clock k)) := by
  induction k with
  | zero =>
    intro fuel s hcs hf hflag
    obtain ⟨f, rfl⟩ : ∃ f, fuel = f + 1 := ⟨fuel - 1, by omega⟩
    rw [Nat.add_zero] at hflag
    simp only [waitTxDs, M.bind_apply, M.pure_apply, getStatusRegister_eq s hcs, hflag,
      ne_eq, not_true_eq_false, not_false_eq_true, if_false, pollCount, afterPolls, pollEvents,
      List.append_nil, Nat.reduceAdd]
  | succ k ih =>
    intro fuel s hcs hf hflag
    obtain ⟨f, rfl⟩ : ∃ f, fuel = f + 1 := ⟨fuel - 1, by omega⟩
    by_cases h0 : s.chip.statusFeed s.chip.clock % 256 &&& _NRF24L01P_STATUS_TX_DS ≠ 0
    · simp only [waitTxDs, M.bind_apply, M.pure_apply, getStatusRegister_eq s hcs, h0,
        ne_eq, not_true_eq_false, not_false_eq_true, if_false, if_true, pollCount, afterPolls,
        pollEvents,
        List.append_nil, Nat.reduceAdd]
    · simp only [waitTxDs, M.bind_apply, M.pure_apply, getStatusRegister_eq s hcs, h0,
        ne_eq, not_true_eq_false, not_false_eq_true, if_false, if_true, pollCount]
      rw [ih f _ rfl (by omega) (by
        have e : s.chip.clock + 1 + k = s.chip.clock + (k + 1) := by omega
        simp only [e]
        exact hflag)]
      simp only [afterPolls, pollEvents, List.append_assoc, Nat.add_assoc, Nat.add_comm 1]

theorem framesFrom_pollEvents (feed : Nat → Nat) (n : Nat) :
    ∀ (c : Nat) (rest : List Event),
      framesFrom none (pollEvents feed c n ++ rest)
        = List.replicate n [0xff] ++ framesFrom none rest := by
  induction n with
  | zero =>
    intro c rest
    simp [pollEvents]
  | succ n ih =>
    intro c rest
    simp only [pollEvents, List.append_assoc, List.cons_append, List.nil_append,
      framesFrom_cs0_none, framesFrom_spi_some, framesFrom_cs1_some, ih, List.replicate_succ]

theorem exchange_txPayload (c : Chip) (h0 : c.csn = 0) (hc : c.cmd = some 160) (v : Nat) :
    c.exchange v = (0, { c with idx := c.idx + 1 }) := by
  have e1 : (160 &&& 224 : Nat) = 160 := by decide
  simp [Chip.exchange, h0, hc, _NRF24L01P_SPI_CMD_RD_REG, _NRF24L01P_SPI_CMD_WR_REG,
    _NRF24L01P_SPI_CMD_R_RX_PL_WID, _NRF24L01P_SPI_CMD_RD_RX_PAYLOAD, e1]

theorem writePayloadBytes_eq (n : Nat) : ∀ (i : Nat) (data : Nat → Nat) (s : Driver),
    s.chip.csn = 0 → s.chip.cmd = some 160 →
    writePayloadBytes n i data s = .ok ()
      { s with chip := { s.chip with idx := s.chip.idx + n },
               trace := s.trace ++ payloadEvents data i n } := by
  induction n with
  | zero =>
    intro i data s _ _
    simp [writePayloadBytes, M.pure_apply, payloadEvents]
  | succ n ih =>
    intro i data s h0 hc
    simp only [writePayloadBytes, M.bind_apply, spiWrite_eq, exchange_txPayload _ h0 hc]
    rw [ih _ _ _ (by exact h0) (by exact hc)]
    simp [payloadEvents, Nat.add_assoc, Nat.add_comm 1 n]

theorem framesFrom_payloadEvents (data : Nat → Nat) (n : Nat) :
    ∀ (i : Nat) (f : List Nat) (rest : List Event),
      framesFrom (some f) (payloadEvents data i n ++ rest)
        = framesFrom (some (f ++ (List.range n).map (fun k => data (i + k) % 256))) rest := by
  induction n with
  | zero =>
    intro i f rest
    simp [payloadEvents]
  | succ n ih =>
    intro i f rest
    have e : payloadEvents data i (n + 1) ++ rest
        = .spi (data i % 256) 0 :: (payloadEvents data (i + 1) n ++ rest) := rfl
    have e2 : (List.range (n + 1)).map (fun k => data (i + k) % 256)
        = data i % 256 :: (List.range n).map (fun k => data (i + 1 + k) % 256) := by
      simp only [List.range_succ_eq_map, List.map_cons, List.map_map, Nat.add_zero]
      congr 1
      apply List.map_congr_left
      intro k _
      simp only [Function.comp, Nat.succ_eq_add_one]
      congr 2
      omega
    rw [e, framesFrom_spi_some, ih, e2, List.append_assoc, List.singleton_append]

theorem filter_polls (n : Nat) :
    (List.replicate n [0xff]).filter (fun f => decide (f.head? = some 160)) = [] := by
  induction n with
  | zero => rfl
  | succ n ih =>
    rw [List.replicate_succ, List.filter_cons_of_neg (by decide), ih]

theorem clamp_tx (n : Int) :
    (if n > (_NRF24L01P_TX_FIFO_SIZE : Int) then (_NRF24L01P_TX_FIFO_SIZE : Int) else n)
      = min n 32 := by
  simp only [_NRF24L01P_TX_FIFO_SIZE]
  split_ifs <;> omega

theorem write_from_standby (s : Driver) (hcs : s.chip.csn = 1) (pipe : Int) (data : Nat → Nat)
    (n : Int) (hn : 0 < n) (t : Nat)
    (hm : s.mode ≠ _NRF24L01P_MODE_POWER_DOWN)
    (ht : s.chip.clock + 4 ≤ t)
    (hds : s.chip.statusFeed t % 256 &&& _NRF24L01P_STATUS_TX_DS ≠ 0)
    (fuel : Nat) (hfuel : t - s.chip.clock ≤ fuel) :
    (write fuel pipe data n s).value = some (min n 32) ∧
    ∃ ev, (write fuel pipe data n s).state.trace = s.trace ++ ev ∧
      (frames ev).filter (fun f => decide (f.head? = some _NRF24L01P_SPI_CMD_WR_TX_PAYLOAD))
        = [_NRF24L01P_SPI_CMD_WR_TX_PAYLOAD ::
            (List.range (min n 32).toNat).map (fun i => data i % 256)] := by
  have hc : ¬ n ≤ 0 := by omega
  have hflag : s.chip.statusFeed (s.chip.clock + 1 + 1 + 1 + 1 + (t - (s.chip.clock + 4))) % 256
      &&& _NRF24L01P_STATUS_TX_DS ≠ 0 := by
    have e : s.chip.clock + 1 + 1 + 1 + 1 + (t - (s.chip.clock + 4)) = t := by omega
    rw [e]
    exact hds
  have hfl : t - (s.chip.clock + 4) < fuel := by omega
  have e39 : (39 : Nat) ≠ 160 := by decide
  by_cases hrx : s.mode = _NRF24L01P_MODE_RX <;> by_cases hce : s.ce_value = 0
  all_goals
    simp only [write, hc, clamp_tx, if_false, M.bind_apply, M.pure_apply, readState, disable, enable,
      update, hal_gpio_write, wait_us, os_time_delay, setRegister_eq, select_eq, deselect_eq,
      spiWrite_eq, exchange_command, setTransmitMode, setReceiveMode, powerUp, getRegister_eq, hm,
      hrx, hce, hcs, afterPolls,
      _NRF24L01P_SPI_CMD_WR_TX_PAYLOAD, Nat.reduceMod, writePayloadBytes_eq, one_ne_zero,
      zero_ne_one, ne_eq, not_true_eq_false, not_false_eq_true, if_true, reduceCtorEq,
      waitTxDs_eq (t - (s.chip.clock + 4)) fuel, hfl, hflag, Res.value, Res.state,
      List.append_assoc, true_and]
    refine ⟨_, rfl, ?_⟩
    simp [frames, framesFrom_cs0_none, framesFrom_cs1_some, framesFrom_spi_some,
      framesFrom_payloadEvents, framesFrom_pollEvents, framesFrom_ce, framesFrom_delay,
      framesFrom_nil, filter_polls, reg_status_and, reg_config_and, _NRF24L01P_REG_CONFIG]

theorem write_from_power_down (s : Driver) (hcs : s.chip.csn = 1) (pipe : Int) (data : Nat → Nat)
    (n : Int) (hn : 0 < n) (t : Nat)
    (hm : s.mode = _NRF24L01P_MODE_POWER_DOWN)
    (ht : s.chip.clock + 6 ≤ t)
    (hds : s.chip.statusFeed t % 256 &&& _NRF24L01P_STATUS_TX_DS ≠ 0)
    (fuel : Nat) (hfuel : t - s.chip.clock ≤ fuel) :
    (write fuel pipe data n s).value = some (min n 32) ∧
    ∃ ev, (write fuel pipe data n s).state.trace = s.trace ++ ev ∧
      (frames ev).filter (fun f => decide (f.head? = some _NRF24L01P_SPI_CMD_WR_TX_PAYLOAD))
        = [_NRF24L01P_SPI_CMD_WR_TX_PAYLOAD ::
            (List.range (min n 32).toNat).map (fun i => data i % 256)] := by
  have hc : ¬ n ≤ 0 := by omega
  have hflag : s.chip.statusFeed
      (s.chip.clock + 1 + 1 + 1 + 1 + 1 + 1 + (t - (s.chip.clock + 6))) % 256
      &&& _NRF24L01P_STATUS_TX_DS ≠ 0 := by
    have e : s.chip.clock + 1 + 1 + 1 + 1 + 1 + 1 + (t - (s.chip.clock + 6)) = t := by omega
    rw [e]
    exact hds
  have hfl : t - (s.chip.clock + 6) < fuel := by omega
  by_cases hce : s.ce_value = 0
  all_goals
    simp only [write, hc, clamp_tx, if_false, M.bind_apply, M.pure_apply, readState, disable, enable,
      update, hal_gpio_write, wait_us, os_time_delay, setRegister_eq, select_eq, deselect_eq,
      spiWrite_eq, exchange_command, setTransmitMode, setReceiveMode, powerUp, getRegister_eq, hm,
      hce, hcs, afterPolls,
      _NRF24L01P_SPI_CMD_WR_TX_PAYLOAD, Nat.reduceMod, writePayloadBytes_eq, one_ne_zero,
      zero_ne_one, ne_eq, not_true_eq_false, not_false_eq_true, if_true, reduceCtorEq,
      waitTxDs_eq (t - (s.chip.clock + 6)) fuel, hfl, hflag, Res.value, Res.state,
      List.append_assoc, true_and]
    refine ⟨_, rfl, ?_⟩
    simp [frames, framesFrom_cs0_none, framesFrom_cs1_some, framesFrom_spi_some,
      framesFrom_payloadEvents, framesFrom_pollEvents, framesFrom_ce, framesFrom_delay,
      framesFrom_nil, filter_polls, reg_status_and, reg_config_and, _NRF24L01P_REG_CONFIG]

/-- C4: for every count `n > 0`, every buffer `data` and every pipe, from any
driver state with the bus idle, if the chip reports the transmit-complete flag
TX_DS at some status poll `t` at or after the first poll of the wait loop (the
4th command from the call, the 6th when the radio has to be powered up first),
then `write(pipe, data, n)` returns `min(n, 32)` once the poll budget covers
`t`, and among the command frames it puts on the bus exactly one starts with
WR_TX_PAYLOAD: that command byte followed by `data[0] .. data[min(n,32)-1]` in
order and nothing else. For `n > 32` that is 32 bytes and the result 32. -/
theorem write_sends_clamped (s : Driver) (hcs : s.chip.csn = 1) (pipe : Int) (data : Nat → Nat)
    (n : Int) (hn : 0 < n) (t : Nat)
    (ht : s.chip.clock + (if s.mode = _NRF24L01P_MODE_POWER_DOWN then 6 else 4) ≤ t)
    (hds : s.chip.statusFeed t % 256 &&& _NRF24L01P_STATUS_TX_DS ≠ 0)
    (fuel : Nat) (hfuel : t - s.chip.clock ≤ fuel) :
    ((write fuel pipe data n s).value = some (min n 32) ∧
      ∃ ev, (write fuel pipe data n s).state.trace = s.trace ++ ev ∧
        (frames ev).filter (fun f => decide (f.head? = some _NRF24L01P_SPI_CMD_WR_TX_PAYLOAD))
          = [_NRF24L01P_SPI_CMD_WR_TX_PAYLOAD ::
              (List.range (min n 32).toNat).map (fun i => data i % 256)]) ∧
    (32 < n → (write fuel pipe data n s).value = some 32) := by
  have main : (write fuel pipe data n s).value = some (min n 32) ∧
      ∃ ev, (write fuel pipe data n s).state.trace = s.trace ++ ev ∧
        (frames ev).filter (fun f => decide (f.head? = some _NRF24L01P_SPI_CMD_WR_TX_PAYLOAD))
          = [_NRF24L01P_SPI_CMD_WR_TX_PAYLOAD ::
              (List.range (min n 32).toNat).map (fun i => data i % 256)] := by
    by_cases hm : s.mode = _NRF24L01P_MODE_POWER_DOWN
    · rw [if_pos hm] at ht
      exact write_from_power_down s hcs pipe data n hn t hm ht hds fuel hfuel
    · rw [if_neg hm] at ht
      exact write_from_standby s hcs pipe data n hn t hm ht hds fuel hfuel
  refine ⟨main, fun h => ?_⟩
  rw [main.1, min_eq_right (le_of_lt h)]

theorem write_sends_clamped_witness :
    ((write 4 1 (fun i => i) 40 (freshDriver 0x20 8)).value = some (min 40 32) ∧
      ∃ ev, (write 4 1 (fun i => i) 40 (freshDriver 0x20 8)).state.trace
          = (freshDriver 0x20 8).trace ++ ev ∧
        (frames ev).filter (fun f => decide (f.head? = some _NRF24L01P_SPI_CMD_WR_TX_PAYLOAD))
          = [_NRF24L01P_SPI_CMD_WR_TX_PAYLOAD ::
              (List.range (min (40 : Int) 32).toNat).map (fun i => (fun i => i) i % 256)]) ∧
    ((32 : Int) < 40 → (write 4 1 (fun i => i) 40 (freshDriver 0x20 8)).value = some 32) :=
  write_sends_clamped (freshDriver 0x20 8) rfl 1 (fun i => i) 40 (by decide) 4 (by decide)
    (by decide) 4 (by decide)

/-! ## Transfer size: C11 -/

theorem pw_reg_and : ∀ p ≤ 5, (_NRF24L01P_REG_RX_PW_P0 + p) &&& 31 = 17 + p := by decide

theorem size_bits : ∀ k ≤ 32, (k &&& _NRF24L01P_RX_PW_Px_MASK) % 256 % 256 &&& _NRF24L01P_RX_PW_Px_MASK = k := by
  decide

/-- C11 fails as stated: `setTransferSize(40, 0)` halts with the invalid-argument
error instead of storing 32, so no `getTransferSize(0)` follows it. -/
theorem setTransferSize_40_rejected :
    (setTransferSize 40 0 (freshDriver 0 0)).fault = some Fault.invalidArgument ∧
    ((setTransferSize 40 0 >>= fun _ => getTransferSize 0) (freshDriver 0 0)).value ≠ some 32 := by
  have h1 : ¬ ((0 : Int) < NRF24L01P_PIPE_P0 ∨ (0 : Int) > NRF24L01P_PIPE_P5) := by decide
  have h2 : (40 : Int) < 0 ∨ (40 : Int) > (_NRF24L01P_RX_FIFO_SIZE : Int) := by decide
  simp only [setTransferSize, M.bind_apply, h1, h2, if_false, if_true, error, Res.fault, Res.value]
  exact ⟨trivial, by simp⟩

/-- C11, amended: for every pipe in 0..5, `setTransferSize(size, pipe)` with
`0 ≤ size ≤ 32` stores the size and `getTransferSize(pipe)` then returns it;
with a size below 0 or above 32 it halts with the invalid-argument error
before any bus exchange, the state unchanged: the size is validated, not
clamped. -/
theorem setTransferSize_validates (s : Driver) (hcs : s.chip.csn = 1) (pipe : Int)
    (h0 : 0 ≤ pipe) (h5 : pipe ≤ 5) (size : Int) :
    (0 ≤ size ∧ size ≤ 32 →
      ((setTransferSize size pipe >>= fun _ => getTransferSize pipe) s).value = some size) ∧
    (size < 0 ∨ 32 < size → setTransferSize size pipe s = .halt .invalidArgument s) := by
  obtain ⟨p, rfl⟩ := Int.eq_ofNat_of_zero_le h0
  have hp : p ≤ 5 := by omega
  constructor
  · rintro ⟨hs0, hs1⟩
    obtain ⟨k, rfl⟩ := Int.eq_ofNat_of_zero_le hs0
    have hk : k ≤ 32 := by omega
    have hsz : ¬ (((k : Nat) : Int) < 0 ∨ ((k : Nat) : Int) > (_NRF24L01P_RX_FIFO_SIZE : Int)) := by
      simp only [_NRF24L01P_RX_FIFO_SIZE]
      omega
    simp only [setTransferSize, getTransferSize, M.bind_apply, M.pure_apply, pipe_range p hp, hsz,
      if_false, pipe_offset, setRegister_eq, getRegister_eq, hcs, Int.toNat_ofNat, storeByte_same,
      Res.value, size_bits k hk]
  · intro hs
    have hsz : size < 0 ∨ size > (_NRF24L01P_RX_FIFO_SIZE : Int) := by
      simp only [_NRF24L01P_RX_FIFO_SIZE]
      omega
    simp only [setTransferSize, pipe_range p hp, hsz, if_false, if_true, error]

theorem setTransferSize_validates_witness :
    ((0 : Int) ≤ 8 ∧ (8 : Int) ≤ 32 →
      ((setTransferSize 8 1 >>= fun _ => getTransferSize 1) busyDriver).value = some 8) ∧
    ((8 : Int) < 0 ∨ (32 : Int) < 8 → setTransferSize 8 1 busyDriver = .halt .invalidArgument busyDriver) :=
  setTransferSize_validates busyDriver rfl 1 (by decide) (by decide) 8

/-! ## Pipe and width validation: C12 -/

theorem setTxAddress_bad_width (s : Driver) (hcs : s.chip.csn = 1) (a : Nat) (w : Int)
    (hw : w ≠ 3 ∧ w ≠ 4 ∧ w ≠ 5) : (setTxAddress a w s).rejectedFrom s := by
  obtain ⟨h3, h4, h5⟩ := hw
  simp only [Res.rejectedFrom, setTxAddress, switchWidth, M.bind_apply, getRegister_eq, hcs, h3,
    h4, h5, if_false, error, Res.fault, Res.state, true_and]
  refine ⟨_, rfl, ?_⟩
  rw [commands_read_frame]
  simp [_NRF24L01P_REG_SETUP_AW, _NRF24L01P_SPI_CMD_WR_REG]

theorem setRxAddress_bad_width (s : Driver) (hcs : s.chip.csn = 1) (a : Nat) (w : Int)
    (hw : w ≠ 3 ∧ w ≠ 4 ∧ w ≠ 5) (p : Nat) (hp : p ≤ 1) :
    (setRxAddress a w p s).rejectedFrom s := by
  obtain ⟨h3, h4, h5⟩ := hw
  have hp01 : ((p : Nat) : Int) = NRF24L01P_PIPE_P0 ∨ ((p : Nat) : Int) = NRF24L01P_PIPE_P1 := by
    simp only [NRF24L01P_PIPE_P0, NRF24L01P_PIPE_P1]
    omega
  simp only [Res.rejectedFrom, setRxAddress, switchWidth, M.bind_apply, getRegister_eq, hcs, h3,
    h4, h5, pipe_range p (by omega), hp01, if_true, if_false, error, Res.fault, Res.state,
    true_and]
  refine ⟨_, rfl, ?_⟩
  rw [commands_read_frame]
  simp [_NRF24L01P_REG_SETUP_AW, _NRF24L01P_SPI_CMD_WR_REG]

/-- C12: for every pipe index outside 0..5, from every driver state, each of
`setTransferSize`, `getTransferSize`, `enableAutoAcknowledge`,
`enableDynamicPayload`, `setRxAddress`, `getRxAddress`, `readable` and `read`
halts with the invalid-argument error in the very state it was called in: no
bus exchange, no line driven, registers and driver fields unchanged.  And for
an address width outside {3, 4, 5}, `setTxAddress` and `setRxAddress` on pipe 0
or 1 halt with that error after only reading the address-width register: no
register-write frame (so no address-width write and no address byte) is sent,
and registers, mode and chip-enable level are unchanged. -/
theorem bad_pipe_or_width_rejected (s : Driver) :
    (∀ pipe : Int, pipe < 0 ∨ 5 < pipe →
      (∀ size, setTransferSize size pipe s = .halt .invalidArgument s) ∧
      getTransferSize pipe s = .halt .invalidArgument s ∧
      enableAutoAcknowledge pipe s = .halt .invalidArgument s ∧
      enableDynamicPayload pipe s = .halt .invalidArgument s ∧
      (∀ a w, setRxAddress a w pipe s = .halt .invalidArgument s) ∧
      getRxAddress pipe s = .halt .invalidArgument s ∧
      readable pipe s = .halt .invalidArgument s ∧
      (∀ data count, read pipe data count s = .halt .invalidArgument s)) ∧
    (∀ (a : Nat) (w : Int), s.chip.csn = 1 → w ≠ 3 ∧ w ≠ 4 ∧ w ≠ 5 →
      (setTxAddress a w s).rejectedFrom s ∧
      (setRxAddress a w NRF24L01P_PIPE_P0 s).rejectedFrom s ∧
      (setRxAddress a w NRF24L01P_PIPE_P1 s).rejectedFrom s) := by
  constructor
  · intro pipe hp
    have hbad : pipe < NRF24L01P_PIPE_P0 ∨ pipe > NRF24L01P_PIPE_P5 := by
      simp only [NRF24L01P_PIPE_P0, NRF24L01P_PIPE_P5]
      omega
    refine ⟨fun size => ?_, ?_, ?_, ?_, fun a w => ?_, ?_, ?_, fun data count => ?_⟩
    · simp only [setTransferSize, hbad, if_true, error]
    · simp only [getTransferSize, hbad, if_true, error]
    · simp only [enableAutoAcknowledge, hbad, if_true, error]
    · simp only [enableDynamicPayload, hbad, if_true, error]
    · simp only [setRxAddress, hbad, if_true, error]
    · simp only [getRxAddress, getRxAddressAux, hbad, if_true, error]
    · simp only [readable, hbad, if_true, error]
    · simp only [read, hbad, if_true, error]
  · intro a w hcs hw
    exact ⟨setTxAddress_bad_width s hcs a w hw, setRxAddress_bad_width s hcs a w hw 0 (by decide),
      setRxAddress_bad_width s hcs a w hw 1 (by decide)⟩

/-- C12 in receive mode with chip-enable high: pipe 6 and address width 2. -/
theorem bad_pipe_or_width_rejected_witness :
    ((∀ size, setTransferSize size 6 busyDriver = .halt .invalidArgument busyDriver) ∧
      getTransferSize 6 busyDriver = .halt .invalidArgument busyDriver ∧
      enableAutoAcknowledge 6 busyDriver = .halt .invalidArgument busyDriver ∧
      enableDynamicPayload 6 busyDriver = .halt .invalidArgument busyDriver ∧
      (∀ a w, setRxAddress a w 6 busyDriver = .halt .invalidArgument busyDriver) ∧
      getRxAddress 6 busyDriver = .halt .invalidArgument busyDriver ∧
      readable 6 busyDriver = .halt .invalidArgument busyDriver ∧
      (∀ data count, read 6 data count busyDriver = .halt .invalidArgument busyDriver)) ∧
    ((setTxAddress 0x1122334455 2 busyDriver).rejectedFrom busyDriver ∧
      (setRxAddress 0x1122334455 2 NRF24L01P_PIPE_P0 busyDriver).rejectedFrom busyDriver ∧
      (setRxAddress 0x1122334455 2 NRF24L01P_PIPE_P1 busyDriver).rejectedFrom busyDriver) :=
  ⟨(bad_pipe_or_width_rejected busyDriver).1 6 (by decide),
   (bad_pipe_or_width_rejected busyDriver).2 0x1122334455 2 rfl (by decide)⟩

/-! ## The transmit path: C13, C16 -/

/-- C13 fails on the code at count 0 with chip-enable high: `write` returns 0
and exchanges nothing on the bus, the mode stays Rx, but it has driven the
chip-enable line low and left `ce_value` at 0, where it was 1 before. -/
theorem write_zero_drops_chip_enable :
    busyDriver.ce_value = 1 ∧
    (write 0 0 (fun _ => 0) 0 busyDriver).value = some 0 ∧
    (write 0 0 (fun _ => 0) 0 busyDriver).state.trace = [Event.ce 0] ∧
    (write 0 0 (fun _ => 0) 0 busyDriver).state.mode = busyDriver.mode ∧
    (write 0 0 (fun _ => 0) 0 busyDriver).state.ce_value = 0 := by
  have h : (0 : Int) ≤ 0 := le_refl 0
  simp only [write, M.bind_apply, M.pure_apply, readState, disable, update, hal_gpio_write, h,
    if_true, Res.value, Res.state]
  simp [busyDriver]

/-- C16: `write` ignores its pipe argument: for all pipe values `p1` and `p2`
(inside or outside 0..5), any poll budget, state, data and count, the two calls
have the same outcome: the same return value or halt, and the same final state,
which includes the whole sequence of bus, line and delay events. -/
theorem write_ignores_pipe (fuel : Nat) (p1 p2 : Int) (data : Nat → Nat) (count : Int)
    (s : Driver) : write fuel p1 data count s = write fuel p2 data count s := by
  unfold write
  rfl

/-! ## Auto-retransmit: C20 -/

theorem reg_setup_retr_and : _NRF24L01P_REG_SETUP_RETR &&& 0x1F = 4 := by decide

/-- The byte `enableAutoRetransmit(delay, count)` writes to SETUP_RETR. -/
theorem enableAutoRetransmit_eq (delay count : Int) (s : Driver) (hcs : s.chip.csn = 1) :
    ∃ s', enableAutoRetransmit delay count s = .ok () s' ∧
      s'.chip.mem 4 0
        = (0x00F0 &&& ((toU32 delay <<< 4) % 4294967296) ||| 0x000F &&& toU32 count) % 256 ∧
      s'.a_retr_enabled = true := by
  simp only [enableAutoRetransmit, M.bind_apply, M.pure_apply, setRegister_eq, hcs, update,
    reg_setup_retr_and]
  exact ⟨_, rfl, by simp [storeByte], rfl⟩

/-- C20 fails on the code for delays in microseconds: the high four bits of the
byte written are the low four bits of the `delay` argument itself, not the
delay in 250 microsecond steps.  `enableAutoRetransmit(250, 3)` writes `0xA3`,
`enableAutoRetransmit(500, 3)` writes `0x43` and `enableAutoRetransmit(4000, 3)`,
the call `init` names, writes `0x03`: the delay field falls from 10 to 4 to 0
as the delay grows, and 4000 gets the code of the shortest delay. -/
theorem enableAutoRetransmit_delay_field :
    (enableAutoRetransmit 250 3 (freshDriver 0 0)).state.chip.mem 4 0 = 0xA3 ∧
    (enableAutoRetransmit 500 3 (freshDriver 0 0)).state.chip.mem 4 0 = 0x43 ∧
    (enableAutoRetransmit 4000 3 (freshDriver 0 0)).state.chip.mem 4 0 = 0x03 := by
  obtain ⟨s1, h1, m1, -⟩ := enableAutoRetransmit_eq 250 3 (freshDriver 0 0) rfl
  obtain ⟨s2, h2, m2, -⟩ := enableAutoRetransmit_eq 500 3 (freshDriver 0 0) rfl
  obtain ⟨s3, h3, m3, -⟩ := enableAutoRetransmit_eq 4000 3 (freshDriver 0 0) rfl
  rw [h1, h2, h3]
  simp only [Res.state, m1, m2, m3]
  decide

/-! ## The transmit path: C14, C15 -/

set_option maxRecDepth 100000 in
theorem txrx_bits : ∀ x < 256,
    (((x &&& bnot32 _NRF24L01P_CONFIG_PRIM_RX) % 256 ||| _NRF24L01P_CONFIG_PRIM_RX) % 256
        &&& _NRF24L01P_CONFIG_PRIM_RX ≠ 0) ∧
    ((x &&& bnot32 _NRF24L01P_CONFIG_PRIM_RX) % 256 &&& _NRF24L01P_CONFIG_PRIM_RX = 0) ∧
    (((x ||| _NRF24L01P_CONFIG_PWR_UP) % 256 &&& bnot32 _NRF24L01P_CONFIG_PRIM_RX) % 256
        &&& _NRF24L01P_CONFIG_PRIM_RX = 0) ∧
    (((x ||| _NRF24L01P_CONFIG_PWR_UP) % 256 &&& bnot32 _NRF24L01P_CONFIG_PRIM_RX) % 256
        &&& _NRF24L01P_CONFIG_PWR_UP ≠ 0) := by
  decide

theorem write_mode_powered (s : Driver) (hcs : s.chip.csn = 1) (pipe : Int) (data : Nat → Nat)
    (n : Int) (hn : 0 < n) (t : Nat)
    (hm : s.mode ≠ _NRF24L01P_MODE_POWER_DOWN)
    (ht : s.chip.clock + 4 ≤ t)
    (hds : s.chip.statusFeed t % 256 &&& _NRF24L01P_STATUS_TX_DS ≠ 0)
    (fuel : Nat) (hfuel : t - s.chip.clock ≤ fuel) :
    (write fuel pipe data n s).value = some (min n 32) ∧
    (s.mode = _NRF24L01P_MODE_RX →
      (write fuel pipe data n s).state.mode = _NRF24L01P_MODE_RX ∧
      (write fuel pipe data n s).state.chip.mem _NRF24L01P_REG_CONFIG 0
        &&& _NRF24L01P_CONFIG_PRIM_RX ≠ 0) ∧
    (s.mode ≠ _NRF24L01P_MODE_RX →
      (write fuel pipe data n s).state.mode = _NRF24L01P_MODE_TX ∧
      (write fuel pipe data n s).state.chip.mem _NRF24L01P_REG_CONFIG 0
        &&& _NRF24L01P_CONFIG_PRIM_RX = 0) := by
  have hc : ¬ n ≤ 0 := by omega
  have hflag : s.chip.statusFeed (s.chip.clock + 1 + 1 + 1 + 1 + (t - (s.chip.clock + 4))) % 256
      &&& _NRF24L01P_STATUS_TX_DS ≠ 0 := by
    have e : s.chip.clock + 1 + 1 + 1 + 1 + (t - (s.chip.clock + 4)) = t := by omega
    rw [e]
    exact hds
  have hfl : t - (s.chip.clock + 4) < fuel := by omega
  obtain ⟨b1, b2, -, -⟩ := txrx_bits (s.chip.mem 0 0 % 256) (Nat.mod_lt _ (by decide))
  by_cases hrx : s.mode = _NRF24L01P_MODE_RX <;> by_cases hce : s.ce_value = 0
  all_goals
    simp only [write, hc, clamp_tx, if_false, M.bind_apply, M.pure_apply, readState, disable, enable,
      update, hal_gpio_write, wait_us, os_time_delay, setRegister_eq, select_eq, deselect_eq,
      spiWrite_eq, exchange_command, setTransmitMode, setReceiveMode, powerUp, getRegister_eq, hm,
      hrx, hce, hcs, afterPolls,
      _NRF24L01P_SPI_CMD_WR_TX_PAYLOAD, Nat.reduceMod, writePayloadBytes_eq, one_ne_zero,
      zero_ne_one, ne_eq, not_true_eq_false, not_false_eq_true, if_true, reduceCtorEq,
      waitTxDs_eq (t - (s.chip.clock + 4)) fuel, hfl, hflag, Res.value, Res.state,
      List.append_assoc, true_and]
    simp only [reg_status_and, reg_config_and, _NRF24L01P_REG_CONFIG, storeByte, Nat.reduceEqDiff,
      false_and, and_self, and_true, if_false, if_true, OfNat.ofNat_ne_zero, Nat.mod_mod,
      Nat.zero_and, b1, b2, not_false_eq_true, not_true_eq_false, true_implies, false_implies,
      implies_true, ne_eq]

theorem write_mode_power_down (s : Driver) (hcs : s.chip.csn = 1) (pipe : Int) (data : Nat → Nat)
    (n : Int) (hn : 0 < n) (t : Nat)
    (hm : s.mode = _NRF24L01P_MODE_POWER_DOWN)
    (ht : s.chip.clock + 6 ≤ t)
    (hds : s.chip.statusFeed t % 256 &&& _NRF24L01P_STATUS_TX_DS ≠ 0)
    (fuel : Nat) (hfuel : t - s.chip.clock ≤ fuel) :
    (write fuel pipe data n s).value = some (min n 32) ∧
    (write fuel pipe data n s).state.mode = _NRF24L01P_MODE_TX ∧
    (write fuel pipe data n s).state.chip.mem _NRF24L01P_REG_CONFIG 0
      &&& _NRF24L01P_CONFIG_PRIM_RX = 0 ∧
    (write fuel pipe data n s).state.chip.mem _NRF24L01P_REG_CONFIG 0
      &&& _NRF24L01P_CONFIG_PWR_UP ≠ 0 := by
  have hc : ¬ n ≤ 0 := by omega
  have hflag : s.chip.statusFeed
      (s.chip.clock + 1 + 1 + 1 + 1 + 1 + 1 + (t - (s.chip.clock + 6))) % 256
      &&& _NRF24L01P_STATUS_TX_DS ≠ 0 := by
    have e : s.chip.clock + 1 + 1 + 1 + 1 + 1 + 1 + (t - (s.chip.clock + 6)) = t := by omega
    rw [e]
    exact hds
  have hfl : t - (s.chip.clock + 6) < fuel := by omega
  obtain ⟨-, -, b3, b4⟩ := txrx_bits (s.chip.mem 0 0 % 256) (Nat.mod_lt _ (by decide))
  by_cases hce : s.ce_value = 0
  all_goals
    simp only [write, hc, clamp_tx, if_false, M.bind_apply, M.pure_apply, readState, disable, enable,
      update, hal_gpio_write, wait_us, os_time_delay, setRegister_eq, select_eq, deselect_eq,
      spiWrite_eq, exchange_command, setTransmitMode, setReceiveMode, powerUp, getRegister_eq, hm,
      hce, hcs, afterPolls,
      _NRF24L01P_SPI_CMD_WR_TX_PAYLOAD, Nat.reduceMod, writePayloadBytes_eq, one_ne_zero,
      zero_ne_one, ne_eq, not_true_eq_false, not_false_eq_true, if_true, reduceCtorEq,
      waitTxDs_eq (t - (s.chip.clock + 6)) fuel, hfl, hflag, Res.value, Res.state,
      List.append_assoc, true_and]
    simp only [reg_status_and, reg_config_and, _NRF24L01P_REG_CONFIG, storeByte, Nat.reduceEqDiff,
      false_and, and_self, and_true, if_false, if_true, OfNat.ofNat_ne_zero, Nat.mod_mod,
      Nat.zero_and, b3, b4, not_false_eq_true, not_true_eq_false, true_implies, false_implies,
      implies_true, ne_eq]

/-- C15: for every count `n > 0`, from any driver state with the bus idle, if
the chip reports the transmit-complete flag at some status poll `t` of the
wait loop and the poll budget covers `t`, then `write` returns, and afterwards:
if the mode was Rx before the call, the mode is Rx and the primary-receiver bit
of the configuration register is set; for every other prior mode the mode is Tx
and the primary-receiver bit is clear, and if the prior mode was PowerDown the
power-enable bit is set. -/
theorem write_restores_mode (s : Driver) (hcs : s.chip.csn = 1) (pipe : Int) (data : Nat → Nat)
    (n : Int) (hn : 0 < n) (t : Nat)
    (ht : s.chip.clock + (if s.mode = _NRF24L01P_MODE_POWER_DOWN then 6 else 4) ≤ t)
    (hds : s.chip.statusFeed t % 256 &&& _NRF24L01P_STATUS_TX_DS ≠ 0)
    (fuel : Nat) (hfuel : t - s.chip.clock ≤ fuel) :
    (write fuel pipe data n s).value = some (min n 32) ∧
    (s.mode = _NRF24L01P_MODE_RX →
      (write fuel pipe data n s).state.mode = _NRF24L01P_MODE_RX ∧
      (write fuel pipe data n s).state.chip.mem _NRF24L01P_REG_CONFIG 0
        &&& _NRF24L01P_CONFIG_PRIM_RX ≠ 0) ∧
    (s.mode ≠ _NRF24L01P_MODE_RX →
      (write fuel pipe data n s).state.mode = _NRF24L01P_MODE_TX ∧
      (write fuel pipe data n s).state.chip.mem _NRF24L01P_REG_CONFIG 0
        &&& _NRF24L01P_CONFIG_PRIM_RX = 0 ∧
      (s.mode = _NRF24L01P_MODE_POWER_DOWN →
        (write fuel pipe data n s).state.chip.mem _NRF24L01P_REG_CONFIG 0
          &&& _NRF24L01P_CONFIG_PWR_UP ≠ 0)) := by
  by_cases hm : s.mode = _NRF24L01P_MODE_POWER_DOWN
  · rw [if_pos hm] at ht
    obtain ⟨h1, h2, h3, h4⟩ := write_mode_power_down s hcs pipe data n hn t hm ht hds fuel hfuel
    refine ⟨h1, fun hrx => ?_, fun _ => ⟨h2, h3, fun _ => h4⟩⟩
    rw [hm] at hrx
    cases hrx
  · rw [if_neg hm] at ht
    obtain ⟨h1, h2, h3⟩ := write_mode_powered s hcs pipe data n hn t hm ht hds fuel hfuel
    exact ⟨h1, h2, fun hrx => ⟨(h3 hrx).1, (h3 hrx).2, fun h => absurd h hm⟩⟩

/-- C15 in receive mode with chip-enable high, the flag shown at the seventh
status byte: the mode is Rx again and the primary-receiver bit is set. -/
theorem write_restores_mode_witness :
    (write 6 1 (fun i => i) 3 sendingDriver).value = some (min 3 32) ∧
    (sendingDriver.mode = _NRF24L01P_MODE_RX →
      (write 6 1 (fun i => i) 3 sendingDriver).state.mode = _NRF24L01P_MODE_RX ∧
      (write 6 1 (fun i => i) 3 sendingDriver).state.chip.mem _NRF24L01P_REG_CONFIG 0
        &&& _NRF24L01P_CONFIG_PRIM_RX ≠ 0) ∧
    (sendingDriver.mode ≠ _NRF24L01P_MODE_RX →
      (write 6 1 (fun i => i) 3 sendingDriver).state.mode = _NRF24L01P_MODE_TX ∧
      (write 6 1 (fun i => i) 3 sendingDriver).state.chip.mem _NRF24L01P_REG_CONFIG 0
        &&& _NRF24L01P_CONFIG_PRIM_RX = 0 ∧
      (sendingDriver.mode = _NRF24L01P_MODE_POWER_DOWN →
        (write 6 1 (fun i => i) 3 sendingDriver).state.chip.mem _NRF24L01P_REG_CONFIG 0
          &&& _NRF24L01P_CONFIG_PWR_UP ≠ 0)) :=
  write_restores_mode sendingDriver rfl 1 (fun i => i) 3 (by decide) 6 (by decide) (by decide) 6
    (by decide)

theorem beforePulse_payloadEvents (data : Nat → Nat) (n : Nat) :
    ∀ (i : Nat) (rest : List Event),
      beforePulse (payloadEvents data i n ++ rest) = payloadEvents data i n ++ beforePulse rest := by
  induction n with
  | zero =>
    intro i rest
    rfl
  | succ n ih =>
    intro i rest
    have e : payloadEvents data i (n + 1) ++ rest
        = .spi (data i % 256) 0 :: (payloadEvents data (i + 1) n ++ rest) := rfl
    have e2 : payloadEvents data i (n + 1) = .spi (data i % 256) 0 :: payloadEvents data (i + 1) n :=
      rfl
    rw [e, e2, List.cons_append, ← ih]
    simp [beforePulse, List.takeWhile_cons]

theorem fromPulse_payloadEvents (data : Nat → Nat) (n : Nat) :
    ∀ (i : Nat) (rest : List Event),
      fromPulse (payloadEvents data i n ++ rest) = fromPulse rest := by
  induction n with
  | zero =>
    intro i rest
    rfl
  | succ n ih =>
    intro i rest
    have e : payloadEvents data i (n + 1) ++ rest
        = .spi (data i % 256) 0 :: (payloadEvents data (i + 1) n ++ rest) := rfl
    rw [e]
    have h := ih (i + 1) rest
    simp only [fromPulse] at h ⊢
    rw [List.dropWhile_cons, if_pos (by simp), h]

theorem ceWrites_payloadEvents (data : Nat → Nat) (n : Nat) :
    ∀ i : Nat, ceWrites (payloadEvents data i n) = [] := by
  induction n with
  | zero =>
    intro i
    rfl
  | succ n ih =>
    intro i
    have e2 : payloadEvents data i (n + 1) = .spi (data i % 256) 0 :: payloadEvents data (i + 1) n :=
      rfl
    have := ih (i + 1)
    simp only [ceWrites] at this ⊢
    rw [e2, List.filterMap_cons, this]

theorem ceWrites_pollEvents (feed : Nat → Nat) (n : Nat) :
    ∀ c : Nat, ceWrites (pollEvents feed c n) = [] := by
  induction n with
  | zero =>
    intro c
    rfl
  | succ n ih =>
    intro c
    have e2 : pollEvents feed c (n + 1)
        = .cs 0 :: .spi 0xff (feed c % 256) :: .cs 1 :: pollEvents feed (c + 1) n := rfl
    have := ih (c + 1)
    simp only [ceWrites] at this ⊢
    rw [e2, List.filterMap_cons, List.filterMap_cons, List.filterMap_cons, this]

theorem ceWrites_append (a b : List Event) : ceWrites (a ++ b) = ceWrites a ++ ceWrites b := by
  simp [ceWrites, List.filterMap_append]

theorem fromPulse_cs (l : Nat) (es : List Event) : fromPulse (.cs l :: es) = fromPulse es := by
  simp [fromPulse, List.dropWhile_cons]

theorem fromPulse_spi (a b : Nat) (es : List Event) : fromPulse (.spi a b :: es) = fromPulse es := by
  simp [fromPulse, List.dropWhile_cons]

theorem fromPulse_delay (d : Nat) (es : List Event) : fromPulse (.delay d :: es) = fromPulse es := by
  simp [fromPulse, List.dropWhile_cons]

theorem fromPulse_ce0 (es : List Event) : fromPulse (.ce 0 :: es) = fromPulse es := by
  simp [fromPulse, List.dropWhile_cons]

theorem fromPulse_ce1 (es : List Event) : fromPulse (.ce 1 :: es) = .ce 1 :: es := by
  simp [fromPulse, List.dropWhile_cons]

theorem beforePulse_cs (l : Nat) (es : List Event) :
    beforePulse (.cs l :: es) = .cs l :: beforePulse es := by
  simp [beforePulse, List.takeWhile_cons]

theorem beforePulse_spi (a b : Nat) (es : List Event) :
    beforePulse (.spi a b :: es) = .spi a b :: beforePulse es := by
  simp [beforePulse, List.takeWhile_cons]

theorem beforePulse_delay (d : Nat) (es : List Event) :
    beforePulse (.delay d :: es) = .delay d :: beforePulse es := by
  simp [beforePulse, List.takeWhile_cons]

theorem beforePulse_ce0 (es : List Event) : beforePulse (.ce 0 :: es) = .ce 0 :: beforePulse es := by
  simp [beforePulse, List.takeWhile_cons]

theorem beforePulse_ce1 (es : List Event) : beforePulse (.ce 1 :: es) = [] := by
  simp [beforePulse, List.takeWhile_cons]

theorem ceWrites_nil : ceWrites [] = [] := rfl

theorem ceWrites_ce (l : Nat) (es : List Event) : ceWrites (.ce l :: es) = l :: ceWrites es := rfl

theorem ceWrites_cs (l : Nat) (es : List Event) : ceWrites (.cs l :: es) = ceWrites es := rfl

theorem ceWrites_spi (a b : Nat) (es : List Event) : ceWrites (.spi a b :: es) = ceWrites es := rfl

theorem ceWrites_delay (d : Nat) (es : List Event) : ceWrites (.delay d :: es) = ceWrites es := rfl

theorem write_pulse_powered (s : Driver) (hcs : s.chip.csn = 1) (pipe : Int) (data : Nat → Nat)
    (n : Int) (hn : 0 < n) (hce : s.ce_value = 0 ∨ s.ce_value = 1) (t : Nat)
    (hm : s.mode ≠ _NRF24L01P_MODE_POWER_DOWN)
    (ht : s.chip.clock + 4 ≤ t)
    (hds : s.chip.statusFeed t % 256 &&& _NRF24L01P_STATUS_TX_DS ≠ 0)
    (fuel : Nat) (hfuel : t - s.chip.clock ≤ fuel) :
    (write fuel pipe data n s).value = some (min n 32) ∧
    (write fuel pipe data n s).state.ce_value = s.ce_value ∧
    ∃ ev, (write fuel pipe data n s).state.trace = s.trace ++ ev ∧
      (fromPulse ev).take 4 = [.ce 1, .delay 1, .delay 1, .ce 0] ∧
      (_NRF24L01P_SPI_CMD_WR_TX_PAYLOAD ::
          (List.range (min n 32).toNat).map (fun i => data i % 256)) ∈ frames (beforePulse ev) ∧
      (∃ cfg, (frames (beforePulse ev)).getLast?
          = some [_NRF24L01P_SPI_CMD_WR_REG ||| _NRF24L01P_REG_CONFIG, cfg] ∧
        cfg &&& _NRF24L01P_CONFIG_PRIM_RX = 0) ∧
      (ceWrites ev).getLast? = some s.ce_value := by
  have hc : ¬ n ≤ 0 := by omega
  have hflag : s.chip.statusFeed (s.chip.clock + 1 + 1 + 1 + 1 + (t - (s.chip.clock + 4))) % 256
      &&& _NRF24L01P_STATUS_TX_DS ≠ 0 := by
    have e : s.chip.clock + 1 + 1 + 1 + 1 + (t - (s.chip.clock + 4)) = t := by omega
    rw [e]
    exact hds
  have hfl : t - (s.chip.clock + 4) < fuel := by omega
  obtain ⟨b1, b2, -, -⟩ := txrx_bits (s.chip.mem 0 0 % 256) (Nat.mod_lt _ (by decide))
  by_cases hrx : s.mode = _NRF24L01P_MODE_RX <;> rcases hce with hce | hce
  all_goals
    simp only [write, hc, clamp_tx, if_false, M.bind_apply, M.pure_apply, readState, disable, enable,
      update, hal_gpio_write, wait_us, os_time_delay, setRegister_eq, select_eq, deselect_eq,
      spiWrite_eq, exchange_command, setTransmitMode, setReceiveMode, powerUp, getRegister_eq, hm,
      hrx, hce, hcs, afterPolls,
      _NRF24L01P_SPI_CMD_WR_TX_PAYLOAD, Nat.reduceMod, writePayloadBytes_eq, one_ne_zero,
      zero_ne_one, ne_eq, not_true_eq_false, not_false_eq_true, if_true, reduceCtorEq,
      waitTxDs_eq (t - (s.chip.clock + 4)) fuel, hfl, hflag, Res.value, Res.state,
      List.append_assoc, true_and,
      _NRF24L01P_TIMING_Tpece2csn_us, _NRF24L01P_TIMING_Thce_us, USEC_PER_OS_TICK_LOG2,
      Nat.reduceShiftRight, Nat.reduceAdd]
    simp only [List.cons_append, List.nil_append, List.singleton_append]
    refine ⟨_, rfl, ?_, ?_, ?_, ?_⟩
    · simp only [fromPulse_cs, fromPulse_spi, fromPulse_delay, fromPulse_ce0, fromPulse_ce1,
        fromPulse_payloadEvents, List.take_succ_cons, List.take_zero]
    · simp [beforePulse_cs, beforePulse_spi, beforePulse_delay, beforePulse_ce0, beforePulse_ce1,
        beforePulse_payloadEvents, frames, framesFrom_cs0_none, framesFrom_cs1_some,
        framesFrom_spi_some, framesFrom_payloadEvents, framesFrom_ce, framesFrom_delay,
        framesFrom_nil]
    · simp [beforePulse_cs, beforePulse_spi, beforePulse_delay, beforePulse_ce0, beforePulse_ce1,
        beforePulse_payloadEvents, frames, framesFrom_cs0_none, framesFrom_cs1_some,
        framesFrom_spi_some, framesFrom_payloadEvents, framesFrom_ce, framesFrom_delay,
        framesFrom_nil]
      refine ⟨_, ⟨by decide, rfl⟩, ?_⟩
      simp only [reg_status_and, reg_config_and, _NRF24L01P_REG_CONFIG, storeByte,
        Nat.reduceEqDiff, false_and, if_false, Nat.zero_and]
      exact b2
    · simp [ceWrites_ce, ceWrites_cs, ceWrites_spi, ceWrites_delay, ceWrites_nil, ceWrites_append,
        ceWrites_payloadEvents, ceWrites_pollEvents]

theorem write_pulse_power_down (s : Driver) (hcs : s.chip.csn = 1) (pipe : Int) (data : Nat → Nat)
    (n : Int) (hn : 0 < n) (hce : s.ce_value = 0 ∨ s.ce_value = 1) (t : Nat)
    (hm : s.mode = _NRF24L01P_MODE_POWER_DOWN)
    (ht : s.chip.clock + 6 ≤ t)
    (hds : s.chip.statusFeed t % 256 &&& _NRF24L01P_STATUS_TX_DS ≠ 0)
    (fuel : Nat) (hfuel : t - s.chip.clock ≤ fuel) :
    (write fuel pipe data n s).value = some (min n 32) ∧
    (write fuel pipe data n s).state.ce_value = s.ce_value ∧
    ∃ ev, (write fuel pipe data n s).state.trace = s.trace ++ ev ∧
      (fromPulse ev).take 4 = [.ce 1, .delay 1, .delay 1, .ce 0] ∧
      (_NRF24L01P_SPI_CMD_WR_TX_PAYLOAD ::
          (List.range (min n 32).toNat).map (fun i => data i % 256)) ∈ frames (beforePulse ev) ∧
      (∃ cfg, (frames (beforePulse ev)).getLast?
          = some [_NRF24L01P_SPI_CMD_WR_REG ||| _NRF24L01P_REG_CONFIG, cfg] ∧
        cfg &&& _NRF24L01P_CONFIG_PRIM_RX = 0) ∧
      (ceWrites ev).getLast? = some s.ce_value := by
  have hc : ¬ n ≤ 0 := by omega
  have hflag : s.chip.statusFeed (s.chip.clock + 1 + 1 + 1 + 1 + 1 + 1 + (t - (s.chip.clock + 6))) % 256
      &&& _NRF24L01P_STATUS_TX_DS ≠ 0 := by
    have e : s.chip.clock + 1 + 1 + 1 + 1 + 1 + 1 + (t - (s.chip.clock + 6)) = t := by omega
    rw [e]
    exact hds
  have hfl : t - (s.chip.clock + 6) < fuel := by omega
  obtain ⟨-, -, b3, b4⟩ := txrx_bits (s.chip.mem 0 0 % 256) (Nat.mod_lt _ (by decide))
  rcases hce with hce | hce
  all_goals
    simp only [write, hc, clamp_tx, if_false, M.bind_apply, M.pure_apply, readState, disable, enable,
      update, hal_gpio_write, wait_us, os_time_delay, setRegister_eq, select_eq, deselect_eq,
      spiWrite_eq, exchange_command, setTransmitMode, setReceiveMode, powerUp, getRegister_eq, hm,
      hce, hcs, afterPolls,
      _NRF24L01P_SPI_CMD_WR_TX_PAYLOAD, Nat.reduceMod, writePayloadBytes_eq, one_ne_zero,
      zero_ne_one, ne_eq, not_true_eq_false, not_false_eq_true, if_true, reduceCtorEq,
      waitTxDs_eq (t - (s.chip.clock + 6)) fuel, hfl, hflag, Res.value, Res.state,
      List.append_assoc, true_and,
      _NRF24L01P_TIMING_Tpece2csn_us, _NRF24L01P_TIMING_Thce_us, USEC_PER_OS_TICK_LOG2,
      Nat.reduceShiftRight, Nat.reduceAdd]
    simp only [List.cons_append, List.nil_append, List.singleton_append]
    refine ⟨_, rfl, ?_, ?_, ?_, ?_⟩
    · simp only [fromPulse_cs, fromPulse_spi, fromPulse_delay, fromPulse_ce0, fromPulse_ce1,
        fromPulse_payloadEvents, List.take_succ_cons, List.take_zero]
    · simp [beforePulse_cs, beforePulse_spi, beforePulse_delay, beforePulse_ce0, beforePulse_ce1,
        beforePulse_payloadEvents, frames, framesFrom_cs0_none, framesFrom_cs1_some,
        framesFrom_spi_some, framesFrom_payloadEvents, framesFrom_ce, framesFrom_delay,
        framesFrom_nil]
    · simp [beforePulse_cs, beforePulse_spi, beforePulse_delay, beforePulse_ce0, beforePulse_ce1,
        beforePulse_payloadEvents, frames, framesFrom_cs0_none, framesFrom_cs1_some,
        framesFrom_spi_some, framesFrom_payloadEvents, framesFrom_ce, framesFrom_delay,
        framesFrom_nil]
      refine ⟨_, ⟨by decide, rfl⟩, ?_⟩
      simp only [reg_status_and, reg_config_and, _NRF24L01P_REG_CONFIG, storeByte,
        Nat.reduceEqDiff, false_and, and_self, if_false, if_true, Nat.zero_and, Nat.mod_mod]
      exact b3
    · simp [ceWrites_ce, ceWrites_cs, ceWrites_spi, ceWrites_delay, ceWrites_nil, ceWrites_append,
        ceWrites_payloadEvents, ceWrites_pollEvents]

/-- C14: for every count `n > 0` and initial chip-enable level 0 or 1, from any
driver state with the bus idle, if the chip reports the transmit-complete flag
at some status poll `t` of the wait loop and the poll budget covers `t`, then
`write` returns with `ce_value` as before the call, and the last level it
writes to the chip-enable line is that level.  In between the line is pulsed:
the first time it is driven high it is held for the two waits (one tick each)
and driven low again, and before that moment the payload frame has been sent
and the last frame on the bus is the write of the configuration register with
the primary-receiver bit clear (transmit mode). -/
theorem write_pulses_and_restores_ce (s : Driver) (hcs : s.chip.csn = 1) (pipe : Int)
    (data : Nat → Nat) (n : Int) (hn : 0 < n) (hce : s.ce_value = 0 ∨ s.ce_value = 1) (t : Nat)
    (ht : s.chip.clock + (if s.mode = _NRF24L01P_MODE_POWER_DOWN then 6 else 4) ≤ t)
    (hds : s.chip.statusFeed t % 256 &&& _NRF24L01P_STATUS_TX_DS ≠ 0)
    (fuel : Nat) (hfuel : t - s.chip.clock ≤ fuel) :
    (write fuel pipe data n s).value = some (min n 32) ∧
    (write fuel pipe data n s).state.ce_value = s.ce_value ∧
    ∃ ev, (write fuel pipe data n s).state.trace = s.trace ++ ev ∧
      (fromPulse ev).take 4 = [.ce 1, .delay 1, .delay 1, .ce 0] ∧
      (_NRF24L01P_SPI_CMD_WR_TX_PAYLOAD ::
          (List.range (min n 32).toNat).map (fun i => data i % 256)) ∈ frames (beforePulse ev) ∧
      (∃ cfg, (frames (beforePulse ev)).getLast?
          = some [_NRF24L01P_SPI_CMD_WR_REG ||| _NRF24L01P_REG_CONFIG, cfg] ∧
        cfg &&& _NRF24L01P_CONFIG_PRIM_RX = 0) ∧
      (ceWrites ev).getLast? = some s.ce_value := by
  by_cases hm : s.mode = _NRF24L01P_MODE_POWER_DOWN
  · rw [if_pos hm] at ht
    exact write_pulse_power_down s hcs pipe data n hn hce t hm ht hds fuel hfuel
  · rw [if_neg hm] at ht
    exact write_pulse_powered s hcs pipe data n hn hce t hm ht hds fuel hfuel

/-- C14 in receive mode with chip-enable high, the flag shown at the seventh
status byte. -/
theorem write_pulses_and_restores_ce_witness :
    (write 6 1 (fun i => i) 3 sendingDriver).value = some (min 3 32) ∧
    (write 6 1 (fun i => i) 3 sendingDriver).state.ce_value = sendingDriver.ce_value ∧
    ∃ ev, (write 6 1 (fun i => i) 3 sendingDriver).state.trace = sendingDriver.trace ++ ev ∧
      (fromPulse ev).take 4 = [.ce 1, .delay 1, .delay 1, .ce 0] ∧
      (_NRF24L01P_SPI_CMD_WR_TX_PAYLOAD ::
          (List.range (min (3 : Int) 32).toNat).map (fun i => (fun i => i) i % 256))
        ∈ frames (beforePulse ev) ∧
      (∃ cfg, (frames (beforePulse ev)).getLast?
          = some [_NRF24L01P_SPI_CMD_WR_REG ||| _NRF24L01P_REG_CONFIG, cfg] ∧
        cfg &&& _NRF24L01P_CONFIG_PRIM_RX = 0) ∧
      (ceWrites ev).getLast? = some sendingDriver.ce_value :=
  write_pulses_and_restores_ce sendingDriver rfl 1 (fun i => i) 3 (by decide) (Or.inr rfl) 6
    (by decide) (by decide) 6 (by decide)

/-! ## `init`: C17, C18, C19 -/

theorem returns_bind {α β : Type} {x : M α} {f : α → M β} {P : Driver → Prop}
    {Q : α → Driver → Prop} {R : β → Driver → Prop}
    (hx : M.returns x P Q) (hf : ∀ a, M.returns (f a) (Q a) R) : M.returns (x >>= f) P R := by
  intro s hs
  obtain ⟨a, s1, h1, q1⟩ := hx s hs
  obtain ⟨b, s2, h2, q2⟩ := hf a s1 q1
  exact ⟨b, s2, by simp only [M.bind_apply, h1, h2], q2⟩

theorem returns_pure {α : Type} (a : α) {P : Driver → Prop} {Q : α → Driver → Prop}
    (h : ∀ s, P s → Q a s) : M.returns (pure a) P Q :=
  fun s hs => ⟨a, s, rfl, h s hs⟩

theorem setRegister_quiet (r d : Nat) (m : Nat → Nat → Nat) :
    M.returns (setRegister r d) (Quiet m) (fun _ => Quiet (storeByte m (r &&& 0x1F) 0 (d % 256))) := by
  rintro s ⟨hcs, hce, rfl⟩
  simp only [setRegister_eq, hcs, hce, ne_eq, not_true_eq_false, if_false]
  exact ⟨(), _, rfl, rfl, rfl, rfl⟩

theorem wait_us_quiet (us : Nat) (m : Nat → Nat → Nat) :
    M.returns (wait_us us) (Quiet m) (fun _ => Quiet m) := by
  rintro s ⟨hcs, hce, rfl⟩
  exact ⟨(), _, rfl, hcs, hce, rfl⟩

theorem reg_en_aa_and : _NRF24L01P_REG_EN_AA &&& 31 = 1 := by decide

theorem reg_rf_ch_and : _NRF24L01P_REG_RF_CH &&& 31 = 5 := by decide

theorem reg_rf_setup_and : _NRF24L01P_REG_RF_SETUP &&& 31 = 6 := by decide

theorem setRfFrequency_quiet (hdr : Header) (f : Int) (m : Nat → Nat → Nat)
    (hlo : hdr.NRF24L01P_MIN_RF_FREQUENCY ≤ f) (hhi : f ≤ hdr.NRF24L01P_MAX_RF_FREQUENCY) :
    M.returns (setRfFrequency hdr f) (Quiet m) (fun _ => Quiet
      (storeByte m 5 0 (((f - hdr.NRF24L01P_MIN_RF_FREQUENCY).toNat &&& 0x7F) % 256))) := by
  have h1 : ¬ (f < hdr.NRF24L01P_MIN_RF_FREQUENCY ∨ f > hdr.NRF24L01P_MAX_RF_FREQUENCY) := by omega
  have h := setRegister_quiet _NRF24L01P_REG_RF_CH
    ((f - hdr.NRF24L01P_MIN_RF_FREQUENCY).toNat &&& 0x7F) m
  rw [reg_rf_ch_and] at h
  simpa only [setRfFrequency, h1, if_false] using h

theorem setRfOutputPower_quiet (hdr : Header) (p : Int) (m : Nat → Nat → Nat)
    (hp : p ∈ [hdr.NRF24L01P_TX_PWR_ZERO_DB, hdr.NRF24L01P_TX_PWR_MINUS_6_DB,
      hdr.NRF24L01P_TX_PWR_MINUS_12_DB, hdr.NRF24L01P_TX_PWR_MINUS_18_DB]) :
    M.returns (setRfOutputPower hdr p) (Quiet m) (fun _ => Quiet
      (storeByte m 6 0
        ((m 6 0 % 256 &&& bnot32 _NRF24L01P_RF_SETUP_RF_PWR_MASK ||| powerBits hdr p) % 256))) := by
  rintro s ⟨hcs, hce, rfl⟩
  simp only [List.mem_cons, List.mem_singleton, List.not_mem_nil, or_false] at hp
  by_cases h1 : p = hdr.NRF24L01P_TX_PWR_ZERO_DB
  · subst h1
    simp only [setRfOutputPower, powerBits, M.bind_apply, getRegister_eq, setRegister_eq, hcs, hce,
      if_true, reg_rf_setup_and, ne_eq, not_true_eq_false, if_false]
    exact ⟨(), _, rfl, rfl, rfl, rfl⟩
  · by_cases h2 : p = hdr.NRF24L01P_TX_PWR_MINUS_6_DB
    · subst h2
      simp only [setRfOutputPower, powerBits, M.bind_apply, getRegister_eq, setRegister_eq, hcs,
        hce, h1, if_true, reg_rf_setup_and, ne_eq, not_true_eq_false, if_false]
      exact ⟨(), _, rfl, rfl, rfl, rfl⟩
    · by_cases h3 : p = hdr.NRF24L01P_TX_PWR_MINUS_12_DB
      · subst h3
        simp only [setRfOutputPower, powerBits, M.bind_apply, getRegister_eq, setRegister_eq, hcs,
          hce, h1, h2, if_true, reg_rf_setup_and, ne_eq, not_true_eq_false, if_false]
        exact ⟨(), _, rfl, rfl, rfl, rfl⟩
      · have h4 : p = hdr.NRF24L01P_TX_PWR_MINUS_18_DB := by tauto
        subst h4
        simp only [setRfOutputPower, powerBits, M.bind_apply, getRegister_eq, setRegister_eq, hcs,
          hce, h1, h2, h3, if_true, reg_rf_setup_and, ne_eq, not_true_eq_false, if_false]
        exact ⟨(), _, rfl, rfl, rfl, rfl⟩

theorem setAirDataRate_quiet (hdr : Header) (r : Int) (m : Nat → Nat → Nat)
    (hr : r ∈ [hdr.NRF24L01P_DATARATE_250_KBPS, hdr.NRF24L01P_DATARATE_1_MBPS,
      hdr.NRF24L01P_DATARATE_2_MBPS]) :
    M.returns (setAirDataRate hdr r) (Quiet m) (fun _ => Quiet
      (storeByte m 6 0
        ((m 6 0 % 256 &&& bnot32 _NRF24L01P_RF_SETUP_RF_DR_MASK ||| rateBits hdr r) % 256))) := by
  rintro s ⟨hcs, hce, rfl⟩
  simp only [List.mem_cons, List.mem_singleton, List.not_mem_nil, or_false] at hr
  by_cases h1 : r = hdr.NRF24L01P_DATARATE_250_KBPS
  · subst h1
    simp only [setAirDataRate, rateBits, M.bind_apply, getRegister_eq, setRegister_eq, hcs, hce,
      if_true, reg_rf_setup_and, ne_eq, not_true_eq_false, if_false]
    exact ⟨(), _, rfl, rfl, rfl, rfl⟩
  · by_cases h2 : r = hdr.NRF24L01P_DATARATE_1_MBPS
    · subst h2
      simp only [setAirDataRate, rateBits, M.bind_apply, getRegister_eq, setRegister_eq, hcs,
        hce, h1, if_true, reg_rf_setup_and, ne_eq, not_true_eq_false, if_false]
      exact ⟨(), _, rfl, rfl, rfl, rfl⟩
    · have h3 : r = hdr.NRF24L01P_DATARATE_2_MBPS := by tauto
      subst h3
      simp only [setAirDataRate, rateBits, M.bind_apply, getRegister_eq, setRegister_eq, hcs,
        hce, h1, h2, if_true, reg_rf_setup_and, ne_eq, not_true_eq_false, if_false]
      exact ⟨(), _, rfl, rfl, rfl, rfl⟩

theorem setCrcWidth_quiet (hdr : Header) (w : Int) (m : Nat → Nat → Nat)
    (hw : w ∈ [hdr.NRF24L01P_CRC_NONE, hdr.NRF24L01P_CRC_8_BIT, hdr.NRF24L01P_CRC_16_BIT]) :
    M.returns (setCrcWidth hdr w) (Quiet m) (fun _ => Quiet
      (storeByte m 0 0
        ((m 0 0 % 256 &&& bnot32 _NRF24L01P_CONFIG_CRC_MASK ||| crcBits hdr w) % 256))) := by
  rintro s ⟨hcs, hce, rfl⟩
  have e0 : _NRF24L01P_REG_CONFIG &&& 31 = 0 := by decide
  simp only [List.mem_cons, List.mem_singleton, List.not_mem_nil, or_false] at hw
  by_cases h1 : w = hdr.NRF24L01P_CRC_NONE
  · subst h1
    simp only [setCrcWidth, crcBits, M.bind_apply, getRegister_eq, setRegister_eq, hcs, hce,
      if_true, e0, ne_eq, not_true_eq_false, if_false]
    exact ⟨(), _, rfl, rfl, rfl, rfl⟩
  · by_cases h2 : w = hdr.NRF24L01P_CRC_8_BIT
    · subst h2
      simp only [setCrcWidth, crcBits, M.bind_apply, getRegister_eq, setRegister_eq, hcs,
        hce, h1, if_true, e0, ne_eq, not_true_eq_false, if_false]
      exact ⟨(), _, rfl, rfl, rfl, rfl⟩
    · have h3 : w = hdr.NRF24L01P_CRC_16_BIT := by tauto
      subst h3
      simp only [setCrcWidth, crcBits, M.bind_apply, getRegister_eq, setRegister_eq, hcs,
        hce, h1, h2, if_true, e0, ne_eq, not_true_eq_false, if_false]
      exact ⟨(), _, rfl, rfl, rfl, rfl⟩

theorem setTransferSize_quiet (size : Int) (p : Nat) (hp : p ≤ 5) (m : Nat → Nat → Nat)
    (h0 : 0 ≤ size) (h32 : size ≤ 32) :
    M.returns (setTransferSize size p) (Quiet m) (fun _ => Quiet
      (storeByte m (17 + p) 0 ((size.toNat &&& _NRF24L01P_RX_PW_Px_MASK) % 256))) := by
  rintro s ⟨hcs, hce, rfl⟩
  have hsz : ¬ (size < 0 ∨ size > (_NRF24L01P_RX_FIFO_SIZE : Int)) := by
    simp only [_NRF24L01P_RX_FIFO_SIZE]
    omega
  simp only [setTransferSize, pipe_range p hp, hsz, if_false, pipe_offset, setRegister_eq, hcs,
    hce, pw_reg_and p hp, ne_eq, not_true_eq_false]
  exact ⟨(), _, rfl, rfl, rfl, rfl⟩

theorem enableAutoAcknowledge_quiet (p : Nat) (hp : p ≤ 5) (m : Nat → Nat → Nat) :
    M.returns (enableAutoAcknowledge p) (Quiet m) (fun _ => Quiet
      (storeByte m 1 0 ((m 1 0 % 256 ||| 1 <<< p) % 256))) := by
  rintro s ⟨hcs, hce, rfl⟩
  simp only [enableAutoAcknowledge, pipe_range p hp, if_false, pipe_offset, M.bind_apply,
    getRegister_eq, setRegister_eq, hcs, hce, reg_en_aa_and, ne_eq, not_true_eq_false]
  exact ⟨(), _, rfl, rfl, rfl, rfl⟩

theorem disableAutoAcknowledge_quiet (m : Nat → Nat → Nat) :
    M.returns disableAutoAcknowledge (Quiet m) (fun _ => Quiet (storeByte m 1 0 0)) := by
  have h := setRegister_quiet _NRF24L01P_REG_EN_AA _NRF24L01P_EN_AA_NONE m
  rw [reg_en_aa_and] at h
  exact h

theorem disableAllRxPipes_quiet (m : Nat → Nat → Nat) :
    M.returns disableAllRxPipes (Quiet m) (fun _ => Quiet (storeByte m 2 0 0)) := by
  have h := setRegister_quiet _NRF24L01P_REG_EN_RXADDR _NRF24L01P_EN_RXADDR_NONE m
  rw [reg_en_rxaddr_and] at h
  exact h

theorem disableAutoRetransmit_quiet (m : Nat → Nat → Nat) :
    M.returns disableAutoRetransmit (Quiet m) (fun _ => Quiet (storeByte m 4 0 0)) := by
  rintro s ⟨hcs, hce, rfl⟩
  simp only [disableAutoRetransmit, M.bind_apply, setRegister_eq, hcs, hce, update,
    reg_setup_retr_and, ne_eq, not_true_eq_false, if_false]
  exact ⟨(), _, rfl, rfl, rfl, rfl⟩

theorem setTxAddress_quiet (a : Nat) (w : Int) (hw : w = 3 ∨ w = 4 ∨ w = 5)
    (m : Nat → Nat → Nat) :
    M.returns (setTxAddress a w) (Quiet m)
      (fun _ => Quiet (memSetTxAddress m (a % 18446744073709551616) w)) := by
  rintro s ⟨hcs, hce, rfl⟩
  have i43 : ¬ ((4 : Int) = 3) := by decide
  have i53 : ¬ ((5 : Int) = 3) := by decide
  have i54 : ¬ ((5 : Int) = 4) := by decide
  rcases hw with rfl | rfl | rfl
  all_goals
    simp only [setTxAddress, switchWidth, M.bind_apply, M.pure_apply,
      getRegister_eq, setRegister_eq, hcs, hce, if_true, if_false, select_eq, deselect_eq,
      spiWrite_eq, _NRF24L01P_SPI_CMD_WR_REG, _NRF24L01P_REG_ADDRESS_MASK,
      wr_cmd_mod, exchange_command, one_ne_zero, zero_ne_one, i43, i53, i54,
      Int.reduceToNat, writeAddressBytes_eq _NRF24L01P_REG_TX_ADDR, List.append_assoc,
      memSetTxAddress, widthBits, ne_eq, not_true_eq_false]
    simp only [reg_setup_aw_and, reg_tx_addr_and]
    exact ⟨(), _, rfl, rfl, rfl, rfl⟩

theorem setRxAddress_quiet (a : Nat) (w : Int) (hw : w = 3 ∨ w = 4 ∨ w = 5) (p : Nat)
    (hp : p ≤ 5) (m : Nat → Nat → Nat) :
    M.returns (setRxAddress a w p) (Quiet m)
      (fun _ => Quiet (memSetRxAddress m (a % 18446744073709551616) w p)) := by
  rintro s ⟨hcs, hce, rfl⟩
  have i43 : ¬ ((4 : Int) = 3) := by decide
  have i53 : ¬ ((5 : Int) = 3) := by decide
  have i54 : ¬ ((5 : Int) = 4) := by decide
  have e1 : ∀ (mem : Nat → Nat → Nat) (x n : Nat), storeBytes (10 + p) mem 0 x n 2 0 = mem 2 0 :=
    fun mem x n => storeBytes_other _ _ (by omega) _ _ _ _ _
  have e2 : ∀ b : Nat, storeByte s.chip.mem 3 0 b 2 0 = s.chip.mem 2 0 :=
    fun b => storeByte_other _ _ _ _ _ _ (by decide)
  by_cases h1 : p ≤ 1
  · have hp01 : ((p : Nat) : Int) = NRF24L01P_PIPE_P0 ∨ ((p : Nat) : Int) = NRF24L01P_PIPE_P1 := by
      simp only [NRF24L01P_PIPE_P0, NRF24L01P_PIPE_P1]
      omega
    rcases hw with rfl | rfl | rfl
    all_goals
      simp only [setRxAddress, switchWidth, M.bind_apply, M.pure_apply,
        getRegister_eq, setRegister_eq, hcs, hce, pipe_range p hp, hp01, pipe_offset,
        if_true, if_false, select_eq, deselect_eq, spiWrite_eq,
        _NRF24L01P_SPI_CMD_WR_REG, _NRF24L01P_REG_ADDRESS_MASK,
        wr_cmd_mod, exchange_command, one_ne_zero, zero_ne_one, i43, i53, i54,
        Int.reduceToNat, writeAddressBytes_eq (_NRF24L01P_REG_RX_ADDR_P0 + p),
        memSetRxAddress, widthBits, h1, ne_eq, not_true_eq_false]
      simp only [reg_setup_aw_and, reg_en_rxaddr_and, rx_reg_and p hp, e1, e2]
      exact ⟨(), _, rfl, rfl, rfl, rfl⟩
  · have hp01 : ¬ (((p : Nat) : Int) = NRF24L01P_PIPE_P0 ∨ ((p : Nat) : Int) = NRF24L01P_PIPE_P1) := by
      simp only [NRF24L01P_PIPE_P0, NRF24L01P_PIPE_P1]
      omega
    simp only [setRxAddress, M.bind_apply, M.pure_apply,
      getRegister_eq, setRegister_eq, hcs, hce, pipe_range p hp, hp01, pipe_offset,
      if_true, if_false, select_eq, deselect_eq, spiWrite_eq,
      _NRF24L01P_SPI_CMD_WR_REG, _NRF24L01P_REG_ADDRESS_MASK,
      wr_cmd_mod, exchange_command, one_ne_zero, zero_ne_one,
      Int.reduceToNat, writeAddressBytes_eq (_NRF24L01P_REG_RX_ADDR_P0 + p),
      memSetRxAddress, h1, ne_eq, not_true_eq_false]
    simp only [reg_en_rxaddr_and, rx_reg_and p hp, e1]
    exact ⟨(), _, rfl, rfl, rfl, rfl⟩

theorem exchange_flushTx (c : Chip) (h0 : c.csn = 0) (hc : c.cmd = some 225) (v : Nat) :
    c.exchange v = (0, { c with idx := c.idx + 1 }) := by
  have e1 : (225 &&& 224 : Nat) = 224 := by decide
  simp [Chip.exchange, h0, hc, _NRF24L01P_SPI_CMD_RD_REG, _NRF24L01P_SPI_CMD_WR_REG,
    _NRF24L01P_SPI_CMD_R_RX_PL_WID, _NRF24L01P_SPI_CMD_RD_RX_PAYLOAD, e1]

theorem flushTxRx_quiet (m : Nat → Nat → Nat) :
    M.returns flushTxRx (Quiet m) (fun _ => Quiet m) := by
  rintro s ⟨hcs, hce, rfl⟩
  simp only [flushTxRx, flushTx, flushRx, M.bind_apply, M.pure_apply, select_eq, deselect_eq,
    spiWrite_eq, hcs, _NRF24L01P_SPI_CMD_FLUSH_TX, _NRF24L01P_SPI_CMD_FLUSH_RX,
    _NRF24L01P_SPI_CMD_NOP, Nat.reduceMod, exchange_command, exchange_flushTx, exchange_flush]
  exact ⟨(), _, rfl, rfl, hce, rfl⟩

theorem initRxPipes_quiet (hdr : Header)
    (hw : hdr.DEFAULT_NRF24L01P_ADDRESS_WIDTH = 3 ∨ hdr.DEFAULT_NRF24L01P_ADDRESS_WIDTH = 4 ∨
      hdr.DEFAULT_NRF24L01P_ADDRESS_WIDTH = 5)
    (tx_size : Int) (h0 : 0 ≤ tx_size) (h32 : tx_size ≤ 32) (auto_ack : Nat)
    (rx_addresses : Nat → Nat) (n : Nat) :
    ∀ (i : Nat) (m : Nat → Nat → Nat), i + n ≤ 5 →
      M.returns (initRxPipes hdr tx_size auto_ack rx_addresses n i) (Quiet m)
        (fun _ => Quiet (memInitRxPipes hdr.DEFAULT_NRF24L01P_ADDRESS_WIDTH tx_size auto_ack
          rx_addresses n i m)) := by
  induction n with
  | zero =>
    intro i m _
    exact returns_pure () (fun s hs => hs)
  | succ n ih =>
    intro i m hi
    have hpipe : NRF24L01P_PIPE_P1 + (i : Int) = ((i + 1 : Nat) : Int) := by
      simp only [NRF24L01P_PIPE_P1]
      omega
    have hp : i + 1 ≤ 5 := by omega
    by_cases ha : auto_ack = 0
    case neg =>
      simp only [initRxPipes, memInitRxPipes, memInitRxPipe, hpipe, ha, ne_eq, not_false_eq_true,
        if_true]
      exact returns_bind (setRxAddress_quiet _ _ hw _ hp m) (fun _ =>
        returns_bind (setTransferSize_quiet tx_size _ hp _ h0 h32) (fun _ =>
          returns_bind (enableAutoAcknowledge_quiet _ hp _) (fun _ => ih (i + 1) _ (by omega))))
    case pos =>
      subst ha
      simp only [initRxPipes, memInitRxPipes, memInitRxPipe, hpipe, ne_eq, not_true_eq_false,
        if_false]
      exact returns_bind (setRxAddress_quiet _ _ hw _ hp m) (fun _ =>
        returns_bind (setTransferSize_quiet tx_size _ hp _ h0 h32) (fun _ =>
          returns_bind (returns_pure _ (fun s hs => hs)) (fun _ => ih (i + 1) _ (by omega))))

theorem update_mode_mem (md : Mode) (m : Nat → Nat → Nat) :
    M.returns (update fun s => { s with mode := md }) (fun s => s.chip.mem = m)
      (fun _ s => s.chip.mem = m) :=
  fun _ hs => ⟨(), _, rfl, hs⟩

theorem wait_us_mem (us : Nat) (m : Nat → Nat → Nat) :
    M.returns (wait_us us) (fun s => s.chip.mem = m) (fun _ s => s.chip.mem = m) :=
  fun _ hs => ⟨(), _, rfl, hs⟩

theorem disable_mem (m : Nat → Nat → Nat) :
    M.returns disable (fun s => s.chip.mem = m) (fun _ s => s.ce_value = 0 ∧ s.chip.mem = m) :=
  fun _ hs => ⟨(), _, rfl, rfl, hs⟩

theorem deselect_mem (m : Nat → Nat → Nat) :
    M.returns deselect (fun s => s.ce_value = 0 ∧ s.chip.mem = m) (fun _ => Quiet m) := by
  rintro s ⟨hce, hm⟩
  rw [deselect_eq]
  exact ⟨(), _, rfl, rfl, hce, hm⟩

theorem update_mode_quiet (md : Mode) (m : Nat → Nat → Nat) :
    M.returns (update fun s => { s with mode := md }) (Quiet m)
      (fun _ s => s.mode = md ∧ Quiet m s) :=
  fun _ hs => ⟨(), _, rfl, rfl, hs⟩

theorem init_quiet (hdr : Header)
    (hw : hdr.DEFAULT_NRF24L01P_ADDRESS_WIDTH = 3 ∨ hdr.DEFAULT_NRF24L01P_ADDRESS_WIDTH = 4 ∨
      hdr.DEFAULT_NRF24L01P_ADDRESS_WIDTH = 5)
    (freq : Int) (hlo : hdr.NRF24L01P_MIN_RF_FREQUENCY ≤ freq)
    (hhi : freq ≤ hdr.NRF24L01P_MAX_RF_FREQUENCY)
    (power : Int) (hp : power ∈ [hdr.NRF24L01P_TX_PWR_ZERO_DB, hdr.NRF24L01P_TX_PWR_MINUS_6_DB,
      hdr.NRF24L01P_TX_PWR_MINUS_12_DB, hdr.NRF24L01P_TX_PWR_MINUS_18_DB])
    (data_rate : Int) (hr : data_rate ∈ [hdr.NRF24L01P_DATARATE_250_KBPS,
      hdr.NRF24L01P_DATARATE_1_MBPS, hdr.NRF24L01P_DATARATE_2_MBPS])
    (crc_width : Int) (hc : crc_width ∈ [hdr.NRF24L01P_CRC_NONE, hdr.NRF24L01P_CRC_8_BIT,
      hdr.NRF24L01P_CRC_16_BIT])
    (tx_size : Int) (h0 : 0 ≤ tx_size) (h32 : tx_size ≤ 32) (auto_ack : Nat) (tx_address : Nat)
    (rx_addresses : Nat → Nat) (len : Nat) (hlen : len ≤ 5) (m : Nat → Nat → Nat) :
    M.returns
      (init hdr freq power data_rate crc_width tx_size auto_ack 0 tx_address rx_addresses len)
      (fun s => s.chip.mem = m)
      (fun r s => r = 0 ∧ s.mode = _NRF24L01P_MODE_POWER_DOWN ∧
        Quiet (memInit hdr freq power data_rate crc_width tx_size auto_ack tx_address rx_addresses
          len m) s) := by
  have hl : ¬ ¬ len ≤ 5 := not_not.mpr hlen
  have tail : ∀ m1, M.returns
      (do
        initRxPipes hdr tx_size auto_ack rx_addresses len 0
        flushTxRx
        update fun s => { s with mode := _NRF24L01P_MODE_POWER_DOWN }
        pure (0 : Int))
      (Quiet m1)
      (fun r s => r = 0 ∧ s.mode = _NRF24L01P_MODE_POWER_DOWN ∧
        Quiet (memInitRxPipes hdr.DEFAULT_NRF24L01P_ADDRESS_WIDTH tx_size auto_ack rx_addresses
          len 0 m1) s) := fun m1 =>
    returns_bind (initRxPipes_quiet hdr hw tx_size h0 h32 auto_ack rx_addresses len 0 m1 (by omega))
      (fun _ => returns_bind (flushTxRx_quiet _) (fun _ =>
        returns_bind (update_mode_quiet _ _) (fun _ =>
          returns_pure 0 (fun s hs => ⟨rfl, hs.1, hs.2⟩))))
  have head : ∀ (rest : M Int) (R : Int → Driver → Prop),
      M.returns rest
        (Quiet (storeByte (memSetTxAddress (memInitRadio hdr freq power data_rate crc_width m)
            (tx_address % 18446744073709551616) hdr.DEFAULT_NRF24L01P_ADDRESS_WIDTH)
          17 0 ((tx_size.toNat &&& _NRF24L01P_RX_PW_Px_MASK) % 256))) R →
      M.returns
        (do
          update fun s => { s with mode := _NRF24L01P_MODE_UNKNOWN }
          wait_us _NRF24L01P_TIMING_Tundef2pd_us
          disable
          deselect
          wait_us _NRF24L01P_TIMING_Tundef2pd_us
          setRegister _NRF24L01P_REG_CONFIG 0
          wait_us _NRF24L01P_TIMING_Tundef2pd_us
          setRegister _NRF24L01P_REG_STATUS
            (_NRF24L01P_STATUS_MAX_RT ||| _NRF24L01P_STATUS_TX_DS ||| _NRF24L01P_STATUS_RX_DR)
          disableAllRxPipes
          setRfFrequency hdr freq
          setRfOutputPower hdr power
          setAirDataRate hdr data_rate
          setCrcWidth hdr crc_width
          setTxAddress tx_address hdr.DEFAULT_NRF24L01P_ADDRESS_WIDTH
          setTransferSize tx_size NRF24L01P_PIPE_P0
          rest)
        (fun s => s.chip.mem = m) R := fun rest R hrest =>
    returns_bind (update_mode_mem _ m) (fun _ =>
      returns_bind (wait_us_mem _ m) (fun _ =>
      returns_bind (disable_mem m) (fun _ =>
      returns_bind (deselect_mem m) (fun _ =>
      returns_bind (wait_us_quiet _ m) (fun _ =>
      returns_bind (setRegister_quiet _ _ m) (fun _ =>
      returns_bind (wait_us_quiet _ _) (fun _ =>
      returns_bind (setRegister_quiet _ _ _) (fun _ =>
      returns_bind (disableAllRxPipes_quiet _) (fun _ =>
      returns_bind (setRfFrequency_quiet hdr freq _ hlo hhi) (fun _ =>
      returns_bind (setRfOutputPower_quiet hdr power _ hp) (fun _ =>
      returns_bind (setAirDataRate_quiet hdr data_rate _ hr) (fun _ =>
      returns_bind (setCrcWidth_quiet hdr crc_width _ hc) (fun _ =>
      returns_bind (setTxAddress_quiet tx_address _ hw _) (fun _ =>
      returns_bind (setTransferSize_quiet tx_size 0 (by decide) _ h0 h32) (fun _ =>
        hrest)))))))))))))))
  simp only [init, hl, if_false, ne_eq, not_true_eq_false]
  apply head
  by_cases ha : auto_ack = 0
  case neg =>
    simp only [memInit, memInitAck, ha, ne_eq, not_false_eq_true, if_true]
    exact returns_bind (enableAutoAcknowledge_quiet 0 (by decide) _) (fun _ =>
      returns_bind (disableAutoRetransmit_quiet _) (fun _ => tail _))
  case pos =>
    subst ha
    simp only [memInit, memInitAck, ne_eq, not_true_eq_false, if_false]
    exact returns_bind (disableAutoAcknowledge_quiet _) (fun _ =>
      returns_bind (disableAutoRetransmit_quiet _) (fun _ => tail _))

/-! ### The register file after `init` -/

theorem memSetRxAddress_frame (m : Nat → Nat → Nat) (a : Nat) (w : Int) (p r j : Nat)
    (h2 : r ≠ 2) (h3 : r ≠ 3) (ha : r ≠ 10 + p) :
    memSetRxAddress m a w p r j = m r j := by
  unfold memSetRxAddress
  split
  · rw [storeByte_other _ _ _ _ _ _ (by omega), storeBytes_other _ _ ha,
      storeByte_other _ _ _ _ _ _ (by omega)]
  · rw [storeByte_other _ _ _ _ _ _ (by omega), storeBytes_other _ _ ha]

theorem memInitRxPipe_frame (w sz : Int) (aa a p : Nat) (m : Nat → Nat → Nat) (r j : Nat)
    (h1 : r ≠ 1) (h2 : r ≠ 2) (h3 : r ≠ 3) (ha : r ≠ 10 + p) (hs : r ≠ 17 + p) :
    memInitRxPipe w sz aa a p m r j = m r j := by
  have hA := memSetRxAddress_frame m a w p r j h2 h3 ha
  unfold memInitRxPipe
  split
  · rw [storeByte_other _ _ _ _ _ _ (by omega), storeByte_other _ _ _ _ _ _ (by omega), hA]
  · rw [storeByte_other _ _ _ _ _ _ (by omega), hA]

theorem memInitRxPipes_frame (w sz : Int) (aa : Nat) (rx : Nat → Nat) (n : Nat) :
    ∀ (i : Nat) (m : Nat → Nat → Nat) (r j : Nat), r ≠ 1 → r ≠ 2 → r ≠ 3 →
      (∀ p, i < p → p ≤ i + n → r ≠ 10 + p ∧ r ≠ 17 + p) →
      memInitRxPipes w sz aa rx n i m r j = m r j := by
  induction n with
  | zero =>
    intro i m r j _ _ _ _
    rfl
  | succ n ih =>
    intro i m r j h1 h2 h3 hp
    rw [memInitRxPipes, ih (i + 1) _ r j h1 h2 h3 (fun p hp1 hp2 => hp p (by omega) (by omega)),
      memInitRxPipe_frame w sz aa _ (i + 1) m r j h1 h2 h3 (hp (i + 1) (by omega) (by omega)).1
        (hp (i + 1) (by omega) (by omega)).2]

theorem memSetTxAddress_other (m : Nat → Nat → Nat) (a : Nat) (w : Int) (r j : Nat)
    (hr : r ≠ 3 ∧ r ≠ 16) : memSetTxAddress m a w r j = m r j := by
  unfold memSetTxAddress
  rw [storeBytes_other _ _ (by omega), storeByte_other _ _ _ _ _ _ (by omega)]

theorem memInitAck_other (aa : Nat) (m : Nat → Nat → Nat) (r j : Nat) (hr : r ≠ 1) :
    memInitAck aa m r j = m r j := by
  unfold memInitAck
  split <;> rw [storeByte_other _ _ _ _ _ _ (by omega)]

/-- Registers 0, 5 and 6 (CONFIG, RF_CH, RF_SETUP) keep the value the radio
settings gave them. -/
theorem memInit_radio (hdr : Header) (freq power data_rate crc_width tx_size : Int)
    (auto_ack tx_address : Nat) (rx : Nat → Nat) (len : Nat)
    (m : Nat → Nat → Nat) (r j : Nat) (hr : r = 0 ∨ r = 5 ∨ r = 6) :
    memInit hdr freq power data_rate crc_width tx_size auto_ack tx_address rx len m r j
      = memInitRadio hdr freq power data_rate crc_width m r j := by
  unfold memInit
  rw [memInitRxPipes_frame _ _ _ _ _ _ _ _ _ (by omega) (by omega) (by omega)
      (fun p _ _ => by omega),
    storeByte_other _ _ _ _ _ _ (by omega), memInitAck_other _ _ _ _ (by omega),
    storeByte_other _ _ _ _ _ _ (by omega), memSetTxAddress_other _ _ _ _ _ (by omega)]

theorem memInitRadio_config (hdr : Header) (freq power data_rate crc_width : Int)
    (m : Nat → Nat → Nat) :
    memInitRadio hdr freq power data_rate crc_width m 0 0 = crcBits hdr crc_width % 256 := by
  simp [memInitRadio, storeByte]

theorem memInitRadio_channel (hdr : Header) (freq power data_rate crc_width : Int)
    (m : Nat → Nat → Nat) :
    memInitRadio hdr freq power data_rate crc_width m 5 0
      = ((freq - hdr.NRF24L01P_MIN_RF_FREQUENCY).toNat &&& 0x7F) % 256 := by
  simp [memInitRadio, storeByte]

theorem memInitRadio_setup (hdr : Header) (freq power data_rate crc_width : Int)
    (m : Nat → Nat → Nat) :
    memInitRadio hdr freq power data_rate crc_width m 6 0
      = (((m 6 0 % 256 &&& bnot32 _NRF24L01P_RF_SETUP_RF_PWR_MASK ||| powerBits hdr power) % 256)
          % 256 &&& bnot32 _NRF24L01P_RF_SETUP_RF_DR_MASK ||| rateBits hdr data_rate) % 256 := by
  simp [memInitRadio, storeByte]

theorem memInitRxPipe_size (w sz : Int) (aa a p : Nat) (m : Nat → Nat → Nat) :
    memInitRxPipe w sz aa a p m (17 + p) 0 = (sz.toNat &&& _NRF24L01P_RX_PW_Px_MASK) % 256 := by
  unfold memInitRxPipe
  split
  · rw [storeByte_other _ _ _ _ _ _ (by omega), storeByte_same]
  · rw [storeByte_same]

theorem memInitRxPipes_size (w sz : Int) (aa : Nat) (rx : Nat → Nat) (n : Nat) :
    ∀ (i : Nat) (m : Nat → Nat → Nat) (p : Nat), i + n ≤ 5 → i < p → p ≤ i + n →
      memInitRxPipes w sz aa rx n i m (17 + p) 0
        = (sz.toNat &&& _NRF24L01P_RX_PW_Px_MASK) % 256 := by
  induction n with
  | zero =>
    intro i m p _ h1 h2
    omega
  | succ n ih =>
    intro i m p h5 h1 h2
    rw [memInitRxPipes]
    by_cases hp : p = i + 1
    · subst hp
      rw [memInitRxPipes_frame _ _ _ _ _ _ _ _ _ (by omega) (by omega) (by omega)
        (fun q _ _ => by omega), memInitRxPipe_size]
    · exact ih (i + 1) _ p (by omega) (by omega) (by omega)

theorem memInitRxPipe_enable (w sz : Int) (aa a p : Nat) (m : Nat → Nat → Nat) :
    memInitRxPipe w sz aa a p m 2 0 = (m 2 0 % 256 ||| 1 <<< p) % 256 := by
  have hA : memSetRxAddress m a w p 2 0 = (m 2 0 % 256 ||| 1 <<< p) % 256 := by
    unfold memSetRxAddress
    split <;> rw [storeByte_same]
  unfold memInitRxPipe
  split
  · rw [storeByte_other _ _ _ _ _ _ (by omega), storeByte_other _ _ _ _ _ _ (by omega), hA]
  · rw [storeByte_other _ _ _ _ _ _ (by omega), hA]

theorem memInitRxPipes_enable (w sz : Int) (aa : Nat) (rx : Nat → Nat) (n : Nat) :
    ∀ (i : Nat) (m : Nat → Nat → Nat),
      memInitRxPipes w sz aa rx n i m 2 0 = orPipeBits n i (m 2 0) := by
  induction n with
  | zero =>
    intro i m
    rfl
  | succ n ih =>
    intro i m
    rw [memInitRxPipes, ih, memInitRxPipe_enable, orPipeBits]

theorem memInitRxPipe_ack (w sz : Int) (aa a p : Nat) (m : Nat → Nat → Nat) :
    memInitRxPipe w sz aa a p m 1 0
      = if aa ≠ 0 then (m 1 0 % 256 ||| 1 <<< p) % 256 else m 1 0 := by
  have hA := memSetRxAddress_frame m a w p 1 0 (by omega) (by omega) (by omega)
  unfold memInitRxPipe
  split
  · rw [storeByte_same, storeByte_other _ _ _ _ _ _ (by omega), hA]
  · rw [storeByte_other _ _ _ _ _ _ (by omega), hA]

theorem memInitRxPipes_ack (w sz : Int) (aa : Nat) (rx : Nat → Nat) (n : Nat) :
    ∀ (i : Nat) (m : Nat → Nat → Nat),
      memInitRxPipes w sz aa rx n i m 1 0
        = if aa ≠ 0 then orPipeBits n i (m 1 0) else m 1 0 := by
  induction n with
  | zero =>
    intro i m
    simp [memInitRxPipes, orPipeBits]
  | succ n ih =>
    intro i m
    rw [memInitRxPipes, ih, memInitRxPipe_ack]
    split <;> simp [orPipeBits]

theorem aw_width_bits (w : Int) (hw : w = 3 ∨ w = 4 ∨ w = 5) (x : Nat) :
    ((x % 256 &&& bnot32 _NRF24L01P_SETUP_AW_AW_MASK ||| widthBits w) % 256) % 256
      &&& _NRF24L01P_SETUP_AW_AW_MASK = w.toNat - 2 := by
  obtain ⟨b1, b2, b3⟩ := aw_bits2 (x % 256) (Nat.mod_lt _ (by decide))
  have i43 : ¬ ((4 : Int) = 3) := by decide
  have i53 : ¬ ((5 : Int) = 3) := by decide
  have i54 : ¬ ((5 : Int) = 4) := by decide
  rcases hw with rfl | rfl | rfl
  · simp only [widthBits, if_true, b1, Int.reduceToNat]
  · simp only [widthBits, i43, if_false, if_true, b2, Int.reduceToNat]
  · simp only [widthBits, i53, i54, if_false, b3, Int.reduceToNat]

theorem memInitRxPipe_aw (w : Int) (hw : w = 3 ∨ w = 4 ∨ w = 5) (sz : Int) (aa a p : Nat)
    (m : Nat → Nat → Nat)
    (h : m 3 0 % 256 &&& _NRF24L01P_SETUP_AW_AW_MASK = w.toNat - 2) :
    memInitRxPipe w sz aa a p m 3 0 % 256 &&& _NRF24L01P_SETUP_AW_AW_MASK = w.toNat - 2 := by
  have hA : memSetRxAddress m a w p 3 0 % 256 &&& _NRF24L01P_SETUP_AW_AW_MASK = w.toNat - 2 := by
    unfold memSetRxAddress
    split
    · rw [storeByte_other _ _ _ _ _ _ (by omega), storeBytes_other _ _ (by omega), storeByte_same]
      exact aw_width_bits w hw _
    · rw [storeByte_other _ _ _ _ _ _ (by omega), storeBytes_other _ _ (by omega)]
      exact h
  unfold memInitRxPipe
  split
  · rw [storeByte_other _ _ _ _ _ _ (by omega), storeByte_other _ _ _ _ _ _ (by omega)]
    exact hA
  · rw [storeByte_other _ _ _ _ _ _ (by omega)]
    exact hA

theorem memInitRxPipes_aw (w : Int) (hw : w = 3 ∨ w = 4 ∨ w = 5) (sz : Int) (aa : Nat)
    (rx : Nat → Nat) (n : Nat) :
    ∀ (i : Nat) (m : Nat → Nat → Nat),
      m 3 0 % 256 &&& _NRF24L01P_SETUP_AW_AW_MASK = w.toNat - 2 →
      memInitRxPipes w sz aa rx n i m 3 0 % 256 &&& _NRF24L01P_SETUP_AW_AW_MASK = w.toNat - 2 := by
  induction n with
  | zero =>
    intro i m h
    exact h
  | succ n ih =>
    intro i m h
    rw [memInitRxPipes]
    exact ih (i + 1) _ (memInitRxPipe_aw w hw sz aa _ _ m h)

set_option maxRecDepth 100000 in
theorem orPipeBits_enable : ∀ n ≤ 5, orPipeBits n 0 0 = 2 ^ (n + 1) - 2 := by decide

set_option maxRecDepth 100000 in
theorem orPipeBits_ack : ∀ n ≤ 5, ∀ x < 256,
    orPipeBits n 0 ((x ||| 1 <<< 0) % 256) = x ||| (2 ^ (n + 1) - 1) := by decide

theorem memInit_size (hdr : Header) (freq power data_rate crc_width tx_size : Int)
    (auto_ack tx_address : Nat) (rx : Nat → Nat) (len : Nat) (hlen : len ≤ 5)
    (m : Nat → Nat → Nat) (p : Nat) (hp : p ≤ len) :
    memInit hdr freq power data_rate crc_width tx_size auto_ack tx_address rx len m (17 + p) 0
      = (tx_size.toNat &&& _NRF24L01P_RX_PW_Px_MASK) % 256 := by
  unfold memInit
  by_cases h0 : p = 0
  · subst h0
    rw [memInitRxPipes_frame _ _ _ _ _ _ _ _ _ (by omega) (by omega) (by omega)
        (fun q _ _ => by omega),
      storeByte_other _ _ _ _ _ _ (by omega), memInitAck_other _ _ _ _ (by omega), storeByte_same]
  · exact memInitRxPipes_size _ _ _ _ _ _ _ _ (by omega) (by omega) (by omega)

theorem memInit_aw (hdr : Header)
    (hw : hdr.DEFAULT_NRF24L01P_ADDRESS_WIDTH = 3 ∨ hdr.DEFAULT_NRF24L01P_ADDRESS_WIDTH = 4 ∨
      hdr.DEFAULT_NRF24L01P_ADDRESS_WIDTH = 5)
    (freq power data_rate crc_width tx_size : Int)
    (auto_ack tx_address : Nat) (rx : Nat → Nat) (len : Nat) (m : Nat → Nat → Nat) :
    memInit hdr freq power data_rate crc_width tx_size auto_ack tx_address rx len m 3 0 % 256
      &&& _NRF24L01P_SETUP_AW_AW_MASK = hdr.DEFAULT_NRF24L01P_ADDRESS_WIDTH.toNat - 2 := by
  unfold memInit
  apply memInitRxPipes_aw _ hw
  rw [storeByte_other _ _ _ _ _ _ (by omega), memInitAck_other _ _ _ _ (by omega),
    storeByte_other _ _ _ _ _ _ (by omega)]
  unfold memSetTxAddress
  rw [storeBytes_other _ _ (by omega), storeByte_same]
  exact aw_width_bits _ hw _

theorem memInit_tx (hdr : Header) (freq power data_rate crc_width tx_size : Int)
    (auto_ack tx_address : Nat) (rx : Nat → Nat) (len : Nat) (hlen : len ≤ 5)
    (m : Nat → Nat → Nat) (j : Nat) (hj : j < hdr.DEFAULT_NRF24L01P_ADDRESS_WIDTH.toNat) :
    memInit hdr freq power data_rate crc_width tx_size auto_ack tx_address rx len m 16 j
      = ((tx_address % 18446744073709551616) >>> (8 * j)) % 256 := by
  unfold memInit
  rw [memInitRxPipes_frame _ _ _ _ _ _ _ _ _ (by omega) (by omega) (by omega)
      (fun q _ _ => by omega),
    storeByte_other _ _ _ _ _ _ (by omega), memInitAck_other _ _ _ _ (by omega),
    storeByte_other _ _ _ _ _ _ (by omega)]
  unfold memSetTxAddress
  rw [storeBytes_same, if_pos (by omega), Nat.sub_zero]

theorem memInit_rx1 (hdr : Header) (freq power data_rate crc_width tx_size : Int)
    (auto_ack tx_address : Nat) (rx : Nat → Nat) (len : Nat) (hlen : 1 ≤ len)
    (m : Nat → Nat → Nat) (j : Nat) (hj : j < hdr.DEFAULT_NRF24L01P_ADDRESS_WIDTH.toNat) :
    memInit hdr freq power data_rate crc_width tx_size auto_ack tx_address rx len m 11 j
      = ((rx 0 % 18446744073709551616) >>> (8 * j)) % 256 := by
  obtain ⟨n, rfl⟩ : ∃ n, len = n + 1 := ⟨len - 1, by omega⟩
  unfold memInit
  rw [memInitRxPipes, memInitRxPipes_frame _ _ _ _ _ _ _ _ _ (by omega) (by omega) (by omega)
      (fun q _ _ => by omega)]
  unfold memInitRxPipe
  have hA : ∀ mm : Nat → Nat → Nat,
      memSetRxAddress mm (rx 0 % 18446744073709551616) hdr.DEFAULT_NRF24L01P_ADDRESS_WIDTH
        (0 + 1) 11 j = ((rx 0 % 18446744073709551616) >>> (8 * j)) % 256 := by
    intro mm
    unfold memSetRxAddress
    rw [if_pos (by omega), storeByte_other _ _ _ _ _ _ (by omega)]
    have e : 10 + (0 + 1) = 11 := rfl
    rw [e, storeBytes_same, if_pos (by omega), Nat.sub_zero]
  split
  · rw [storeByte_other _ _ _ _ _ _ (by omega), storeByte_other _ _ _ _ _ _ (by omega), hA]
  · rw [storeByte_other _ _ _ _ _ _ (by omega), hA]

theorem memInitRadio_other (hdr : Header) (freq power data_rate crc_width : Int)
    (m : Nat → Nat → Nat) (r j : Nat) (hr : r = 1 ∨ r = 3) :
    memInitRadio hdr freq power data_rate crc_width m r j = m r j := by
  rcases hr with rfl | rfl <;> simp [memInitRadio, storeByte]

theorem memInit_enable (hdr : Header) (freq power data_rate crc_width tx_size : Int)
    (auto_ack tx_address : Nat) (rx : Nat → Nat) (len : Nat) (hlen : len ≤ 5)
    (m : Nat → Nat → Nat) :
    memInit hdr freq power data_rate crc_width tx_size auto_ack tx_address rx len m 2 0
      = 2 ^ (len + 1) - 2 := by
  have h2 : memInitRadio hdr freq power data_rate crc_width m 2 0 = 0 := by
    simp [memInitRadio, storeByte]
  unfold memInit
  rw [memInitRxPipes_enable, storeByte_other _ _ _ _ _ _ (by omega),
    memInitAck_other _ _ _ _ (by omega), storeByte_other _ _ _ _ _ _ (by omega),
    memSetTxAddress_other _ _ _ _ _ (by omega), h2]
  exact orPipeBits_enable len hlen

theorem memInit_ack (hdr : Header) (freq power data_rate crc_width tx_size : Int)
    (auto_ack tx_address : Nat) (rx : Nat → Nat) (len : Nat) (hlen : len ≤ 5)
    (m : Nat → Nat → Nat) :
    memInit hdr freq power data_rate crc_width tx_size auto_ack tx_address rx len m 1 0
      = if auto_ack ≠ 0 then m 1 0 % 256 ||| (2 ^ (len + 1) - 1) else 0 := by
  unfold memInit
  rw [memInitRxPipes_ack, storeByte_other _ _ _ _ _ _ (by omega)]
  unfold memInitAck
  split
  · rw [storeByte_same, storeByte_other _ _ _ _ _ _ (by omega),
      memSetTxAddress_other _ _ _ _ _ (by omega), memInitRadio_other _ _ _ _ _ _ _ _ (Or.inl rfl)]
    exact orPipeBits_ack len hlen _ (Nat.mod_lt _ (by decide))
  · rw [storeByte_same]

/-! ### Reading the settings back -/

theorem crcBits_facts (hdr : Header) (w : Int) :
    crcBits hdr w % 256 &&& _NRF24L01P_CONFIG_PWR_UP = 0 ∧
    crcBits hdr w % 256 % 256 &&& _NRF24L01P_CONFIG_CRC_MASK = crcBits hdr w := by
  unfold crcBits
  split_ifs <;> decide

theorem powerBits_mem (hdr : Header) (p : Int) : powerBits hdr p ∈ [0, 2, 4, 6] := by
  unfold powerBits
  split_ifs <;> decide

theorem rateBits_mem (hdr : Header) (r : Int) : rateBits hdr r ∈ [0, 8, 32] := by
  unfold rateBits
  split_ifs <;> decide

set_option maxRecDepth 1000000 in
theorem setup_bits : ∀ c ∈ [0, 2, 4, 6], ∀ d ∈ [0, 8, 32], ∀ x < 256,
    ((((x &&& bnot32 _NRF24L01P_RF_SETUP_RF_PWR_MASK ||| c) % 256) % 256
        &&& bnot32 _NRF24L01P_RF_SETUP_RF_DR_MASK ||| d) % 256) % 256
      &&& _NRF24L01P_RF_SETUP_RF_PWR_MASK = c ∧
    ((((x &&& bnot32 _NRF24L01P_RF_SETUP_RF_PWR_MASK ||| c) % 256) % 256
        &&& bnot32 _NRF24L01P_RF_SETUP_RF_DR_MASK ||| d) % 256) % 256
      &&& _NRF24L01P_RF_SETUP_RF_DR_MASK = d := by
  decide

theorem pipe_bits (len : Nat) (h : len ≤ 5) (k : Nat) :
    (2 ^ (len + 1) - 2).testBit k = decide (1 ≤ k ∧ k ≤ len) := by
  by_cases hk : k < 8
  · interval_cases len <;> interval_cases k <;> decide
  · have h1 : 2 ^ (len + 1) - 2 < 2 ^ k :=
      lt_of_lt_of_le (lt_of_le_of_lt (Nat.sub_le _ _)
        (Nat.pow_lt_pow_right (by decide) (by omega : len + 1 < 8)))
        (Nat.pow_le_pow_right (by decide) (by omega))
    rw [Nat.testBit_lt_two_pow h1]
    symm
    rw [decide_eq_false_iff_not]
    omega

theorem getRfFrequency_value (hdr : Header) (s : Driver) (hcs : s.chip.csn = 1) :
    (getRfFrequency hdr s).value
      = some (((s.chip.mem 5 0 % 256 &&& 0x7F : Nat) : Int) + hdr.NRF24L01P_MIN_RF_FREQUENCY) := by
  simp only [getRfFrequency, M.bind_apply, M.pure_apply, getRegister_eq, hcs, reg_rf_ch_and,
    Res.value]

theorem getTransferSize_value (p : Nat) (hp : p ≤ 5) (s : Driver) (hcs : s.chip.csn = 1) :
    (getTransferSize p s).value
      = some ((s.chip.mem (17 + p) 0 % 256 &&& _NRF24L01P_RX_PW_Px_MASK : Nat) : Int) := by
  simp only [getTransferSize, pipe_range p hp, if_false, pipe_offset, M.bind_apply, M.pure_apply,
    getRegister_eq, hcs, pw_reg_and p hp, Res.value]

theorem getRfOutputPower_value (hdr : Header) (hwf : hdr.WF) (s : Driver) (hcs : s.chip.csn = 1)
    (p : Int)
    (hp : p ∈ [hdr.NRF24L01P_TX_PWR_ZERO_DB, hdr.NRF24L01P_TX_PWR_MINUS_6_DB,
      hdr.NRF24L01P_TX_PWR_MINUS_12_DB, hdr.NRF24L01P_TX_PWR_MINUS_18_DB])
    (hb : s.chip.mem 6 0 % 256 &&& _NRF24L01P_RF_SETUP_RF_PWR_MASK = powerBits hdr p) :
    (getRfOutputPower hdr s).value = some p := by
  obtain ⟨w1, w2, w3, w4, w5, w6, -⟩ := hwf
  simp only [List.mem_cons, List.mem_singleton, List.not_mem_nil, or_false] at hp
  rcases hp with rfl | rfl | rfl | rfl
  · simp only [powerBits, if_true] at hb
    simp only [getRfOutputPower, M.bind_apply, M.pure_apply, getRegister_eq, hcs,
      reg_rf_setup_and, hb, if_true, Res.value]
  · simp only [powerBits, w1.symm, if_false, if_true] at hb
    simp only [getRfOutputPower, M.bind_apply, M.pure_apply, getRegister_eq, hcs,
      reg_rf_setup_and, hb]
    simp [_NRF24L01P_RF_SETUP_RF_PWR_0DBM, _NRF24L01P_RF_SETUP_RF_PWR_MINUS_6DBM, Res.value]
  · simp only [powerBits, w2.symm, w4.symm, if_false, if_true] at hb
    simp only [getRfOutputPower, M.bind_apply, M.pure_apply, getRegister_eq, hcs,
      reg_rf_setup_and, hb]
    simp [_NRF24L01P_RF_SETUP_RF_PWR_0DBM, _NRF24L01P_RF_SETUP_RF_PWR_MINUS_6DBM,
      _NRF24L01P_RF_SETUP_RF_PWR_MINUS_12DBM, Res.value]
  · simp only [powerBits, w3.symm, w5.symm, w6.symm, if_false] at hb
    simp only [getRfOutputPower, M.bind_apply, M.pure_apply, getRegister_eq, hcs,
      reg_rf_setup_and, hb]
    simp [_NRF24L01P_RF_SETUP_RF_PWR_0DBM, _NRF24L01P_RF_SETUP_RF_PWR_MINUS_6DBM,
      _NRF24L01P_RF_SETUP_RF_PWR_MINUS_12DBM, _NRF24L01P_RF_SETUP_RF_PWR_MINUS_18DBM, Res.value]

theorem getAirDataRate_value (hdr : Header) (hwf : hdr.WF) (s : Driver) (hcs : s.chip.csn = 1)
    (r : Int)
    (hr : r ∈ [hdr.NRF24L01P_DATARATE_250_KBPS, hdr.NRF24L01P_DATARATE_1_MBPS,
      hdr.NRF24L01P_DATARATE_2_MBPS])
    (hb : s.chip.mem 6 0 % 256 &&& _NRF24L01P_RF_SETUP_RF_DR_MASK = rateBits hdr r) :
    (getAirDataRate hdr s).value = some r := by
  obtain ⟨-, -, -, -, -, -, w1, w2, w3, -⟩ := hwf
  simp only [List.mem_cons, List.mem_singleton, List.not_mem_nil, or_false] at hr
  rcases hr with rfl | rfl | rfl
  · simp only [rateBits, if_true] at hb
    simp only [getAirDataRate, M.bind_apply, M.pure_apply, getRegister_eq, hcs,
      reg_rf_setup_and, hb, if_true, Res.value]
  · simp only [rateBits, w1.symm, if_false, if_true] at hb
    simp only [getAirDataRate, M.bind_apply, M.pure_apply, getRegister_eq, hcs,
      reg_rf_setup_and, hb]
    simp [_NRF24L01P_RF_SETUP_RF_DR_250KBPS, _NRF24L01P_RF_SETUP_RF_DR_LOW_BIT,
      _NRF24L01P_RF_SETUP_RF_DR_1MBPS, Res.value]
  · simp only [rateBits, w2.symm, w3.symm, if_false] at hb
    simp only [getAirDataRate, M.bind_apply, M.pure_apply, getRegister_eq, hcs,
      reg_rf_setup_and, hb]
    simp [_NRF24L01P_RF_SETUP_RF_DR_250KBPS, _NRF24L01P_RF_SETUP_RF_DR_LOW_BIT,
      _NRF24L01P_RF_SETUP_RF_DR_1MBPS, _NRF24L01P_RF_SETUP_RF_DR_2MBPS,
      _NRF24L01P_RF_SETUP_RF_DR_HIGH_BIT, Res.value]

theorem getCrcWidth_value (hdr : Header) (hwf : hdr.WF) (s : Driver) (hcs : s.chip.csn = 1)
    (w : Int)
    (hw : w ∈ [hdr.NRF24L01P_CRC_NONE, hdr.NRF24L01P_CRC_8_BIT, hdr.NRF24L01P_CRC_16_BIT])
    (hb : s.chip.mem 0 0 % 256 &&& _NRF24L01P_CONFIG_CRC_MASK = crcBits hdr w) :
    (getCrcWidth hdr s).value = some w := by
  obtain ⟨-, -, -, -, -, -, -, -, -, w1, w2, w3⟩ := hwf
  have e0 : _NRF24L01P_REG_CONFIG &&& 31 = 0 := by decide
  simp only [List.mem_cons, List.mem_singleton, List.not_mem_nil, or_false] at hw
  rcases hw with rfl | rfl | rfl
  · simp only [crcBits, if_true] at hb
    simp only [getCrcWidth, M.bind_apply, M.pure_apply, getRegister_eq, hcs, e0, hb, if_true,
      Res.value]
  · simp only [crcBits, w1.symm, if_false, if_true] at hb
    simp only [getCrcWidth, M.bind_apply, M.pure_apply, getRegister_eq, hcs, e0, hb]
    simp [_NRF24L01P_CONFIG_CRC_NONE, _NRF24L01P_CONFIG_CRC_8BIT, _NRF24L01P_CONFIG_EN_CRC,
      Res.value]
  · simp only [crcBits, w2.symm, w3.symm, if_false] at hb
    simp only [getCrcWidth, M.bind_apply, M.pure_apply, getRegister_eq, hcs, e0, hb]
    simp [_NRF24L01P_CONFIG_CRC_NONE, _NRF24L01P_CONFIG_CRC_8BIT, _NRF24L01P_CONFIG_EN_CRC,
      _NRF24L01P_CONFIG_CRC_16BIT, _NRF24L01P_CONFIG_CRC0, Res.value]

/-- The outcome of `init` with valid settings and auto-retransmit off, from any
state: it returns 0 with the bus idle, chip-enable low, mode PowerDown and the
register file `memInit` of the one it started with. -/
theorem init_outcome (hdr : Header) (hw : hdr.widthOk)
    (freq power data_rate crc_width tx_size : Int) (auto_ack tx_address : Nat)
    (rx_addresses : Nat → Nat) (len : Nat)
    (hv : ValidSettings hdr freq power data_rate crc_width tx_size len) (s : Driver) :
    ∃ s', init hdr freq power data_rate crc_width tx_size auto_ack 0 tx_address rx_addresses len s
        = .ok 0 s' ∧
      s'.mode = _NRF24L01P_MODE_POWER_DOWN ∧ s'.chip.csn = 1 ∧ s'.ce_value = 0 ∧
      s'.chip.mem = memInit hdr freq power data_rate crc_width tx_size auto_ack tx_address
        rx_addresses len s.chip.mem := by
  obtain ⟨hlo, hhi, hp, hr, hc, h0, h32, hlen⟩ := hv
  obtain ⟨r, s', hinit, rfl, hmode, hcs, hce, hmem⟩ :=
    init_quiet hdr hw freq hlo hhi power hp data_rate hr crc_width hc tx_size h0 h32 auto_ack
      tx_address rx_addresses len hlen s.chip.mem s rfl
  exact ⟨s', hinit, hmode, hcs, hce, hmem⟩

theorem upstreamHeader_widthOk : upstreamHeader.widthOk := Or.inr (Or.inr rfl)

theorem scenario_valid : ValidSettings upstreamHeader 2476 0 250 8 8 1 := by
  simp [ValidSettings, upstreamHeader]

/-- C17: `init` with valid settings and `auto_retransmit = 0` returns 0 from
every prior driver and chip state, and leaves mode PowerDown, the chip-enable
level 0 and the power-enable bit of the configuration register clear. -/
theorem init_leaves_power_down (hdr : Header) (hw : hdr.widthOk)
    (freq power data_rate crc_width tx_size : Int) (auto_ack tx_address : Nat)
    (rx_addresses : Nat → Nat) (len : Nat)
    (hv : ValidSettings hdr freq power data_rate crc_width tx_size len) (s : Driver) :
    (init hdr freq power data_rate crc_width tx_size auto_ack 0 tx_address rx_addresses len
      s).value = some 0 ∧
    (init hdr freq power data_rate crc_width tx_size auto_ack 0 tx_address rx_addresses len
      s).state.mode = _NRF24L01P_MODE_POWER_DOWN ∧
    (init hdr freq power data_rate crc_width tx_size auto_ack 0 tx_address rx_addresses len
      s).state.ce_value = 0 ∧
    (init hdr freq power data_rate crc_width tx_size auto_ack 0 tx_address rx_addresses len
      s).state.chip.mem _NRF24L01P_REG_CONFIG 0 &&& _NRF24L01P_CONFIG_PWR_UP = 0 := by
  obtain ⟨s', hinit, hmode, -, hce, hmem⟩ :=
    init_outcome hdr hw freq power data_rate crc_width tx_size auto_ack tx_address rx_addresses
      len hv s
  rw [hinit]
  refine ⟨rfl, hmode, hce, ?_⟩
  have e : _NRF24L01P_REG_CONFIG = 0 := rfl
  simp only [Res.state]
  rw [hmem, e, memInit_radio _ _ _ _ _ _ _ _ _ _ _ _ _ (Or.inl rfl), memInitRadio_config]
  exact (crcBits_facts hdr crc_width).1

/-- C17 for the spec scenario, from receive mode with chip-enable high and all
registers `0xFF`. -/
theorem init_leaves_power_down_witness :
    (init upstreamHeader 2476 0 250 8 8 1 0 0x1122334455 (fun _ => 0xAABBCCDDEE) 1
      busyDriver).value = some 0 ∧
    (init upstreamHeader 2476 0 250 8 8 1 0 0x1122334455 (fun _ => 0xAABBCCDDEE) 1
      busyDriver).state.mode = _NRF24L01P_MODE_POWER_DOWN ∧
    (init upstreamHeader 2476 0 250 8 8 1 0 0x1122334455 (fun _ => 0xAABBCCDDEE) 1
      busyDriver).state.ce_value = 0 ∧
    (init upstreamHeader 2476 0 250 8 8 1 0 0x1122334455 (fun _ => 0xAABBCCDDEE) 1
      busyDriver).state.chip.mem _NRF24L01P_REG_CONFIG 0 &&& _NRF24L01P_CONFIG_PWR_UP = 0 :=
  init_leaves_power_down upstreamHeader upstreamHeader_widthOk 2476 0 250 8 8 1 0x1122334455
    (fun _ => 0xAABBCCDDEE) 1 (by simp [ValidSettings, upstreamHeader]) busyDriver

/-- C19 fails as stated: from a chip whose auto-acknowledge register holds
`0xFF`, `init` with `auto_ack = 1` and one receive address leaves `0xFF` in it,
not only the bits of pipes 0 and 1 (`0x03`). -/
theorem init_keeps_stale_ack_bits :
    (init upstreamHeader 2476 0 250 8 8 1 0 0x1122334455 (fun _ => 0xAABBCCDDEE) 1
      busyDriver).state.chip.mem _NRF24L01P_REG_EN_AA 0 = 0xFF := by
  obtain ⟨s', hinit, -, -, -, hmem⟩ :=
    init_outcome upstreamHeader upstreamHeader_widthOk 2476 0 250 8 8 1 0x1122334455
      (fun _ => 0xAABBCCDDEE) 1 scenario_valid busyDriver
  have e : _NRF24L01P_REG_EN_AA = 1 := rfl
  rw [hinit]
  simp only [Res.state]
  rw [hmem, e, memInit_ack _ _ _ _ _ _ _ _ _ _ (by decide)]
  decide

/-- C19, amended: after `init` with valid settings and `auto_retransmit = 0`,
the auto-acknowledge register is 0 when `auto_ack = 0`; when `auto_ack ≠ 0` it
is the byte it held before the call with the bits of pipe 0 and of the receive
pipes 1..`rx_addresses_len` set in addition, so it has exactly those bits only
if no other bit was set before. -/
theorem init_auto_acknowledge (hdr : Header) (hw : hdr.widthOk)
    (freq power data_rate crc_width tx_size : Int) (auto_ack tx_address : Nat)
    (rx_addresses : Nat → Nat) (len : Nat)
    (hv : ValidSettings hdr freq power data_rate crc_width tx_size len) (s : Driver) :
    (init hdr freq power data_rate crc_width tx_size auto_ack 0 tx_address rx_addresses len
      s).value = some 0 ∧
    (init hdr freq power data_rate crc_width tx_size auto_ack 0 tx_address rx_addresses len
      s).state.chip.mem _NRF24L01P_REG_EN_AA 0
      = (if auto_ack ≠ 0 then s.chip.mem _NRF24L01P_REG_EN_AA 0 % 256 ||| (2 ^ (len + 1) - 1)
         else 0) := by
  obtain ⟨s', hinit, -, -, -, hmem⟩ :=
    init_outcome hdr hw freq power data_rate crc_width tx_size auto_ack tx_address rx_addresses
      len hv s
  have e : _NRF24L01P_REG_EN_AA = 1 := rfl
  rw [hinit]
  refine ⟨rfl, ?_⟩
  simp only [Res.state]
  rw [hmem, e, memInit_ack _ _ _ _ _ _ _ _ _ _ hv.2.2.2.2.2.2.2]

/-- C19 (amended) for the spec scenario on a chip whose registers are all zero:
exactly the bits of pipes 0 and 1. -/
theorem init_auto_acknowledge_witness :
    (init upstreamHeader 2476 0 250 8 8 1 0 0x1122334455 (fun _ => 0xAABBCCDDEE) 1
      (freshDriver 0 0)).value = some 0 ∧
    (init upstreamHeader 2476 0 250 8 8 1 0 0x1122334455 (fun _ => 0xAABBCCDDEE) 1
      (freshDriver 0 0)).state.chip.mem _NRF24L01P_REG_EN_AA 0
      = (if (1 : Nat) ≠ 0 then (freshDriver 0 0).chip.mem _NRF24L01P_REG_EN_AA 0 % 256
          ||| (2 ^ (1 + 1) - 1) else 0) :=
  init_auto_acknowledge upstreamHeader upstreamHeader_widthOk 2476 0 250 8 8 1 0x1122334455
    (fun _ => 0xAABBCCDDEE) 1 (by simp [ValidSettings, upstreamHeader]) (freshDriver 0 0)

/-- C18: after `init(freq, power, data_rate, crc_width, tx_size, auto_ack, 0,
tx_address, rx_addresses, len)` with valid settings, from every prior state
(the chip keeping the last bytes written to its registers), under a header
with distinct switch labels, a frequency range of at most 128 channels and a
default address width `w` of 3, 4 or 5: `init` returns 0 and then
`getRfFrequency()`, `getRfOutputPower()`, `getAirDataRate()` and
`getCrcWidth()` return the values set, `getTransferSize(p)` returns `tx_size`
for every pipe `p` in 0..len, `getTxAddress()` returns `tx_address` modulo
`2^(8w)`, `getRxAddress(1)` returns `rx_addresses[0]` modulo `2^(8w)` when
`len ≥ 1`, and bit `k` of the receive-pipe-enable register is set exactly for
`1 ≤ k ≤ len`. -/
theorem init_applies_settings (hdr : Header) (hwf : hdr.WF) (hw : hdr.widthOk)
    (hspan : hdr.NRF24L01P_MAX_RF_FREQUENCY - hdr.NRF24L01P_MIN_RF_FREQUENCY ≤ 127)
    (freq power data_rate crc_width tx_size : Int) (auto_ack tx_address : Nat)
    (rx_addresses : Nat → Nat) (len : Nat)
    (hv : ValidSettings hdr freq power data_rate crc_width tx_size len) (s : Driver) :
    (init hdr freq power data_rate crc_width tx_size auto_ack 0 tx_address rx_addresses len
      s).value = some 0 ∧
    ((init hdr freq power data_rate crc_width tx_size auto_ack 0 tx_address rx_addresses len
      >>= fun _ => getRfFrequency hdr) s).value = some freq ∧
    ((init hdr freq power data_rate crc_width tx_size auto_ack 0 tx_address rx_addresses len
      >>= fun _ => getRfOutputPower hdr) s).value = some power ∧
    ((init hdr freq power data_rate crc_width tx_size auto_ack 0 tx_address rx_addresses len
      >>= fun _ => getAirDataRate hdr) s).value = some data_rate ∧
    ((init hdr freq power data_rate crc_width tx_size auto_ack 0 tx_address rx_addresses len
      >>= fun _ => getCrcWidth hdr) s).value = some crc_width ∧
    (∀ p : Nat, p ≤ len →
      ((init hdr freq power data_rate crc_width tx_size auto_ack 0 tx_address rx_addresses len
        >>= fun _ => getTransferSize p) s).value = some tx_size) ∧
    ((init hdr freq power data_rate crc_width tx_size auto_ack 0 tx_address rx_addresses len
      >>= fun _ => getTxAddress) s).value
      = some (tx_address % 2 ^ (8 * hdr.DEFAULT_NRF24L01P_ADDRESS_WIDTH.toNat)) ∧
    (1 ≤ len →
      ((init hdr freq power data_rate crc_width tx_size auto_ack 0 tx_address rx_addresses len
        >>= fun _ => getRxAddress NRF24L01P_PIPE_P1) s).value
        = some (rx_addresses 0 % 2 ^ (8 * hdr.DEFAULT_NRF24L01P_ADDRESS_WIDTH.toNat))) ∧
    (∀ k : Nat,
      ((init hdr freq power data_rate crc_width tx_size auto_ack 0 tx_address rx_addresses len
        s).state.chip.mem _NRF24L01P_REG_EN_RXADDR 0).testBit k = decide (1 ≤ k ∧ k ≤ len)) := by
  obtain ⟨s', hinit, -, hcs, -, hmem⟩ :=
    init_outcome hdr hw freq power data_rate crc_width tx_size auto_ack tx_address rx_addresses
      len hv s
  obtain ⟨hlo, hhi, hp, hr, hc, h0, h32, hlen⟩ := hv
  have hwn : hdr.DEFAULT_NRF24L01P_ADDRESS_WIDTH.toNat = 3 ∨
      hdr.DEFAULT_NRF24L01P_ADDRESS_WIDTH.toNat = 4 ∨
      hdr.DEFAULT_NRF24L01P_ADDRESS_WIDTH.toNat = 5 := by
    rcases hw with h | h | h <;> rw [h] <;> simp
  have haw : s'.chip.mem 3 0 % 256 &&& _NRF24L01P_SETUP_AW_AW_MASK
      = hdr.DEFAULT_NRF24L01P_ADDRESS_WIDTH.toNat - 2 := by
    rw [hmem]
    exact memInit_aw hdr hw _ _ _ _ _ _ _ _ _ _
  have hdvd : ∀ a : Nat, a % 18446744073709551616
      % 2 ^ (8 * hdr.DEFAULT_NRF24L01P_ADDRESS_WIDTH.toNat)
      = a % 2 ^ (8 * hdr.DEFAULT_NRF24L01P_ADDRESS_WIDTH.toNat) := by
    intro a
    have e : (18446744073709551616 : Nat) = 2 ^ 64 := by norm_num
    rw [e]
    exact Nat.mod_mod_of_dvd a (Nat.pow_dvd_pow 2 (by omega))
  simp only [M.bind_apply, hinit]
  refine ⟨rfl, ?_, ?_, ?_, ?_, ?_, ?_, ?_, ?_⟩
  · rw [getRfFrequency_value hdr s' hcs, hmem,
      memInit_radio _ _ _ _ _ _ _ _ _ _ _ _ _ (Or.inr (Or.inl rfl)), memInitRadio_channel]
    have hch : (freq - hdr.NRF24L01P_MIN_RF_FREQUENCY).toNat < 128 := by omega
    have e1 : (freq - hdr.NRF24L01P_MIN_RF_FREQUENCY).toNat &&& 0x7F
        = (freq - hdr.NRF24L01P_MIN_RF_FREQUENCY).toNat := by
      have : (0x7F : Nat) = 2 ^ 7 - 1 := by norm_num
      rw [this, Nat.and_pow_two_sub_one_eq_mod]
      exact Nat.mod_eq_of_lt hch
    have e2 : (freq - hdr.NRF24L01P_MIN_RF_FREQUENCY).toNat % 256
        = (freq - hdr.NRF24L01P_MIN_RF_FREQUENCY).toNat := Nat.mod_eq_of_lt (by omega)
    rw [e1, e2, e2, e1]
    congr 1
    omega
  · apply getRfOutputPower_value hdr hwf s' hcs power hp
    rw [hmem, memInit_radio _ _ _ _ _ _ _ _ _ _ _ _ _ (Or.inr (Or.inr rfl)), memInitRadio_setup]
    exact (setup_bits _ (powerBits_mem hdr power) _ (rateBits_mem hdr data_rate) _
      (Nat.mod_lt _ (by decide))).1
  · apply getAirDataRate_value hdr hwf s' hcs data_rate hr
    rw [hmem, memInit_radio _ _ _ _ _ _ _ _ _ _ _ _ _ (Or.inr (Or.inr rfl)), memInitRadio_setup]
    exact (setup_bits _ (powerBits_mem hdr power) _ (rateBits_mem hdr data_rate) _
      (Nat.mod_lt _ (by decide))).2
  · apply getCrcWidth_value hdr hwf s' hcs crc_width hc
    rw [hmem, memInit_radio _ _ _ _ _ _ _ _ _ _ _ _ _ (Or.inl rfl), memInitRadio_config]
    exact (crcBits_facts hdr crc_width).2
  · intro p hp5
    obtain ⟨k, rfl⟩ := Int.eq_ofNat_of_zero_le h0
    rw [getTransferSize_value p (by omega) s' hcs, hmem, memInit_size _ _ _ _ _ _ _ _ _ _ hlen _ _ hp5,
      Int.toNat_ofNat, size_bits k (by omega)]
  · obtain ⟨s2, h2, -, -⟩ := getTxAddress_spec s' hcs _ hwn haw
    rw [h2]
    simp only [Res.value]
    rw [assembleBytes_zero _ _ (tx_address % 18446744073709551616), hdvd]
    intro j hj
    rw [hmem]
    exact memInit_tx _ _ _ _ _ _ _ _ _ _ hlen _ _ hj
  · intro h1
    obtain ⟨s2, h2, -, -⟩ := getRxAddress_spec01 s' hcs 1 (by decide) _ hwn haw
    have h3 : getRxAddress NRF24L01P_PIPE_P1 s' = _ := h2
    rw [h3]
    simp only [Res.value]
    rw [assembleBytes_zero _ _ (rx_addresses 0 % 18446744073709551616), hdvd]
    intro j hj
    rw [hmem]
    exact memInit_rx1 _ _ _ _ _ _ _ _ _ _ h1 _ _ hj
  · intro k
    have e : _NRF24L01P_REG_EN_RXADDR = 2 := rfl
    simp only [Res.state]
    rw [hmem, e, memInit_enable _ _ _ _ _ _ _ _ _ _ hlen]
    exact pipe_bits len hlen k

/-- C18 for the spec scenario (transmit address `0x1122334455`, receive address
`0xAABBCCDDEE` on pipe 1, width 5, payload size 8, auto-acknowledge on), from
receive mode with all registers `0xFF`. -/
theorem init_applies_settings_witness :
    (init upstreamHeader 2476 0 250 8 8 1 0 0x1122334455 (fun _ => 0xAABBCCDDEE) 1
      busyDriver).value = some 0 ∧
    ((init upstreamHeader 2476 0 250 8 8 1 0 0x1122334455 (fun _ => 0xAABBCCDDEE) 1
      >>= fun _ => getRfFrequency upstreamHeader) busyDriver).value = some 2476 ∧
    ((init upstreamHeader 2476 0 250 8 8 1 0 0x1122334455 (fun _ => 0xAABBCCDDEE) 1
      >>= fun _ => getRfOutputPower upstreamHeader) busyDriver).value = some 0 ∧
    ((init upstreamHeader 2476 0 250 8 8 1 0 0x1122334455 (fun _ => 0xAABBCCDDEE) 1
      >>= fun _ => getAirDataRate upstreamHeader) busyDriver).value = some 250 ∧
    ((init upstreamHeader 2476 0 250 8 8 1 0 0x1122334455 (fun _ => 0xAABBCCDDEE) 1
      >>= fun _ => getCrcWidth upstreamHeader) busyDriver).value = some 8 ∧
    (∀ p : Nat, p ≤ 1 →
      ((init upstreamHeader 2476 0 250 8 8 1 0 0x1122334455 (fun _ => 0xAABBCCDDEE) 1
        >>= fun _ => getTransferSize p) busyDriver).value = some 8) ∧
    ((init upstreamHeader 2476 0 250 8 8 1 0 0x1122334455 (fun _ => 0xAABBCCDDEE) 1
      >>= fun _ => getTxAddress) busyDriver).value
      = some (0x1122334455 % 2 ^ (8 * upstreamHeader.DEFAULT_NRF24L01P_ADDRESS_WIDTH.toNat)) ∧
    (1 ≤ 1 →
      ((init upstreamHeader 2476 0 250 8 8 1 0 0x1122334455 (fun _ => 0xAABBCCDDEE) 1
        >>= fun _ => getRxAddress NRF24L01P_PIPE_P1) busyDriver).value
        = some ((fun _ => 0xAABBCCDDEE) 0
            % 2 ^ (8 * upstreamHeader.DEFAULT_NRF24L01P_ADDRESS_WIDTH.toNat))) ∧
    (∀ k : Nat,
      ((init upstreamHeader 2476 0 250 8 8 1 0 0x1122334455 (fun _ => 0xAABBCCDDEE) 1
        busyDriver).state.chip.mem _NRF24L01P_REG_EN_RXADDR 0).testBit k
        = decide (1 ≤ k ∧ k ≤ 1)) :=
  init_applies_settings upstreamHeader upstreamHeader_WF upstreamHeader_widthOk (by decide)
    2476 0 250 8 8 1 0x1122334455 (fun _ => 0xAABBCCDDEE) 1
    (by simp [ValidSettings, upstreamHeader]) busyDriver

/-! ## Status queries: C21, C22 -/

set_option maxRecDepth 100000 in
theorem pipe_field : ∀ st < 256,
    (st &&& _NRF24L01P_STATUS_RX_P_NO) >>> 1 = (st >>> 1) &&& 7 := by
  decide

theorem readablePipe_eq (s : Driver) (hcs : s.chip.csn = 1) :
    readablePipe s = .ok
      (if s.chip.statusFeed s.chip.clock % 256 &&& _NRF24L01P_STATUS_RX_DR = 0 then -1
       else (((s.chip.statusFeed s.chip.clock % 256 &&& _NRF24L01P_STATUS_RX_P_NO) >>> 1 : Nat)
         : Int))
      { s with chip := { s.chip with csn := 1, cmd := some 0xff, idx := 0, clock := s.chip.clock + 1 },
               trace := s.trace ++ [.cs 0, .spi 0xff (s.chip.statusFeed s.chip.clock % 256), .cs 1] } := by
  by_cases h : s.chip.statusFeed s.chip.clock % 256 &&& _NRF24L01P_STATUS_RX_DR = 0
  · simp only [readablePipe, M.bind_apply, getStatusRegister_eq _ hcs, M.pure_apply, h, ne_eq,
      not_true_eq_false, not_false_eq_true, if_true]
  · simp only [readablePipe, M.bind_apply, getStatusRegister_eq _ hcs, M.pure_apply, h, ne_eq,
      not_true_eq_false, not_false_eq_true, if_false]

/-- C21: on every status byte `st` (the byte the chip shifts out with the next
command, from any driver state with the bus idle), `readablePipe()` returns
`-1` when the data-ready flag (bit 6) of `st` is clear and the 3-bit pipe field
`(st >> 1) & 7` otherwise; so it returns `-1` if and only if the flag is
clear. -/
theorem readablePipe_spec (s : Driver) (hcs : s.chip.csn = 1) (st : Nat)
    (hst : s.chip.statusFeed s.chip.clock % 256 = st) :
    (readablePipe s).value
      = some (if st &&& (1 <<< 6) = 0 then -1 else (((st >>> 1) &&& 7 : Nat) : Int)) ∧
    ((readablePipe s).value = some (-1) ↔ st &&& (1 <<< 6) = 0) := by
  have hlt : st < 256 := by
    rw [← hst]
    exact Nat.mod_lt _ (by decide)
  have hv : (readablePipe s).value
      = some (if st &&& (1 <<< 6) = 0 then -1 else (((st >>> 1) &&& 7 : Nat) : Int)) := by
    rw [readablePipe_eq s hcs, hst, pipe_field st hlt]
    rfl
  refine ⟨hv, ?_⟩
  rw [hv]
  by_cases h : st &&& (1 <<< 6) = 0
  · simp only [h, if_true]
  · simp only [h, if_false, Option.some.injEq, iff_false]
    omega

/-- C21 on the status byte `0x42`: data ready on pipe 1. -/
theorem readablePipe_spec_witness :
    (readablePipe (freshDriver 0x42 8)).value
      = some (if 0x42 &&& (1 <<< 6) = 0 then -1 else (((0x42 >>> 1) &&& 7 : Nat) : Int)) ∧
    ((readablePipe (freshDriver 0x42 8)).value = some (-1) ↔ 0x42 &&& (1 <<< 6) = 0) :=
  readablePipe_spec (freshDriver 0x42 8) rfl 0x42 (by decide)

/-- C22: on the same status byte (the same driver state, bus idle) and for
every pipe `p` in 0..5, `readable(p)` returns, and it returns true if and only
if `readablePipe()` returns `p`. -/
theorem readable_iff_readablePipe (s : Driver) (hcs : s.chip.csn = 1) (p : Int) (h0 : 0 ≤ p)
    (h5 : p ≤ 5) :
    (∃ b, (readable p s).value = some b) ∧
    ((readable p s).value = some true ↔ (readablePipe s).value = some p) := by
  rw [readable_eq p s hcs h0 h5, readablePipe_eq s hcs]
  refine ⟨⟨_, rfl⟩, ?_⟩
  simp only [Res.value, Option.some.injEq, Bool.and_eq_true, decide_eq_true_eq, ne_eq]
  by_cases h : s.chip.statusFeed s.chip.clock % 256 &&& _NRF24L01P_STATUS_RX_DR = 0
  · simp only [h, not_true_eq_false, false_and, if_true, false_iff]
    omega
  · simp only [h, not_false_eq_true, true_and, if_false]
    omega

/-- C22 on the status byte `0x42` and pipe 1. -/
theorem readable_iff_readablePipe_witness :
    (∃ b, (readable 1 (freshDriver 0x42 8)).value = some b) ∧
    ((readable 1 (freshDriver 0x42 8)).value = some true ↔
      (readablePipe (freshDriver 0x42 8)).value = some 1) :=
  readable_iff_readablePipe (freshDriver 0x42 8) rfl 1 (by decide) (by decide)

/-! ## The delay helper: C29 -/

/-- C29: for every 32-bit microsecond count `m`, `wait_us(m)` requests exactly
`t = (m >> 9) + 1` ticks from the tick delay; `t` is at least 1, `t` ticks of
`USEC_PER_OS_TICK = 1000` microseconds are at least `m` microseconds, and
`(m >> 9) + 1` is below `2^32`, so the 32-bit computation does not wrap. -/
theorem wait_us_never_undershoots (m : Nat) (hm : m < 4294967296) (s : Driver) :
    wait_us m s = .ok () { s with trace := s.trace ++ [.delay ((m >>> 9) + 1)] } ∧
    1 ≤ (m >>> 9) + 1 ∧
    m ≤ ((m >>> 9) + 1) * USEC_PER_OS_TICK ∧
    (m >>> 9) + 1 < 4294967296 := by
  have h9 : m >>> 9 = m / 512 := by
    rw [Nat.shiftRight_eq_div_pow]
  have hlt : (m >>> 9) + 1 < 4294967296 := by
    rw [h9]
    omega
  refine ⟨?_, by omega, ?_, hlt⟩
  · simp only [wait_us, os_time_delay, USEC_PER_OS_TICK_LOG2, Nat.mod_eq_of_lt hm,
      Nat.mod_eq_of_lt hlt]
  · rw [h9, USEC_PER_OS_TICK]
    omega

/-- C29 at the longest wait of the driver, 100000 microseconds: 196 ticks. -/
theorem wait_us_never_undershoots_witness :
    wait_us 100000 busyDriver
      = .ok () { busyDriver with trace := busyDriver.trace ++ [.delay ((100000 >>> 9) + 1)] } ∧
    1 ≤ (100000 >>> 9) + 1 ∧
    100000 ≤ ((100000 >>> 9) + 1) * USEC_PER_OS_TICK ∧
    (100000 >>> 9) + 1 < 4294967296 :=
  wait_us_never_undershoots 100000 (by decide) busyDriver

/-! ## Power-up twice: C24 -/

theorem storeByte_idem (m : Nat → Nat → Nat) (r i v : Nat) :
    storeByte (storeByte m r i v) r i v = storeByte m r i v := by
  funext r2 i2
  simp only [storeByte]
  split <;> rfl

set_option maxRecDepth 100000 in
theorem pwr_up_bits : ∀ x < 256,
    ((x ||| _NRF24L01P_CONFIG_PWR_UP) % 256 % 256 ||| _NRF24L01P_CONFIG_PWR_UP) % 256
      = (x ||| _NRF24L01P_CONFIG_PWR_UP) % 256 ∧
    (x ||| _NRF24L01P_CONFIG_PWR_UP) % 256 = x ||| _NRF24L01P_CONFIG_PWR_UP ∧
    (x ||| _NRF24L01P_CONFIG_PWR_UP) &&& _NRF24L01P_CONFIG_PWR_UP ≠ 0 := by
  decide

/-- C24: from every driver state with the bus idle, `powerUp()` returns, and
`powerUp()` followed by `powerUp()` returns with the same mode (Standby), the
same chip-enable level and the same register contents as a single
`powerUp()`; the configuration register then holds its prior byte with the
power-enable bit set and every other bit as before. -/
theorem powerUp_idempotent (s : Driver) (hcs : s.chip.csn = 1) :
    (powerUp s).value = some () ∧
    ((powerUp >>= fun _ => powerUp) s).value = some () ∧
    ((powerUp >>= fun _ => powerUp) s).state.mode = (powerUp s).state.mode ∧
    ((powerUp >>= fun _ => powerUp) s).state.ce_value = (powerUp s).state.ce_value ∧
    ((powerUp >>= fun _ => powerUp) s).state.chip.mem = (powerUp s).state.chip.mem ∧
    ((powerUp >>= fun _ => powerUp) s).state.chip.mem _NRF24L01P_REG_CONFIG 0
      = s.chip.mem _NRF24L01P_REG_CONFIG 0 % 256 ||| _NRF24L01P_CONFIG_PWR_UP ∧
    ((powerUp >>= fun _ => powerUp) s).state.chip.mem _NRF24L01P_REG_CONFIG 0
      &&& _NRF24L01P_CONFIG_PWR_UP ≠ 0 := by
  obtain ⟨b1, b2, b3⟩ := pwr_up_bits (s.chip.mem _NRF24L01P_REG_CONFIG 0 % 256)
    (Nat.mod_lt _ (by decide))
  have hce : (if (if s.ce_value ≠ 0 then 1 else 0 : Nat) ≠ 0 then 1 else 0 : Nat)
      = (if s.ce_value ≠ 0 then 1 else 0) := by
    by_cases h : s.ce_value = 0 <;> simp [h]
  simp only [powerUp, M.bind_apply, M.pure_apply, getRegister_eq, setRegister_eq, hcs,
    storeByte_same, Res.value, wait_us, os_time_delay, update, Res.state, reg_config_and,
    true_and, b1, hce, storeByte_idem]
  exact ⟨b2, by rw [b2]; exact b3⟩

/-- C24 from receive mode with chip-enable high and all registers `0xFF`. -/
theorem powerUp_idempotent_witness :
    (powerUp busyDriver).value = some () ∧
    ((powerUp >>= fun _ => powerUp) busyDriver).value = some () ∧
    ((powerUp >>= fun _ => powerUp) busyDriver).state.mode = (powerUp busyDriver).state.mode ∧
    ((powerUp >>= fun _ => powerUp) busyDriver).state.ce_value
      = (powerUp busyDriver).state.ce_value ∧
    ((powerUp >>= fun _ => powerUp) busyDriver).state.chip.mem
      = (powerUp busyDriver).state.chip.mem ∧
    ((powerUp >>= fun _ => powerUp) busyDriver).state.chip.mem _NRF24L01P_REG_CONFIG 0
      = busyDriver.chip.mem _NRF24L01P_REG_CONFIG 0 % 256 ||| _NRF24L01P_CONFIG_PWR_UP ∧
    ((powerUp >>= fun _ => powerUp) busyDriver).state.chip.mem _NRF24L01P_REG_CONFIG 0
      &&& _NRF24L01P_CONFIG_PWR_UP ≠ 0 :=
  powerUp_idempotent busyDriver rfl

/-! ## The signal estimate: C23 -/

theorem reg_rpd_and : _NRF24L01P_REG_RPD &&& 31 = 9 := by decide

/-- On a chip whose detect register keeps its content, `n` passes of the loop
of `getRSSI` add `n` times the detect bit to the 8-bit accumulator. -/
theorem getRSSILoop_eq (n : Nat) : ∀ (acc : Nat) (s : Driver), s.chip.csn = 1 → acc < 256 →
    ∃ s', getRSSILoop n acc s
        = .ok ((acc + n * (if s.chip.mem 9 0 % 256 > 0 then 1 else 0)) % 256) s' ∧
      s'.chip.csn = 1 ∧ s'.chip.mem = s.chip.mem := by
  induction n with
  | zero =>
    intro acc s hcs hacc
    exact ⟨s, by simp [getRSSILoop, M.pure_apply, Nat.mod_eq_of_lt hacc], hcs, rfl⟩
  | succ n ih =>
    intro acc s hcs hacc
    simp only [getRSSILoop, getRPD, flushRx, M.bind_apply, M.pure_apply, getRegister_eq, hcs,
      reg_rpd_and, wait_us, os_time_delay, select_eq, deselect_eq, spiWrite_eq,
      _NRF24L01P_SPI_CMD_FLUSH_RX, _NRF24L01P_SPI_CMD_NOP, Nat.reduceMod, exchange_command,
      exchange_flush, Nat.mod_mod, decide_eq_true_eq]
    have key : ∀ S : Driver, S.chip.csn = 1 → S.chip.mem = s.chip.mem →
        ∃ s', getRSSILoop n ((acc + if s.chip.mem 9 0 % 256 > 0 then 1 else 0) % 256) S
            = .ok ((acc + (n + 1) * (if s.chip.mem 9 0 % 256 > 0 then 1 else 0)) % 256) s' ∧
          s'.chip.csn = 1 ∧ s'.chip.mem = s.chip.mem := by
      intro S h1 h2
      obtain ⟨s', h, hcs', hmem'⟩ :=
        ih ((acc + if s.chip.mem 9 0 % 256 > 0 then 1 else 0) % 256) S h1
          (Nat.mod_lt _ (by decide))
      refine ⟨s', ?_, hcs', hmem'.trans h2⟩
      rw [h, h2]
      congr 1
      simp only [Nat.add_mul, Nat.one_mul]
      omega
    exact key _ rfl rfl

/-- C23 fails on the code when every sample reports a signal: on a chip whose
detect register reads non-zero at all 256 samples, `getRSSI()` returns 0, not
256: the count is kept in eight bits and wraps. -/
theorem getRSSI_all_present_is_zero :
    busyDriver.chip.mem _NRF24L01P_REG_RPD 0 % 256 > 0 ∧
    (getRSSI busyDriver).value = some 0 := by
  obtain ⟨s', h, -, -⟩ := getRSSILoop_eq 256 0 busyDriver rfl (by decide)
  refine ⟨by decide, ?_⟩
  rw [getRSSI, h]
  simp [Res.value, busyDriver]

/-! ## The CoAP router: C30 -/

theorem discardTrailingZeroes_le (data : Nat → Nat) (n : Nat) :
    discardTrailingZeroes data n ≤ n := by
  induction n with
  | zero => exact Nat.le_refl 0
  | succ n ih =>
    rw [discardTrailingZeroes]
    split
    · exact Nat.le_succ_of_le ih
    · exact Nat.le_refl _

theorem discardTrailingZeroes_last (data : Nat → Nat) (n : Nat) :
    discardTrailingZeroes data n = 0 ∨ data (discardTrailingZeroes data n - 1) ≠ 0 := by
  induction n with
  | zero => exact Or.inl rfl
  | succ n ih =>
    rw [discardTrailingZeroes]
    split
    · exact ih
    · rename_i h
      exact Or.inr h

theorem discardTrailingZeroes_zero (data : Nat → Nat) (n : Nat) :
    ∀ j, discardTrailingZeroes data n < j → j ≤ n → data (j - 1) = 0 := by
  induction n with
  | zero =>
    intro j h1 h2
    omega
  | succ n ih =>
    intro j h1 h2
    rw [discardTrailingZeroes] at h1
    split at h1
    · rename_i h
      by_cases hj : j = n + 1
      · subst hj
        exact h
      · exact ih j h1 (by omega)
    · omega

theorem discardTrailingZeroes_erased (data : Nat → Nat) (n : Nat) :
    discardTrailingZeroes (Function.update data n 0) (n + 1)
      = discardTrailingZeroes (Function.update data n 0) n := by
  rw [discardTrailingZeroes, if_pos (Function.update_same _ _ _)]

theorem decode_first_call (host : Host) (data : Nat → Nat) (size : Nat) :
    (decode_coap_payload host data size).2.2.head?
      = some (.decode_coap_payload ((List.range size).map data) size) := by
  simp only [decode_coap_payload]
  split_ifs <;> rfl

theorem process_coap_message_calls (host : Host) (name : Nat) (data : Nat → Nat) (n : Nat)
    (hn : n + 1 < 256) :
    (process_coap_message host name data (n + 1)).data = Function.update data n 0 ∧
    (process_coap_message host name data (n + 1)).calls.head?
      = some (.decode_coap_payload
          ((List.range (discardTrailingZeroes (Function.update data n 0) (n + 1))).map
            (Function.update data n 0))
          (discardTrailingZeroes (Function.update data n 0) (n + 1))) := by
  have h1 : (n + 1) % 256 = n + 1 := Nat.mod_eq_of_lt hn
  have h2 : ¬ ¬ (n + 1 > 0) := by omega
  have hd := decode_first_call host (Function.update data n 0)
    (discardTrailingZeroes (Function.update data n 0) (n + 1))
  simp only [process_coap_message, h1, h2, if_false, Nat.add_sub_cancel]
  rcases h : decode_coap_payload host (Function.update data n 0)
    (discardTrailingZeroes (Function.update data n 0) (n + 1)) with ⟨rc, rep, calls⟩
  rw [h] at hd
  simp only at hd
  cases calls with
  | nil => simp at hd
  | cons c cs =>
    simp only [List.head?_cons, Option.some.injEq] at hd
    subst hd
    cases rc with
    | none => exact ⟨rfl, rfl⟩
    | some rc =>
      simp only
      split_ifs <;> exact ⟨rfl, rfl⟩

/-- C30: for every buffer `data` of `size0` bytes, `0 < size0 < 256`, and every
behaviour of the collaborators, `process_coap_message` overwrites
`data[size0 - 1]` with 0 and leaves every other byte as it was, and the first
thing it does is call the decoder with the first `k` bytes of the buffer and
the length `k`, where `k ≤ size0 - 1`, `k = 0` or `data[k-1] ≠ 0`, and
`data[j-1] = 0` for every `j` with `k < j ≤ size0 - 1`: `k` is the largest such
length. -/
theorem process_coap_message_strips (host : Host) (name : Nat) (data : Nat → Nat) (size0 : Nat)
    (h0 : 0 < size0) (h256 : size0 < 256) :
    ∃ k, k ≤ size0 - 1 ∧ (k = 0 ∨ data (k - 1) ≠ 0) ∧
      (∀ j, k < j → j ≤ size0 - 1 → data (j - 1) = 0) ∧
      (process_coap_message host name data size0).calls.head?
        = some (.decode_coap_payload ((List.range k).map data) k) ∧
      (process_coap_message host name data size0).data (size0 - 1) = 0 ∧
      ∀ i, i ≠ size0 - 1 → (process_coap_message host name data size0).data i = data i := by
  obtain ⟨n, rfl⟩ : ∃ n, size0 = n + 1 := ⟨size0 - 1, by omega⟩
  obtain ⟨hdata, hcalls⟩ := process_coap_message_calls host name data n h256
  have hk := discardTrailingZeroes_le (Function.update data n 0) n
  have hupd : ∀ i, i ≠ n → Function.update data n 0 i = data i :=
    fun i hi => Function.update_noteq hi _ _
  rw [discardTrailingZeroes_erased] at hcalls
  refine ⟨discardTrailingZeroes (Function.update data n 0) n, by simpa using hk, ?_, ?_, ?_, ?_, ?_⟩
  · rcases discardTrailingZeroes_last (Function.update data n 0) n with h | h
    · exact Or.inl h
    · by_cases hz : discardTrailingZeroes (Function.update data n 0) n = 0
      · exact Or.inl hz
      · rw [hupd _ (by omega)] at h
        exact Or.inr h
  · intro j h1 h2
    have h3 := discardTrailingZeroes_zero (Function.update data n 0) n j h1 (by simpa using h2)
    rw [hupd _ (by omega)] at h3
    exact h3
  · rw [hcalls]
    congr 2
    apply List.map_congr_left
    intro i hi
    rw [List.mem_range] at hi
    exact hupd i (by omega)
  · rw [hdata]
    simp
  · intro i hi
    rw [hdata]
    exact hupd i (by simpa using hi)

/-- C30 on the six bytes `a1 00 07 00 00 2a`: the decoder gets the first three. -/
theorem process_coap_message_strips_witness :
    ∃ k, k ≤ 6 - 1 ∧ (k = 0 ∨ sixBytes (k - 1) ≠ 0) ∧
      (∀ j, k < j → j ≤ 6 - 1 → sixBytes (j - 1) = 0) ∧
      (process_coap_message quietHost 0 sixBytes 6).calls.head?
        = some (.decode_coap_payload ((List.range k).map sixBytes) k) ∧
      (process_coap_message quietHost 0 sixBytes 6).data (6 - 1) = 0 ∧
      ∀ i, i ≠ 6 - 1 → (process_coap_message quietHost 0 sixBytes 6).data i = sixBytes i :=
  process_coap_message_strips quietHost 0 sixBytes 6 (by decide) (by decide)

/-! ## Invariants of the register and receive operations -/

theorem keeps_bind {α β : Type} {x : M α} {f : α → M β} {I : Driver → Prop}
    (hx : M.keeps x I) (hf : ∀ a, M.keeps (f a) I) : M.keeps (x >>= f) I := by
  intro s hs
  have h1 := hx s hs
  rw [M.bind_apply]
  cases h : x s with
  | ok a s1 =>
    rw [h] at h1
    exact hf a s1 h1
  | halt e s1 =>
    rw [h] at h1
    exact h1

theorem keeps_pure {α : Type} (a : α) (I : Driver → Prop) : M.keeps (pure a) I :=
  fun _ hs => hs

theorem keeps_error {α : Type} (I : Driver → Prop) : M.keeps (error : M α) I :=
  fun _ hs => hs

theorem keeps_assertFail {α : Type} (I : Driver → Prop) : M.keeps (assertFail : M α) I :=
  fun _ hs => hs

theorem keeps_ite {α : Type} {c : Prop} [Decidable c] {x y : M α} {I : Driver → Prop}
    (hx : M.keeps x I) (hy : M.keeps y I) : M.keeps (if c then x else y) I := by
  split
  · exact hx
  · exact hy

theorem keeps_spiWrite {I : Driver → Prop} (hI : Stable I) (v : Nat) : M.keeps (spiWrite v) I := by
  intro s hs
  rw [spiWrite_eq]
  have h := hI.1 s (v % 256) hs
  simp only [hal_spi_tx_val, Res.state] at h ⊢
  exact h

theorem keeps_select {I : Driver → Prop} (hI : Stable I) : M.keeps select I :=
  fun s hs => hI.2.1 s 0 hs

theorem keeps_deselect {I : Driver → Prop} (hI : Stable I) : M.keeps deselect I :=
  fun s hs => hI.2.1 s 1 hs

theorem keeps_wait_us {I : Driver → Prop} (hI : Stable I) (us : Nat) : M.keeps (wait_us us) I :=
  fun s hs => hI.2.2.1 s _ hs

theorem keeps_setRegister {I : Driver → Prop} (hI : Stable I) (r d : Nat) :
    M.keeps (setRegister r d) I :=
  fun s hs => hI.2.2.2.1 s r d hs

theorem keeps_getRegister {I : Driver → Prop} (hI : Stable I) (r : Nat) :
    M.keeps (getRegister r) I := by
  unfold getRegister
  exact keeps_bind (keeps_select hI) (fun _ => keeps_bind (keeps_spiWrite hI _) (fun _ =>
    keeps_bind (keeps_spiWrite hI _) (fun _ => keeps_bind (keeps_deselect hI) (fun _ =>
      keeps_pure _ _))))

theorem keeps_getStatusRegister {I : Driver → Prop} (hI : Stable I) :
    M.keeps getStatusRegister I := by
  unfold getStatusRegister
  exact keeps_bind (keeps_select hI) (fun _ => keeps_bind (keeps_spiWrite hI _) (fun _ =>
    keeps_bind (keeps_deselect hI) (fun _ => keeps_pure _ _)))

theorem keeps_setRfOutputPower {I : Driver → Prop} (hI : Stable I) (hdr : Header) (p : Int) :
    M.keeps (setRfOutputPower hdr p) I := by
  unfold setRfOutputPower
  repeat' first
    | exact keeps_pure _ _
    | exact keeps_error _
    | exact keeps_getRegister hI _
    | exact keeps_setRegister hI _ _
    | exact keeps_select hI
    | exact keeps_deselect hI
    | exact keeps_spiWrite hI _
    | exact keeps_wait_us hI _
    | apply keeps_bind
    | apply keeps_ite
    | intro _

theorem setRegister_any (r d : Nat) (s : Driver) :
    (setRegister r d s).fault = none ∧
    (setRegister r d s).state.ce_value = (if s.ce_value ≠ 0 then 1 else 0) ∧
    (setRegister r d s).state.mode = s.mode ∧
    ∃ a b c e, (setRegister r d s).state.trace = s.trace ++ ([.ce 0, .cs 0, .spi a b, .spi c e, .cs 1]
      ++ (if s.ce_value ≠ 0 then [.ce 1, .delay 1] else [.ce 0]) ++ [.delay 1]) := by
  by_cases hce : s.ce_value = 0 <;>
  simp [setRegister, M.bind_apply, M.pure_apply, spiWrite_eq, select, deselect, hal_gpio_write,
    readState, disable, enable, update, wait_us, os_time_delay, Res.fault, Res.state,
    _NRF24L01P_TIMING_Tpece2csn_us, USEC_PER_OS_TICK_LOG2, hce]

theorem ceLevel_append (c : Nat) (a b : List Event) :
    ceLevel c (a ++ b) = ceLevel (ceLevel c a) b := by
  unfold ceLevel
  rw [ceWrites_append, List.getLast?_append]
  cases (ceWrites b).getLast? <;> simp

theorem ceKept_extend (c : Nat) (tr0 : List Event) (s s' : Driver) (e : List Event)
    (h : CeKept c tr0 s) (hce : s'.ce_value = c) (ht : s'.trace = s.trace ++ e)
    (he : ceLevel c e = c) : CeKept c tr0 s' := by
  obtain ⟨-, ev, h2, h3⟩ := h
  refine ⟨hce, ev ++ e, ?_, ?_⟩
  · rw [ht, h2, List.append_assoc]
  · rw [ceLevel_append, h3, he]

theorem ceQuiet_extend (tr0 : List Event) (s s' : Driver) (e : List Event)
    (h : CeQuiet tr0 s) (hce : s'.ce_value = 0) (ht : s'.trace = s.trace ++ e)
    (he : ∀ l ∈ ceWrites e, l = 0) : CeQuiet tr0 s' := by
  obtain ⟨-, ev, h2, h3⟩ := h
  refine ⟨hce, ev ++ e, ?_, ?_⟩
  · rw [ht, h2, List.append_assoc]
  · intro l hl
    rw [ceWrites_append, List.mem_append] at hl
    rcases hl with hl | hl
    · exact h3 l hl
    · exact he l hl

theorem stable_ceKept (c : Nat) (hc : c ≤ 1) (tr0 : List Event) : Stable (CeKept c tr0) := by
  refine ⟨?_, ?_, ?_, ?_, ?_⟩
  · intro s v h
    exact ceKept_extend c tr0 s _ [.spi v (s.chip.exchange v).1] h h.1 rfl rfl
  · intro s l h
    exact ceKept_extend c tr0 s _ [.cs l] h h.1 rfl rfl
  · intro s t h
    exact ceKept_extend c tr0 s _ [.delay t] h h.1 rfl rfl
  · intro s r d h
    obtain ⟨-, h2, -, a, b, x, y, h4⟩ := setRegister_any r d s
    have hs := h.1
    refine ceKept_extend c tr0 s _ _ h ?_ h4 ?_
    · rw [h2, hs]
      interval_cases c <;> rfl
    · rw [hs]
      interval_cases c <;> rfl
  · intro s b h
    exact h

theorem stable_ceQuiet (tr0 : List Event) : Stable (CeQuiet tr0) := by
  refine ⟨?_, ?_, ?_, ?_, ?_⟩
  · intro s v h
    exact ceQuiet_extend tr0 s _ [.spi v (s.chip.exchange v).1] h h.1 rfl (by simp [ceWrites])
  · intro s l h
    exact ceQuiet_extend tr0 s _ [.cs l] h h.1 rfl (by simp [ceWrites])
  · intro s t h
    exact ceQuiet_extend tr0 s _ [.delay t] h h.1 rfl (by simp [ceWrites])
  · intro s r d h
    obtain ⟨-, h2, -, a, b, x, y, h4⟩ := setRegister_any r d s
    have hs := h.1
    refine ceQuiet_extend tr0 s _ _ h ?_ h4 ?_
    · rw [h2, hs]
      rfl
    · rw [hs]
      simp [ceWrites]
  · intro s b h
    exact h

theorem keeps_setFlag {I : Driver → Prop} (hI : Stable I) (b : Bool) :
    M.keeps (update fun s => { s with a_retr_enabled := b }) I :=
  fun s hs => hI.2.2.2.2 s b hs

theorem keeps_writeAddressBytes {I : Driver → Prop} (hI : Stable I) (n : Nat) :
    ∀ address, M.keeps (writeAddressBytes n address) I := by
  induction n with
  | zero =>
    intro address
    exact keeps_pure _ _
  | succ n ih =>
    intro address
    unfold writeAddressBytes
    exact keeps_bind (keeps_spiWrite hI _) (fun _ => ih _)

theorem keeps_readAddressBytes {I : Driver → Prop} (hI : Stable I) (n : Nat) :
    ∀ i address, M.keeps (readAddressBytes n i address) I := by
  induction n with
  | zero =>
    intro i address
    exact keeps_pure _ _
  | succ n ih =>
    intro i address
    unfold readAddressBytes
    exact keeps_bind (keeps_spiWrite hI _) (fun _ => ih _ _)

theorem keeps_readPayloadBytes {I : Driver → Prop} (hI : Stable I) (n : Nat) :
    ∀ i data, M.keeps (readPayloadBytes n i data) I := by
  induction n with
  | zero =>
    intro i data
    exact keeps_pure _ _
  | succ n ih =>
    intro i data
    unfold readPayloadBytes
    exact keeps_bind (keeps_spiWrite hI _) (fun _ => ih _ _)

theorem keeps_switchWidth (I : Driver → Prop) (width : Int) (setupAw : Nat) :
    M.keeps (switchWidth width setupAw) I := by
  unfold switchWidth
  exact keeps_ite (keeps_pure _ _) (keeps_ite (keeps_pure _ _) (keeps_ite (keeps_pure _ _)
    (keeps_error _)))

theorem keeps_switchSetupAw (I : Driver → Prop) (setupAw : Nat) :
    M.keeps (switchSetupAw setupAw) I := by
  unfold switchSetupAw
  exact keeps_ite (keeps_pure _ _) (keeps_ite (keeps_pure _ _) (keeps_ite (keeps_pure _ _)
    (keeps_error _)))

theorem keeps_getRxAddressAux {I : Driver → Prop} (hI : Stable I) (depth : Nat) :
    ∀ pipe, M.keeps (getRxAddressAux depth pipe) I := by
  induction depth with
  | zero =>
    intro pipe s hs
    exact hs
  | succ depth ih =>
    intro pipe
    unfold getRxAddressAux
    repeat' with_reducible first
      | exact keeps_pure _ _
      | exact keeps_error _
      | exact keeps_assertFail _
      | exact keeps_getRegister hI _
      | exact keeps_setRegister hI _ _
      | exact keeps_getStatusRegister hI
      | exact keeps_select hI
      | exact keeps_deselect hI
      | exact keeps_spiWrite hI _
      | exact keeps_wait_us hI _
      | exact keeps_setFlag hI _
      | exact keeps_switchSetupAw _ _
      | exact keeps_readAddressBytes hI _ _ _
      | exact ih _
      | apply keeps_bind
      | apply keeps_ite
      | intro _

theorem keeps_flushRx {I : Driver → Prop} (hI : Stable I) : M.keeps flushRx I := by
  unfold flushRx
  repeat' with_reducible first
    | exact keeps_pure _ _
    | exact keeps_error _
    | exact keeps_assertFail _
    | exact keeps_getRegister hI _
    | exact keeps_setRegister hI _ _
    | exact keeps_getStatusRegister hI
    | exact keeps_select hI
    | exact keeps_deselect hI
    | exact keeps_spiWrite hI _
    | exact keeps_wait_us hI _
    | exact keeps_setFlag hI _
    | apply keeps_bind
    | apply keeps_ite
    | intro _

theorem keeps_flushTx {I : Driver → Prop} (hI : Stable I) : M.keeps flushTx I := by
  unfold flushTx
  repeat' with_reducible first
    | exact keeps_pure _ _
    | exact keeps_error _
    | exact keeps_assertFail _
    | exact keeps_getRegister hI _
    | exact keeps_setRegister hI _ _
    | exact keeps_getStatusRegister hI
    | exact keeps_select hI
    | exact keeps_deselect hI
    | exact keeps_spiWrite hI _
    | exact keeps_wait_us hI _
    | exact keeps_setFlag hI _
    | apply keeps_bind
    | apply keeps_ite
    | intro _

theorem keeps_getRPD {I : Driver → Prop} (hI : Stable I) : M.keeps getRPD I := by
  unfold getRPD
  repeat' with_reducible first
    | exact keeps_pure _ _
    | exact keeps_error _
    | exact keeps_assertFail _
    | exact keeps_getRegister hI _
    | exact keeps_setRegister hI _ _
    | exact keeps_getStatusRegister hI
    | exact keeps_select hI
    | exact keeps_deselect hI
    | exact keeps_spiWrite hI _
    | exact keeps_wait_us hI _
    | exact keeps_setFlag hI _
    | apply keeps_bind
    | apply keeps_ite
    | intro _

theorem keeps_getRSSILoop {I : Driver → Prop} (hI : Stable I) (n : Nat) :
    ∀ rssi, M.keeps (getRSSILoop n rssi) I := by
  induction n with
  | zero =>
    intro rssi
    exact keeps_pure _ _
  | succ n ih =>
    intro rssi
    unfold getRSSILoop
    repeat' with_reducible first
      | exact keeps_pure _ _
      | exact keeps_error _
      | exact keeps_assertFail _
      | exact keeps_getRegister hI _
      | exact keeps_setRegister hI _ _
      | exact keeps_getStatusRegister hI
      | exact keeps_select hI
      | exact keeps_deselect hI
      | exact keeps_spiWrite hI _
      | exact keeps_wait_us hI _
      | exact keeps_setFlag hI _
      | exact keeps_getRPD hI
      | exact keeps_flushRx hI
      | exact ih _
      | apply keeps_bind
      | apply keeps_ite
      | intro _

theorem keeps_readable {I : Driver → Prop} (hI : Stable I) (pipe : Int) :
    M.keeps (readable pipe) I := by
  unfold readable
  repeat' with_reducible first
    | exact keeps_pure _ _
    | exact keeps_error _
    | exact keeps_assertFail _
    | exact keeps_getRegister hI _
    | exact keeps_setRegister hI _ _
    | exact keeps_getStatusRegister hI
    | exact keeps_select hI
    | exact keeps_deselect hI
    | exact keeps_spiWrite hI _
    | exact keeps_wait_us hI _
    | exact keeps_setFlag hI _
    | apply keeps_bind
    | apply keeps_ite
    | intro _

theorem keeps_read {I : Driver → Prop} (hI : Stable I) (pipe : Int) (data : Nat → Nat)
    (count : Int) : M.keeps (read pipe data count) I := by
  unfold read
  repeat' with_reducible first
    | exact keeps_pure _ _
    | exact keeps_error _
    | exact keeps_assertFail _
    | exact keeps_getRegister hI _
    | exact keeps_setRegister hI _ _
    | exact keeps_getStatusRegister hI
    | exact keeps_select hI
    | exact keeps_deselect hI
    | exact keeps_spiWrite hI _
    | exact keeps_wait_us hI _
    | exact keeps_setFlag hI _
    | exact keeps_readable hI _
    | exact keeps_readPayloadBytes hI _ _ _
    | apply keeps_bind
    | apply keeps_ite
    | intro _

theorem keeps_setRxAddress {I : Driver → Prop} (hI : Stable I) (address : Nat)
    (width pipe : Int) : M.keeps (setRxAddress address width pipe) I := by
  unfold setRxAddress
  repeat' with_reducible first
    | exact keeps_pure _ _
    | exact keeps_error _
    | exact keeps_assertFail _
    | exact keeps_getRegister hI _
    | exact keeps_setRegister hI _ _
    | exact keeps_getStatusRegister hI
    | exact keeps_select hI
    | exact keeps_deselect hI
    | exact keeps_spiWrite hI _
    | exact keeps_wait_us hI _
    | exact keeps_setFlag hI _
    | exact keeps_switchWidth _ _ _
    | exact keeps_writeAddressBytes hI _ _
    | apply keeps_bind
    | apply keeps_ite
    | intro _

theorem keeps_setTxAddress {I : Driver → Prop} (hI : Stable I) (address : Nat)
    (width : Int) : M.keeps (setTxAddress address width) I := by
  unfold setTxAddress
  repeat' with_reducible first
    | exact keeps_pure _ _
    | exact keeps_error _
    | exact keeps_assertFail _
    | exact keeps_getRegister hI _
    | exact keeps_setRegister hI _ _
    | exact keeps_getStatusRegister hI
    | exact keeps_select hI
    | exact keeps_deselect hI
    | exact keeps_spiWrite hI _
    | exact keeps_wait_us hI _
    | exact keeps_setFlag hI _
    | exact keeps_switchWidth _ _ _
    | exact keeps_writeAddressBytes hI _ _
    | apply keeps_bind
    | apply keeps_ite
    | intro _

theorem keeps_getTxAddress {I : Driver → Prop} (hI : Stable I) : M.keeps getTxAddress I := by
  unfold getTxAddress
  repeat' with_reducible first
    | exact keeps_pure _ _
    | exact keeps_error _
    | exact keeps_assertFail _
    | exact keeps_getRegister hI _
    | exact keeps_setRegister hI _ _
    | exact keeps_getStatusRegister hI
    | exact keeps_select hI
    | exact keeps_deselect hI
    | exact keeps_spiWrite hI _
    | exact keeps_wait_us hI _
    | exact keeps_setFlag hI _
    | exact keeps_switchSetupAw _ _
    | exact keeps_readAddressBytes hI _ _ _
    | apply keeps_bind
    | apply keeps_ite
    | intro _

theorem keeps_runOp {I : Driver → Prop} (hI : Stable I) (hdr : Header) (o : Op) :
    M.keeps (runOp hdr o) I := by
  cases o
  all_goals
    simp only [runOp, setRfFrequency, getRfFrequency, getRfOutputPower,
      setAirDataRate, getAirDataRate, setCrcWidth, getCrcWidth, setTransferSize, getTransferSize,
      disableAllRxPipes, disableAutoAcknowledge, enableAutoAcknowledge, enableDynamicPayload,
      disableDynamicPayload, disableAutoRetransmit, enableAutoRetransmit, getRetrCount,
      enableRxInterrupt, disableRxInterrupt, readablePipe, getRxAddress, getRSSI, flushTxRx]
    repeat' with_reducible first
      | exact keeps_pure _ _
      | exact keeps_error _
      | exact keeps_assertFail _
      | exact keeps_getRegister hI _
      | exact keeps_setRegister hI _ _
      | exact keeps_getStatusRegister hI
      | exact keeps_select hI
      | exact keeps_deselect hI
      | exact keeps_spiWrite hI _
      | exact keeps_wait_us hI _
      | exact keeps_setFlag hI _
      | exact keeps_setRfOutputPower hI _ _
      | exact keeps_readable hI _
      | exact keeps_read hI _ _ _
      | exact keeps_setRxAddress hI _ _ _
      | exact keeps_setTxAddress hI _ _
      | exact keeps_getRxAddressAux hI _ _
      | exact keeps_getTxAddress hI
      | exact keeps_getRPD hI
      | exact keeps_getRSSILoop hI _ _
      | exact keeps_flushRx hI
      | exact keeps_flushTx hI
      | apply keeps_bind
      | apply keeps_ite
      | intro _

theorem getRegister_any (r : Nat) (s : Driver) : (getRegister r s).fault = none := by
  simp [getRegister, M.bind_apply, M.pure_apply, spiWrite_eq, select, deselect, hal_gpio_write,
    Res.fault]

theorem ceKept_start (c : Nat) (s : Driver) (hs : s.ce_value = c) : CeKept c s.trace s :=
  ⟨hs, [], by simp, rfl⟩

theorem ceQuiet_start (s : Driver) (hs : s.ce_value = 0) : CeQuiet s.trace s :=
  ⟨hs, [], by simp, by simp [ceWrites]⟩

/-- C28: the register and receive operations are transparent to the
chip-enable state.  From a state whose chip-enable level is `c` (0 or 1),
`setRegister`, `getRegister` and every register or receive operation `o`
(configuration setters and getters, address setters and getters, `readable`,
`readablePipe`, `read`, the FIFO flushes) end in a state whose recorded
chip-enable level is `c` and in which the last level written to the line, if
any was written, is `c`; `setRegister` and `getRegister` return from every
state. -/
theorem register_ops_keep_chip_enable (hdr : Header) (c : Nat) (hc : c ≤ 1) (s : Driver)
    (hs : s.ce_value = c) :
    (∀ r d, (setRegister r d s).fault = none ∧ CeKept c s.trace (setRegister r d s).state) ∧
    (∀ r, (getRegister r s).fault = none ∧ CeKept c s.trace (getRegister r s).state) ∧
    (∀ o, CeKept c s.trace (runOp hdr o s).state) := by
  have hI := stable_ceKept c hc s.trace
  have h0 := ceKept_start c s hs
  exact ⟨fun r d => ⟨(setRegister_any r d s).1, keeps_setRegister hI r d s h0⟩,
    fun r => ⟨getRegister_any r s, keeps_getRegister hI r s h0⟩,
    fun o => keeps_runOp hI hdr o s h0⟩

theorem register_ops_keep_chip_enable_witness :
    (∀ r d, (setRegister r d busyDriver).fault = none ∧
      CeKept 1 busyDriver.trace (setRegister r d busyDriver).state) ∧
    (∀ r, (getRegister r busyDriver).fault = none ∧
      CeKept 1 busyDriver.trace (getRegister r busyDriver).state) ∧
    (∀ o, CeKept 1 busyDriver.trace (runOp upstreamHeader o busyDriver).state) :=
  register_ops_keep_chip_enable upstreamHeader 1 (by decide) busyDriver rfl

theorem ceLow_of_quiet : ∀ (ev : List Event) (cs : Nat), (∀ l ∈ ceWrites ev, l = 0) →
    ceLowWhileSelected 0 cs ev = true := by
  intro ev
  induction ev with
  | nil =>
    intro cs _
    rfl
  | cons e es ih =>
    intro cs h
    cases e with
    | ce l =>
      have hl : l = 0 := h l (by simp [ceWrites])
      subst hl
      have := ih cs (fun l hl => h l (by simp [ceWrites] at hl ⊢; exact Or.inr hl))
      simp [ceLowWhileSelected, this]
    | cs l =>
      have := ih l (fun l hl => h l (by simpa [ceWrites] using hl))
      simp [ceLowWhileSelected, this]
    | spi a b =>
      have := ih cs (fun l hl => h l (by simpa [ceWrites] using hl))
      simp [ceLowWhileSelected, this]
    | delay d =>
      have := ih cs (fun l hl => h l (by simpa [ceWrites] using hl))
      simp [ceLowWhileSelected, this]

theorem ceLow_of_ceQuiet (s s' : Driver) (h : CeQuiet s.trace s') :
    ∃ ev, s'.trace = s.trace ++ ev ∧ ceLowWhileSelected 0 1 ev = true := by
  obtain ⟨-, ev, h1, h2⟩ := h
  exact ⟨ev, h1, ceLow_of_quiet ev 1 h2⟩

/-- Claim C27 as written fails for a register read: `getRegister` called with
chip-enable high exchanges its two bytes with chip-enable still high. -/
theorem getRegister_leaves_chip_enable_high :
    ceLowWhileSelected busyDriver.ce_value 1
      (getRegister _NRF24L01P_REG_CONFIG busyDriver).state.trace = false := by
  rw [getRegister_eq _ _ rfl]
  decide

theorem ceLow_payloadEvents (data : Nat → Nat) (cs : Nat) (rest : List Event) (n : Nat) :
    ∀ i : Nat, ceLowWhileSelected 0 cs (payloadEvents data i n ++ rest)
      = ceLowWhileSelected 0 cs rest := by
  induction n with
  | zero =>
    intro i
    rfl
  | succ n ih =>
    intro i
    simp [payloadEvents, ceLowWhileSelected, ih]

theorem ceLow_pollEvents (feed : Nat → Nat) (rest : List Event) (n : Nat) :
    ∀ c : Nat, ceLowWhileSelected 0 1 (pollEvents feed c n ++ rest)
      = ceLowWhileSelected 0 1 rest := by
  induction n with
  | zero =>
    intro c
    rfl
  | succ n ih =>
    intro c
    simp [pollEvents, ceLowWhileSelected, ih]

theorem write_bus_powered (s : Driver) (hcs : s.chip.csn = 1) (pipe : Int) (data : Nat → Nat)
    (n : Int) (hn : 0 < n) (hce : s.ce_value = 0 ∨ s.ce_value = 1) (t : Nat)
    (hm : s.mode ≠ _NRF24L01P_MODE_POWER_DOWN)
    (ht : s.chip.clock + 4 ≤ t)
    (hds : s.chip.statusFeed t % 256 &&& _NRF24L01P_STATUS_TX_DS ≠ 0)
    (fuel : Nat) (hfuel : t - s.chip.clock ≤ fuel) :
    ∃ ev, (write fuel pipe data n s).state.trace = s.trace ++ ev ∧
      ceLowWhileSelected s.ce_value 1 ev = true := by
  have hc : ¬ n ≤ 0 := by omega
  have hflag : s.chip.statusFeed (s.chip.clock + 1 + 1 + 1 + 1 + (t - (s.chip.clock + 4))) % 256
      &&& _NRF24L01P_STATUS_TX_DS ≠ 0 := by
    have e : s.chip.clock + 1 + 1 + 1 + 1 + (t - (s.chip.clock + 4)) = t := by omega
    rw [e]
    exact hds
  have hfl : t - (s.chip.clock + 4) < fuel := by omega
  by_cases hrx : s.mode = _NRF24L01P_MODE_RX <;> rcases hce with hce | hce
  all_goals
    simp only [write, hc, clamp_tx, if_false, M.bind_apply, M.pure_apply, readState, disable, enable,
      update, hal_gpio_write, wait_us, os_time_delay, setRegister_eq, select_eq, deselect_eq,
      spiWrite_eq, exchange_command, setTransmitMode, setReceiveMode, powerUp, getRegister_eq, hm,
      hrx, hce, hcs, afterPolls,
      _NRF24L01P_SPI_CMD_WR_TX_PAYLOAD, Nat.reduceMod, writePayloadBytes_eq, one_ne_zero,
      zero_ne_one, ne_eq, not_true_eq_false, not_false_eq_true, if_true, reduceCtorEq,
      waitTxDs_eq (t - (s.chip.clock + 4)) fuel, hfl, hflag, Res.value, Res.state,
      List.append_assoc, true_and,
      _NRF24L01P_TIMING_Tpece2csn_us, _NRF24L01P_TIMING_Thce_us, USEC_PER_OS_TICK_LOG2,
      Nat.reduceShiftRight, Nat.reduceAdd]
    simp only [List.cons_append, List.nil_append, List.singleton_append]
    refine ⟨_, rfl, ?_⟩
    simp [ceLowWhileSelected, ceLow_payloadEvents, ceLow_pollEvents]

theorem write_bus_power_down (s : Driver) (hcs : s.chip.csn = 1) (pipe : Int) (data : Nat → Nat)
    (n : Int) (hn : 0 < n) (hce : s.ce_value = 0 ∨ s.ce_value = 1) (t : Nat)
    (hm : s.mode = _NRF24L01P_MODE_POWER_DOWN)
    (ht : s.chip.clock + 6 ≤ t)
    (hds : s.chip.statusFeed t % 256 &&& _NRF24L01P_STATUS_TX_DS ≠ 0)
    (fuel : Nat) (hfuel : t - s.chip.clock ≤ fuel) :
    ∃ ev, (write fuel pipe data n s).state.trace = s.trace ++ ev ∧
      ceLowWhileSelected s.ce_value 1 ev = true := by
  have hc : ¬ n ≤ 0 := by omega
  have hflag : s.chip.statusFeed (s.chip.clock + 1 + 1 + 1 + 1 + 1 + 1 + (t - (s.chip.clock + 6))) % 256
      &&& _NRF24L01P_STATUS_TX_DS ≠ 0 := by
    have e : s.chip.clock + 1 + 1 + 1 + 1 + 1 + 1 + (t - (s.chip.clock + 6)) = t := by omega
    rw [e]
    exact hds
  have hfl : t - (s.chip.clock + 6) < fuel := by omega
  rcases hce with hce | hce
  all_goals
    simp only [write, hc, clamp_tx, if_false, M.bind_apply, M.pure_apply, readState, disable, enable,
      update, hal_gpio_write, wait_us, os_time_delay, setRegister_eq, select_eq, deselect_eq,
      spiWrite_eq, exchange_command, setTransmitMode, setReceiveMode, powerUp, getRegister_eq, hm,
      hce, hcs, afterPolls,
      _NRF24L01P_SPI_CMD_WR_TX_PAYLOAD, Nat.reduceMod, writePayloadBytes_eq, one_ne_zero,
      zero_ne_one, ne_eq, not_true_eq_false, not_false_eq_true, if_true, reduceCtorEq,
      waitTxDs_eq (t - (s.chip.clock + 6)) fuel, hfl, hflag, Res.value, Res.state,
      List.append_assoc, true_and,
      _NRF24L01P_TIMING_Tpece2csn_us, _NRF24L01P_TIMING_Thce_us, USEC_PER_OS_TICK_LOG2,
      Nat.reduceShiftRight, Nat.reduceAdd]
    simp only [List.cons_append, List.nil_append, List.singleton_append]
    refine ⟨_, rfl, ?_⟩
    simp [ceLowWhileSelected, ceLow_payloadEvents, ceLow_pollEvents]

theorem setRegister_bus (r d : Nat) (s : Driver) (hcs : s.chip.csn = 1) :
    ∃ ev, (setRegister r d s).state.trace = s.trace ++ ev ∧
      ceLowWhileSelected s.ce_value 1 ev = true := by
  rw [setRegister_eq r d s hcs]
  refine ⟨_, rfl, ?_⟩
  by_cases hce : s.ce_value = 0 <;> simp [ceLowWhileSelected, hce]

/-- C27, amended: chip-enable is low during the exchanges of the operations
that lower it themselves, and of the others when it was low at the call.  With
the bus idle at the call: (1) in the events of `setRegister`, from every
chip-enable level, chip-enable is 0 whenever chip-select is asserted; (2) the
same holds for a `write` of `n > 0` bytes that completes (the
transmit-complete flag shows at a status poll within the poll budget), from
chip-enable level 0 or 1; (3) `getRegister` and every register or receive
operation `o` (status read, address reads and writes, payload read, FIFO
flushes, configuration setters and getters) do not drive chip-enable high, so
from chip-enable level 0 chip-enable is 0 whenever chip-select is asserted. -/
theorem chip_enable_low_during_exchanges (hdr : Header) (s : Driver) (hcs : s.chip.csn = 1) :
    (∀ r d, ∃ ev, (setRegister r d s).state.trace = s.trace ++ ev ∧
      ceLowWhileSelected s.ce_value 1 ev = true) ∧
    (∀ (fuel : Nat) (pipe : Int) (data : Nat → Nat) (n : Int) (t : Nat), 0 < n →
      (s.ce_value = 0 ∨ s.ce_value = 1) →
      s.chip.clock + (if s.mode = _NRF24L01P_MODE_POWER_DOWN then 6 else 4) ≤ t →
      s.chip.statusFeed t % 256 &&& _NRF24L01P_STATUS_TX_DS ≠ 0 →
      t - s.chip.clock ≤ fuel →
      ∃ ev, (write fuel pipe data n s).state.trace = s.trace ++ ev ∧
        ceLowWhileSelected s.ce_value 1 ev = true) ∧
    (s.ce_value = 0 →
      (∀ r, ∃ ev, (getRegister r s).state.trace = s.trace ++ ev ∧
        ceLowWhileSelected 0 1 ev = true) ∧
      (∀ o, ∃ ev, (runOp hdr o s).state.trace = s.trace ++ ev ∧
        ceLowWhileSelected 0 1 ev = true)) := by
  refine ⟨fun r d => setRegister_bus r d s hcs, ?_, ?_⟩
  · intro fuel pipe data n t hn hce ht hds hfuel
    by_cases hm : s.mode = _NRF24L01P_MODE_POWER_DOWN
    · rw [if_pos hm] at ht
      exact write_bus_power_down s hcs pipe data n hn hce t hm ht hds fuel hfuel
    · rw [if_neg hm] at ht
      exact write_bus_powered s hcs pipe data n hn hce t hm ht hds fuel hfuel
  · intro hce
    have hI := stable_ceQuiet s.trace
    have h0 := ceQuiet_start s hce
    exact ⟨fun r => ceLow_of_ceQuiet s _ (keeps_getRegister hI r s h0),
      fun o => ceLow_of_ceQuiet s _ (keeps_runOp hI hdr o s h0)⟩

/-- C27, amended, at work: a register write and a three-byte `write` with
chip-enable high, and a register read and a `read` with chip-enable low. -/
theorem chip_enable_low_during_exchanges_witness :
    (∃ ev, (setRegister _NRF24L01P_REG_RF_CH 2 sendingDriver).state.trace
        = sendingDriver.trace ++ ev ∧
      ceLowWhileSelected sendingDriver.ce_value 1 ev = true) ∧
    (∃ ev, (write 6 1 (fun i => i) 3 sendingDriver).state.trace = sendingDriver.trace ++ ev ∧
      ceLowWhileSelected sendingDriver.ce_value 1 ev = true) ∧
    (∃ ev, (getRegister _NRF24L01P_REG_CONFIG (freshDriver 0x4E 8)).state.trace
        = (freshDriver 0x4E 8).trace ++ ev ∧
      ceLowWhileSelected 0 1 ev = true) ∧
    (∃ ev, (runOp upstreamHeader (.read 1 (fun _ => 0) 8) (freshDriver 0x4E 8)).state.trace
        = (freshDriver 0x4E 8).trace ++ ev ∧
      ceLowWhileSelected 0 1 ev = true) :=
  ⟨(chip_enable_low_during_exchanges upstreamHeader sendingDriver rfl).1 _ _,
   (chip_enable_low_during_exchanges upstreamHeader sendingDriver rfl).2.1 6 1 (fun i => i) 3 6
      (by decide) (Or.inr rfl) (by decide) (by decide) (by decide),
   ((chip_enable_low_during_exchanges upstreamHeader (freshDriver 0x4E 8) rfl).2.2 rfl).1 _,
   ((chip_enable_low_during_exchanges upstreamHeader (freshDriver 0x4E 8) rfl).2.2 rfl).2 _⟩

/-! ## Mode and power: C25, C26 -/

theorem ensures_bind {α β : Type} {x : M α} {f : α → M β} {P : Driver → Prop}
    {Q : α → Driver → Prop} {R : β → Driver → Prop}
    (hx : M.ensures x P Q) (hf : ∀ a, M.ensures (f a) (Q a) R) : M.ensures (x >>= f) P R := by
  intro s hs b s' h
  rw [M.bind_apply] at h
  cases h1 : x s with
  | ok a s1 =>
    rw [h1] at h
    exact hf a s1 (hx s hs a s1 h1) b s' h
  | halt e s1 =>
    rw [h1] at h
    cases h

theorem ensures_pure {α : Type} (a : α) (P : Driver → Prop) :
    M.ensures (pure a) P (fun _ => P) := by
  intro s hs b s' h
  cases h
  exact hs

theorem ensures_error {α : Type} (P : Driver → Prop) (Q : α → Driver → Prop) :
    M.ensures (error : M α) P Q := by
  intro s _ b s' h
  cases h

theorem ensures_assertFail {α : Type} (P : Driver → Prop) (Q : α → Driver → Prop) :
    M.ensures (assertFail : M α) P Q := by
  intro s _ b s' h
  cases h

theorem ensures_ite {α : Type} {c : Prop} [Decidable c] {x y : M α} {P : Driver → Prop}
    {Q : α → Driver → Prop}
    (hx : c → M.ensures x P Q) (hy : ¬ c → M.ensures y P Q) :
    M.ensures (if c then x else y) P Q := by
  split
  · exact hx (by assumption)
  · exact hy (by assumption)

theorem ensures_readState {β : Type} {f : Driver → M β} {P : Driver → Prop}
    {R : β → Driver → Prop} (hf : ∀ st, P st → M.ensures (f st) P R) :
    M.ensures (readState >>= f) P R := by
  intro s hs b s' h
  exact hf s hs s hs b s' h

theorem ensures_of_returns {α : Type} {x : M α} {P : Driver → Prop} {Q : α → Driver → Prop}
    (h : M.returns x P Q) : M.ensures x P Q := by
  intro s hs a s' hx
  obtain ⟨a1, s1, h1, q⟩ := h s hs
  rw [h1] at hx
  cases hx
  exact q

theorem select_bus (c : Nat) (md : Mode) (b : Nat) :
    M.ensures select (Bus .idle c md b) (fun _ => Bus .opened c md b) := by
  rintro s ⟨h1, h2, h3, h4⟩ a s' h
  rw [select_eq s h4] at h
  cases h
  exact ⟨h1, h2, h3, rfl, rfl⟩

theorem deselect_bus (ph : Phase) (c : Nat) (md : Mode) (b : Nat) :
    M.ensures deselect (Bus ph c md b) (fun _ => Bus .idle c md b) := by
  rintro s ⟨h1, h2, h3, -⟩ a s' h
  rw [deselect_eq s] at h
  cases h
  exact ⟨h1, h2, h3, rfl⟩

theorem spiWrite_command (c : Nat) (md : Mode) (b : Nat) (v : Nat)
    (hv : v % 256 &&& 0xE0 = _NRF24L01P_SPI_CMD_WR_REG → v % 256 &&& 0x1F ≠ 0) :
    M.ensures (spiWrite v) (Bus .opened c md b) (fun _ => Bus .data c md b) := by
  rintro s ⟨h1, h2, h3, h4, h5⟩ a s' h
  rw [spiWrite_eq, exchange_command _ h4 h5] at h
  cases h
  exact ⟨h1, h2, h3, h4, _, rfl, hv⟩

theorem exchange_data (ch : Chip) (k v : Nat) (h0 : ch.csn = 0) (hc : ch.cmd = some k)
    (hk : k &&& 0xE0 = _NRF24L01P_SPI_CMD_WR_REG → k &&& 0x1F ≠ 0) :
    ∃ rx i m, ch.exchange v = (rx, { ch with idx := i, mem := m }) ∧ m 0 0 = ch.mem 0 0 := by
  simp only [Chip.exchange, h0, hc, ne_eq, not_true_eq_false, if_false]
  split_ifs with q1 q2 q3 q4
  · exact ⟨_, _, _, rfl, rfl⟩
  · refine ⟨_, _, _, rfl, ?_⟩
    simp only [storeByte]
    rw [if_neg (fun hh => hk q2 hh.1.symm)]
  · exact ⟨_, _, _, rfl, rfl⟩
  · exact ⟨_, _, _, rfl, rfl⟩
  · exact ⟨_, _, _, rfl, rfl⟩

theorem spiWrite_data (c : Nat) (md : Mode) (b : Nat) (v : Nat) :
    M.ensures (spiWrite v) (Bus .data c md b) (fun _ => Bus .data c md b) := by
  rintro s ⟨h1, h2, h3, h4, k, h5, h6⟩ a s' h
  obtain ⟨rx, i, m, hx, hm⟩ := exchange_data s.chip k (v % 256) h4 h5 h6
  rw [spiWrite_eq, hx] at h
  cases h
  refine ⟨h1, h2, ?_, h4, k, h5, h6⟩
  simp only [_NRF24L01P_REG_CONFIG] at h3 ⊢
  rw [hm]
  exact h3

theorem getRegister_idle (c : Nat) (md : Mode) (b : Nat) (r : Nat) :
    M.ensures (getRegister r) (Bus .idle c md b) (fun _ => Bus .idle c md b) := by
  rintro s ⟨h1, h2, h3, h4⟩ a s' h
  rw [getRegister_eq r s h4] at h
  cases h
  exact ⟨h1, h2, h3, rfl⟩

theorem getConfig_idle (c : Nat) (md : Mode) (b : Nat) :
    M.ensures (getRegister _NRF24L01P_REG_CONFIG) (Bus .idle c md b)
      (fun v s => Bus .idle c md b s ∧ v < 256 ∧ v &&& _NRF24L01P_CONFIG_PWR_UP = b) := by
  rintro s ⟨h1, h2, h3, h4⟩ a s' h
  rw [getRegister_eq _ s h4] at h
  cases h
  exact ⟨⟨h1, h2, h3, rfl⟩, Nat.mod_lt _ (by decide), h3⟩

theorem getStatusRegister_idle (c : Nat) (md : Mode) (b : Nat) :
    M.ensures getStatusRegister (Bus .idle c md b) (fun _ => Bus .idle c md b) := by
  rintro s ⟨h1, h2, h3, h4⟩ a s' h
  rw [getStatusRegister_eq s h4] at h
  cases h
  exact ⟨h1, h2, h3, rfl⟩

theorem setRegister_idle (c : Nat) (md : Mode) (b : Nat) (r d : Nat)
    (hr : r &&& 0x1F ≠ 0) (hc : c ≤ 1) :
    M.ensures (setRegister r d) (Bus .idle c md b) (fun _ => Bus .idle c md b) := by
  rintro s ⟨h1, h2, h3, h4⟩ a s' h
  rw [setRegister_eq r d s h4] at h
  cases h
  refine ⟨?_, h2, ?_, rfl⟩
  · show (if s.ce_value ≠ 0 then 1 else 0) = c
    rw [h1]
    interval_cases c <;> rfl
  · show storeByte s.chip.mem (r &&& 0x1F) 0 (d % 256) _NRF24L01P_REG_CONFIG 0 % 256
        &&& _NRF24L01P_CONFIG_PWR_UP = b
    simp only [_NRF24L01P_REG_CONFIG] at h3 ⊢
    rw [storeByte_other _ _ _ _ _ _ (fun hh => hr hh.1.symm)]
    exact h3

theorem setConfig_idle (c : Nat) (md : Mode) (b : Nat) (d : Nat) (hc : c ≤ 1) :
    M.ensures (setRegister _NRF24L01P_REG_CONFIG d) (Bus .idle c md b)
      (fun _ => Bus .idle c md (d % 256 &&& _NRF24L01P_CONFIG_PWR_UP)) := by
  rintro s ⟨h1, h2, h3, h4⟩ a s' h
  rw [setRegister_eq _ d s h4] at h
  cases h
  refine ⟨?_, h2, ?_, rfl⟩
  · show (if s.ce_value ≠ 0 then 1 else 0) = c
    rw [h1]
    interval_cases c <;> rfl
  · show storeByte s.chip.mem (_NRF24L01P_REG_CONFIG &&& 0x1F) 0 (d % 256) _NRF24L01P_REG_CONFIG 0
        % 256 &&& _NRF24L01P_CONFIG_PWR_UP = d % 256 &&& _NRF24L01P_CONFIG_PWR_UP
    simp [storeByte, _NRF24L01P_REG_CONFIG]

theorem wait_us_bus (ph : Phase) (c : Nat) (md : Mode) (b : Nat) (us : Nat) :
    M.ensures (wait_us us) (Bus ph c md b) (fun _ => Bus ph c md b) := by
  rintro s hs a s' h
  cases h
  exact hs

theorem setFlag_bus (ph : Phase) (c : Nat) (md : Mode) (b : Nat) (f : Bool) :
    M.ensures (update fun s => { s with a_retr_enabled := f }) (Bus ph c md b)
      (fun _ => Bus ph c md b) := by
  rintro s hs a s' h
  cases h
  exact hs

theorem writeAddressBytes_data (c : Nat) (md : Mode) (b : Nat) (n : Nat) :
    ∀ address, M.ensures (writeAddressBytes n address) (Bus .data c md b)
      (fun _ => Bus .data c md b) := by
  induction n with
  | zero =>
    intro address
    exact ensures_pure _ _
  | succ n ih =>
    intro address
    unfold writeAddressBytes
    exact ensures_bind (spiWrite_data c md b _) (fun _ => ih _)

theorem readAddressBytes_data (c : Nat) (md : Mode) (b : Nat) (n : Nat) :
    ∀ i address, M.ensures (readAddressBytes n i address) (Bus .data c md b)
      (fun _ => Bus .data c md b) := by
  induction n with
  | zero =>
    intro i address
    exact ensures_pure _ _
  | succ n ih =>
    intro i address
    unfold readAddressBytes
    exact ensures_bind (spiWrite_data c md b _) (fun _ => ih _ _)

theorem readPayloadBytes_data (c : Nat) (md : Mode) (b : Nat) (n : Nat) :
    ∀ i data, M.ensures (readPayloadBytes n i data) (Bus .data c md b)
      (fun _ => Bus .data c md b) := by
  induction n with
  | zero =>
    intro i data
    exact ensures_pure _ _
  | succ n ih =>
    intro i data
    unfold readPayloadBytes
    exact ensures_bind (spiWrite_data c md b _) (fun _ => ih _ _)

theorem writePayloadBytes_data (c : Nat) (md : Mode) (b : Nat) (n : Nat) :
    ∀ i data, M.ensures (writePayloadBytes n i data) (Bus .data c md b)
      (fun _ => Bus .data c md b) := by
  induction n with
  | zero =>
    intro i data
    exact ensures_pure _ _
  | succ n ih =>
    intro i data
    unfold writePayloadBytes
    exact ensures_bind (spiWrite_data c md b _) (fun _ => ih _ _)

theorem command_safe_rd (r : Nat) :
    (_NRF24L01P_SPI_CMD_RD_REG ||| (r &&& _NRF24L01P_REG_ADDRESS_MASK)) % 256 &&& 0xE0
        = _NRF24L01P_SPI_CMD_WR_REG →
      (_NRF24L01P_SPI_CMD_RD_REG ||| (r &&& _NRF24L01P_REG_ADDRESS_MASK)) % 256 &&& 0x1F ≠ 0 := by
  obtain ⟨h1, h2, -, -, -, -⟩ := cmd_facts _ (and31_lt r)
  intro h
  simp only [_NRF24L01P_SPI_CMD_RD_REG, _NRF24L01P_REG_ADDRESS_MASK, Nat.zero_or, h1, h2,
    _NRF24L01P_SPI_CMD_WR_REG] at h
  cases h

theorem command_safe_wr (r : Nat) (hr : r &&& 0x1F ≠ 0) :
    (_NRF24L01P_SPI_CMD_WR_REG ||| (r &&& _NRF24L01P_REG_ADDRESS_MASK)) % 256 &&& 0xE0
        = _NRF24L01P_SPI_CMD_WR_REG →
      (_NRF24L01P_SPI_CMD_WR_REG ||| (r &&& _NRF24L01P_REG_ADDRESS_MASK)) % 256 &&& 0x1F ≠ 0 := by
  obtain ⟨-, -, -, h4, -, h6⟩ := cmd_facts _ (and31_lt r)
  intro _
  simp only [_NRF24L01P_REG_ADDRESS_MASK, _NRF24L01P_SPI_CMD_WR_REG, h4, h6]
  exact hr

theorem pipe_register_facts : ∀ p ≤ 5, (_NRF24L01P_REG_RX_PW_P0 + p) &&& 0x1F ≠ 0 ∧
    (_NRF24L01P_REG_RX_ADDR_P0 + p) &&& 0x1F ≠ 0 := by
  decide

theorem ensures_fact {α : Type} {x : M α} {P : Driver → Prop} {F : Prop}
    {R : α → Driver → Prop} (h : F → M.ensures x P R) : M.ensures x (fun s => P s ∧ F) R :=
  fun s hs => h hs.2 s hs.1

set_option maxRecDepth 100000 in
theorem config_pwr_bits : ∀ x < 256,
    ((x &&& bnot32 _NRF24L01P_CONFIG_CRC_MASK ||| _NRF24L01P_CONFIG_CRC_NONE) % 256
        &&& _NRF24L01P_CONFIG_PWR_UP = x &&& _NRF24L01P_CONFIG_PWR_UP) ∧
    ((x &&& bnot32 _NRF24L01P_CONFIG_CRC_MASK ||| _NRF24L01P_CONFIG_CRC_8BIT) % 256
        &&& _NRF24L01P_CONFIG_PWR_UP = x &&& _NRF24L01P_CONFIG_PWR_UP) ∧
    ((x &&& bnot32 _NRF24L01P_CONFIG_CRC_MASK ||| _NRF24L01P_CONFIG_CRC_16BIT) % 256
        &&& _NRF24L01P_CONFIG_PWR_UP = x &&& _NRF24L01P_CONFIG_PWR_UP) ∧
    ((x &&& bnot32 _NRF24L01P_CONFIG_MASK_RX_DR) % 256
        &&& _NRF24L01P_CONFIG_PWR_UP = x &&& _NRF24L01P_CONFIG_PWR_UP) ∧
    ((x ||| _NRF24L01P_CONFIG_MASK_RX_DR) % 256
        &&& _NRF24L01P_CONFIG_PWR_UP = x &&& _NRF24L01P_CONFIG_PWR_UP) ∧
    ((x ||| _NRF24L01P_CONFIG_PRIM_RX) % 256
        &&& _NRF24L01P_CONFIG_PWR_UP = x &&& _NRF24L01P_CONFIG_PWR_UP) ∧
    ((x &&& bnot32 _NRF24L01P_CONFIG_PRIM_RX) % 256
        &&& _NRF24L01P_CONFIG_PWR_UP = x &&& _NRF24L01P_CONFIG_PWR_UP) ∧
    ((x ||| _NRF24L01P_CONFIG_PWR_UP) % 256
        &&& _NRF24L01P_CONFIG_PWR_UP = _NRF24L01P_CONFIG_PWR_UP) ∧
    ((x &&& bnot32 _NRF24L01P_CONFIG_PWR_UP) % 256 &&& _NRF24L01P_CONFIG_PWR_UP = 0) := by
  decide

theorem setConfig_keeps (c : Nat) (md : Mode) (b : Nat) (hc : c ≤ 1) (v d : Nat)
    (hd : d % 256 &&& _NRF24L01P_CONFIG_PWR_UP = v &&& _NRF24L01P_CONFIG_PWR_UP) :
    M.ensures (setRegister _NRF24L01P_REG_CONFIG d)
      (fun s => Bus .idle c md b s ∧ (v < 256 ∧ v &&& _NRF24L01P_CONFIG_PWR_UP = b))
      (fun _ => Bus .idle c md b) := by
  refine ensures_fact (fun hv => ?_)
  have h := setConfig_idle c md b d hc
  rw [hd, hv.2] at h
  exact h

theorem setCrcWidth_idle (c : Nat) (md : Mode) (b : Nat) (hc : c ≤ 1) (hdr : Header) (width : Int) :
    M.ensures (setCrcWidth hdr width) (Bus .idle c md b) (fun _ => Bus .idle c md b) := by
  unfold setCrcWidth
  refine ensures_bind (getConfig_idle c md b) (fun v => ?_)
  refine ensures_fact (fun hv => ?_)
  obtain ⟨b1, b2, b3, -⟩ := config_pwr_bits v hv.1
  have k1 := setConfig_idle c md b (v &&& bnot32 _NRF24L01P_CONFIG_CRC_MASK ||| _NRF24L01P_CONFIG_CRC_NONE) hc
  have k2 := setConfig_idle c md b (v &&& bnot32 _NRF24L01P_CONFIG_CRC_MASK ||| _NRF24L01P_CONFIG_CRC_8BIT) hc
  have k3 := setConfig_idle c md b (v &&& bnot32 _NRF24L01P_CONFIG_CRC_MASK ||| _NRF24L01P_CONFIG_CRC_16BIT) hc
  rw [b1, hv.2] at k1
  rw [b2, hv.2] at k2
  rw [b3, hv.2] at k3
  exact ensures_ite (fun _ => k1) (fun _ => ensures_ite (fun _ => k2) (fun _ =>
    ensures_ite (fun _ => k3) (fun _ => ensures_error _ _)))

theorem enableRxInterrupt_idle (c : Nat) (md : Mode) (b : Nat) (hc : c ≤ 1) :
    M.ensures enableRxInterrupt (Bus .idle c md b) (fun _ => Bus .idle c md b) := by
  unfold enableRxInterrupt
  refine ensures_bind (getConfig_idle c md b) (fun v => ?_)
  refine ensures_fact (fun hv => ?_)
  obtain ⟨-, -, -, b4, -⟩ := config_pwr_bits v hv.1
  have k1 := setConfig_idle c md b (v &&& bnot32 _NRF24L01P_CONFIG_MASK_RX_DR) hc
  rw [b4, hv.2] at k1
  exact k1

theorem disableRxInterrupt_idle (c : Nat) (md : Mode) (b : Nat) (hc : c ≤ 1) :
    M.ensures disableRxInterrupt (Bus .idle c md b) (fun _ => Bus .idle c md b) := by
  unfold disableRxInterrupt
  refine ensures_bind (getConfig_idle c md b) (fun v => ?_)
  refine ensures_fact (fun hv => ?_)
  obtain ⟨-, -, -, -, b5, -⟩ := config_pwr_bits v hv.1
  have k1 := setConfig_idle c md b (v ||| _NRF24L01P_CONFIG_MASK_RX_DR) hc
  rw [b5, hv.2] at k1
  exact k1

theorem pipe_size_safe (pipe : Int)
    (h : ¬ (pipe < NRF24L01P_PIPE_P0 ∨ pipe > NRF24L01P_PIPE_P5)) :
    (_NRF24L01P_REG_RX_PW_P0 + (pipe - NRF24L01P_PIPE_P0).toNat) &&& 0x1F ≠ 0 := by
  simp only [NRF24L01P_PIPE_P0, NRF24L01P_PIPE_P5] at h ⊢
  exact (pipe_register_facts _ (by omega)).1

theorem pipe_addr_safe (pipe : Int)
    (h : ¬ (pipe < NRF24L01P_PIPE_P0 ∨ pipe > NRF24L01P_PIPE_P5)) :
    (_NRF24L01P_REG_RX_ADDR_P0 + (pipe - NRF24L01P_PIPE_P0).toNat) &&& 0x1F ≠ 0 := by
  simp only [NRF24L01P_PIPE_P0, NRF24L01P_PIPE_P5] at h ⊢
  exact (pipe_register_facts _ (by omega)).2

theorem switchWidth_ensures (P : Driver → Prop) (width : Int) (setupAw : Nat) :
    M.ensures (switchWidth width setupAw) P (fun _ => P) := by
  unfold switchWidth
  exact ensures_ite (fun _ => ensures_pure _ _) (fun _ => ensures_ite (fun _ => ensures_pure _ _)
    (fun _ => ensures_ite (fun _ => ensures_pure _ _) (fun _ => ensures_error _ _)))

theorem switchSetupAw_ensures (P : Driver → Prop) (setupAw : Nat) :
    M.ensures (switchSetupAw setupAw) P (fun _ => P) := by
  unfold switchSetupAw
  exact ensures_ite (fun _ => ensures_pure _ _) (fun _ => ensures_ite (fun _ => ensures_pure _ _)
    (fun _ => ensures_ite (fun _ => ensures_pure _ _) (fun _ => ensures_error _ _)))

theorem getRxAddressAux_idle (c : Nat) (md : Mode) (b : Nat) (depth : Nat) :
    ∀ pipe, M.ensures (getRxAddressAux depth pipe) (Bus .idle c md b) (fun _ => Bus .idle c md b) := by
  induction depth with
  | zero =>
    intro pipe s _ a s' h
    cases h
  | succ depth ih =>
    intro pipe
    unfold getRxAddressAux
    repeat' with_reducible first
      | exact ensures_pure _ _
      | exact ensures_error _ _
      | exact ensures_error _ (fun _ => Bus .idle c md b)
      | exact ensures_assertFail _ _
      | exact getRegister_idle _ _ _ _
      | exact getStatusRegister_idle _ _ _
      | exact select_bus _ _ _
      | exact deselect_bus _ _ _ _
      | exact spiWrite_data _ _ _ _
      | exact spiWrite_command _ _ _ _ (by decide)
      | exact spiWrite_command _ _ _ _ (command_safe_rd _)
      | exact spiWrite_command _ _ _ _ (command_safe_wr _ (pipe_addr_safe _ (by assumption)))
      | exact wait_us_bus _ _ _ _ _
      | exact setFlag_bus _ _ _ _ _
      | exact writeAddressBytes_data _ _ _ _ _
      | exact readAddressBytes_data _ _ _ _ _ _
      | exact readPayloadBytes_data _ _ _ _ _ _
      | exact switchWidth_ensures _ _ _
      | exact switchSetupAw_ensures _ _
      | exact ih _
      | apply ensures_bind
      | apply ensures_ite
      | intro _

theorem flushRx_idle (c : Nat) (md : Mode) (b : Nat) : M.ensures flushRx (Bus .idle c md b) (fun _ => Bus .idle c md b) := by
  unfold flushRx
  repeat' with_reducible first
    | exact ensures_pure _ _
    | exact ensures_error _ _
    | exact ensures_error _ (fun _ => Bus .idle c md b)
    | exact ensures_assertFail _ _
    | exact getRegister_idle _ _ _ _
    | exact getStatusRegister_idle _ _ _
    | exact select_bus _ _ _
    | exact deselect_bus _ _ _ _
    | exact spiWrite_data _ _ _ _
    | exact spiWrite_command _ _ _ _ (by decide)
    | exact spiWrite_command _ _ _ _ (command_safe_rd _)
    | exact spiWrite_command _ _ _ _ (command_safe_wr _ (pipe_addr_safe _ (by assumption)))
    | exact wait_us_bus _ _ _ _ _
    | exact setFlag_bus _ _ _ _ _
    | exact writeAddressBytes_data _ _ _ _ _
    | exact readAddressBytes_data _ _ _ _ _ _
    | exact readPayloadBytes_data _ _ _ _ _ _
    | exact switchWidth_ensures _ _ _
    | exact switchSetupAw_ensures _ _
    | apply ensures_bind
    | apply ensures_ite
    | intro _

theorem flushTx_idle (c : Nat) (md : Mode) (b : Nat) : M.ensures flushTx (Bus .idle c md b) (fun _ => Bus .idle c md b) := by
  unfold flushTx
  repeat' with_reducible first
    | exact ensures_pure _ _
    | exact ensures_error _ _
    | exact ensures_error _ (fun _ => Bus .idle c md b)
    | exact ensures_assertFail _ _
    | exact getRegister_idle _ _ _ _
    | exact getStatusRegister_idle _ _ _
    | exact select_bus _ _ _
    | exact deselect_bus _ _ _ _
    | exact spiWrite_data _ _ _ _
    | exact spiWrite_command _ _ _ _ (by decide)
    | exact spiWrite_command _ _ _ _ (command_safe_rd _)
    | exact spiWrite_command _ _ _ _ (command_safe_wr _ (pipe_addr_safe _ (by assumption)))
    | exact wait_us_bus _ _ _ _ _
    | exact setFlag_bus _ _ _ _ _
    | exact writeAddressBytes_data _ _ _ _ _
    | exact readAddressBytes_data _ _ _ _ _ _
    | exact readPayloadBytes_data _ _ _ _ _ _
    | exact switchWidth_ensures _ _ _
    | exact switchSetupAw_ensures _ _
    | apply ensures_bind
    | apply ensures_ite
    | intro _

theorem getRPD_idle (c : Nat) (md : Mode) (b : Nat) : M.ensures getRPD (Bus .idle c md b) (fun _ => Bus .idle c md b) := by
  unfold getRPD
  repeat' with_reducible first
    | exact ensures_pure _ _
    | exact ensures_error _ _
    | exact ensures_error _ (fun _ => Bus .idle c md b)
    | exact ensures_assertFail _ _
    | exact getRegister_idle _ _ _ _
    | exact getStatusRegister_idle _ _ _
    | exact select_bus _ _ _
    | exact deselect_bus _ _ _ _
    | exact spiWrite_data _ _ _ _
    | exact spiWrite_command _ _ _ _ (by decide)
    | exact spiWrite_command _ _ _ _ (command_safe_rd _)
    | exact spiWrite_command _ _ _ _ (command_safe_wr _ (pipe_addr_safe _ (by assumption)))
    | exact wait_us_bus _ _ _ _ _
    | exact setFlag_bus _ _ _ _ _
    | exact writeAddressBytes_data _ _ _ _ _
    | exact readAddressBytes_data _ _ _ _ _ _
    | exact readPayloadBytes_data _ _ _ _ _ _
    | exact switchWidth_ensures _ _ _
    | exact switchSetupAw_ensures _ _
    | apply ensures_bind
    | apply ensures_ite
    | intro _

theorem getRSSILoop_idle (c : Nat) (md : Mode) (b : Nat) (n : Nat) :
    ∀ rssi, M.ensures (getRSSILoop n rssi) (Bus .idle c md b) (fun _ => Bus .idle c md b) := by
  induction n with
  | zero =>
    intro rssi
    exact ensures_pure _ _
  | succ n ih =>
    intro rssi
    unfold getRSSILoop
    repeat' with_reducible first
      | exact ensures_pure _ _
      | exact ensures_error _ _
      | exact ensures_error _ (fun _ => Bus .idle c md b)
      | exact ensures_assertFail _ _
      | exact getRegister_idle _ _ _ _
      | exact getStatusRegister_idle _ _ _
      | exact select_bus _ _ _
      | exact deselect_bus _ _ _ _
      | exact spiWrite_data _ _ _ _
      | exact spiWrite_command _ _ _ _ (by decide)
      | exact spiWrite_command _ _ _ _ (command_safe_rd _)
      | exact spiWrite_command _ _ _ _ (command_safe_wr _ (pipe_addr_safe _ (by assumption)))
      | exact wait_us_bus _ _ _ _ _
      | exact setFlag_bus _ _ _ _ _
      | exact writeAddressBytes_data _ _ _ _ _
      | exact readAddressBytes_data _ _ _ _ _ _
      | exact readPayloadBytes_data _ _ _ _ _ _
      | exact switchWidth_ensures _ _ _
      | exact switchSetupAw_ensures _ _
      | exact getRPD_idle _ _ _
      | exact flushRx_idle _ _ _
      | exact ih _
      | apply ensures_bind
      | apply ensures_ite
      | intro _

theorem readable_idle (c : Nat) (md : Mode) (b : Nat) (pipe : Int) : M.ensures (readable pipe) (Bus .idle c md b) (fun _ => Bus .idle c md b) := by
  unfold readable
  repeat' with_reducible first
    | exact ensures_pure _ _
    | exact ensures_error _ _
    | exact ensures_error _ (fun _ => Bus .idle c md b)
    | exact ensures_assertFail _ _
    | exact getRegister_idle _ _ _ _
    | exact getStatusRegister_idle _ _ _
    | exact select_bus _ _ _
    | exact deselect_bus _ _ _ _
    | exact spiWrite_data _ _ _ _
    | exact spiWrite_command _ _ _ _ (by decide)
    | exact spiWrite_command _ _ _ _ (command_safe_rd _)
    | exact spiWrite_command _ _ _ _ (command_safe_wr _ (pipe_addr_safe _ (by assumption)))
    | exact wait_us_bus _ _ _ _ _
    | exact setFlag_bus _ _ _ _ _
    | exact writeAddressBytes_data _ _ _ _ _
    | exact readAddressBytes_data _ _ _ _ _ _
    | exact readPayloadBytes_data _ _ _ _ _ _
    | exact switchWidth_ensures _ _ _
    | exact switchSetupAw_ensures _ _
    | apply ensures_bind
    | apply ensures_ite
    | intro _

theorem read_idle (c : Nat) (md : Mode) (b : Nat) (hc : c ≤ 1) (pipe : Int) (data : Nat → Nat) (count : Int) :
    M.ensures (read pipe data count) (Bus .idle c md b) (fun _ => Bus .idle c md b) := by
  unfold read
  repeat' with_reducible first
    | exact ensures_pure _ _
    | exact ensures_error _ _
    | exact ensures_error _ (fun _ => Bus .idle c md b)
    | exact ensures_assertFail _ _
    | exact getRegister_idle _ _ _ _
    | exact getStatusRegister_idle _ _ _
    | exact setRegister_idle _ _ _ _ _ (by decide) hc
    | exact setRegister_idle _ _ _ _ _ (pipe_size_safe _ (by assumption)) hc
    | exact select_bus _ _ _
    | exact deselect_bus _ _ _ _
    | exact spiWrite_data _ _ _ _
    | exact spiWrite_command _ _ _ _ (by decide)
    | exact spiWrite_command _ _ _ _ (command_safe_rd _)
    | exact spiWrite_command _ _ _ _ (command_safe_wr _ (pipe_addr_safe _ (by assumption)))
    | exact wait_us_bus _ _ _ _ _
    | exact setFlag_bus _ _ _ _ _
    | exact writeAddressBytes_data _ _ _ _ _
    | exact readAddressBytes_data _ _ _ _ _ _
    | exact readPayloadBytes_data _ _ _ _ _ _
    | exact switchWidth_ensures _ _ _
    | exact switchSetupAw_ensures _ _
    | exact readable_idle _ _ _ _
    | apply ensures_bind
    | apply ensures_ite
    | intro _

theorem setRxAddress_idle (c : Nat) (md : Mode) (b : Nat) (hc : c ≤ 1) (address : Nat) (width pipe : Int) :
    M.ensures (setRxAddress address width pipe) (Bus .idle c md b) (fun _ => Bus .idle c md b) := by
  unfold setRxAddress
  repeat' with_reducible first
    | exact ensures_pure _ _
    | exact ensures_error _ _
    | exact ensures_error _ (fun _ => Bus .idle c md b)
    | exact ensures_assertFail _ _
    | exact getRegister_idle _ _ _ _
    | exact getStatusRegister_idle _ _ _
    | exact setRegister_idle _ _ _ _ _ (by decide) hc
    | exact setRegister_idle _ _ _ _ _ (pipe_size_safe _ (by assumption)) hc
    | exact select_bus _ _ _
    | exact deselect_bus _ _ _ _
    | exact spiWrite_data _ _ _ _
    | exact spiWrite_command _ _ _ _ (by decide)
    | exact spiWrite_command _ _ _ _ (command_safe_rd _)
    | exact spiWrite_command _ _ _ _ (command_safe_wr _ (pipe_addr_safe _ (by assumption)))
    | exact wait_us_bus _ _ _ _ _
    | exact setFlag_bus _ _ _ _ _
    | exact writeAddressBytes_data _ _ _ _ _
    | exact readAddressBytes_data _ _ _ _ _ _
    | exact readPayloadBytes_data _ _ _ _ _ _
    | exact switchWidth_ensures _ _ _
    | exact switchSetupAw_ensures _ _
    | apply ensures_bind
    | apply ensures_ite
    | intro _

theorem setTxAddress_idle (c : Nat) (md : Mode) (b : Nat) (hc : c ≤ 1) (address : Nat) (width : Int) :
    M.ensures (setTxAddress address width) (Bus .idle c md b) (fun _ => Bus .idle c md b) := by
  unfold setTxAddress
  repeat' with_reducible first
    | exact ensures_pure _ _
    | exact ensures_error _ _
    | exact ensures_error _ (fun _ => Bus .idle c md b)
    | exact ensures_assertFail _ _
    | exact getRegister_idle _ _ _ _
    | exact getStatusRegister_idle _ _ _
    | exact setRegister_idle _ _ _ _ _ (by decide) hc
    | exact setRegister_idle _ _ _ _ _ (pipe_size_safe _ (by assumption)) hc
    | exact select_bus _ _ _
    | exact deselect_bus _ _ _ _
    | exact spiWrite_data _ _ _ _
    | exact spiWrite_command _ _ _ _ (by decide)
    | exact spiWrite_command _ _ _ _ (command_safe_rd _)
    | exact spiWrite_command _ _ _ _ (command_safe_wr _ (pipe_addr_safe _ (by assumption)))
    | exact wait_us_bus _ _ _ _ _
    | exact setFlag_bus _ _ _ _ _
    | exact writeAddressBytes_data _ _ _ _ _
    | exact readAddressBytes_data _ _ _ _ _ _
    | exact readPayloadBytes_data _ _ _ _ _ _
    | exact switchWidth_ensures _ _ _
    | exact switchSetupAw_ensures _ _
    | apply ensures_bind
    | apply ensures_ite
    | intro _

theorem getTxAddress_idle (c : Nat) (md : Mode) (b : Nat) : M.ensures getTxAddress (Bus .idle c md b) (fun _ => Bus .idle c md b) := by
  unfold getTxAddress
  repeat' with_reducible first
    | exact ensures_pure _ _
    | exact ensures_error _ _
    | exact ensures_error _ (fun _ => Bus .idle c md b)
    | exact ensures_assertFail _ _
    | exact getRegister_idle _ _ _ _
    | exact getStatusRegister_idle _ _ _
    | exact select_bus _ _ _
    | exact deselect_bus _ _ _ _
    | exact spiWrite_data _ _ _ _
    | exact spiWrite_command _ _ _ _ (by decide)
    | exact spiWrite_command _ _ _ _ (command_safe_rd _)
    | exact spiWrite_command _ _ _ _ (command_safe_wr _ (pipe_addr_safe _ (by assumption)))
    | exact wait_us_bus _ _ _ _ _
    | exact setFlag_bus _ _ _ _ _
    | exact writeAddressBytes_data _ _ _ _ _
    | exact readAddressBytes_data _ _ _ _ _ _
    | exact readPayloadBytes_data _ _ _ _ _ _
    | exact switchWidth_ensures _ _ _
    | exact switchSetupAw_ensures _ _
    | apply ensures_bind
    | apply ensures_ite
    | intro _

theorem runOp_idle (c : Nat) (md : Mode) (b : Nat) (hc : c ≤ 1) (hdr : Header) (o : Op) :
    M.ensures (runOp hdr o) (Bus .idle c md b) (fun _ => Bus .idle c md b) := by
  cases o
  all_goals
    simp only [runOp, setRfFrequency, getRfFrequency, setRfOutputPower, getRfOutputPower,
      setAirDataRate, getAirDataRate, getCrcWidth, setTransferSize, getTransferSize,
      disableAllRxPipes, disableAutoAcknowledge, enableAutoAcknowledge, enableDynamicPayload,
      disableDynamicPayload, disableAutoRetransmit, enableAutoRetransmit, getRetrCount,
      readablePipe, getRxAddress, getRSSI, flushTxRx]
    repeat' with_reducible first
      | exact ensures_pure _ _
      | exact ensures_error _ _
      | exact ensures_error _ (fun _ => Bus .idle c md b)
      | exact ensures_assertFail _ _
      | exact getRegister_idle _ _ _ _
      | exact getStatusRegister_idle _ _ _
      | exact setRegister_idle _ _ _ _ _ (by decide) hc
      | exact setRegister_idle _ _ _ _ _ (pipe_size_safe _ (by assumption)) hc
      | exact select_bus _ _ _
      | exact deselect_bus _ _ _ _
      | exact spiWrite_data _ _ _ _
      | exact spiWrite_command _ _ _ _ (by decide)
      | exact spiWrite_command _ _ _ _ (command_safe_rd _)
      | exact spiWrite_command _ _ _ _ (command_safe_wr _ (pipe_addr_safe _ (by assumption)))
      | exact wait_us_bus _ _ _ _ _
      | exact setFlag_bus _ _ _ _ _
      | exact writeAddressBytes_data _ _ _ _ _
      | exact readAddressBytes_data _ _ _ _ _ _
      | exact readPayloadBytes_data _ _ _ _ _ _
      | exact switchWidth_ensures _ _ _
      | exact switchSetupAw_ensures _ _
      | exact setCrcWidth_idle _ _ _ hc _ _
      | exact enableRxInterrupt_idle _ _ _ hc
      | exact disableRxInterrupt_idle _ _ _ hc
      | exact readable_idle _ _ _ _
      | exact read_idle _ _ _ hc _ _ _
      | exact setRxAddress_idle _ _ _ hc _ _ _
      | exact setTxAddress_idle _ _ _ hc _ _
      | exact getRxAddressAux_idle _ _ _ _ _
      | exact getTxAddress_idle _ _ _
      | exact getRPD_idle _ _ _
      | exact getRSSILoop_idle _ _ _ _ _
      | exact flushRx_idle _ _ _
      | exact flushTx_idle _ _ _
      | apply ensures_bind
      | apply ensures_ite
      | intro _

theorem setMode_bus (ph : Phase) (c : Nat) (md : Mode) (b : Nat) (m : Mode) :
    M.ensures (update fun s => { s with mode := m }) (Bus ph c md b)
      (fun _ => Bus ph c m b) := by
  rintro s ⟨h1, -, h3, h4⟩ a s' h
  cases h
  exact ⟨h1, rfl, h3, h4⟩

theorem enable_bus (c : Nat) (md : Mode) (b : Nat) :
    M.ensures enable (Bus .idle c md b) (fun _ => Bus .idle 1 md b) := by
  rintro s ⟨-, h2, h3, h4⟩ a s' h
  cases h
  exact ⟨rfl, h2, h3, h4⟩

theorem disable_bus (c : Nat) (md : Mode) (b : Nat) :
    M.ensures disable (Bus .idle c md b) (fun _ => Bus .idle 0 md b) := by
  rintro s ⟨-, h2, h3, h4⟩ a s' h
  cases h
  exact ⟨rfl, h2, h3, h4⟩

theorem ensures_readBus {β : Type} {f : Driver → M β} {ph : Phase} {c : Nat} {md : Mode}
    {b : Nat} {R : β → Driver → Prop}
    (hf : ∀ st, st.ce_value = c → st.mode = md → M.ensures (f st) (Bus ph c md b) R) :
    M.ensures (readState >>= f) (Bus ph c md b) R :=
  ensures_readState (fun st hst => hf st hst.1 hst.2.1)

theorem powerUp_idle (c : Nat) (md : Mode) (b : Nat) (hc : c ≤ 1) :
    M.ensures powerUp (Bus .idle c md b)
      (fun _ => Bus .idle c _NRF24L01P_MODE_STANDBY _NRF24L01P_CONFIG_PWR_UP) := by
  unfold powerUp
  refine ensures_bind (getConfig_idle c md b) (fun v => ensures_fact (fun hv => ?_))
  have k := setConfig_idle c md b (v ||| _NRF24L01P_CONFIG_PWR_UP) hc
  rw [(config_pwr_bits v hv.1).2.2.2.2.2.2.2.1] at k
  exact ensures_bind k (fun _ => ensures_bind (wait_us_bus _ _ _ _ _) (fun _ =>
    setMode_bus _ _ _ _ _))

theorem powerDown_idle (c : Nat) (md : Mode) (b : Nat) (hc : c ≤ 1) :
    M.ensures powerDown (Bus .idle c md b)
      (fun _ => Bus .idle c _NRF24L01P_MODE_POWER_DOWN 0) := by
  unfold powerDown
  refine ensures_bind (getConfig_idle c md b) (fun v => ensures_fact (fun hv => ?_))
  have k := setConfig_idle c md b (v &&& bnot32 _NRF24L01P_CONFIG_PWR_UP) hc
  rw [(config_pwr_bits v hv.1).2.2.2.2.2.2.2.2] at k
  exact ensures_bind k (fun _ => ensures_bind (wait_us_bus _ _ _ _ _) (fun _ =>
    setMode_bus _ _ _ _ _))

theorem receiveTail_idle (c : Nat) (md : Mode) (b : Nat) (hc : c ≤ 1) :
    M.ensures (do
        let config ← getRegister _NRF24L01P_REG_CONFIG
        setRegister _NRF24L01P_REG_CONFIG (config ||| _NRF24L01P_CONFIG_PRIM_RX)
        update fun s => { s with mode := _NRF24L01P_MODE_RX })
      (Bus .idle c md b) (fun _ => Bus .idle c _NRF24L01P_MODE_RX b) := by
  refine ensures_bind (getConfig_idle c md b) (fun v => ensures_fact (fun hv => ?_))
  have k := setConfig_idle c md b (v ||| _NRF24L01P_CONFIG_PRIM_RX) hc
  rw [(config_pwr_bits v hv.1).2.2.2.2.2.1, hv.2] at k
  exact ensures_bind k (fun _ => setMode_bus _ _ _ _ _)

theorem transmitTail_idle (c : Nat) (md : Mode) (b : Nat) (hc : c ≤ 1) :
    M.ensures (do
        let config ← getRegister _NRF24L01P_REG_CONFIG
        setRegister _NRF24L01P_REG_CONFIG (config &&& bnot32 _NRF24L01P_CONFIG_PRIM_RX)
        update fun s => { s with mode := _NRF24L01P_MODE_TX })
      (Bus .idle c md b) (fun _ => Bus .idle c _NRF24L01P_MODE_TX b) := by
  refine ensures_bind (getConfig_idle c md b) (fun v => ensures_fact (fun hv => ?_))
  have k := setConfig_idle c md b (v &&& bnot32 _NRF24L01P_CONFIG_PRIM_RX) hc
  rw [(config_pwr_bits v hv.1).2.2.2.2.2.2.1, hv.2] at k
  exact ensures_bind k (fun _ => setMode_bus _ _ _ _ _)

theorem setReceiveMode_idle (c : Nat) (md : Mode) (b : Nat) (hc : c ≤ 1) :
    M.ensures setReceiveMode (Bus .idle c md b)
      (fun _ => Bus .idle c _NRF24L01P_MODE_RX
        (if md = _NRF24L01P_MODE_POWER_DOWN then _NRF24L01P_CONFIG_PWR_UP else b)) := by
  unfold setReceiveMode
  dsimp only
  refine ensures_readBus (fun st _ hm => ?_)
  rw [hm]
  by_cases hpd : md = _NRF24L01P_MODE_POWER_DOWN
  · rw [if_pos hpd, if_pos hpd]
    exact ensures_bind (powerUp_idle c md b hc) (fun _ => receiveTail_idle c _ _ hc)
  · rw [if_neg hpd, if_neg hpd]
    exact ensures_bind (ensures_pure _ _) (fun _ => receiveTail_idle c _ _ hc)

theorem setTransmitMode_idle (c : Nat) (md : Mode) (b : Nat) (hc : c ≤ 1) :
    M.ensures setTransmitMode (Bus .idle c md b)
      (fun _ => Bus .idle c _NRF24L01P_MODE_TX
        (if md = _NRF24L01P_MODE_POWER_DOWN then _NRF24L01P_CONFIG_PWR_UP else b)) := by
  unfold setTransmitMode
  dsimp only
  refine ensures_readBus (fun st _ hm => ?_)
  rw [hm]
  by_cases hpd : md = _NRF24L01P_MODE_POWER_DOWN
  · rw [if_pos hpd, if_pos hpd]
    exact ensures_bind (powerUp_idle c md b hc) (fun _ => transmitTail_idle c _ _ hc)
  · rw [if_neg hpd, if_neg hpd]
    exact ensures_bind (ensures_pure _ _) (fun _ => transmitTail_idle c _ _ hc)

theorem waitTxDs_idle (c : Nat) (md : Mode) (b : Nat) (fuel : Nat) :
    M.ensures (waitTxDs fuel) (Bus .idle c md b) (fun _ => Bus .idle c md b) := by
  induction fuel with
  | zero =>
    intro s _ a s' h
    cases h
  | succ fuel ih =>
    unfold waitTxDs
    exact ensures_bind (getStatusRegister_idle c md b) (fun _ =>
      ensures_ite (fun _ => ih) (fun _ => ensures_pure _ _))

theorem write_idle (c : Nat) (md : Mode) (b : Nat) (hc : c ≤ 1) (fuel : Nat) (pipe : Int)
    (data : Nat → Nat) (count : Int) :
    M.ensures (write fuel pipe data count) (Bus .idle c md b)
      (fun _ s => if count ≤ 0 then Bus .idle 0 md b s
        else Bus .idle c (if md = _NRF24L01P_MODE_RX then _NRF24L01P_MODE_RX else _NRF24L01P_MODE_TX)
          (if md = _NRF24L01P_MODE_POWER_DOWN then _NRF24L01P_CONFIG_PWR_UP else b) s) := by
  unfold write
  dsimp only
  refine ensures_readBus (fun st hce _ => ?_)
  rw [hce]
  refine ensures_bind (disable_bus c md b) (fun _ => ?_)
  by_cases hcount : count ≤ 0
  · simp only [hcount, if_true]
    exact ensures_pure _ _
  · simp only [hcount, if_false]
    refine ensures_bind (setRegister_idle 0 md b _ _ (by decide) (by decide)) (fun _ => ?_)
    refine ensures_bind (select_bus 0 md b) (fun _ => ?_)
    refine ensures_bind (spiWrite_command 0 md b _ (by decide)) (fun _ => ?_)
    refine ensures_bind (writePayloadBytes_data 0 md b _ _ _) (fun _ => ?_)
    refine ensures_bind (deselect_bus _ 0 md b) (fun _ => ?_)
    refine ensures_readBus (fun st2 _ hm => ?_)
    rw [hm]
    refine ensures_bind (setTransmitMode_idle 0 md b (by decide)) (fun _ => ?_)
    refine ensures_bind (enable_bus 0 _ _) (fun _ => ?_)
    refine ensures_bind (wait_us_bus _ _ _ _ _) (fun _ => ?_)
    refine ensures_bind (disable_bus 1 _ _) (fun _ => ?_)
    refine ensures_bind (waitTxDs_idle 0 _ _ fuel) (fun _ => ?_)
    refine ensures_bind (setRegister_idle 0 _ _ _ _ (by decide) (by decide)) (fun _ => ?_)
    have k := setReceiveMode_idle 0 _NRF24L01P_MODE_TX
      (if md = _NRF24L01P_MODE_POWER_DOWN then _NRF24L01P_CONFIG_PWR_UP else b) (by decide)
    rw [if_neg (show ¬ (_NRF24L01P_MODE_TX = _NRF24L01P_MODE_POWER_DOWN) from fun h => by cases h)] at k
    by_cases hrx : md = _NRF24L01P_MODE_RX
    · rw [if_pos hrx, if_pos hrx]
      refine ensures_bind k (fun _ => ?_)
      refine ensures_ite (fun hne => ?_) (fun he => ?_)
      · have h1 : c = 1 := by omega
        subst h1
        exact ensures_bind (enable_bus _ _ _) (fun _ => ensures_bind (wait_us_bus _ _ _ _ _)
          (fun _ => ensures_pure _ _))
      · have h0 : c = 0 := by omega
        subst h0
        exact ensures_bind (disable_bus _ _ _) (fun _ => ensures_bind (wait_us_bus _ _ _ _ _)
          (fun _ => ensures_pure _ _))
    · rw [if_neg hrx, if_neg hrx]
      refine ensures_bind (ensures_pure _ _) (fun _ => ?_)
      refine ensures_ite (fun hne => ?_) (fun he => ?_)
      · have h1 : c = 1 := by omega
        subst h1
        exact ensures_bind (enable_bus _ _ _) (fun _ => ensures_bind (wait_us_bus _ _ _ _ _)
          (fun _ => ensures_pure _ _))
      · have h0 : c = 0 := by omega
        subst h0
        exact ensures_bind (disable_bus _ _ _) (fun _ => ensures_bind (wait_us_bus _ _ _ _ _)
          (fun _ => ensures_pure _ _))

theorem init_prefix {α : Type} (k : M α) (R : α → Driver → Prop)
    (hk : M.ensures k (Bus .idle 0 _NRF24L01P_MODE_UNKNOWN 0) R) :
    M.ensures (do
        update fun s => { s with mode := _NRF24L01P_MODE_UNKNOWN }
        wait_us _NRF24L01P_TIMING_Tundef2pd_us
        disable
        deselect
        wait_us _NRF24L01P_TIMING_Tundef2pd_us
        setRegister _NRF24L01P_REG_CONFIG 0
        k)
      (fun _ => True) R := by
  intro s _ a s' h
  simp only [M.bind_apply, update, wait_us, os_time_delay, disable, hal_gpio_write, deselect_eq,
    setRegister_eq] at h
  refine hk _ ⟨rfl, rfl, ?_, rfl⟩ a s' h
  simp [storeByte, _NRF24L01P_REG_CONFIG]

theorem initRxPipes_idle (md : Mode) (b : Nat) (hdr : Header) (tx_size : Int) (auto_ack : Nat)
    (rx_addresses : Nat → Nat) (n : Nat) :
    ∀ i, M.ensures (initRxPipes hdr tx_size auto_ack rx_addresses n i) (Bus .idle 0 md b)
      (fun _ => Bus .idle 0 md b) := by
  induction n with
  | zero =>
    intro i
    exact ensures_pure _ _
  | succ n ih =>
    intro i
    unfold initRxPipes
    dsimp only
    refine ensures_bind (runOp_idle 0 md b (by decide) hdr (.setRxAddress _ _ _)) (fun _ => ?_)
    refine ensures_bind (runOp_idle 0 md b (by decide) hdr (.setTransferSize _ _)) (fun _ => ?_)
    refine ensures_ite (fun _ => ?_) (fun _ => ?_)
    · exact ensures_bind (runOp_idle 0 md b (by decide) hdr (.enableAutoAcknowledge _))
        (fun _ => ih _)
    · exact ensures_bind (ensures_pure _ _) (fun _ => ih _)

theorem init_idle (hdr : Header) (freq power data_rate crc_width tx_size : Int)
    (auto_ack auto_retransmit tx_address : Nat) (rx_addresses : Nat → Nat) (len : Nat) :
    M.ensures (init hdr freq power data_rate crc_width tx_size auto_ack auto_retransmit
        tx_address rx_addresses len)
      (fun _ => True) (fun _ => Bus .idle 0 _NRF24L01P_MODE_POWER_DOWN 0) := by
  unfold init
  dsimp only
  refine ensures_ite (fun _ => ensures_assertFail _ _) (fun _ => ?_)
  refine init_prefix _ _ ?_
  have h1 : (0 : Nat) ≤ 1 := by decide
  refine ensures_bind (wait_us_bus _ _ _ _ _) (fun _ => ?_)
  refine ensures_bind (setRegister_idle 0 _ 0 _ _ (by decide) h1) (fun _ => ?_)
  refine ensures_bind (runOp_idle 0 _ 0 h1 hdr .disableAllRxPipes) (fun _ => ?_)
  refine ensures_bind (runOp_idle 0 _ 0 h1 hdr (.setRfFrequency _)) (fun _ => ?_)
  refine ensures_bind (runOp_idle 0 _ 0 h1 hdr (.setRfOutputPower _)) (fun _ => ?_)
  refine ensures_bind (runOp_idle 0 _ 0 h1 hdr (.setAirDataRate _)) (fun _ => ?_)
  refine ensures_bind (runOp_idle 0 _ 0 h1 hdr (.setCrcWidth _)) (fun _ => ?_)
  refine ensures_bind (runOp_idle 0 _ 0 h1 hdr (.setTxAddress _ _)) (fun _ => ?_)
  refine ensures_bind (runOp_idle 0 _ 0 h1 hdr (.setTransferSize _ _)) (fun _ => ?_)
  have tail : M.ensures (do
        initRxPipes hdr tx_size auto_ack rx_addresses len 0
        flushTxRx
        update fun s => { s with mode := _NRF24L01P_MODE_POWER_DOWN }
        pure (0 : Int))
      (Bus .idle 0 _NRF24L01P_MODE_UNKNOWN 0)
      (fun _ => Bus .idle 0 _NRF24L01P_MODE_POWER_DOWN 0) :=
    ensures_bind (initRxPipes_idle _ _ hdr _ _ _ _ _) (fun _ =>
      ensures_bind (runOp_idle 0 _ 0 h1 hdr .flushTxRx) (fun _ =>
        ensures_bind (setMode_bus _ _ _ _ _) (fun _ => ensures_pure _ _)))
  have tail1 : M.ensures (if auto_retransmit ≠ 0 then (assertFail : M Unit) >>= fun _ => (do
        initRxPipes hdr tx_size auto_ack rx_addresses len 0
        flushTxRx
        update fun s => { s with mode := _NRF24L01P_MODE_POWER_DOWN }
        pure (0 : Int))
      else disableAutoRetransmit >>= fun _ => (do
        initRxPipes hdr tx_size auto_ack rx_addresses len 0
        flushTxRx
        update fun s => { s with mode := _NRF24L01P_MODE_POWER_DOWN }
        pure (0 : Int)))
      (Bus .idle 0 _NRF24L01P_MODE_UNKNOWN 0)
      (fun _ => Bus .idle 0 _NRF24L01P_MODE_POWER_DOWN 0) :=
    ensures_ite (fun _ => ensures_bind (ensures_assertFail _ (fun _ => Bus .idle 0 _NRF24L01P_MODE_UNKNOWN 0))
        (fun _ => tail))
      (fun _ => ensures_bind (runOp_idle 0 _ 0 h1 hdr .disableAutoRetransmit) (fun _ => tail))
  exact ensures_ite
    (fun _ => ensures_bind (runOp_idle 0 _ 0 h1 hdr (.enableAutoAcknowledge _)) (fun _ => tail1))
    (fun _ => ensures_bind (runOp_idle 0 _ 0 h1 hdr .disableAutoAcknowledge) (fun _ => tail1))

theorem runCall_settled (hdr : Header) (c : Nat) (hc : c ≤ 1) (call : Call) :
    M.ensures (runCall hdr call) (Settled c)
      (fun _ s => ∃ c', c' ≤ 1 ∧ Settled c' s ∧ (call ≠ .enable → c = 0 → c' = 0)) := by
  rintro s ⟨md, b, hb, hp⟩ u s' h
  cases call with
  | op o =>
    exact ⟨c, hc, ⟨md, b, runOp_idle c md b hc hdr o s hb u s' h, hp⟩, fun _ h0 => h0⟩
  | powerUp =>
    exact ⟨c, hc, ⟨_, _, powerUp_idle c md b hc s hb u s' h, fun _ => rfl⟩, fun _ h0 => h0⟩
  | powerDown =>
    exact ⟨c, hc, ⟨_, _, powerDown_idle c md b hc s hb u s' h, fun hh => absurd rfl hh⟩,
      fun _ h0 => h0⟩
  | setReceiveMode =>
    refine ⟨c, hc, ⟨_, _, setReceiveMode_idle c md b hc s hb u s' h, fun _ => ?_⟩, fun _ h0 => h0⟩
    by_cases hpd : md = _NRF24L01P_MODE_POWER_DOWN
    · rw [if_pos hpd]
    · rw [if_neg hpd]
      exact hp hpd
  | setTransmitMode =>
    refine ⟨c, hc, ⟨_, _, setTransmitMode_idle c md b hc s hb u s' h, fun _ => ?_⟩, fun _ h0 => h0⟩
    by_cases hpd : md = _NRF24L01P_MODE_POWER_DOWN
    · rw [if_pos hpd]
    · rw [if_neg hpd]
      exact hp hpd
  | write fuel pipe data count =>
    simp only [runCall, M.bind_apply] at h
    cases hw : write fuel pipe data count s with
    | halt e s1 =>
      rw [hw] at h
      cases h
    | ok a s1 =>
      have k := write_idle c md b hc fuel pipe data count s hb a s1 hw
      dsimp only at k
      rw [hw] at h
      cases h
      by_cases hcount : count ≤ 0
      · rw [if_pos hcount] at k
        exact ⟨0, by decide, ⟨md, b, k, hp⟩, fun _ _ => rfl⟩
      · rw [if_neg hcount] at k
        refine ⟨c, hc, ⟨_, _, k, fun _ => ?_⟩, fun _ h0 => h0⟩
        by_cases hpd : md = _NRF24L01P_MODE_POWER_DOWN
        · rw [if_pos hpd]
        · rw [if_neg hpd]
          exact hp hpd
  | enable =>
    exact ⟨1, by decide, ⟨md, b, enable_bus c md b s hb u s' h, hp⟩, fun hh => absurd rfl hh⟩
  | disable =>
    exact ⟨0, by decide, ⟨md, b, disable_bus c md b s hb u s' h, hp⟩, fun _ _ => rfl⟩

theorem runCalls_settled (hdr : Header) (calls : List Call) :
    ∀ c, c ≤ 1 → M.ensures (runCalls hdr calls) (Settled c)
      (fun _ s => ∃ c', c' ≤ 1 ∧ Settled c' s ∧ (Call.enable ∉ calls → c = 0 → c' = 0)) := by
  induction calls with
  | nil =>
    intro c hc s hs u s' h
    cases h
    exact ⟨c, hc, hs, fun _ h0 => h0⟩
  | cons call rest ih =>
    intro c hc s hs u s' h
    simp only [runCalls, M.bind_apply] at h
    cases h1 : runCall hdr call s with
    | halt e s1 =>
      rw [h1] at h
      cases h
    | ok a s1 =>
      rw [h1] at h
      obtain ⟨c1, hc1, hs1, k1⟩ := runCall_settled hdr c hc call s hs a s1 h1
      obtain ⟨c2, hc2, hs2, k2⟩ := ih c1 hc1 s1 hs1 u s' h
      refine ⟨c2, hc2, hs2, fun hne h0 => ?_⟩
      rw [List.mem_cons, not_or] at hne
      exact k2 hne.2 (k1 (fun hh => hne.1 hh.symm) h0)

theorem settled_after_init (hdr : Header) (freq power data_rate crc_width tx_size : Int)
    (auto_ack auto_retransmit tx_address : Nat) (rx_addresses : Nat → Nat) (len : Nat)
    (s0 s1 : Driver) (r : Int)
    (hinit : init hdr freq power data_rate crc_width tx_size auto_ack auto_retransmit
      tx_address rx_addresses len s0 = .ok r s1) : Settled 0 s1 :=
  ⟨_, _, init_idle hdr freq power data_rate crc_width tx_size auto_ack auto_retransmit
    tx_address rx_addresses len s0 trivial r s1 hinit, fun hh => absurd rfl hh⟩

theorem settled_config (c : Nat) (s : Driver) (hs : Settled c s)
    (hm : s.mode = _NRF24L01P_MODE_RX ∨ s.mode = _NRF24L01P_MODE_TX) :
    ∃ v, getRegister _NRF24L01P_REG_CONFIG s = .ok v (getRegister _NRF24L01P_REG_CONFIG s).state ∧
      v &&& _NRF24L01P_CONFIG_PWR_UP ≠ 0 := by
  obtain ⟨md, b, ⟨-, h2, h3, h4⟩, hp⟩ := hs
  have hmd : md ≠ _NRF24L01P_MODE_POWER_DOWN := by
    rw [← h2]
    rcases hm with hm | hm <;> rw [hm] <;> intro hh <;> cases hh
  have hb := hp hmd
  rw [getRegister_eq _ s h4]
  refine ⟨_, rfl, ?_⟩
  have e : _NRF24L01P_REG_CONFIG &&& 31 = 0 := by decide
  rw [e]
  simp only [_NRF24L01P_REG_CONFIG] at h3
  rw [h3, hb]
  decide

theorem setReceiveMode_returns (s : Driver) (hcs : s.chip.csn = 1) :
    ∃ s', setReceiveMode s = .ok () s' ∧ s'.mode = _NRF24L01P_MODE_RX ∧ s'.chip.csn = 1 := by
  by_cases hm : s.mode = _NRF24L01P_MODE_POWER_DOWN <;>
  simp [setReceiveMode, powerUp, M.bind_apply, M.pure_apply, readState, getRegister_eq,
    setRegister_eq, hcs, hm, wait_us, os_time_delay, update]

theorem powerDown_returns (s : Driver) (hcs : s.chip.csn = 1) :
    ∃ s', powerDown s = .ok () s' ∧ s'.mode = _NRF24L01P_MODE_POWER_DOWN ∧ s'.chip.csn = 1 := by
  simp [powerDown, M.bind_apply, M.pure_apply, getRegister_eq, setRegister_eq, hcs, wait_us,
    os_time_delay, update]

theorem keeps_powerDown {I : Driver → Prop} (hI : Stable I)
    (hm : ∀ s m, I s → I { s with mode := m }) : M.keeps powerDown I := by
  unfold powerDown
  exact keeps_bind (keeps_getRegister hI _) (fun _ => keeps_bind (keeps_setRegister hI _ _)
    (fun _ => keeps_bind (keeps_wait_us hI _) (fun _ => fun s hs => hm s _ hs)))

theorem runCalls_enable (hdr : Header) (s : Driver) :
    ∃ s', runCalls hdr [.enable] s = .ok () s' ∧ s'.mode = s.mode ∧ s'.ce_value = 1 :=
  ⟨_, rfl, rfl, rfl⟩

theorem scenarioDriver_init :
    init upstreamHeader 2476 0 250 8 8 1 0 0x1122334455 (fun _ => 0xAABBCCDDEE) 1 busyDriver
      = .ok 0 scenarioDriver ∧
    scenarioDriver.mode = _NRF24L01P_MODE_POWER_DOWN ∧ scenarioDriver.chip.csn = 1 := by
  obtain ⟨s1, hinit, hmode, hcs, -, -⟩ :=
    init_outcome upstreamHeader upstreamHeader_widthOk 2476 0 250 8 8 1 0x1122334455
      (fun _ => 0xAABBCCDDEE) 1 scenario_valid busyDriver
  have e : scenarioDriver = s1 := by
    unfold scenarioDriver
    rw [hinit]
    rfl
  rw [e]
  exact ⟨hinit, hmode, hcs⟩

/-- C25: the mode and power invariant.  In every state reached from a
returning `init` by any sequence of returning calls of the register and
receive operations (configuration setters and getters, `enableRxInterrupt`,
`disableRxInterrupt`, address setters and getters, `read`, the flushes),
`powerUp`, `powerDown`, `setReceiveMode`, `setTransmitMode`, `write`,
`enable` and `disable`, on a chip whose registers return the last byte
written: if the mode is Rx or Tx, the power-enable bit of the configuration
register is set, in the register file and in the byte `getRegister` reads. -/
theorem mode_implies_power_enabled (hdr : Header)
    (freq power data_rate crc_width tx_size : Int)
    (auto_ack auto_retransmit tx_address : Nat) (rx_addresses : Nat → Nat) (len : Nat)
    (s0 s1 s' : Driver) (r : Int) (calls : List Call)
    (hinit : init hdr freq power data_rate crc_width tx_size auto_ack auto_retransmit
      tx_address rx_addresses len s0 = .ok r s1)
    (hrun : runCalls hdr calls s1 = .ok () s')
    (hm : s'.mode = _NRF24L01P_MODE_RX ∨ s'.mode = _NRF24L01P_MODE_TX) :
    s'.chip.mem _NRF24L01P_REG_CONFIG 0 % 256 &&& _NRF24L01P_CONFIG_PWR_UP ≠ 0 ∧
    ∃ v, (getRegister _NRF24L01P_REG_CONFIG s').value = some v ∧
      v &&& _NRF24L01P_CONFIG_PWR_UP ≠ 0 := by
  have h1 := settled_after_init hdr freq power data_rate crc_width tx_size auto_ack
    auto_retransmit tx_address rx_addresses len s0 s1 r hinit
  obtain ⟨c, -, hs, -⟩ := runCalls_settled hdr calls 0 (by decide) s1 h1 () s' hrun
  obtain ⟨v, hv, hb⟩ := settled_config c s' hs hm
  refine ⟨?_, v, by rw [hv]; rfl, hb⟩
  obtain ⟨md, b, ⟨-, h2, h3, -⟩, hp⟩ := hs
  have hmd : md ≠ _NRF24L01P_MODE_POWER_DOWN := by
    rw [← h2]
    rcases hm with hm | hm <;> rw [hm] <;> intro hh <;> cases hh
  rw [h3, hp hmd]
  decide

/-- C25 after the `init` of the spec scenario followed by `setReceiveMode`. -/
theorem mode_implies_power_enabled_witness :
    (runCalls upstreamHeader [.setReceiveMode] scenarioDriver).value = some () ∧
    (runCalls upstreamHeader [.setReceiveMode] scenarioDriver).state.mode = _NRF24L01P_MODE_RX ∧
    (runCalls upstreamHeader [.setReceiveMode] scenarioDriver).state.chip.mem
        _NRF24L01P_REG_CONFIG 0 % 256 &&& _NRF24L01P_CONFIG_PWR_UP ≠ 0 ∧
    ∃ v, (getRegister _NRF24L01P_REG_CONFIG
          (runCalls upstreamHeader [.setReceiveMode] scenarioDriver).state).value = some v ∧
      v &&& _NRF24L01P_CONFIG_PWR_UP ≠ 0 := by
  obtain ⟨hinit, -, hcs⟩ := scenarioDriver_init
  obtain ⟨s', h1, h2, -⟩ := setReceiveMode_returns scenarioDriver hcs
  have hrun : runCalls upstreamHeader [.setReceiveMode] scenarioDriver = .ok () s' := by
    simp only [runCalls, runCall, M.bind_apply, h1, M.pure_apply]
  rw [hrun]
  exact ⟨rfl, h2,
    mode_implies_power_enabled upstreamHeader 2476 0 250 8 8 1 0 0x1122334455
      (fun _ => 0xAABBCCDDEE) 1 busyDriver scenarioDriver s' 0 [.setReceiveMode] hinit hrun
      (Or.inl h2)⟩

/-- Claim C26 as written fails: `enable()` after the `init` of the spec
scenario returns with the mode PowerDown and chip-enable high, and
`powerDown()` called with chip-enable high returns in mode PowerDown with
chip-enable still high, in the driver and on the line. -/
theorem power_down_with_chip_enable_high :
    ((init upstreamHeader 2476 0 250 8 8 1 0 0x1122334455 (fun _ => 0xAABBCCDDEE) 1
        busyDriver).value = some 0 ∧
      (runCalls upstreamHeader [.enable] scenarioDriver).value = some () ∧
      (runCalls upstreamHeader [.enable] scenarioDriver).state.mode
        = _NRF24L01P_MODE_POWER_DOWN ∧
      (runCalls upstreamHeader [.enable] scenarioDriver).state.ce_value = 1) ∧
    ((powerDown busyDriver).value = some () ∧
      (powerDown busyDriver).state.mode = _NRF24L01P_MODE_POWER_DOWN ∧
      (powerDown busyDriver).state.ce_value = 1 ∧
      (ceWrites (powerDown busyDriver).state.trace).getLast? = some 1) := by
  constructor
  · obtain ⟨hinit, hmode, -⟩ := scenarioDriver_init
    obtain ⟨s', h, hm, hc⟩ := runCalls_enable upstreamHeader scenarioDriver
    rw [hinit, h]
    exact ⟨rfl, rfl, hm.trans hmode, hc⟩
  · simp [powerDown, M.bind_apply, M.pure_apply, getRegister_eq, setRegister_eq, wait_us,
      os_time_delay, update, busyDriver, Res.value, Res.state, ceWrites]

/-- C26, amended: chip-enable is low after `init` as long as `enable()` is not
called, and `powerDown()` does not touch it.  In every state reached from a
returning `init` by any sequence of returning calls other than `enable()` (the
register and receive operations, `powerUp`, `powerDown`, `setReceiveMode`,
`setTransmitMode`, `write`, `disable`) the chip-enable level is 0, in every
mode and so in PowerDown; and from every state with chip-enable level 0 or 1,
`powerDown()` ends with the level it found, on the line as in the driver. -/
theorem chip_enable_low_without_enable (hdr : Header)
    (freq power data_rate crc_width tx_size : Int)
    (auto_ack auto_retransmit tx_address : Nat) (rx_addresses : Nat → Nat) (len : Nat)
    (s0 s1 s' : Driver) (r : Int) (calls : List Call)
    (hinit : init hdr freq power data_rate crc_width tx_size auto_ack auto_retransmit
      tx_address rx_addresses len s0 = .ok r s1)
    (hne : Call.enable ∉ calls)
    (hrun : runCalls hdr calls s1 = .ok () s') :
    s'.ce_value = 0 ∧
    ∀ s : Driver, s.ce_value ≤ 1 → CeKept s.ce_value s.trace (powerDown s).state := by
  have h1 := settled_after_init hdr freq power data_rate crc_width tx_size auto_ack
    auto_retransmit tx_address rx_addresses len s0 s1 r hinit
  obtain ⟨c, -, ⟨md, b, hb, -⟩, hk⟩ := runCalls_settled hdr calls 0 (by decide) s1 h1 () s' hrun
  refine ⟨?_, fun s hs => ?_⟩
  · rw [hb.1]
    exact hk hne rfl
  · exact keeps_powerDown (stable_ceKept s.ce_value hs s.trace) (fun _ _ h => h) s
      (ceKept_start _ s rfl)

/-- C26, amended, after the `init` of the spec scenario followed by
`setReceiveMode` and `powerDown`. -/
theorem chip_enable_low_without_enable_witness :
    (runCalls upstreamHeader [.setReceiveMode, .powerDown] scenarioDriver).value = some () ∧
    (runCalls upstreamHeader [.setReceiveMode, .powerDown] scenarioDriver).state.mode
      = _NRF24L01P_MODE_POWER_DOWN ∧
    (runCalls upstreamHeader [.setReceiveMode, .powerDown] scenarioDriver).state.ce_value = 0 ∧
    ∀ s : Driver, s.ce_value ≤ 1 → CeKept s.ce_value s.trace (powerDown s).state := by
  obtain ⟨hinit, -, hcs⟩ := scenarioDriver_init
  obtain ⟨s2, h1, -, hcs2⟩ := setReceiveMode_returns scenarioDriver hcs
  obtain ⟨s', h2, hmode, -⟩ := powerDown_returns s2 hcs2
  have hrun : runCalls upstreamHeader [.setReceiveMode, .powerDown] scenarioDriver
      = .ok () s' := by
    simp only [runCalls, runCall, M.bind_apply, h1, h2, M.pure_apply]
  have hne : Call.enable ∉ [Call.setReceiveMode, Call.powerDown] := by
    intro h
    simp only [List.mem_cons, List.mem_singleton, List.mem_nil_iff, or_false] at h
    rcases h with h | h <;> cases h
  rw [hrun]
  exact ⟨rfl, hmode,
    chip_enable_low_without_enable upstreamHeader 2476 0 250 8 8 1 0
      0x1122334455 (fun _ => 0xAABBCCDDEE) 1 busyDriver scenarioDriver s' 0
      [.setReceiveMode, .powerDown] hinit hne hrun⟩

/-! ## Field setters: C31 -/

theorem modify_eq (r : Nat) (g : Nat → Nat) (s : Driver) (hcs : s.chip.csn = 1) :
    ∃ s', (getRegister r >>= fun v => setRegister r (g v)) s = .ok () s' ∧ s'.chip.csn = 1 ∧
      s'.chip.mem = storeByte s.chip.mem (r &&& 0x1F) 0 (g (s.chip.mem (r &&& 0x1F) 0 % 256) % 256) := by
  simp only [M.bind_apply, getRegister_eq, setRegister_eq, hcs]
  exact ⟨_, rfl, rfl, rfl⟩

theorem setRfOutputPower_modify (hdr : Header) (p : Int)
    (hp : p ∈ [hdr.NRF24L01P_TX_PWR_ZERO_DB, hdr.NRF24L01P_TX_PWR_MINUS_6_DB,
      hdr.NRF24L01P_TX_PWR_MINUS_12_DB, hdr.NRF24L01P_TX_PWR_MINUS_18_DB]) :
    setRfOutputPower hdr p = (getRegister _NRF24L01P_REG_RF_SETUP >>= fun v =>
      setRegister _NRF24L01P_REG_RF_SETUP
        (v &&& bnot32 _NRF24L01P_RF_SETUP_RF_PWR_MASK ||| powerBits hdr p)) := by
  simp only [List.mem_cons, List.mem_singleton, List.not_mem_nil, or_false] at hp
  unfold setRfOutputPower powerBits
  congr 1
  funext v
  split_ifs <;> first | rfl | (exfalso; tauto)

theorem setAirDataRate_modify (hdr : Header) (r : Int)
    (hr : r ∈ [hdr.NRF24L01P_DATARATE_250_KBPS, hdr.NRF24L01P_DATARATE_1_MBPS,
      hdr.NRF24L01P_DATARATE_2_MBPS]) :
    setAirDataRate hdr r = (getRegister _NRF24L01P_REG_RF_SETUP >>= fun v =>
      setRegister _NRF24L01P_REG_RF_SETUP
        (v &&& bnot32 _NRF24L01P_RF_SETUP_RF_DR_MASK ||| rateBits hdr r)) := by
  simp only [List.mem_cons, List.mem_singleton, List.not_mem_nil, or_false] at hr
  unfold setAirDataRate rateBits
  congr 1
  funext v
  split_ifs <;> first | rfl | (exfalso; tauto)

theorem setCrcWidth_modify (hdr : Header) (w : Int)
    (hw : w ∈ [hdr.NRF24L01P_CRC_NONE, hdr.NRF24L01P_CRC_8_BIT, hdr.NRF24L01P_CRC_16_BIT]) :
    setCrcWidth hdr w = (getRegister _NRF24L01P_REG_CONFIG >>= fun v =>
      setRegister _NRF24L01P_REG_CONFIG
        (v &&& bnot32 _NRF24L01P_CONFIG_CRC_MASK ||| crcBits hdr w)) := by
  simp only [List.mem_cons, List.mem_singleton, List.not_mem_nil, or_false] at hw
  unfold setCrcWidth crcBits
  congr 1
  funext v
  split_ifs <;> first | rfl | (exfalso; tauto)

theorem crcBits_mem (hdr : Header) (w : Int) : crcBits hdr w ∈ [0, 8, 12] := by
  unfold crcBits
  split_ifs <;> decide

set_option maxRecDepth 1000000 in
theorem power_field_bits : ∀ c ∈ [0, 2, 4, 6], ∀ x < 256,
    ((x &&& bnot32 _NRF24L01P_RF_SETUP_RF_PWR_MASK ||| c) % 256
      &&& bnot32 _NRF24L01P_RF_SETUP_RF_PWR_MASK = x &&& bnot32 _NRF24L01P_RF_SETUP_RF_PWR_MASK) ∧
    ((x &&& bnot32 _NRF24L01P_RF_SETUP_RF_PWR_MASK ||| c) % 256 % 256
      &&& _NRF24L01P_RF_SETUP_RF_DR_MASK = x &&& _NRF24L01P_RF_SETUP_RF_DR_MASK) := by
  decide

set_option maxRecDepth 1000000 in
theorem rate_field_bits : ∀ d ∈ [0, 8, 32], ∀ x < 256,
    ((x &&& bnot32 _NRF24L01P_RF_SETUP_RF_DR_MASK ||| d) % 256
      &&& bnot32 _NRF24L01P_RF_SETUP_RF_DR_MASK = x &&& bnot32 _NRF24L01P_RF_SETUP_RF_DR_MASK) ∧
    ((x &&& bnot32 _NRF24L01P_RF_SETUP_RF_DR_MASK ||| d) % 256 % 256
      &&& _NRF24L01P_RF_SETUP_RF_PWR_MASK = x &&& _NRF24L01P_RF_SETUP_RF_PWR_MASK) := by
  decide

set_option maxRecDepth 1000000 in
theorem crc_field_bits : ∀ c ∈ [0, 8, 12], ∀ x < 256,
    ((x &&& bnot32 _NRF24L01P_CONFIG_CRC_MASK ||| c) % 256
      &&& bnot32 _NRF24L01P_CONFIG_CRC_MASK = x &&& bnot32 _NRF24L01P_CONFIG_CRC_MASK) ∧
    ((x &&& bnot32 _NRF24L01P_CONFIG_CRC_MASK ||| c) % 256
      &&& _NRF24L01P_CONFIG_PWR_UP = x &&& _NRF24L01P_CONFIG_PWR_UP) ∧
    ((x &&& bnot32 _NRF24L01P_CONFIG_CRC_MASK ||| c) % 256
      &&& _NRF24L01P_CONFIG_PRIM_RX = x &&& _NRF24L01P_CONFIG_PRIM_RX) := by
  decide

set_option maxRecDepth 1000000 in
theorem interrupt_field_bits : ∀ x < 256,
    ((x &&& bnot32 _NRF24L01P_CONFIG_MASK_RX_DR) % 256
      &&& bnot32 _NRF24L01P_CONFIG_MASK_RX_DR = x &&& bnot32 _NRF24L01P_CONFIG_MASK_RX_DR) ∧
    ((x &&& bnot32 _NRF24L01P_CONFIG_MASK_RX_DR) % 256
      &&& _NRF24L01P_CONFIG_PWR_UP = x &&& _NRF24L01P_CONFIG_PWR_UP) ∧
    ((x &&& bnot32 _NRF24L01P_CONFIG_MASK_RX_DR) % 256
      &&& _NRF24L01P_CONFIG_PRIM_RX = x &&& _NRF24L01P_CONFIG_PRIM_RX) ∧
    ((x ||| _NRF24L01P_CONFIG_MASK_RX_DR) % 256
      &&& bnot32 _NRF24L01P_CONFIG_MASK_RX_DR = x &&& bnot32 _NRF24L01P_CONFIG_MASK_RX_DR) ∧
    ((x ||| _NRF24L01P_CONFIG_MASK_RX_DR) % 256
      &&& _NRF24L01P_CONFIG_PWR_UP = x &&& _NRF24L01P_CONFIG_PWR_UP) ∧
    ((x ||| _NRF24L01P_CONFIG_MASK_RX_DR) % 256
      &&& _NRF24L01P_CONFIG_PRIM_RX = x &&& _NRF24L01P_CONFIG_PRIM_RX) := by
  decide

theorem getAirDataRate_congr (hdr : Header) (s s' : Driver) (h1 : s.chip.csn = 1)
    (h2 : s'.chip.csn = 1)
    (h : s'.chip.mem 6 0 % 256 &&& _NRF24L01P_RF_SETUP_RF_DR_MASK
      = s.chip.mem 6 0 % 256 &&& _NRF24L01P_RF_SETUP_RF_DR_MASK) :
    (getAirDataRate hdr s').value = (getAirDataRate hdr s).value := by
  simp only [getAirDataRate, M.bind_apply, M.pure_apply, getRegister_eq, h1, h2,
    reg_rf_setup_and, h]
  split_ifs <;> rfl

theorem getRfOutputPower_congr (hdr : Header) (s s' : Driver) (h1 : s.chip.csn = 1)
    (h2 : s'.chip.csn = 1)
    (h : s'.chip.mem 6 0 % 256 &&& _NRF24L01P_RF_SETUP_RF_PWR_MASK
      = s.chip.mem 6 0 % 256 &&& _NRF24L01P_RF_SETUP_RF_PWR_MASK) :
    (getRfOutputPower hdr s').value = (getRfOutputPower hdr s).value := by
  simp only [getRfOutputPower, M.bind_apply, M.pure_apply, getRegister_eq, h1, h2,
    reg_rf_setup_and, h]
  split_ifs <;> rfl

theorem modify_field (r mask : Nat) (hr : r &&& 0x1F = r) (g : Nat → Nat) (s : Driver)
    (hcs : s.chip.csn = 1)
    (hg : g (s.chip.mem r 0 % 256) % 256 &&& bnot32 mask = s.chip.mem r 0 % 256 &&& bnot32 mask) :
    ∃ s', (getRegister r >>= fun v => setRegister r (g v)) s = .ok () s' ∧ s'.chip.csn = 1 ∧
      s'.chip.mem r 0 = g (s.chip.mem r 0 % 256) % 256 ∧
      changesOnly r mask s.chip.mem s'.chip.mem := by
  obtain ⟨s', h, hcs', hmem⟩ := modify_eq r g s hcs
  rw [hr] at hmem
  refine ⟨s', h, hcs', by rw [hmem, storeByte_same], fun r2 i hne => ?_, ?_⟩
  · rw [hmem, storeByte_other _ _ _ _ _ _ hne]
  · rw [hmem, storeByte_same]
    exact hg

/-- C31: each field setter changes only its own bit field.  From every
driver state with the bus idle, whatever the registers hold:
`setRfOutputPower` with one of the four power levels returns and changes at
most the two power bits of the RF-setup register, and `getAirDataRate` after
it gives what it gave before; `setAirDataRate` with one of the three rates
returns and changes at most the two data-rate bits of that register, and
`getRfOutputPower` after it gives what it gave before; `setCrcWidth` with one
of the three widths changes at most the two CRC bits of the configuration
register, `enableRxInterrupt` and `disableRxInterrupt` at most its
receive-interrupt mask bit, and all three leave the power-enable and
primary-receiver bits as they were.  No other register byte changes. -/
theorem setters_change_only_their_field (hdr : Header) (s : Driver) (hcs : s.chip.csn = 1) :
    (∀ p ∈ [hdr.NRF24L01P_TX_PWR_ZERO_DB, hdr.NRF24L01P_TX_PWR_MINUS_6_DB,
        hdr.NRF24L01P_TX_PWR_MINUS_12_DB, hdr.NRF24L01P_TX_PWR_MINUS_18_DB],
      (setRfOutputPower hdr p s).value = some () ∧
      changesOnly _NRF24L01P_REG_RF_SETUP _NRF24L01P_RF_SETUP_RF_PWR_MASK s.chip.mem
        (setRfOutputPower hdr p s).state.chip.mem ∧
      ((setRfOutputPower hdr p >>= fun _ => getAirDataRate hdr) s).value
        = (getAirDataRate hdr s).value) ∧
    (∀ r ∈ [hdr.NRF24L01P_DATARATE_250_KBPS, hdr.NRF24L01P_DATARATE_1_MBPS,
        hdr.NRF24L01P_DATARATE_2_MBPS],
      (setAirDataRate hdr r s).value = some () ∧
      changesOnly _NRF24L01P_REG_RF_SETUP _NRF24L01P_RF_SETUP_RF_DR_MASK s.chip.mem
        (setAirDataRate hdr r s).state.chip.mem ∧
      ((setAirDataRate hdr r >>= fun _ => getRfOutputPower hdr) s).value
        = (getRfOutputPower hdr s).value) ∧
    (∀ w ∈ [hdr.NRF24L01P_CRC_NONE, hdr.NRF24L01P_CRC_8_BIT, hdr.NRF24L01P_CRC_16_BIT],
      (setCrcWidth hdr w s).value = some () ∧
      changesOnly _NRF24L01P_REG_CONFIG _NRF24L01P_CONFIG_CRC_MASK s.chip.mem
        (setCrcWidth hdr w s).state.chip.mem ∧
      (setCrcWidth hdr w s).state.chip.mem _NRF24L01P_REG_CONFIG 0 &&& _NRF24L01P_CONFIG_PWR_UP
        = s.chip.mem _NRF24L01P_REG_CONFIG 0 % 256 &&& _NRF24L01P_CONFIG_PWR_UP ∧
      (setCrcWidth hdr w s).state.chip.mem _NRF24L01P_REG_CONFIG 0 &&& _NRF24L01P_CONFIG_PRIM_RX
        = s.chip.mem _NRF24L01P_REG_CONFIG 0 % 256 &&& _NRF24L01P_CONFIG_PRIM_RX) ∧
    ((enableRxInterrupt s).value = some () ∧
      changesOnly _NRF24L01P_REG_CONFIG _NRF24L01P_CONFIG_MASK_RX_DR s.chip.mem
        (enableRxInterrupt s).state.chip.mem ∧
      (enableRxInterrupt s).state.chip.mem _NRF24L01P_REG_CONFIG 0 &&& _NRF24L01P_CONFIG_PWR_UP
        = s.chip.mem _NRF24L01P_REG_CONFIG 0 % 256 &&& _NRF24L01P_CONFIG_PWR_UP ∧
      (enableRxInterrupt s).state.chip.mem _NRF24L01P_REG_CONFIG 0 &&& _NRF24L01P_CONFIG_PRIM_RX
        = s.chip.mem _NRF24L01P_REG_CONFIG 0 % 256 &&& _NRF24L01P_CONFIG_PRIM_RX) ∧
    ((disableRxInterrupt s).value = some () ∧
      changesOnly _NRF24L01P_REG_CONFIG _NRF24L01P_CONFIG_MASK_RX_DR s.chip.mem
        (disableRxInterrupt s).state.chip.mem ∧
      (disableRxInterrupt s).state.chip.mem _NRF24L01P_REG_CONFIG 0 &&& _NRF24L01P_CONFIG_PWR_UP
        = s.chip.mem _NRF24L01P_REG_CONFIG 0 % 256 &&& _NRF24L01P_CONFIG_PWR_UP ∧
      (disableRxInterrupt s).state.chip.mem _NRF24L01P_REG_CONFIG 0 &&& _NRF24L01P_CONFIG_PRIM_RX
        = s.chip.mem _NRF24L01P_REG_CONFIG 0 % 256 &&& _NRF24L01P_CONFIG_PRIM_RX) := by
  have hs : s.chip.mem _NRF24L01P_REG_RF_SETUP 0 % 256 < 256 := Nat.mod_lt _ (by decide)
  have hc : s.chip.mem _NRF24L01P_REG_CONFIG 0 % 256 < 256 := Nat.mod_lt _ (by decide)
  have e6 : _NRF24L01P_REG_RF_SETUP = 6 := rfl
  refine ⟨fun p hp => ?_, fun r hr => ?_, fun w hw => ?_, ?_, ?_⟩
  · obtain ⟨b1, b2⟩ := power_field_bits _ (powerBits_mem hdr p) _ hs
    obtain ⟨s', h, hcs', hb, hch⟩ := modify_field _NRF24L01P_REG_RF_SETUP
      _NRF24L01P_RF_SETUP_RF_PWR_MASK (by decide)
      (fun v => v &&& bnot32 _NRF24L01P_RF_SETUP_RF_PWR_MASK ||| powerBits hdr p) s hcs b1
    rw [M.bind_apply, setRfOutputPower_modify hdr p hp, h]
    refine ⟨rfl, hch, getAirDataRate_congr hdr s s' hcs hcs' ?_⟩
    rw [← e6, hb]
    exact b2
  · obtain ⟨b1, b2⟩ := rate_field_bits _ (rateBits_mem hdr r) _ hs
    obtain ⟨s', h, hcs', hb, hch⟩ := modify_field _NRF24L01P_REG_RF_SETUP
      _NRF24L01P_RF_SETUP_RF_DR_MASK (by decide)
      (fun v => v &&& bnot32 _NRF24L01P_RF_SETUP_RF_DR_MASK ||| rateBits hdr r) s hcs b1
    rw [M.bind_apply, setAirDataRate_modify hdr r hr, h]
    refine ⟨rfl, hch, getRfOutputPower_congr hdr s s' hcs hcs' ?_⟩
    rw [← e6, hb]
    exact b2
  · obtain ⟨b1, b2, b3⟩ := crc_field_bits _ (crcBits_mem hdr w) _ hc
    obtain ⟨s', h, -, hb, hch⟩ := modify_field _NRF24L01P_REG_CONFIG
      _NRF24L01P_CONFIG_CRC_MASK (by decide)
      (fun v => v &&& bnot32 _NRF24L01P_CONFIG_CRC_MASK ||| crcBits hdr w) s hcs b1
    rw [setCrcWidth_modify hdr w hw, h]
    refine ⟨rfl, hch, ?_, ?_⟩
    · show s'.chip.mem _NRF24L01P_REG_CONFIG 0 &&& _ = _
      rw [hb]
      exact b2
    · show s'.chip.mem _NRF24L01P_REG_CONFIG 0 &&& _ = _
      rw [hb]
      exact b3
  · obtain ⟨b1, b2, b3, -, -, -⟩ := interrupt_field_bits _ hc
    obtain ⟨s', h, -, hb, hch⟩ := modify_field _NRF24L01P_REG_CONFIG
      _NRF24L01P_CONFIG_MASK_RX_DR (by decide)
      (fun v => v &&& bnot32 _NRF24L01P_CONFIG_MASK_RX_DR) s hcs b1
    have e : enableRxInterrupt = (getRegister _NRF24L01P_REG_CONFIG >>= fun v =>
        setRegister _NRF24L01P_REG_CONFIG (v &&& bnot32 _NRF24L01P_CONFIG_MASK_RX_DR)) := rfl
    rw [e, h]
    refine ⟨rfl, hch, ?_, ?_⟩
    · show s'.chip.mem _NRF24L01P_REG_CONFIG 0 &&& _ = _
      rw [hb]
      exact b2
    · show s'.chip.mem _NRF24L01P_REG_CONFIG 0 &&& _ = _
      rw [hb]
      exact b3
  · obtain ⟨-, -, -, b1, b2, b3⟩ := interrupt_field_bits _ hc
    obtain ⟨s', h, -, hb, hch⟩ := modify_field _NRF24L01P_REG_CONFIG
      _NRF24L01P_CONFIG_MASK_RX_DR (by decide)
      (fun v => v ||| _NRF24L01P_CONFIG_MASK_RX_DR) s hcs b1
    have e : disableRxInterrupt = (getRegister _NRF24L01P_REG_CONFIG >>= fun v =>
        setRegister _NRF24L01P_REG_CONFIG (v ||| _NRF24L01P_CONFIG_MASK_RX_DR)) := rfl
    rw [e, h]
    refine ⟨rfl, hch, ?_, ?_⟩
    · show s'.chip.mem _NRF24L01P_REG_CONFIG 0 &&& _ = _
      rw [hb]
      exact b2
    · show s'.chip.mem _NRF24L01P_REG_CONFIG 0 &&& _ = _
      rw [hb]
      exact b3

/-- C31 under the upstream header, from receive mode with chip-enable high and
all registers `0xFF`. -/
theorem setters_change_only_their_field_witness :
    (∀ p ∈ [upstreamHeader.NRF24L01P_TX_PWR_ZERO_DB, upstreamHeader.NRF24L01P_TX_PWR_MINUS_6_DB,
        upstreamHeader.NRF24L01P_TX_PWR_MINUS_12_DB, upstreamHeader.NRF24L01P_TX_PWR_MINUS_18_DB],
      (setRfOutputPower upstreamHeader p busyDriver).value = some () ∧
      changesOnly _NRF24L01P_REG_RF_SETUP _NRF24L01P_RF_SETUP_RF_PWR_MASK busyDriver.chip.mem
        (setRfOutputPower upstreamHeader p busyDriver).state.chip.mem ∧
      ((setRfOutputPower upstreamHeader p >>= fun _ => getAirDataRate upstreamHeader)
          busyDriver).value
        = (getAirDataRate upstreamHeader busyDriver).value) ∧
    (∀ r ∈ [upstreamHeader.NRF24L01P_DATARATE_250_KBPS, upstreamHeader.NRF24L01P_DATARATE_1_MBPS,
        upstreamHeader.NRF24L01P_DATARATE_2_MBPS],
      (setAirDataRate upstreamHeader r busyDriver).value = some () ∧
      changesOnly _NRF24L01P_REG_RF_SETUP _NRF24L01P_RF_SETUP_RF_DR_MASK busyDriver.chip.mem
        (setAirDataRate upstreamHeader r busyDriver).state.chip.mem ∧
      ((setAirDataRate upstreamHeader r >>= fun _ => getRfOutputPower upstreamHeader)
          busyDriver).value
        = (getRfOutputPower upstreamHeader busyDriver).value) ∧
    (∀ w ∈ [upstreamHeader.NRF24L01P_CRC_NONE, upstreamHeader.NRF24L01P_CRC_8_BIT,
        upstreamHeader.NRF24L01P_CRC_16_BIT],
      (setCrcWidth upstreamHeader w busyDriver).value = some () ∧
      changesOnly _NRF24L01P_REG_CONFIG _NRF24L01P_CONFIG_CRC_MASK busyDriver.chip.mem
        (setCrcWidth upstreamHeader w busyDriver).state.chip.mem ∧
      (setCrcWidth upstreamHeader w busyDriver).state.chip.mem _NRF24L01P_REG_CONFIG 0
          &&& _NRF24L01P_CONFIG_PWR_UP
        = busyDriver.chip.mem _NRF24L01P_REG_CONFIG 0 % 256 &&& _NRF24L01P_CONFIG_PWR_UP ∧
      (setCrcWidth upstreamHeader w busyDriver).state.chip.mem _NRF24L01P_REG_CONFIG 0
          &&& _NRF24L01P_CONFIG_PRIM_RX
        = busyDriver.chip.mem _NRF24L01P_REG_CONFIG 0 % 256 &&& _NRF24L01P_CONFIG_PRIM_RX) ∧
    ((enableRxInterrupt busyDriver).value = some () ∧
      changesOnly _NRF24L01P_REG_CONFIG _NRF24L01P_CONFIG_MASK_RX_DR busyDriver.chip.mem
        (enableRxInterrupt busyDriver).state.chip.mem ∧
      (enableRxInterrupt busyDriver).state.chip.mem _NRF24L01P_REG_CONFIG 0
          &&& _NRF24L01P_CONFIG_PWR_UP
        = busyDriver.chip.mem _NRF24L01P_REG_CONFIG 0 % 256 &&& _NRF24L01P_CONFIG_PWR_UP ∧
      (enableRxInterrupt busyDriver).state.chip.mem _NRF24L01P_REG_CONFIG 0
          &&& _NRF24L01P_CONFIG_PRIM_RX
        = busyDriver.chip.mem _NRF24L01P_REG_CONFIG 0 % 256 &&& _NRF24L01P_CONFIG_PRIM_RX) ∧
    ((disableRxInterrupt busyDriver).value = some () ∧
      changesOnly _NRF24L01P_REG_CONFIG _NRF24L01P_CONFIG_MASK_RX_DR busyDriver.chip.mem
        (disableRxInterrupt busyDriver).state.chip.mem ∧
      (disableRxInterrupt busyDriver).state.chip.mem _NRF24L01P_REG_CONFIG 0
          &&& _NRF24L01P_CONFIG_PWR_UP
        = busyDriver.chip.mem _NRF24L01P_REG_CONFIG 0 % 256 &&& _NRF24L01P_CONFIG_PWR_UP ∧
      (disableRxInterrupt busyDriver).state.chip.mem _NRF24L01P_REG_CONFIG 0
          &&& _NRF24L01P_CONFIG_PRIM_RX
        = busyDriver.chip.mem _NRF24L01P_REG_CONFIG 0 % 256 &&& _NRF24L01P_CONFIG_PRIM_RX) :=
  setters_change_only_their_field upstreamHeader busyDriver rfl

end NRF24L01P
